import Mathlib

/-!
Verification of the pg-english text-to-query compiler (extra-pg-english).

This file shallowly embeds the repository's TypeScript sources in Lean 4:

* `src/inc/token.ts`       — `parseTokens`, `stringifyTokens`, the token model;
* `src/inc/number.ts`      — the numeral normalizer (`processNumberTokens` and
  its state-array helpers `numberStateFuse`/`numberStateValue`/`numberStateAdd`/
  `numberStateAddOrdinal`);
* `src/inc/unit.ts`        — the mass-unit normalizer (`processUnitTokens`);
* `src/inc/entity.ts`      — the entity scanner (`entityBlockScan`);
* `src/inc/informalize.ts` — the rule-rewriting engine, its eleven rule tables,
  and `processTokensInformalize`; plus the formalize half (`resolveColumnAST`,
  `createSumExprAST`, `createAvgExprAST`, `setLimitAST`, `convertToFormalSQL`).

Modelling conventions:
* JavaScript numbers are modelled as rationals (ℚ).  All arithmetic reached by
  the theorems below is exact in IEEE doubles as well, so this is faithful on
  the inputs at stake.  The special values `Infinity`/`NaN` (producible only by
  the special-word table of the numeral normalizer) get their own token-value
  constructors and never enter any arithmetic here.
* JavaScript regular-expression *tests* are translated to explicit substring /
  character-class predicates with the same semantics.
* Asynchronous callbacks are modelled as pure functions; the source awaits
  every call before using its result, so the value-level behaviour is the same.
* `while`-style loops whose progress is data-dependent are written with an
  explicit fuel argument; every call site passes fuel that is sufficient for
  the loop as it behaves on the actual rule tables (each iteration strictly
  shrinks the token list), so the embedding computes the same results.
-/

set_option maxHeartbeats 1000000
set_option maxRecDepth 4000

/-! ## Character classes (JavaScript regular-expression classes) -/

/-- JS `\w` character class: `[A-Za-z0-9_]`. -/
def isWordChar (c : Char) : Bool :=
  c.isAlphanum || c == '_'

/-- The apostrophe character (code 39), used in several source regexes. -/
def aposC : Char := Char.ofNat 39

/-- The backtick character (code 96). -/
def btickC : Char := Char.ofNat 96

/-- JS quote class from `parseTokens`: single quote, double quote, backtick. -/
def isQuoteChar (c : Char) : Bool :=
  c == aposC || c == '"' || c == btickC

/-- JS `\s` on the ASCII range (all inputs considered here are ASCII). -/
def isSpaceJS (c : Char) : Bool :=
  c == ' ' || c == '\t' || c == '\n' || c == '\r' ||
  c == Char.ofNat 11 || c == Char.ofNat 12

/-- Substring test on character lists (semantics of JS `regex.test` for a
plain-text pattern). -/
def containsChars (p : List Char) : List Char → Bool
  | [] => p.isEmpty
  | c :: t => p.isPrefixOf (c :: t) || containsChars p t

/-- Substring test on strings. -/
def containsStr (s pat : String) : Bool :=
  containsChars pat.data s.data

/-- ASCII lowercase a string (JS `toLowerCase` on ASCII input). -/
def strLower (s : String) : String :=
  String.mk (s.data.map Char.toLower)

/-- ASCII uppercase a string (JS `toUpperCase` on ASCII input). -/
def strUpper (s : String) : String :=
  String.mk (s.data.map Char.toUpper)

/-- Case-insensitive substring test (JS `/pat/i.test`). -/
def containsStrI (s pat : String) : Bool :=
  containsStr (strLower s) (strLower pat)

/-- Does the string contain a character satisfying `f` (JS character-class
regex test)? -/
def containsCharSat (s : String) (f : Char → Bool) : Bool :=
  s.data.any f

/-! ## Rational arithmetic

`Rat.divInt` normalizes, so these compute the same canonical values as the
field operations of ℚ; they are spelled out via `Rat.divInt` so that every
definition in this file evaluates inside the kernel. -/

/-- Addition on ℚ. -/
def qAdd (a b : ℚ) : ℚ :=
  Rat.divInt (a.num * b.den + b.num * a.den) (a.den * b.den)

/-- Multiplication on ℚ. -/
def qMul (a b : ℚ) : ℚ :=
  Rat.divInt (a.num * b.num) (a.den * b.den)

/-- Division on ℚ (0 on a zero divisor, like `Rat.div`; the JS `Infinity`
result of dividing by zero is outside every input below). -/
def qDiv (a b : ℚ) : ℚ :=
  Rat.divInt (a.num * b.den) (a.den * b.num)

/-- Negation on ℚ. -/
def qNeg (a : ℚ) : ℚ :=
  Rat.divInt (-a.num) a.den

/-- `Math.min` on ℚ. -/
def qMin (a b : ℚ) : ℚ :=
  if a ≤ b then a else b

/-- `10 ^ n` as a rational. -/
def q10 (n : Nat) : ℚ :=
  Rat.divInt ((10 : Nat) ^ n) 1

/-- `10 ^ (-n)` as a rational. -/
def q10inv (n : Nat) : ℚ :=
  Rat.divInt 1 ((10 : Nat) ^ n)

/-! ## Token model (`src/inc/token.ts`) -/

/- Token type codes, exactly as in `TokenType` of `token.ts`
(family in the high nibble, variant in the low nibble). -/
namespace TT

def NONE      : Nat := 0x00
def TEXT      : Nat := 0x10
def NORMAL    : Nat := 0x11
def QUOTED    : Nat := 0x12
def NUMBER    : Nat := 0x20
def CARDINAL  : Nat := 0x21
def ORDINAL   : Nat := 0x22
def UNIT      : Nat := 0x30
def MASS      : Nat := 0x31
def ENTITY    : Nat := 0x40
def TABLE     : Nat := 0x41
def COLUMN    : Nat := 0x42
def ROW       : Nat := 0x43
def BRACKET   : Nat := 0x50
def OPEN      : Nat := 0x51
def CLOSE     : Nat := 0x52
def SEPARATOR : Nat := 0x60
def OPERATOR  : Nat := 0x70
def UNARY     : Nat := 0x71
def BINARY    : Nat := 0x72
def TERNARY   : Nat := 0x73
def FUNCTION  : Nat := 0x80
def KEYWORD   : Nat := 0x90
def EXPRESSION : Nat := 0xA0
def VALUE     : Nat := 0xA1
def BOOLEAN   : Nat := 0xA2

end TT

/-- Value carried by a token.  The source stores JS values (`unknown`); the
values actually used are `null`, strings, finite numbers, and the two special
numbers `Infinity` and `NaN`. -/
inductive TValue where
  | null : TValue
  | str  : String → TValue
  | num  : ℚ → TValue
  | inf  : TValue
  | nan  : TValue
deriving DecidableEq, Repr

/-- A token: `{type, value, hint}` as in `token.ts`. -/
structure Token where
  type  : Nat
  value : TValue
  hint  : Option String
deriving DecidableEq, Repr

/-- `createToken(type=0, value=null, hint=null)`. -/
def createToken (type : Nat := 0) (value : TValue := .null)
    (hint : Option String := none) : Token :=
  ⟨type, value, hint⟩

/-- Digits of an integer, most significant first (helper for number
stringification). -/
def natDigits (fuel n : Nat) : List Char :=
  match fuel with
  | 0 => []
  | fuel + 1 =>
    if n < 10 then [Char.ofNat (48 + n)]
    else natDigits fuel (n / 10) ++ [Char.ofNat (48 + n % 10)]

/-- Decimal string of a natural number. -/
def natToStr (n : Nat) : String :=
  String.mk (natDigits (n + 1) n)

/-- Fraction digits of `num/den` by long division (`fuel` bounds the digit
count; exact for terminating decimals, which covers every value the theorems
below stringify). -/
def fracDigits (fuel : Nat) (num den : Nat) : List Char :=
  match fuel with
  | 0 => []
  | fuel + 1 =>
    if num = 0 then []
    else
      let q := num * 10 / den
      Char.ofNat (48 + q) :: fracDigits fuel (num * 10 % den) den

/-- JS stringification of a (finite) number, for the rationals reached by the
claims (integers and terminating decimals). -/
def jsNumToString (q : ℚ) : String :=
  let sign := if q < 0 then "-" else ""
  let n := q.num.natAbs
  let d := q.den
  if d = 1 then sign ++ natToStr n
  else sign ++ natToStr (n / d) ++ "." ++ String.mk (fracDigits 30 (n % d) d)

/-- JS string coercion of a token value (used by template literals and
`regex.test` in the source). -/
def tvalStr : TValue → String
  | .null  => "null"
  | .str s => s
  | .num q => jsNumToString q
  | .inf   => "Infinity"
  | .nan   => "NaN"

/-- Numeric reading of a token value (`value as number` casts in the source;
only ever applied by the code paths below to values that are numbers). -/
def tvalNum : TValue → ℚ
  | .num q => q
  | _      => 0

/-! ### `parseTokens` (token.ts lines 65–76) -/

/-- Flush the accumulated word `x`:
`if (x) a.push(createToken(quo ? QUOTED : TEXT, x))`. -/
def flushTok (quo : Option Char) (x : List Char) : List Token :=
  if x = [] then []
  else [createToken (if quo.isSome then TT.QUOTED else TT.TEXT) (.str (String.mk x))]

/-- Character loop of `parseTokens`: state is the open-quote character `quo`
and the accumulated run `x`. -/
def parseGo (quo : Option Char) (x : List Char) : List Char → List Token
  | [] => flushTok quo x
  | c :: cs =>
    if (quo.isSome && quo ≠ some c) || isWordChar c then
      parseGo quo (x ++ [c]) cs
    else
      flushTok quo x ++
        (if isQuoteChar c then
          parseGo (if quo.isNone then some c else none) [] cs
        else if !isSpaceJS c then
          createToken TT.TEXT (.str (String.mk [c])) :: parseGo quo [] cs
        else
          parseGo quo [] cs)

/-- `parseTokens` on a character list. -/
def parseTokensL (cs : List Char) : List Token :=
  parseGo none [] cs

/-- `parseTokens(txt)`. -/
def parseTokens (txt : String) : List Token :=
  parseTokensL txt.data

/-! ### `stringifyTokens` (token.ts lines 84–89) -/

/-- JS `String.prototype.trim` on the ASCII range. -/
def jsTrim (l : List Char) : List Char :=
  ((l.dropWhile isSpaceJS).reverse.dropWhile isSpaceJS).reverse

/-- `stringifyTokens`: concatenate `value + ' '` for every token, then trim. -/
def stringifyTokensL (ts : List Token) : List Char :=
  jsTrim (ts.foldl (fun a t => a ++ (tvalStr t.value).data ++ [' ']) [])

/-- `stringifyTokens(tokens)`. -/
def stringifyTokens (ts : List Token) : String :=
  String.mk (stringifyTokensL ts)

/-! ## Numeral normalizer (`src/inc/number.ts`) -/

/-- Words for decimal points (`DECIMAL`). -/
def decimalWords : List String := ["dot", "point", "decimal"]

/-- Words for special numbers (`SPECIAL`). -/
def specialWords : List (String × TValue) :=
  [("infinity", .inf), ("infinite", .inf), ("inf", .inf), ("∞", .inf),
   ("not-a-number", .nan), ("not-number", .nan), ("nan", .nan)]

/-- Words for cardinal numbers (`CARDINAL` map of number.ts). -/
def cardinalWords : List (String × ℚ) :=
  [("oh", 0), ("nil", 0), ("zero", 0), ("nought", 0), ("naught", 0),
   ("one", 1), ("two", 2), ("three", 3), ("four", 4), ("five", 5),
   ("six", 6), ("seven", 7), ("eight", 8), ("nine", 9),
   ("ten", 10), ("eleven", 11), ("twelve", 12), ("thirteen", 13),
   ("fourteen", 14), ("fifteen", 15), ("sixteen", 16), ("seventeen", 17),
   ("eighteen", 18), ("nineteen", 19), ("twenty", 20), ("thirty", 30),
   ("forty", 40), ("fifty", 50), ("sixty", 60), ("seventy", 70),
   ("eighty", 80), ("ninety", 90),
   ("hundred", q10 2), ("thousand", q10 3), ("lakh", q10 5), ("million", q10 6),
   ("crore", q10 7), ("billion", q10 9), ("trillion", q10 12),
   ("quadrillion", q10 15), ("quintillion", q10 18), ("sextillion", q10 21),
   ("septillion", q10 24), ("octillion", q10 27), ("nonillion", q10 30),
   ("decillion", q10 33)]

/-- Words for ordinal numbers (`ORDINAL` map of number.ts). -/
def ordinalWords : List (String × ℚ) :=
  [("zeroth", 0), ("first", 1), ("half", 2), ("second", 2), ("third", 3),
   ("quarter", 4), ("fourth", 4), ("fifth", 5), ("sixth", 6), ("seventh", 7),
   ("eighth", 8), ("ninth", 9), ("tenth", 10), ("eleventh", 11),
   ("twelfth", 12), ("thirteenth", 13), ("fourteenth", 14), ("fifteenth", 15),
   ("sixteenth", 16), ("seventeenth", 17), ("eighteenth", 18),
   ("nineteenth", 19), ("twentieth", 20), ("thirtieth", 30), ("fortieth", 40),
   ("fiftieth", 50), ("sixtieth", 60), ("seventieth", 70), ("eightieth", 80),
   ("ninetieth", 90),
   ("hundredth", q10 2), ("thousandth", q10 3), ("lakhth", q10 5),
   ("millionth", q10 6), ("croreth", q10 7), ("billionth", q10 9),
   ("trillionth", q10 12), ("quadrillionth", q10 15), ("quintillionth", q10 18),
   ("sextillionth", q10 21), ("septillionth", q10 24), ("octillionth", q10 27),
   ("nonillionth", q10 30), ("decillionth", q10 33)]

/-- Floor logarithm base 10 of a natural number (structural, so that it
evaluates in the kernel). -/
def natLog10Go : Nat → Nat → Nat
  | 0, _ => 0
  | fuel + 1, n => if n < 10 then 0 else natLog10Go fuel (n / 10) + 1

/-- `log10(x)` of number.ts: `x < 1 ? 0 : Math.floor(Math.log10(x))`.
(`Math.log10` is exact on every value this code feeds it.) -/
def jsLog10 (q : ℚ) : Nat :=
  if q < 1 then 0 else natLog10Go q.floor.toNat q.floor.toNat

/-- One magnitude group of the number state array: the consecutive triple
`(value, magnitude-order, accumulated-order)` pushed by `numberStateAdd`. -/
structure NumGroup where
  val : ℚ
  len : Nat
  spc : Nat
deriving DecidableEq, Repr, Inhabited

/-- `numberStateFuse` on two adjacent groups (`a` earlier, `b` later): the
result replaces `a`; the caller decides whether `b` is kept or truncated,
exactly as the index arithmetic of the source does. -/
def numberStateFuse (a b : NumGroup) : NumGroup :=
  if b.len ≤ a.spc then ⟨qAdd a.val b.val, a.len, b.len⟩
  else ⟨qAdd (qMul a.val (q10 b.len)) b.val, a.len + b.len, b.len⟩

/-- The in-place fusing loop of `numberStateValue`
(`for (i = s.length; i > 3; i -= 3) numberStateFuse(s, i)`): each group is
fused with the (already fused) group after it, from the back to the front;
the stale later groups stay in the array. -/
def numberStateFuseAll : List NumGroup → List NumGroup
  | [] => []
  | [g] => [g]
  | a :: rest =>
    let rest' := numberStateFuseAll rest
    match rest' with
    | [] => [a]
    | b :: _ => numberStateFuse a b :: rest'

/-- `numberStateValue(s, pre)`: the computed value together with the mutated
state array (the source mutates `s` in place; callers that go on using `s`
see the mutated array). `pre = none` models the `NaN` default. -/
def numberStateValue (s : List NumGroup) (pre : Option ℚ) :
    ℚ × List NumGroup :=
  match s with
  | [] => (pre.getD 0, [])
  | _ :: _ =>
    let s' := numberStateFuseAll s
    let h := s'.headD default
    (match pre with
     | none => h.val
     | some p => qAdd p (qMul h.val (q10inv h.len)), s')

/-- The fusing loop of `numberStateAdd`
(`for (; i > 3 && s[i-2] + spc > s[i-4]; i -= 3) numberStateFuse(s, i)`),
on the reversed group list (head = last group); the final `s.length = i`
truncation is reflected by dropping the fused-away group. -/
def numberStateAddLoop (spc : Nat) : Nat → List NumGroup → List NumGroup
  | 0, l => l
  | fuel + 1, b :: a :: rest =>
    if a.spc < b.len + spc then numberStateAddLoop spc fuel (numberStateFuse a b :: rest)
    else b :: a :: rest
  | _ + 1, l => l

/-- `numberStateAdd(s, num)`. -/
def numberStateAdd (s : List NumGroup) (num : ℚ) : List NumGroup :=
  let len := jsLog10 num + 1
  let spc := if num < 20 then 0 else len - 1
  if s = [] ∨ num < 100 then s ++ [⟨num, len, spc⟩]
  else
    match numberStateAddLoop spc s.length s.reverse with
    | [] => []
    | g :: rest => (⟨qMul g.val num, g.len + spc, g.spc + spc⟩ :: rest).reverse

/-- `numberStateAddOrdinal(s, num)`: note that when the running total is at
least 20 the ordinal is handed to `numberStateAdd` (on the state array as
mutated by `numberStateValue`); only a total below 20 is divided. -/
def numberStateAddOrdinal (s : List NumGroup) (num : ℚ) : List NumGroup :=
  let r := numberStateValue s none
  if 20 ≤ r.1 then numberStateAdd r.2 num
  else [⟨qDiv r.1 num, 1, 0⟩]

/-- Remove whitespace and commas (`replace(/[\s,]/g, '')`). -/
def stripSpacesCommas (s : String) : String :=
  String.mk (s.data.filter fun c => !(isSpaceJS c || c == ','))

/-- Digits to a natural number. -/
def digitsToNat (l : List Char) : Nat :=
  l.foldl (fun a c => a * 10 + (c.toNat - 48)) 0

/-- JS `Number(txt)` / `parseFloat(txt)` on (already stripped, lowercased)
decimal notation; `none` models `NaN`.  Hexadecimal notation, which only
`Number` accepts, is outside every input considered here. -/
def jsParseNum (s : String) : Option ℚ :=
  let l := s.data
  let p := match l with
    | c :: t => if c = '+' then (false, t) else if c = '-' then (true, t) else (false, l)
    | [] => (false, l)
  let neg := p.1
  let ip := p.2.takeWhile Char.isDigit
  let r1 := p.2.dropWhile Char.isDigit
  let q := match r1 with
    | c :: t =>
      if c = '.' then (t.takeWhile Char.isDigit, t.dropWhile Char.isDigit)
      else ([], r1)
    | [] => ([], r1)
  let fp := q.1
  let r2 := q.2
  if ip = [] ∧ fp = [] then none else
  let mant : ℚ := Rat.divInt
    (digitsToNat ip * (10 : Nat) ^ fp.length + digitsToNat fp)
    ((10 : Nat) ^ fp.length)
  let base : ℚ := if neg then qNeg mant else mant
  match r2 with
  | [] => some base
  | c :: t =>
    if c = 'e' ∨ c = 'E' then
      let w := match t with
        | d :: u => if d = '+' then (false, u) else if d = '-' then (true, u) else (false, t)
        | [] => (false, t)
      let ed := w.2.takeWhile Char.isDigit
      if ed = [] ∨ w.2.dropWhile Char.isDigit ≠ [] then none
      else some (if w.1 then qDiv base (q10 (digitsToNat ed))
                 else qMul base (q10 (digitsToNat ed)))
    else none

/-- Loop state of `processNumberTokens`. -/
structure NumScan where
  pre : Option ℚ
  val : Bool
  brk : Option Token
  st  : List NumGroup
  acc : List Token

/-- One iteration of the `processNumberTokens` loop. -/
def numScanStep (z : NumScan) (t : Token) : NumScan :=
  let txt : Option String :=
    if t.type &&& 0xF0 == TT.TEXT then
      let x := strLower (stripSpacesCommas (tvalStr t.value))
      if x = "" then none else some x
    else none
  let z :=
    if z.val ∧ (txt.isNone ∨ z.brk.isSome) then
      { z with acc := z.acc ++ [createToken TT.CARDINAL (.num (numberStateValue z.st z.pre).1)],
               st := [], pre := none, val := false }
    else z
  let z := match z.brk with
    | some b => if 0 < b.type then { z with acc := z.acc ++ [b], brk := none }
                else { z with brk := none }
    | none => z
  match txt with
  | none => { z with acc := z.acc ++ [t] }
  | some x =>
    match specialWords.lookup x with
    | some v => { z with brk := some (createToken TT.CARDINAL v) }
    | none =>
    match ordinalWords.lookup x with
    | some v => { z with st := numberStateAddOrdinal z.st v, val := true,
                         brk := some (createToken) }
    | none =>
    if decimalWords.contains x then
      { z with pre := some (numberStateValue z.st none).1, st := [] }
    else match cardinalWords.lookup x with
    | some v => { z with st := numberStateAdd z.st v, val := true }
    | none =>
    match jsParseNum x with
    | none => { z with brk := some t }
    | some q => { z with brk := some (createToken TT.CARDINAL (.num q)) }

/-- `processNumberTokens(tokens)`. -/
def processNumberTokens (tokens : List Token) : List Token :=
  let z := tokens.foldl numScanStep ⟨none, false, none, [], []⟩
  let a := if z.val then
      z.acc ++ [createToken TT.CARDINAL (.num (numberStateValue z.st z.pre).1)]
    else z.acc
  match z.brk with
  | some b => if 0 < b.type then a ++ [b] else a
  | none => a

/-! ## Unit normalizer (`src/inc/unit.ts`) -/

/-- `UNITS_MASS`: gram-scale factors. -/
def unitsMass : List (String × ℚ) :=
  [("attogram", q10inv 18), ("ag", q10inv 18),
   ("femtogram", q10inv 15), ("fg", q10inv 15),
   ("picogram", q10inv 12), ("pg", q10inv 12),
   ("nanogram", q10inv 9), ("ng", q10inv 9),
   ("microgram", q10inv 6), ("μg", q10inv 6), ("ug", q10inv 6),
   ("milligram", q10inv 3), ("mg", q10inv 3),
   ("centigram", q10inv 2), ("cg", q10inv 2),
   ("decigram", q10inv 1), ("dg", q10inv 1),
   ("gram", 1), ("gm", 1), ("g", 1),
   ("decagram", 10), ("dekagram", 10), ("dag", 10),
   ("hectogram", q10 2), ("hg", q10 2),
   ("kilogram", q10 3), ("kg", q10 3),
   ("megagram", q10 6), ("Mg", q10 6),
   ("gigagram", q10 9), ("Gg", q10 9),
   ("teragram", q10 12), ("Tg", q10 12),
   ("petagram", q10 15), ("Pg", q10 15),
   ("exagram", q10 18), ("Eg", q10 18),
   ("quintal", q10 5), ("metricton", q10 6), ("tonne", q10 6), ("ton", q10 6),
   ("pound", Rat.divInt 45359237 100000), ("lb", Rat.divInt 45359237 100000)]

/-- `stemUnitText`: drop a trailing `s`/`S` unless it is the whole word
(`txt.search(/[sS]$/g) > 0`). -/
def stemUnitText (txt : String) : String :=
  if 2 ≤ txt.data.length ∧ (txt.data.getLast? = some 's' ∨ txt.data.getLast? = some 'S')
  then String.mk txt.data.dropLast else txt

/-- `processUnitText`. -/
def processUnitText (txt : String) : Option Token :=
  let t1 := stemUnitText txt
  match unitsMass.lookup t1 with
  | some v => some (createToken TT.MASS (.num v))
  | none =>
    match unitsMass.lookup (strLower t1) with
    | some v => some (createToken TT.MASS (.num v))
    | none => none

/-- `processUnitTokens`. -/
def processUnitTokens (tokens : List Token) : List Token :=
  tokens.map fun t =>
    let txt := if t.type == TT.TEXT then tvalStr t.value else ""
    if txt ≠ "" then
      match processUnitText txt with
      | some u => u
      | none => t
    else t

/-! ## Entity scanner (`src/inc/entity.ts`) -/

/-- Result of the caller-supplied entity match function. -/
structure EntityMatch where
  type   : String
  value  : String
  length : Nat
  hint   : Option String
deriving DecidableEq, Repr

/-- The matcher, modelled as a pure function of the remaining word slice. -/
def EntityTestFn := List String → Option EntityMatch

/-- `EntityType.get((ans.type)[0].toLowerCase()) || 0`, given the first
character of the type string. -/
def entityTypeOf (c : Char) : Nat :=
  if c.toLower = 't' then TT.TABLE
  else if c.toLower = 'c' then TT.COLUMN
  else if c.toLower = 'r' then TT.ROW
  else TT.NONE

/-- `ans.hint || null`: `undefined` and the empty string both become `null`. -/
def jsHintOrNull : Option String → Option String
  | some "" => none
  | h => h

/-- The loop of `entityBlockScan`, at scan index `i` over the fixed word list
`txts`.  `none` models non-termination (fuel exhausted: the index made no
progress), `some (.error ())` models the `TypeError` thrown when the match's
type string is empty, `some (.ok ts)` is normal completion. -/
def entityBlockScanGo (fn : EntityTestFn) (txts : List String) :
    Nat → Nat → Option (Except Unit (List Token))
  | fuel, i =>
    if txts.length ≤ i then some (.ok [])
    else
      match fuel with
      | 0 => none
      | fuel + 1 =>
        match fn (txts.drop i) with
        | none =>
          (entityBlockScanGo fn txts fuel (i + 1)).map
            (·.map (createToken TT.TEXT (.str (txts.getD i "")) :: ·))
        | some ans =>
          match ans.type.data with
          | [] => some (.error ())
          | c :: _ =>
            (entityBlockScanGo fn txts fuel (i + ans.length)).map
              (·.map (createToken (entityTypeOf c) (.str ans.value)
                        (jsHintOrNull ans.hint) :: ·))

/-- `entityBlockScan(txts, fn)`.  The fuel `txts.length` is exact: whenever
the matcher's matches all have positive length the loop takes at most one
iteration per word. -/
def entityBlockScan (fn : EntityTestFn) (txts : List String) :
    Option (Except Unit (List Token)) :=
  entityBlockScanGo fn txts txts.length 0

/-- Companion of `entityBlockScanGo` recording the chunk of words each
iteration consumes (one word for a `null` answer, `length` words for a
match). -/
def entityBlockScanChunks (fn : EntityTestFn) (txts : List String) :
    Nat → Nat → Option (List (List String))
  | fuel, i =>
    if txts.length ≤ i then some []
    else
      match fuel with
      | 0 => none
      | fuel + 1 =>
        match fn (txts.drop i) with
        | none =>
          (entityBlockScanChunks fn txts fuel (i + 1)).map ([txts.getD i ""] :: ·)
        | some ans =>
          match ans.type.data with
          | [] => none
          | _ :: _ =>
            (entityBlockScanChunks fn txts fuel (i + ans.length)).map
              (((txts.drop i).take ans.length) :: ·)

/-! ## Informalize rule engine (`src/inc/informalize.ts`) -/

/-- The mutable accumulator threaded through every rule action
(`InformalizeState`).  `from`, `where` and `having` are Lean keywords and are
renamed `fromT`, `whereC`, `havingC`. -/
structure IState where
  columns     : List String
  fromT       : List String
  groupBy     : List String
  orderBy     : List String
  whereC      : String
  havingC     : String
  limit       : ℚ
  columnsUsed : List String
  reverse     : Bool
  hints       : List String
deriving DecidableEq, Repr

/-- A rewriting rule (`InformalizeSubstage`): a type pattern, per-token value
predicates (the source's regexes), and an action.  The action receives the
token suffix starting at the matched window and returns the replacement
tokens (`[]` models a `null` return). -/
structure Substage where
  pat  : List Nat
  vals : List (Option (TValue → Bool))
  act  : IState → List Token → IState × List Token

/-- `matchTokenTypeInformalize` on a token suffix. -/
def matchTypes : List Token → List Nat → Bool
  | _, [] => true
  | [], _ :: _ => false
  | t :: ts, p :: ps =>
    (t.type &&& 0xF0 == p &&& 0xF0) && (p &&& 0xF == 0 || t.type == p) &&
      matchTypes ts ps

/-- `matchValueInformalize` on a token suffix. -/
def matchVals : List Token → List (Option (TValue → Bool)) → Bool
  | _, [] => true
  | [], _ :: _ => false
  | t :: ts, v :: vs =>
    (match v with
     | none => true
     | some f => f t.value) && matchVals ts vs

/-- Does the rule match at the start of this suffix? -/
def matchSub (sub : Substage) (ts : List Token) : Bool :=
  matchTypes ts sub.pat && matchVals ts sub.vals

/-- One left-to-right pass of a rule over a token list (the inner `for` loop
of `runInformalizeSubstage`).  Fuel `tokens.length` is always sufficient:
every step consumes at least one token. -/
def runPassF (sub : Substage) : Nat → IState → List Token → IState × List Token
  | 0, s, toks => (s, toks)
  | _ + 1, s, [] => (s, [])
  | fuel + 1, s, t :: ts =>
    if matchSub sub (t :: ts) then
      let r := sub.act s (t :: ts)
      let r2 := runPassF sub fuel r.1 (ts.drop (sub.pat.length - 1))
      (r2.1, r.2 ++ r2.2)
    else
      let r2 := runPassF sub fuel s ts
      (r2.1, t :: r2.2)

/-- The `do … while (repeat && a.length < tokens.length)` loop of
`runInformalizeSubstage`. -/
def runSubRepeatF (sub : Substage) : Nat → IState → List Token → IState × List Token
  | 0, s, toks => (s, toks)
  | fuel + 1, s, toks =>
    let r := runPassF sub toks.length s toks
    if r.2.length < toks.length then runSubRepeatF sub fuel r.1 r.2 else r

/-- `runInformalizeSubstage(substage, state, tokens, repeat)`. -/
def runInformalizeSubstage (sub : Substage) (s : IState) (toks : List Token)
    (rep : Bool) : IState × List Token :=
  if rep then runSubRepeatF sub (toks.length + 1) s toks
  else runPassF sub toks.length s toks

/-- The `for (const sub of stage)` loop of `runInformalizeStage`; `ti` tracks
the JS variable `tokens` (the input of the most recent substage). -/
def runRound (rsub : Bool) (s : IState) (ti a : List Token) :
    List Substage → IState × List Token × List Token
  | [] => (s, ti, a)
  | sub :: rest =>
    let r := runInformalizeSubstage sub s a rsub
    runRound rsub r.1 a r.2 rest

/-- The `do … while (rstage && a.length < plen)` loop of
`runInformalizeStage`; `plen` is the length of `ti` at the top of each round,
exactly as in the source. -/
def runStageGo (stage : List Substage) (rsub rstage : Bool) :
    Nat → IState → List Token → List Token → IState × List Token
  | 0, s, _, a => (s, a)
  | fuel + 1, s, ti, a =>
    let plen := ti.length
    let r := runRound rsub s ti a stage
    if rstage ∧ r.2.2.length < plen then
      runStageGo stage rsub rstage fuel r.1 r.2.1 r.2.2
    else (r.1, r.2.2)

/-- `runInformalizeStage(stage, state, tokens, rsubstage, rstage)`.  The fuel
`tokens.length + 1` is sufficient because a round is repeated only while it
shrank the token list. -/
def runInformalizeStage (stage : List Substage) (s : IState)
    (tokens : List Token) (rsub : Bool := false) (rstage : Bool := false) :
    IState × List Token :=
  runStageGo stage rsub rstage (tokens.length + 1) s tokens tokens

/-! ### Value predicates (the regexes of the rule tables) -/

/-- `/pat/.test(value)`: substring test. -/
def vC (pat : String) : Option (TValue → Bool) :=
  some fun v => containsStr (tvalStr v) pat

/-- `/p|q/.test(value)`. -/
def vC2 (p q : String) : Option (TValue → Bool) :=
  some fun v => containsStr (tvalStr v) p || containsStr (tvalStr v) q

/-- `/p|q/i.test(value)`. -/
def vCI2 (p q : String) : Option (TValue → Bool) :=
  some fun v => containsStrI (tvalStr v) p || containsStrI (tvalStr v) q

/-- Character-class test `/[…]/.test(value)`. -/
def vAny (cs : List Char) : Option (TValue → Bool) :=
  some fun v => (tvalStr v).data.any (· ∈ cs)

/-- Negated character-class test `/[^…]/.test(value)`. -/
def vNotIn (cs : List Char) : Option (TValue → Bool) :=
  some fun v => (tvalStr v).data.any (· ∉ cs)

/-- `/[^\w\s=!<>]+/.test(value)`. -/
def vOther : Option (TValue → Bool) :=
  some fun v => (tvalStr v).data.any
    (fun c => !(isWordChar c || isSpaceJS c || c == '=' || c == '!' || c == '<' || c == '>'))

/-- A single quote as a string. -/
def sqS : String := String.singleton aposC

/-- String coercion of a token's value (`${t.value}` in a template literal). -/
def tvS (t : Token) : String := tvalStr t.value

/-- Numeric cast of a token's value (`t.value as number`). -/
def tvQ (t : Token) : ℚ := tvalNum t.value

/-! ### `NULLORDER` rules -/

def no1 : Substage :=
  ⟨[TT.KEYWORD, TT.KEYWORD, TT.ORDINAL], [vC "SELECT", vC "NULL", vC "1"],
   fun s _ => (s, [createToken TT.KEYWORD (.str "NULLS FIRST")])⟩

def no2 : Substage :=
  ⟨[TT.KEYWORD, TT.KEYWORD, TT.TEXT], [vC "SELECT", vC "NULL", vCI2 "last" "first"],
   fun s w => match w with
    | _ :: _ :: t2 :: _ =>
      (s, [createToken TT.KEYWORD (.str ("NULLS " ++ strUpper (tvS t2)))])
    | _ => (s, [])⟩

def NULLORDER : List Substage := [no1, no2]

/-! ### `NUMBER` rules -/

def nm1 : Substage :=
  ⟨[TT.CARDINAL, TT.ORDINAL], [none, none],
   fun s w => match w with
    | t0 :: t1 :: _ => (s, [createToken TT.CARDINAL (.num (qDiv (tvQ t0) (tvQ t1)))])
    | _ => (s, [])⟩

def nm2 : Substage :=
  ⟨[TT.CARDINAL, TT.UNIT], [none, none],
   fun s w => match w with
    | t0 :: t1 :: _ => (s, [createToken TT.CARDINAL (.num (qMul (tvQ t0) (tvQ t1)))])
    | _ => (s, [])⟩

def NUMBER : List Substage := [nm1, nm2]

/-! ### `LIMIT` rules -/

def li1 : Substage :=
  ⟨[TT.KEYWORD, TT.NUMBER], [vC2 "ASC" "LIMIT", none],
   fun s w => match w with
    | _ :: t1 :: _ => ({ s with limit := tvQ t1 }, [])
    | _ => (s, [])⟩

def li2 : Substage :=
  ⟨[TT.NUMBER, TT.KEYWORD], [none, vC2 "ASC" "LIMIT"],
   fun s w => match w with
    | t0 :: _ => ({ s with limit := tvQ t0 }, [])
    | _ => (s, [])⟩

def li3 : Substage :=
  ⟨[TT.KEYWORD, TT.NUMBER], [vC "LIMIT", none],
   fun s w => match w with
    | _ :: t1 :: _ => ({ s with limit := tvQ t1, reverse := !s.reverse }, [])
    | _ => (s, [])⟩

def li4 : Substage :=
  ⟨[TT.NUMBER, TT.KEYWORD], [none, vC "LIMIT"],
   fun s w => match w with
    | t0 :: _ => ({ s with limit := tvQ t0, reverse := !s.reverse }, [])
    | _ => (s, [])⟩

def LIMIT : List Substage := [li1, li2, li3, li4]

/-! ### `VALUE` rules -/

def va1 : Substage :=
  ⟨[TT.OPERATOR, TT.KEYWORD, TT.COLUMN], [vC "ALL", vC "TYPE", none],
   fun s w => match w with
    | _ :: _ :: t2 :: _ => (s, [createToken TT.COLUMN (.str ("all: " ++ tvS t2))])
    | _ => (s, [])⟩

def va2 : Substage :=
  ⟨[TT.OPERATOR, TT.KEYWORD, TT.COLUMN], [vC "+", vC "TYPE", none],
   fun s w => match w with
    | _ :: _ :: t2 :: _ => (s, [createToken TT.COLUMN (.str ("sum: " ++ tvS t2))])
    | _ => (s, [])⟩

def va3 : Substage :=
  ⟨[TT.FUNCTION, TT.KEYWORD, TT.COLUMN], [vC "avg", vC "TYPE", none],
   fun s w => match w with
    | _ :: _ :: t2 :: _ => (s, [createToken TT.COLUMN (.str ("avg: " ++ tvS t2))])
    | _ => (s, [])⟩

def va4 : Substage :=
  ⟨[TT.COLUMN, TT.KEYWORD, TT.CARDINAL], [none, vC "PER", none],
   fun s w => match w with
    | t0 :: _ :: t2 :: _ =>
      ({ s with columnsUsed := s.columnsUsed ++ ["\"" ++ tvS t0 ++ "\""] },
       [createToken TT.EXPRESSION
         (.str ("(\"" ++ tvS t0 ++ "\"*" ++ jsNumToString (qDiv (tvQ t2) 100) ++ ")"))])
    | _ => (s, [])⟩

def va5 : Substage :=
  ⟨[TT.COLUMN, TT.KEYWORD, TT.UNIT], [none, vC "PER", none],
   fun s w => match w with
    | t0 :: _ :: t2 :: _ =>
      ({ s with columnsUsed := s.columnsUsed ++ ["\"" ++ tvS t0 ++ "\""] },
       [createToken TT.EXPRESSION
         (.str ("(\"" ++ tvS t0 ++ "\"*" ++ jsNumToString (qDiv (tvQ t2) 100) ++ ")"))])
    | _ => (s, [])⟩

def va6 : Substage :=
  ⟨[TT.COLUMN, TT.KEYWORD, TT.UNIT], [none, vC2 "AS" "IN", none],
   fun s w => match w with
    | t0 :: _ :: t2 :: _ =>
      ({ s with columnsUsed := s.columnsUsed ++ ["\"" ++ tvS t0 ++ "\""] },
       [createToken TT.EXPRESSION
         (.str ("(\"" ++ tvS t0 ++ "\"/" ++ tvS t2 ++ ")"))])
    | _ => (s, [])⟩

def va7 : Substage :=
  ⟨[TT.COLUMN], [none],
   fun s w => match w with
    | t0 :: _ =>
      ({ s with columnsUsed := s.columnsUsed ++ ["\"" ++ tvS t0 ++ "\""] },
       [createToken TT.VALUE (.str ("\"" ++ tvS t0 ++ "\""))])
    | _ => (s, [])⟩

def va8 : Substage :=
  ⟨[TT.NUMBER], [none],
   fun s w => match w with
    | t0 :: _ => (s, [createToken TT.VALUE (.str (tvS t0))])
    | _ => (s, [])⟩

def va9 : Substage :=
  ⟨[TT.TEXT], [none],
   fun s w => match w with
    | t0 :: _ => (s, [createToken TT.VALUE (.str (sqS ++ tvS t0 ++ sqS))])
    | _ => (s, [])⟩

def va10 : Substage :=
  ⟨[TT.KEYWORD], [vC "NULL"],
   fun s w => match w with
    | t0 :: _ => (s, [createToken TT.VALUE t0.value])
    | _ => (s, [])⟩

def va11 : Substage :=
  ⟨[TT.KEYWORD], [vC2 "TRUE" "FALSE"],
   fun s w => match w with
    | t0 :: _ => (s, [createToken TT.BOOLEAN t0.value])
    | _ => (s, [])⟩

def VALUE : List Substage :=
  [va1, va2, va3, va4, va5, va6, va7, va8, va9, va10, va11]

/-! ### `EXPRESSION` rules -/

def ex1 : Substage :=
  ⟨[TT.OPEN, TT.CLOSE], [none, none], fun s _ => (s, [])⟩

def ex2 : Substage :=
  ⟨[TT.EXPRESSION, TT.EXPRESSION, TT.CLOSE], [none, none, none],
   fun s w => match w with
    | t0 :: t1 :: t2 :: _ =>
      (s, [createToken TT.EXPRESSION (.str (tvS t0 ++ ", " ++ tvS t1)), t2])
    | _ => (s, [])⟩

def ex3 : Substage :=
  ⟨[TT.FUNCTION], [vC2 "pi" "random"],
   fun s w => match w with
    | t0 :: _ => (s, [createToken TT.EXPRESSION (.str (tvS t0 ++ "()"))])
    | _ => (s, [])⟩

def ex4 : Substage :=
  ⟨[TT.FUNCTION, TT.OPEN, TT.EXPRESSION, TT.CLOSE], [none, none, none, none],
   fun s w => match w with
    | t0 :: _ :: t2 :: _ =>
      (s, [createToken TT.EXPRESSION (.str (tvS t0 ++ "(" ++ tvS t2 ++ ")"))])
    | _ => (s, [])⟩

def ex5 : Substage :=
  ⟨[TT.FUNCTION, TT.EXPRESSION], [none, none],
   fun s w => match w with
    | t0 :: t1 :: _ =>
      (s, [createToken TT.EXPRESSION (.str (tvS t0 ++ "(" ++ tvS t1 ++ ")"))])
    | _ => (s, [])⟩

def ex6 : Substage :=
  ⟨[TT.OPEN, TT.EXPRESSION, TT.CLOSE], [none, none, none],
   fun s w => match w with
    | _ :: t1 :: _ =>
      (s, [createToken TT.EXPRESSION (.str ("(" ++ tvS t1 ++ ")"))])
    | _ => (s, [])⟩

def ex7 : Substage :=
  ⟨[TT.OPERATOR, TT.BINARY, TT.EXPRESSION], [none, vC2 "+" "-", none],
   fun s w => match w with
    | t0 :: t1 :: t2 :: _ =>
      (s, [t0, createToken t2.type (.str (tvS t1 ++ tvS t2))])
    | _ => (s, [])⟩

def ex8 : Substage :=
  ⟨[TT.EXPRESSION, TT.BINARY, TT.EXPRESSION], [none, vC "^", none],
   fun s w => match w with
    | t0 :: _ :: t2 :: _ =>
      (s, [createToken (t0.type &&& t2.type)
            (.str ("power(" ++ tvS t0 ++ ",  " ++ tvS t2 ++ ")"))])
    | _ => (s, [])⟩

def ex9 : Substage :=
  ⟨[TT.EXPRESSION, TT.BINARY, TT.EXPRESSION], [none, vAny ['*', '/', '%'], none],
   fun s w => match w with
    | t0 :: t1 :: t2 :: _ =>
      (s, [createToken (t0.type &&& t2.type)
            (.str (tvS t0 ++ " " ++ tvS t1 ++ " " ++ tvS t2))])
    | _ => (s, [])⟩

def ex10 : Substage :=
  ⟨[TT.EXPRESSION, TT.BINARY, TT.EXPRESSION], [none, vAny ['+', '-'], none],
   fun s w => match w with
    | t0 :: t1 :: t2 :: _ =>
      (s, [createToken (t0.type &&& t2.type)
            (.str (tvS t0 ++ " " ++ tvS t1 ++ " " ++ tvS t2))])
    | _ => (s, [])⟩

def ex11 : Substage :=
  ⟨[TT.UNARY, TT.EXPRESSION], [vNotIn ['(', 'N', 'O', 'T', ')'], none],
   fun s w => match w with
    | t0 :: t1 :: _ =>
      (s, [createToken t1.type (.str (tvS t0 ++ " " ++ tvS t1))])
    | _ => (s, [])⟩

def ex12 : Substage :=
  ⟨[TT.EXPRESSION, TT.UNARY], [none, vC "IS"],
   fun s w => match w with
    | t0 :: t1 :: _ =>
      (s, [createToken TT.BOOLEAN (.str (tvS t0 ++ " " ++ tvS t1))])
    | _ => (s, [])⟩

def ex13 : Substage :=
  ⟨[TT.EXPRESSION, TT.BINARY, TT.EXPRESSION], [none, vOther, none],
   fun s w => match w with
    | t0 :: t1 :: t2 :: _ =>
      (s, [createToken TT.VALUE (.str (tvS t0 ++ " " ++ tvS t1 ++ " " ++ tvS t2))])
    | _ => (s, [])⟩

def ex14 : Substage :=
  ⟨[TT.EXPRESSION, TT.TERNARY, TT.EXPRESSION, TT.OPERATOR, TT.EXPRESSION],
   [none, none, none, vC "AND", none],
   fun s w => match w with
    | t0 :: t1 :: t2 :: _ :: t4 :: _ =>
      (s, [createToken TT.BOOLEAN
            (.str (tvS t0 ++ " " ++ tvS t1 ++ " " ++ tvS t2 ++ " AND " ++ tvS t4))])
    | _ => (s, [])⟩

def ex15 : Substage :=
  ⟨[TT.EXPRESSION, TT.TERNARY, TT.EXPRESSION, TT.EXPRESSION],
   [none, none, none, none],
   fun s w => match w with
    | t0 :: t1 :: t2 :: t3 :: _ =>
      (s, [createToken TT.BOOLEAN
            (.str (tvS t0 ++ " " ++ tvS t1 ++ " " ++ tvS t2 ++ " AND " ++ tvS t3))])
    | _ => (s, [])⟩

def ex16 : Substage :=
  ⟨[TT.EXPRESSION, TT.BINARY, TT.EXPRESSION, TT.OPERATOR, TT.EXPRESSION],
   [none, none, none, vC "ESCAPE", none],
   fun s w => match w with
    | t0 :: t1 :: t2 :: _ :: t4 :: _ =>
      (s, [createToken TT.BOOLEAN
            (.str (tvS t0 ++ " " ++ tvS t1 ++ " " ++ tvS t2 ++ " ESCAPE " ++ tvS t4))])
    | _ => (s, [])⟩

def ex17 : Substage :=
  ⟨[TT.KEYWORD, TT.VALUE, TT.BINARY, TT.VALUE, TT.OPERATOR, TT.VALUE],
   [none, none, vNotIn ['(', 'O', 'R', ')', '|', 'A', 'N', 'D'], none, vC2 "OR" "AND", none],
   fun s w => match w with
    | t0 :: t1 :: t2 :: t3 :: t4 :: t5 :: rest =>
      if rest.isEmpty then
        (s, [t0, createToken TT.BOOLEAN
              (.str (tvS t1 ++ " " ++ tvS t2 ++ " " ++ tvS t3 ++ " AND " ++
                     tvS t1 ++ " " ++ tvS t2 ++ " " ++ tvS t5))])
      else (s, [t0, t1, t2, t3, t4, t5])
    | _ => (s, [])⟩

def ex18 : Substage :=
  ⟨[TT.KEYWORD, TT.VALUE, TT.OPERATOR, TT.VALUE, TT.BINARY, TT.VALUE],
   [none, none, vC2 "OR" "AND", none, vNotIn ['(', 'O', 'R', ')', '|', 'A', 'N', 'D'], none],
   fun s w => match w with
    | t0 :: t1 :: t2 :: t3 :: t4 :: t5 :: rest =>
      if rest.isEmpty then
        (s, [t0, createToken TT.BOOLEAN
              (.str (tvS t1 ++ " " ++ tvS t4 ++ " " ++ tvS t5 ++ " AND " ++
                     tvS t3 ++ " " ++ tvS t4 ++ " " ++ tvS t4))])
      else (s, [t0, t1, t2, t3, t4, t5])
    | _ => (s, [])⟩

def ex19 : Substage :=
  ⟨[TT.EXPRESSION, TT.BINARY, TT.EXPRESSION],
   [none, vNotIn ['(', 'O', 'R', ')', 'A', 'N', 'D'], none],
   fun s w => match w with
    | t0 :: t1 :: t2 :: _ =>
      (s, [createToken TT.BOOLEAN (.str (tvS t0 ++ " " ++ tvS t1 ++ " " ++ tvS t2))])
    | _ => (s, [])⟩

def ex20 : Substage :=
  ⟨[TT.UNARY, TT.EXPRESSION], [none, none],
   fun s w => match w with
    | t0 :: t1 :: _ =>
      (s, [createToken TT.BOOLEAN (.str (tvS t0 ++ " " ++ tvS t1))])
    | _ => (s, [])⟩

def ex21 : Substage :=
  ⟨[TT.VALUE, TT.BINARY, TT.VALUE], [none, vC "AND", none],
   fun s w => match w with
    | t0 :: _ :: t2 :: _ =>
      (s, [createToken TT.VALUE (.str (tvS t0 ++ " + " ++ tvS t2))])
    | _ => (s, [])⟩

def ex22 : Substage :=
  ⟨[TT.BINARY, TT.VALUE], [vC "AND", none],
   fun s w => match w with
    | _ :: t1 :: _ =>
      ({ s with columnsUsed := s.columnsUsed ++ [tvS t1] }, [t1])
    | _ => (s, [])⟩

def ex23 : Substage :=
  ⟨[TT.EXPRESSION, TT.BINARY, TT.EXPRESSION], [none, none, none],
   fun s w => match w with
    | t0 :: t1 :: t2 :: _ =>
      (s, [createToken TT.BOOLEAN (.str (tvS t0 ++ " " ++ tvS t1 ++ " " ++ tvS t2))])
    | _ => (s, [])⟩

def EXPRESSION : List Substage :=
  [ex1, ex2, ex3, ex4, ex5, ex6, ex7, ex8, ex9, ex10, ex11, ex12, ex13, ex14,
   ex15, ex16, ex17, ex18, ex19, ex20, ex21, ex22, ex23]

/-! ### `ORDERBY` rules -/

def ob1 : Substage :=
  ⟨[TT.EXPRESSION, TT.KEYWORD, TT.KEYWORD],
   [none, vC "DESC", vC2 "NULLS FIRST" "NULLS LAST"],
   fun s w => match w with
    | t0 :: _ :: t2 :: _ =>
      ({ s with orderBy := s.orderBy ++
          [tvS t0 ++ " " ++ (if s.reverse then "ASC" else "DESC") ++ " " ++ tvS t2] }, [])
    | _ => (s, [])⟩

def ob2 : Substage :=
  ⟨[TT.EXPRESSION, TT.KEYWORD, TT.KEYWORD],
   [none, vC "ASC", vC2 "NULLS FIRST" "NULLS LAST"],
   fun s w => match w with
    | t0 :: _ :: t2 :: _ =>
      ({ s with orderBy := s.orderBy ++
          [tvS t0 ++ " " ++ (if s.reverse then "DESC" else "ASC") ++ " " ++ tvS t2] }, [])
    | _ => (s, [])⟩

def ob3 : Substage :=
  ⟨[TT.KEYWORD, TT.EXPRESSION, TT.KEYWORD],
   [vC "DESC", none, vC2 "NULLS FIRST" "NULLS LAST"],
   fun s w => match w with
    | _ :: t1 :: t2 :: _ =>
      ({ s with orderBy := s.orderBy ++
          [tvS t1 ++ " " ++ (if s.reverse then "ASC" else "DESC") ++ " " ++ tvS t2] }, [])
    | _ => (s, [])⟩

def ob4 : Substage :=
  ⟨[TT.KEYWORD, TT.EXPRESSION, TT.KEYWORD],
   [vC "ASC", none, vC2 "NULLS FIRST" "NULLS LAST"],
   fun s w => match w with
    | _ :: t1 :: t2 :: _ =>
      ({ s with orderBy := s.orderBy ++
          [tvS t1 ++ " " ++ (if s.reverse then "DESC" else "ASC") ++ " " ++ tvS t2] }, [])
    | _ => (s, [])⟩

def ob5 : Substage :=
  ⟨[TT.OPERATOR, TT.OPERATOR, TT.EXPRESSION], [vC ">", vC "IN", none],
   fun s w => match w with
    | _ :: t1 :: _ =>
      ({ s with orderBy := s.orderBy ++
          [tvS t1 ++ " " ++ (if s.reverse then "ASC" else "DESC")] }, [])
    | _ => (s, [])⟩

def ob6 : Substage :=
  ⟨[TT.OPERATOR, TT.OPERATOR, TT.EXPRESSION], [vC "<", vC "IN", none],
   fun s w => match w with
    | _ :: t1 :: _ =>
      ({ s with orderBy := s.orderBy ++
          [tvS t1 ++ " " ++ (if s.reverse then "DESC" else "ASC")] }, [])
    | _ => (s, [])⟩

def ob7 : Substage :=
  ⟨[TT.EXPRESSION, TT.KEYWORD], [none, vC2 "NULLS FIRST" "NULLS LAST"],
   fun s w => match w with
    | t0 :: t1 :: _ =>
      ({ s with orderBy := s.orderBy ++
          [tvS t0 ++ " " ++ (if s.reverse then "DESC" else "ASC") ++ " " ++ tvS t1] }, [])
    | _ => (s, [])⟩

def ob8 : Substage :=
  ⟨[TT.KEYWORD, TT.EXPRESSION], [vC2 "NULLS FIRST" "NULLS LAST", none],
   fun s w => match w with
    | t0 :: t1 :: _ =>
      ({ s with orderBy := s.orderBy ++
          [tvS t1 ++ " " ++ (if s.reverse then "DESC" else "ASC") ++ " " ++ tvS t0] }, [])
    | _ => (s, [])⟩

def ob9 : Substage :=
  ⟨[TT.EXPRESSION, TT.KEYWORD], [none, vC "DESC"],
   fun s w => match w with
    | t0 :: _ =>
      ({ s with orderBy := s.orderBy ++
          [tvS t0 ++ " " ++ (if s.reverse then "ASC" else "DESC")] }, [])
    | _ => (s, [])⟩

def ob10 : Substage :=
  ⟨[TT.KEYWORD, TT.EXPRESSION], [vC "DESC", none],
   fun s w => match w with
    | _ :: t1 :: _ =>
      ({ s with orderBy := s.orderBy ++
          [tvS t1 ++ " " ++ (if s.reverse then "ASC" else "DESC")] }, [])
    | _ => (s, [])⟩

def ob11 : Substage :=
  ⟨[TT.EXPRESSION, TT.KEYWORD], [none, vC "ASC"],
   fun s w => match w with
    | t0 :: _ =>
      ({ s with orderBy := s.orderBy ++
          [tvS t0 ++ " " ++ (if s.reverse then "DESC" else "ASC")] }, [])
    | _ => (s, [])⟩

def ob12 : Substage :=
  ⟨[TT.KEYWORD, TT.EXPRESSION], [vC "ASC", none],
   fun s w => match w with
    | _ :: t1 :: _ =>
      ({ s with orderBy := s.orderBy ++
          [tvS t1 ++ " " ++ (if s.reverse then "DESC" else "ASC")] }, [])
    | _ => (s, [])⟩

def ob13 : Substage :=
  ⟨[TT.OPERATOR, TT.EXPRESSION], [vC ">", none],
   fun s w => match w with
    | _ :: t1 :: _ =>
      ({ s with orderBy := s.orderBy ++
          [tvS t1 ++ " " ++ (if s.reverse then "ASC" else "DESC")] }, [])
    | _ => (s, [])⟩

def ob14 : Substage :=
  ⟨[TT.OPERATOR, TT.EXPRESSION], [vC "<", none],
   fun s w => match w with
    | _ :: t1 :: _ =>
      ({ s with orderBy := s.orderBy ++
          [tvS t1 ++ " " ++ (if s.reverse then "DESC" else "ASC")] }, [])
    | _ => (s, [])⟩

def ob15 : Substage :=
  ⟨[TT.EXPRESSION, TT.OPERATOR], [none, vC ">"],
   fun s w => match w with
    | t0 :: _ =>
      ({ s with orderBy := s.orderBy ++
          [tvS t0 ++ " " ++ (if s.reverse then "ASC" else "DESC")] }, [])
    | _ => (s, [])⟩

def ob16 : Substage :=
  ⟨[TT.EXPRESSION, TT.OPERATOR], [none, vC "<"],
   fun s w => match w with
    | t0 :: _ =>
      ({ s with orderBy := s.orderBy ++
          [tvS t0 ++ " " ++ (if s.reverse then "DESC" else "ASC")] }, [])
    | _ => (s, [])⟩

def ob17 : Substage :=
  ⟨[TT.KEYWORD, TT.EXPRESSION], [vC "ORDER BY", none],
   fun s w => match w with
    | t0 :: t1 :: _ =>
      ({ s with orderBy := s.orderBy ++
          [tvS t1 ++ " " ++ (if s.reverse then "DESC" else "ASC")] }, [t0])
    | _ => (s, [])⟩

def ORDERBY : List Substage :=
  [ob1, ob2, ob3, ob4, ob5, ob6, ob7, ob8, ob9, ob10, ob11, ob12, ob13, ob14,
   ob15, ob16, ob17]

/-! ### `GROUPBY` rules -/

def gb1 : Substage :=
  ⟨[TT.KEYWORD, TT.EXPRESSION], [vC "GROUP BY", none],
   fun s w => match w with
    | t0 :: t1 :: _ => ({ s with groupBy := s.groupBy ++ [tvS t1] }, [t0])
    | _ => (s, [])⟩

def GROUPBY : List Substage := [gb1]

/-! ### `HAVING` rules -/

def ha1 : Substage :=
  ⟨[TT.OPERATOR, TT.OPERATOR, TT.KEYWORD, TT.EXPRESSION],
   [vC2 "OR" "AND", vC "NOT", vC "HAVING", none],
   fun s w => match w with
    | t0 :: _ :: _ :: t3 :: _ =>
      ({ s with havingC := s.havingC ++ tvS t0 ++ " (NOT " ++ tvS t3 ++ ")" }, [])
    | _ => (s, [])⟩

def ha2 : Substage :=
  ⟨[TT.OPERATOR, TT.KEYWORD, TT.EXPRESSION], [vC "NOT", vC "HAVING", none],
   fun s w => match w with
    | _ :: _ :: t2 :: _ =>
      ({ s with havingC := s.havingC ++ "AND (NOT " ++ tvS t2 ++ ")" }, [])
    | _ => (s, [])⟩

def ha3 : Substage :=
  ⟨[TT.OPERATOR, TT.KEYWORD, TT.EXPRESSION], [vC2 "OR" "AND", vC "HAVING", none],
   fun s w => match w with
    | t0 :: _ :: t2 :: _ =>
      ({ s with havingC := s.havingC ++ tvS t0 ++ " (" ++ tvS t2 ++ ")" }, [])
    | _ => (s, [])⟩

def ha4 : Substage :=
  ⟨[TT.KEYWORD, TT.EXPRESSION], [vC "HAVING", none],
   fun s w => match w with
    | _ :: t1 :: _ =>
      ({ s with havingC := s.havingC ++ "AND (" ++ tvS t1 ++ ")" }, [])
    | _ => (s, [])⟩

def HAVING : List Substage := [ha1, ha2, ha3, ha4]

/-! ### `WHERE` rules -/

def wh1 : Substage :=
  ⟨[TT.OPERATOR, TT.OPERATOR, TT.KEYWORD, TT.EXPRESSION],
   [vC2 "OR" "AND", vC "NOT", vC "WHERE", none],
   fun s w => match w with
    | t0 :: _ :: _ :: t3 :: _ =>
      ({ s with whereC := s.whereC ++ tvS t0 ++ " (NOT " ++ tvS t3 ++ ")" }, [])
    | _ => (s, [])⟩

def wh2 : Substage :=
  ⟨[TT.OPERATOR, TT.KEYWORD, TT.EXPRESSION], [vC "NOT", vC "WHERE", none],
   fun s w => match w with
    | _ :: _ :: t2 :: _ =>
      ({ s with whereC := s.whereC ++ "AND (NOT " ++ tvS t2 ++ ")" }, [])
    | _ => (s, [])⟩

def wh3 : Substage :=
  ⟨[TT.OPERATOR, TT.KEYWORD, TT.EXPRESSION], [vC2 "OR" "AND", vC "WHERE", none],
   fun s w => match w with
    | t0 :: _ :: t2 :: _ =>
      ({ s with whereC := s.whereC ++ tvS t0 ++ " (" ++ tvS t2 ++ ")" }, [])
    | _ => (s, [])⟩

def wh4 : Substage :=
  ⟨[TT.KEYWORD, TT.EXPRESSION], [vC "WHERE", none],
   fun s w => match w with
    | _ :: t1 :: _ =>
      ({ s with whereC := s.whereC ++ "AND (" ++ tvS t1 ++ ")" }, [])
    | _ => (s, [])⟩

def WHERE : List Substage := [wh1, wh2, wh3, wh4]

/-! ### `FROM` rules -/

def fr1 : Substage :=
  ⟨[TT.OPERATOR, TT.ENTITY, TT.OPERATOR], [vC "ALL", vCI2 "field" "column", none],
   fun s _ => ({ s with columns := s.columns ++ ["*"] }, [])⟩

def fr2 : Substage :=
  ⟨[TT.KEYWORD], [vC "GROUP BY"],
   fun s w => match w with
    | t0 :: rest =>
      if !rest.isEmpty || s.groupBy.length != 0 then (s, [t0])
      else ({ s with fromT := s.fromT ++ ["\"groups\""] }, [])
    | _ => (s, [])⟩

def fr3 : Substage :=
  ⟨[TT.TABLE], [none],
   fun s w => match w with
    | t0 :: _ => ({ s with fromT := s.fromT ++ ["\"" ++ tvS t0 ++ "\""] }, [])
    | _ => (s, [])⟩

def fr4 : Substage :=
  ⟨[TT.ROW], [none],
   fun s w => match w with
    | t0 :: _ => ({ s with fromT := s.fromT ++ ["\"" ++ tvS t0 ++ "\""] }, [])
    | _ => (s, [])⟩

def FROM : List Substage := [fr1, fr2, fr3, fr4]

/-! ### `COLUMN` rules -/

def co1 : Substage :=
  ⟨[TT.KEYWORD, TT.KEYWORD, TT.EXPRESSION, TT.KEYWORD, TT.EXPRESSION],
   [vC "SELECT", vC2 "ALL" "DISTINCT", none, vC "AS", none],
   fun s w => match w with
    | t0 :: t1 :: t2 :: _ :: t4 :: _ =>
      ({ s with columns := s.columns ++
          [tvS t1 ++ " " ++ tvS t2 ++ " AS " ++ tvS t4] }, [t0])
    | _ => (s, [])⟩

def co2 : Substage :=
  ⟨[TT.KEYWORD, TT.KEYWORD, TT.EXPRESSION],
   [vC "SELECT", vC2 "ALL" "DISTINCT", none],
   fun s w => match w with
    | t0 :: t1 :: t2 :: _ =>
      ({ s with columns := s.columns ++ [tvS t1 ++ " " ++ tvS t2] }, [t0])
    | _ => (s, [])⟩

def co3 : Substage :=
  ⟨[TT.KEYWORD, TT.EXPRESSION, TT.KEYWORD, TT.EXPRESSION],
   [vC "SELECT", none, vC "AS", none],
   fun s w => match w with
    | t0 :: t1 :: _ :: t3 :: _ =>
      ({ s with columns := s.columns ++ [tvS t1 ++ " AS " ++ tvS t3] }, [t0])
    | _ => (s, [])⟩

def co4 : Substage :=
  ⟨[TT.KEYWORD, TT.EXPRESSION], [vC "SELECT", none],
   fun s w => match w with
    | t0 :: t1 :: _ => ({ s with columns := s.columns ++ [tvS t1] }, [t0])
    | _ => (s, [])⟩

def co5 : Substage :=
  ⟨[TT.OPERATOR, TT.OPERATOR], [vC "ALL", none],
   fun s _ => ({ s with columns := s.columns ++ ["*"] }, [])⟩

def co6 : Substage :=
  ⟨[TT.OPERATOR], [vC "ALL"],
   fun s w => match w with
    | t0 :: rest =>
      if !rest.isEmpty then (s, [t0])
      else ({ s with columns := s.columns ++ ["*"] }, [])
    | _ => (s, [])⟩

def COLUMN : List Substage := [co1, co2, co3, co4, co5, co6]

/-! ### Column projection and assembly -/

/-- JS `Set.add`: append if absent (insertion order preserved). -/
def setAdd (l : List String) (v : String) : List String :=
  if v ∈ l then l else l ++ [v]

/-- `setAddAll(set, list)`. -/
def setAddAll (l : List String) (vs : List String) : List String :=
  vs.foldl setAdd l

/-- `new Set(list)`: ordered deduplication. -/
def listToSet (vs : List String) : List String :=
  setAddAll [] vs

/-- `Set.delete`. -/
def setDelete (l : List String) (v : String) : List String :=
  l.filter (· ≠ v)

/-- `ord.replace(/ (ASC|DESC)$/, '')`. -/
def stripOrderDir (ord : String) : String :=
  if (" DESC".data).isSuffixOf ord.data then
    String.mk (ord.data.take (ord.data.length - 5))
  else if (" ASC".data).isSuffixOf ord.data then
    String.mk (ord.data.take (ord.data.length - 4))
  else ord

/-- `processColumnsInformalize(state, opt)`.  Returns `none` for the
`TypeError` raised by `hnt in ocols` when a hint was collected, no wildcard
column is present, and `opt.columns` was not supplied. -/
def processColumnsInformalize (s : IState)
    (optColumns : Option (List (String × List String))) :
    Option (List String) :=
  let cols := listToSet s.columns
  let cols := if cols.contains "\"*\"" then setAdd cols "*" else cols
  let cols := setDelete cols "\"*\""
  let cols :=
    if cols.length = 0 ∨ ¬ cols.contains "*" then
      let cols := s.orderBy.foldl (fun c ord => setAdd c (stripOrderDir ord)) cols
      (if s.groupBy.length ≠ 0 then [] else s.columnsUsed).foldl setAdd cols
    else cols
  let colt := listToSet s.groupBy
  let colt? : Option (List String) :=
    if ¬ cols.contains "*" then
      match optColumns with
      | none => if s.hints.isEmpty then some colt else none
      | some oc =>
        some (s.hints.foldl
          (fun ct h => match oc.lookup h with
            | some defs => setAddAll ct defs
            | none => ct) colt)
    else some colt
  match colt? with
  | none => none
  | some colt =>
    let colt := setAddAll colt cols
    some (if colt.length = 0 then ["*"] else colt)

/-- Join with `', '` (JS `Array.join(', ')`). -/
def joinComma (l : List String) : String :=
  String.intercalate ", " l

/-- The hint-collection loop of `processTokensInformalize` (`hints.add(hint)`
for every token carrying a hint). -/
def collectHints (tokens : List Token) : List String :=
  tokens.foldl
    (fun h t => match t.hint with
      | some v => setAdd h v
      | none => h) []

/-- The chain of eleven `runInformalizeStage` calls of
`processTokensInformalize`, in source order with the source's repeat flags. -/
def informalizeStages (s : IState) (tokens : List Token) :
    IState × List Token :=
  let r := runInformalizeStage NULLORDER s tokens
  let r := runInformalizeStage NUMBER r.1 r.2
  let r := runInformalizeStage LIMIT r.1 r.2
  let r := runInformalizeStage VALUE r.1 r.2
  let r := runInformalizeStage EXPRESSION r.1 r.2 true true
  let r := runInformalizeStage ORDERBY r.1 r.2 false true
  let r := runInformalizeStage GROUPBY r.1 r.2 true
  let r := runInformalizeStage HAVING r.1 r.2
  let r := runInformalizeStage WHERE r.1 r.2
  let r := runInformalizeStage FROM r.1 r.2
  runInformalizeStage COLUMN r.1 r.2

/-- One conditional clause append of `processTokensInformalize`
(`if (cond) a += x + y`). -/
def appendIf (a x y : String) (c : Prop) [Decidable c] : String :=
  if c then a ++ x ++ y else a

/-- The clause-assembly tail of `processTokensInformalize`: the `SELECT`/
`FROM` skeleton followed by the conditional `WHERE`, `GROUP BY`, `ORDER BY`,
`HAVING` and `LIMIT` appends, in source order. -/
def assembleClauses (s : IState) (cols : List String) : String :=
  appendIf (appendIf (appendIf (appendIf (appendIf
    ("SELECT " ++ joinComma cols ++ " FROM " ++ joinComma s.fromT)
    " WHERE " s.whereC (0 < s.whereC.length))
    " GROUP BY " (joinComma s.groupBy) (0 < s.groupBy.length))
    " ORDER BY " (joinComma s.orderBy) (0 < s.orderBy.length))
    " HAVING " s.havingC (0 < s.havingC.length))
    " LIMIT " (jsNumToString s.limit) (0 < s.limit)

/-- The tail of `processTokensInformalize` after the stage chain: strip a
leading `AND ` from the accumulated HAVING and WHERE strings, substitute
`"${opt.table}"` (stringifying a missing option to `undefined`) when no FROM
table was collected, project the columns, and assemble the clauses. -/
def informalizeAssemble (s : IState) (optTable : Option String)
    (optColumns : Option (List (String × List String))) : Option String :=
  let s := { s with havingC :=
    if s.havingC.startsWith "AND " then s.havingC.drop 4 else s.havingC }
  let s := { s with whereC :=
    if s.whereC.startsWith "AND " then s.whereC.drop 4 else s.whereC }
  let s :=
    if s.fromT.isEmpty then
      { s with fromT :=
        ["\"" ++ (match optTable with
                  | some t => t
                  | none => "undefined") ++ "\""] }
    else s
  match processColumnsInformalize s optColumns with
  | none => none
  | some cols => some (assembleClauses s cols)

/-- `processTokensInformalize(tokens, opt)`.  Returns `none` for the two
`TypeError` paths of the source (empty token list at the `tokens[0].value`
read; hint loop over unsupplied `opt.columns`). -/
def processTokensInformalize (tokens : List Token) (optTable : Option String)
    (optColumns : Option (List (String × List String))) : Option String :=
  let s : IState := ⟨[], [], [], [], "", "", 0, [], false, []⟩
  let tokens := tokens.filter (fun t => t.type ≠ TT.SEPARATOR)
  let s := { s with hints := collectHints tokens }
  match tokens with
  | [] => none
  | t0 :: _ =>
    let tokens :=
      if t0.value = .str "SELECT" then tokens
      else createToken TT.KEYWORD (.str "SELECT") :: tokens
    informalizeAssemble (informalizeStages s tokens).1 optTable optColumns

/-! ## AST resolver (`formalize` half of informalize.ts) -/

/-- SQL expression AST node (the typed fragment of the untyped node trees the
source manipulates).  `ext s` stands for the tree the *external* grammar
parser produces for the expression text `s` (an opaque collaborator);
`undefV` is JS `undefined` (e.g. `ans[0]` of an empty resolution result). -/
inductive FNode where
  | num    (value : ℚ)
  | nullV
  | boolV  (value : Bool)
  | strV   (value : String)
  | colRef (table : Option String) (column : String)
  | binop  (operator : String) (left right : FNode) (parentheses : Bool)
  | ext    (expr : String)
  | undefV
deriving DecidableEq, Repr

/-- `NULL` regex: `/^null$/i`. -/
def fNULL (s : String) : Bool := strLower s == "null"

/-- `BOOL` regex: `/^(true|false)$/i`. -/
def fBOOL (s : String) : Bool := strLower s == "true" || strLower s == "false"

/-- `NUMBER` regex: `/^[\d\.\-e]$/i` — a single character from the class. -/
def fNUMBER (s : String) : Bool :=
  match s.data with
  | [c] => c.isDigit || c == '.' || c == '-' || c == 'e' || c == 'E'
  | _ => false

/-- `STRING` regex: `/^\'[^\']\'$/`. -/
def fSTRING (s : String) : Bool :=
  match s.data with
  | [a, b, c] => a == aposC && !(b == aposC) && c == aposC
  | _ => false

/-- `IDENTIFIER` regex: `/^\*$|^\w+$|^\"[^\"]*\"$/`. -/
def fIDENTIFIER (s : String) : Bool :=
  s == "*" || (!s.data.isEmpty && s.data.all isWordChar) ||
  (match s.data with
   | '"' :: rest =>
     !rest.isEmpty && rest.getLast? == some '"' && rest.dropLast.all (· ≠ '"')
   | _ => false)

/-- Anchored case-insensitive hint-prefix test `/^(w1|w2|…):/i`. -/
def hasHintPrefixI (s : String) (ws : List String) : Bool :=
  ws.any fun w => ((strLower w).data ++ [':']).isPrefixOf (strLower s).data

/-- `txt.replace(/.*?:/, '')`: drop everything through the first colon
(no-op when there is no colon). -/
def dropThroughColon (s : String) : String :=
  if ':' ∈ s.data then String.mk ((s.data.dropWhile (· ≠ ':')).drop 1) else s

/-- `dequoteIdentifier(txt)`. -/
def dequoteIdentifier (txt : String) : String :=
  match txt.data with
  | c :: _ =>
    if c == aposC || c == '"' then String.mk ((txt.data.drop 1).dropLast) else txt
  | [] => txt

/-- `parseExprAST(expr)`: the expression is handed (after the `<>`/`@@`
operator shuffle that works around the external parser) to the external
grammar parser; the resulting tree is opaque here. -/
def parseExprAST (expr : String) : FNode :=
  .ext ((expr.replace "<>" "!=").replace "@@" "<>")

/-- `parseValueAST(val)`.  (For the single-character non-digit matches of the
`NUMBER` class, `parseFloat` yields `NaN`; those values are outside every
input below and are modelled as 0.) -/
def parseValueAST (val : String) : FNode :=
  if fNULL val then .nullV
  else if fBOOL val then .boolV (containsStrI val "true")
  else if fNUMBER val then .num ((jsParseNum val).getD 0)
  else if fSTRING val then .strV (String.mk ((val.data.drop 1).dropLast))
  else if fIDENTIFIER val then .colRef none (dequoteIdentifier val)
  else parseExprAST val

/-- `createNumberAST(value)`. -/
def createNumberAST (value : ℚ) : FNode := .num value

/-- `createColumnAST(column)`. -/
def createColumnAST (column : String) : FNode := .colRef none column

/-- `createBinaryExprAST(operator, left, right, parentheses)`. -/
def createBinaryExprAST (operator : String) (left right : FNode)
    (parentheses : Bool := false) : FNode :=
  .binop operator left right parentheses

/-- `createSumExprAST(cols)`: the first column becomes the left operand of
the outer `+`; the loop `ast.right = createBinaryExprAST('+', ast.right, c)`
folds the remaining columns left-associatively *inside the right operand*. -/
def createSumExprAST : List FNode → List FNode
  | [] => [createNumberAST 0]
  | [c] => [c]
  | c0 :: c1 :: rest =>
    [createBinaryExprAST "+" c0
      (rest.foldl (fun r c => createBinaryExprAST "+" r c) c1) true]

/-- `createAvgExprAST(cols)`. -/
def createAvgExprAST (cols : List FNode) : List FNode :=
  match cols with
  | [] => [createNumberAST 0]
  | _ => [createBinaryExprAST "/" ((createSumExprAST cols).headD .undefV)
          (createNumberAST (Rat.divInt cols.length 1)) true]

/-- One resolution-function invocation, as recorded for the call log. -/
structure RCall where
  txt   : String
  ctype : String
  hint  : Option String
  fromT : List String
deriving DecidableEq, Repr

/-- The caller-supplied resolution function (pure model of the async
callback).  The last argument is the resolved FROM table list (the source
passes the raw array; `scanFromAST` and the groupBy tweak pass an empty
value). -/
def ResolutionFn := String → String → Option String → List String → List String

/-- `resolveColumnAST(type, from, txt, fn)` together with the resolution
calls it performs. -/
def resolveColumnASTLog (ctype : String) (fromT : List String) (txt : String)
    (fn : ResolutionFn) : List RCall × List FNode :=
  let hint : Option String :=
    if hasHintPrefixI txt ["all", "each", "every"] then some "all"
    else if hasHintPrefixI txt ["sum", "gross", "total", "whole", "aggregate"] then some "sum"
    else if hasHintPrefixI txt
      ["avg", "mid", "par", "mean", "norm", "center", "centre", "average", "midpoint"]
      then some "avg"
    else none
  let txt' := if hint.isSome then dropThroughColon txt else txt
  let ans := fn txt' ctype hint fromT
  let ast := ans.map parseValueAST
  ([⟨txt', ctype, hint, fromT⟩],
   match hint with
   | none => ast
   | some "all" => ast
   | some "sum" => createSumExprAST ast
   | some _ => createAvgExprAST ast)

/-- `resolveColumnAST(type, from, txt, fn)`. -/
def resolveColumnAST (ctype : String) (fromT : List String) (txt : String)
    (fn : ResolutionFn) : List FNode :=
  (resolveColumnASTLog ctype fromT txt fn).2

/-- `processSubexprAST`: replace every nested column reference by the first
resolved value (`ast[k] = ans[0]`), recursing through object-valued
children. -/
def processSubexprFNode (ctype : String) (fromT : List String)
    (fn : ResolutionFn) : FNode → List RCall × FNode
  | .colRef _ c =>
    let r := resolveColumnASTLog ctype fromT c fn
    (r.1, r.2.headD .undefV)
  | .binop op l rg p =>
    let rl := processSubexprFNode ctype fromT fn l
    let rr := processSubexprFNode ctype fromT fn rg
    (rl.1 ++ rr.1, .binop op rl.2 rr.2 p)
  | e => ([], e)

/-- `processExprAST`: a top-level column reference fans out into the full
resolved list; any other node has its subexpressions resolved in place. -/
def processExprFNode (ctype : String) (fromT : List String)
    (fn : ResolutionFn) : FNode → List RCall × List FNode
  | .colRef _ c => resolveColumnASTLog ctype fromT c fn
  | .binop op l rg p =>
    let rl := processSubexprFNode ctype fromT fn l
    let rr := processSubexprFNode ctype fromT fn rg
    (rl.1 ++ rr.1, [.binop op rl.2 rr.2 p])
  | e => ([], [e])

/-- Modelled from the spec: the external AST-to-text serializer behind
`stringifyExprAST` ("unaliased computed expressions are aliased by
re-serializing the expression itself"); only its output string matters and
no claim below depends on its exact text. -/
def stringifyExprFNode : FNode → String
  | .num q => jsNumToString q
  | .nullV => "NULL"
  | .boolV b => if b then "TRUE" else "FALSE"
  | .strV s => sqS ++ s ++ sqS
  | .colRef _ c => "\"" ++ c ++ "\""
  | .binop op l rg p =>
    let s := stringifyExprFNode l ++ " " ++ op ++ " " ++ stringifyExprFNode rg
    if p then "(" ++ s ++ ")" else s
  | .ext s => s
  | .undefV => "undefined"

/-- `formatColumnFormalize(col, len, as)`. -/
def formatColumnFormalize (col : String) (len : Nat) (as? : Option String) :
    Option String :=
  match as? with
  | some a => if 1 < len then some (a ++ ": " ++ col) else some a
  | none => none

/-- A SELECT-list entry `{expr, as}`. -/
structure FCol where
  expr : FNode
  as?  : Option String
deriving DecidableEq, Repr

/-- An ORDER BY entry `{expr, type}`. -/
structure FOrd where
  expr : FNode
  dir  : String
deriving DecidableEq, Repr

/-- A FROM entry `{db, table, as}` (`createTableAST`). -/
structure FTable where
  db    : Option String
  table : String
  as?   : Option String
deriving DecidableEq, Repr

/-- `createTableAST(table, as)`. -/
def createTableAST (table : String) (as? : Option String := none) : FTable :=
  ⟨none, table, as?⟩

/-- `tweakColumnsAST`. -/
def tweakColumnsLog (fromT : List String) (cols : List FCol)
    (fn : ResolutionFn) : List RCall × List FCol :=
  let rs := cols.map fun col => (col, processExprFNode "columns" fromT fn col.expr)
  (rs.foldl (fun acc p => acc ++ p.2.1) [],
   rs.foldl (fun acc p =>
     let col := p.1
     let exps := p.2.2
     acc ++ exps.map fun exp =>
       match exp with
       | .colRef _ c => (⟨exp, formatColumnFormalize c exps.length col.as?⟩ : FCol)
       | _ => ⟨exp, some (match col.as? with
                          | some a => a
                          | none => stringifyExprFNode exp)⟩) [])

/-- `tweakOrderByAST`. -/
def tweakOrderByLog (fromT : List String) (ords : List FOrd)
    (fn : ResolutionFn) : List RCall × List FOrd :=
  let rs := ords.map fun o => (o, processExprFNode "orderBy" fromT fn o.expr)
  (rs.foldl (fun acc p => acc ++ p.2.1) [],
   rs.foldl (fun acc p => acc ++ p.2.2.map fun exp => (⟨exp, p.1.dir⟩ : FOrd)) [])

/-- `tweakGroupByAST` (note the empty `from` argument in the source). -/
def tweakGroupByLog (gs : List FNode) (fn : ResolutionFn) :
    List RCall × List FNode :=
  let rs := gs.map fun g => processExprFNode "groupBy" [] fn g
  (rs.foldl (fun acc p => acc ++ p.1) [],
   rs.foldl (fun acc p => acc ++ p.2) [])

/-- `scanFromAST`: calls the resolution function once per FROM table;
identifier-shaped results are collected (dequoted, deduplicated), everything
else is kept as a WHERE predicate string. -/
def scanFromASTLog (fromL : List FTable) (fn : ResolutionFn) :
    List RCall × List String × List String :=
  (fromL.map fun b => (⟨b.table, "from", none, []⟩ : RCall),
   fromL.foldl (fun acc b =>
     (fn b.table "from" none []).foldl (fun acc v =>
       if fIDENTIFIER v then (setAdd acc.1 (dequoteIdentifier v), acc.2)
       else (acc.1, acc.2 ++ [v])) acc) ([], []))

/-- Right child of a binary node (`ast.where.right`); `undefV` models the
untyped `undefined` read on other nodes. -/
def fnodeRight : FNode → FNode
  | .binop _ _ r _ => r
  | _ => .undefV

/-- `value === true` test on a node. -/
def fnodeIsTrue : FNode → Bool
  | .boolV true => true
  | _ => false

/-- Set the `parentheses` property (a no-op on nodes without it, matching
the untyped property write). -/
def setParen : FNode → FNode
  | .binop op l r _ => .binop op l r true
  | e => e

/-- `forkWhereAST`: ensure a `TRUE AND TRUE` WHERE skeleton, wrapping any
pre-existing WHERE as the (parenthesized) left branch. -/
def forkWhereAST (w : Option FNode) : FNode :=
  match w with
  | some ow => .binop "AND" (setParen ow) (.boolV true) false
  | none => .binop "AND" (.boolV true) (.boolV true) false

/-- `appendWhereAST(ast, expr)`: splice one FROM-scan predicate into the
WHERE skeleton.  `FNode.ext expr` stands for the externally parsed
parenthesized predicate (the `<>`/`@@` operator shuffle the source performs
for the external parser's sake round-trips and is folded away). -/
def appendWhereAST (w : FNode) (expr : String) : FNode :=
  let pred := FNode.ext expr
  if fnodeIsTrue (fnodeRight w) then
    match w with
    | .binop op l _ p => .binop op l (.binop "OR" (.boolV false) pred true) p
    | e => e
  else
    match w with
    | .binop op l r p =>
      match r with
      | .binop op2 l2 r2 p2 =>
        .binop op l (.binop op2 l2 (.binop "OR" r2 pred false) p2) p
      | _ => w
    | e => e

/-- Top-level SELECT statement tree (the fields `convertToFormalSQL`
touches).  `columns = none` models the string `'*'` column list; `limit` is
the external parser's `[offset, count]` number list. -/
structure TopAST where
  type    : String
  columns : Option (List FCol)
  fromL   : List FTable
  whereN  : Option FNode
  havingN : Option FNode
  orderby : Option (List FOrd)
  groupby : Option (List FNode)
  limit   : Option (List ℚ)
deriving DecidableEq, Repr

/-- `setLimitAST(ast, max)`: clamp the parsed count (`ast.limit[1].value`)
to `max`, or install `max` when no LIMIT was parsed. -/
def setLimitAST (ast : TopAST) (max : ℚ) : TopAST :=
  { ast with limit := some [qMin (match ast.limit with
                                  | some l => l.getD 1 0
                                  | none => max) max] }

/-- Options of `convertToFormalSQL`. -/
structure FormalizeOpts where
  fromD  : Option String
  limit  : Option ℚ
  limits : Option (List (String × ℚ))
deriving DecidableEq, Repr

/-- The limit maximum chosen by `convertToFormalSQL`
(`opt.limits ? opt.limits[ast.from[0].table] || 0 : opt.limit || 0`):
when `opt.limits` is supplied, only the entry for the first FROM table
counts and `opt.limit` is ignored. -/
def limitChoose (limits : Option (List (String × ℚ))) (glimit : Option ℚ)
    (tbl : String) : ℚ :=
  match limits with
  | some m => (m.lookup tbl).getD 0
  | none => glimit.getD 0

/-- The final limit step of `convertToFormalSQL`
(`const lim = …; if (lim) setLimitAST(ast, lim)`). -/
def applyLimitFormalize (ast : TopAST) (opt : FormalizeOpts) : TopAST :=
  let tbl := match ast.fromL.head? with
             | some b => b.table
             | none => ""
  let lim := limitChoose opt.limits opt.limit tbl
  if lim ≠ 0 then setLimitAST ast lim else ast

/-- `convertToFormalSQL(txt, fn, ths, opt)`.  The external grammar parse of
`txt` is an input (`ast`); the final external serialization is left to the
caller, so the result is the rewritten tree.  The first component is the
log of resolution-function calls the conversion performs. -/
def convertToFormalSQLModel (ast : TopAST) (txt : String) (fn : ResolutionFn)
    (opt : FormalizeOpts) : List RCall × Except String TopAST :=
  if ast.type ≠ "select" then
    ([], .error ("Only SELECT supported <<" ++ txt ++ ">>."))
  else
    let scn := scanFromASTLog ast.fromL fn
    let fromIds :=
      if scn.2.1.isEmpty ∧ opt.fromD.isSome then scn.2.1 ++ [opt.fromD.getD ""]
      else scn.2.1
    let rc := match ast.columns with
      | some cols => let r := tweakColumnsLog fromIds cols fn; (r.1, some r.2)
      | none => ([], none)
    let rw := match ast.whereN with
      | some w => let r := processSubexprFNode "where" fromIds fn w; (r.1, some r.2)
      | none => ([], none)
    let rh := match ast.havingN with
      | some h => let r := processSubexprFNode "having" fromIds fn h; (r.1, some r.2)
      | none => ([], none)
    let ro := match ast.orderby with
      | some os => let r := tweakOrderByLog fromIds os fn; (r.1, some r.2)
      | none => ([], none)
    let rg := match ast.groupby with
      | some gs => let r := tweakGroupByLog gs fn; (r.1, some r.2)
      | none => ([], none)
    let wAll := scn.2.2.foldl appendWhereAST (forkWhereAST rw.2)
    let fromL := fromIds.map fun v => createTableAST v
    let fromL := if fromL.isEmpty then [createTableAST "null"] else fromL
    let ast' := { ast with columns := rc.2, whereN := some wAll,
                           havingN := rh.2, orderby := ro.2, groupby := rg.2,
                           fromL := fromL }
    (scn.1 ++ rc.1 ++ rw.1 ++ rh.1 ++ ro.1 ++ rg.1,
     .ok (applyLimitFormalize ast' opt))

/-! ## Spec-side definitions and claim-specific inputs -/

/-- The left-associative sum folding the spec describes ("fold
left-associatively into nested `+` with outer parentheses, `0` if empty, the
bare column if exactly one"); to be compared with `createSumExprAST`. -/
def specLeftFoldSum : List FNode → List FNode
  | [] => [createNumberAST 0]
  | [c] => [c]
  | c0 :: c1 :: rest =>
    [setParen (rest.foldl (fun acc c => createBinaryExprAST "+" acc c)
      (createBinaryExprAST "+" c0 c1))]

/-- A nonempty run of word characters (one source word). -/
def wordRunOk (p : List Char) : Prop :=
  p ≠ [] ∧ ∀ c ∈ p, isWordChar c = true

/-- A single punctuation character: not a word character, not a quote, not
whitespace. -/
def punctOk (p : List Char) : Prop :=
  ∃ c, p = [c] ∧ isWordChar c = false ∧ isQuoteChar c = false ∧ isSpaceJS c = false

/-- Join parts with single spaces (the shape of "already-space-separated"
text). -/
def joinSp : List (List Char) → List Char
  | [] => []
  | [p] => p
  | p :: ps => p ++ ' ' :: joinSp ps

/-- Every part followed by one space (the raw accumulator of
`stringifyTokens` before trimming). -/
def spJoin (ps : List (List Char)) : List Char :=
  (ps.map (fun p => p ++ [' '])).flatten

/-- The empty informalize state. -/
def emptyIState : IState := ⟨[], [], [], [], "", "", 0, [], false, []⟩

/-- Resolution function used by the C2 counterexample: three quoted
identifiers for every request. -/
def c2fn : ResolutionFn := fun _ _ _ _ => ["\"a\"", "\"b\"", "\"c\""]

/-- Resolution function used by the C2 witness: two quoted identifiers. -/
def c2fnW : ResolutionFn := fun _ _ _ _ => ["\"a\"", "\"b\""]

/-- Entity matcher used by the C5 witness: a two-word column at the start,
nothing elsewhere. -/
def c5fn : EntityTestFn := fun ws =>
  if ws = ["a", "b", "x"] then some ⟨"Column", "AB", 2, some "h"⟩ else none

/-- The parsed statement of the C3 counterexample:
`SELECT "c" FROM "apples" LIMIT 100` (the external parser represents the
limit as `[offset, count]`). -/
def c3ast : TopAST :=
  ⟨"select", some [⟨.colRef none "c", none⟩], [⟨none, "apples", none⟩],
   none, none, none, none, some [0, 100]⟩

/-- Resolution function of the C3 counterexample: the FROM table resolves to
the identifier `"b"`, columns to `"x"`. -/
def c3fn : ResolutionFn := fun _ t _ _ =>
  if t == "from" then ["\"b\""] else ["\"x\""]

/-- Options of the C3 counterexample: a global `limit` of 7 and a `limits`
map that has no entry for the resolved table `b`. -/
def c3opt : FormalizeOpts := ⟨none, some 7, some [("a", 5)]⟩

/-- The tree `convertToFormalSQL` produces on the C3 counterexample: the
explicit LIMIT 100 is left untouched. -/
def c3expected : TopAST :=
  ⟨"select", some [⟨.colRef none "x", none⟩], [⟨none, "b", none⟩],
   some (.binop "AND" (.boolV true) (.boolV true) false),
   none, none, none, some [0, 100]⟩

/-! ### C9: the invariant token predicate -/

/-- Tokens that can never feed the FROM-stage rules, now or after any amount
of rewriting: not a Table or Row token, and any Keyword-family token's value
contains neither `GROUP BY` (which would trigger the `"groups"` table
inference) nor `NULL` (which would let the `NULLORDER` rules manufacture new
keyword values). -/
def QTok (t : Token) : Bool :=
  !(t.type == TT.TABLE) && !(t.type == TT.ROW) &&
  (!(t.type &&& 0xF0 == TT.KEYWORD) ||
    (!containsStr (tvalStr t.value) "GROUP BY" &&
     !containsStr (tvalStr t.value) "NULL"))

/-- A rule is harmless for the C9 invariant: whenever it fires on a window
of `QTok` tokens it emits only `QTok` tokens and leaves the accumulated
`from` list untouched. -/
def GoodSub (sub : Substage) : Prop :=
  ∀ (s : IState) (w : List Token), (∀ t ∈ w, QTok t = true) →
    matchSub sub w = true →
    (∀ t ∈ (sub.act s w).2, QTok t = true) ∧ (sub.act s w).1.fromT = s.fromT ∧
    (sub.act s w).1.hints = s.hints

/-- The C9 counterexample input: a lone `GROUP BY` keyword token (no Table
token, no Row token, no supplied default table). -/
def c9tokens : List Token := [createToken TT.KEYWORD (.str "GROUP BY")]

/-- The C9 witness input: a bare cardinal token. -/
def c9wTokens : List Token := [createToken TT.CARDINAL (.num 5)]

/-! # Theorems -/

/-! ## C1 — numeral folding and ordinal handling -/

/-- C1, counterexample: the claim says an ordinal word following a run whose
accumulated total is ≥ 20 *divides* the accumulated value; but on
"twenty third" (total 20, ordinal 3) `processNumberTokens` emits 23 — the
ordinal is added like a further cardinal group — and not 20/3. -/
theorem c1_numeral_folding_counterexample :
    processNumberTokens (parseTokens "twenty third") =
      [createToken TT.CARDINAL (.num 23)] ∧
    processNumberTokens (parseTokens "twenty third") ≠
      [createToken TT.CARDINAL (.num (Rat.divInt 20 3))] := by
  constructor
  · decide
  · decide

/-- C1, amended: `processNumberTokens` folds "twenty nine" to 29,
"one hundred" to 100 and "two thousand" to 2000; an ordinal word reaching a
running total ≥ 20 is handed to `numberStateAdd` — added as a further
cardinal group, e.g. "twenty third" → 23 — while a total *below* 20 is
divided by the ordinal to seed a new fractional value, e.g.
"ten third" → 10/3. -/
theorem c1_numeral_folding_amended :
    processNumberTokens (parseTokens "twenty nine") =
      [createToken TT.CARDINAL (.num 29)] ∧
    processNumberTokens (parseTokens "one hundred") =
      [createToken TT.CARDINAL (.num 100)] ∧
    processNumberTokens (parseTokens "two thousand") =
      [createToken TT.CARDINAL (.num 2000)] ∧
    processNumberTokens (parseTokens "twenty third") =
      [createToken TT.CARDINAL (.num 23)] ∧
    processNumberTokens (parseTokens "ten third") =
      [createToken TT.CARDINAL (.num (Rat.divInt 10 3))] ∧
    (∀ (s : List NumGroup) (num : ℚ), 20 ≤ (numberStateValue s none).1 →
      numberStateAddOrdinal s num =
        numberStateAdd (numberStateValue s none).2 num) ∧
    (∀ (s : List NumGroup) (num : ℚ), (numberStateValue s none).1 < 20 →
      numberStateAddOrdinal s num =
        [⟨qDiv (numberStateValue s none).1 num, 1, 0⟩]) := by
  refine ⟨by decide, by decide, by decide, by decide, by decide, ?_, ?_⟩
  · intro s num h
    simp only [numberStateAddOrdinal]
    rw [if_pos h]
  · intro s num h
    simp only [numberStateAddOrdinal]
    rw [if_neg (not_le.mpr h)]

/-- C1, witness: the two conditional clauses of the amended theorem at the
states reached after "twenty" (total 20) and after "ten" (total 10). -/
theorem c1_numeral_folding_witness :
    numberStateAddOrdinal [⟨20, 2, 1⟩] 3 =
      numberStateAdd (numberStateValue [⟨20, 2, 1⟩] none).2 3 ∧
    numberStateAddOrdinal [⟨10, 2, 0⟩] 3 =
      [⟨qDiv (numberStateValue [⟨10, 2, 0⟩] none).1 3, 1, 0⟩] :=
  ⟨c1_numeral_folding_amended.2.2.2.2.2.1 [⟨20, 2, 1⟩] 3 (by decide),
   c1_numeral_folding_amended.2.2.2.2.2.2 [⟨10, 2, 0⟩] 3 (by decide)⟩

/-! ## C7 — cardinal × mass-unit folding -/

/-- C7: in the `NUMBER` rewriting stage a `Cardinal` token immediately
followed by a mass-unit token becomes a single `Cardinal` token carrying the
product of the cardinal's value and the unit's gram-scale factor (for any
values); and "twenty nine mg", after the numeral and unit normalizers and
that stage, is the single `Cardinal` 29/1000 = 0.029. -/
theorem c7_unit_folding :
    (∀ (s : IState) (c u : ℚ),
      runInformalizeStage NUMBER s
        [createToken TT.CARDINAL (.num c), createToken TT.MASS (.num u)] =
      (s, [createToken TT.CARDINAL (.num (qMul c u))])) ∧
    processUnitTokens (processNumberTokens (parseTokens "twenty nine mg")) =
      [createToken TT.CARDINAL (.num 29),
       createToken TT.MASS (.num (Rat.divInt 1 1000))] ∧
    (runInformalizeStage NUMBER emptyIState
      (processUnitTokens (processNumberTokens (parseTokens "twenty nine mg")))).2 =
      [createToken TT.CARDINAL (.num (Rat.divInt 29 1000))] := by
  refine ⟨?_, by decide, by decide⟩
  intro s c u
  simp [runInformalizeStage, runStageGo, runRound, runInformalizeSubstage,
        runPassF, matchSub, matchTypes, matchVals, NUMBER, nm1, nm2,
        createToken, tvQ, tvalNum, TT.CARDINAL, TT.MASS, TT.ORDINAL, TT.UNIT]
  decide

/-! ## C6 — unterminated quotes -/

/-- A quote character is not a word character. -/
theorem quote_not_word {c : Char} (h : isQuoteChar c = true) :
    isWordChar c = false := by
  simp only [isQuoteChar, Bool.or_eq_true, beq_iff_eq] at h
  rcases h with (h | h) | h <;> subst h <;> decide

/-- Inside an open quote, every character other than the quote itself is
accumulated; reaching the end of input flushes the accumulator as one
(Quoted) token. -/
theorem parseGo_quoted_tail (q : Char) (w x : List Char)
    (hw : ∀ c ∈ w, c ≠ q) :
    parseGo (some q) x w = flushTok (some q) (x ++ w) := by
  induction w generalizing x with
  | nil => simp [parseGo]
  | cons c cs ih =>
    have hc : c ≠ q := hw c (by simp)
    simp only [parseGo]
    have hcond : ¬ (some q = some c) := by
      simp only [Option.some.injEq]
      exact fun h => hc h.symm
    rw [if_pos (by simp [hcond])]
    rw [ih (x ++ [c]) (fun d hd => hw d (List.mem_cons_of_mem _ hd))]
    simp

/-- An opening quote that is never closed: the scanner accumulates the whole
tail and flushes it as a `QUOTED` token at end of input. -/
theorem parseGo_unterminated (q : Char) (w : List Char)
    (hq : isQuoteChar q = true) (hw : ∀ c ∈ w, c ≠ q) (hwne : w ≠ []) :
    ∀ (pre x : List Char), (∀ c ∈ pre, isQuoteChar c = false) →
    parseGo none x (pre ++ q :: w) =
      parseGo none x pre ++ [createToken TT.QUOTED (.str (String.mk w))] := by
  intro pre
  induction pre with
  | nil =>
    intro x _
    show parseGo none x (q :: w) = _
    simp only [parseGo]
    rw [if_neg (by simp [quote_not_word hq])]
    rw [if_pos hq]
    simp only [Option.isNone_none, if_true]
    rw [parseGo_quoted_tail q w [] hw]
    simp [flushTok, hwne, parseGo]
  | cons c pre ih =>
    intro x hpre
    have hc : isQuoteChar c = false := hpre c (by simp)
    have hpre' : ∀ d ∈ pre, isQuoteChar d = false :=
      fun d hd => hpre d (List.mem_cons_of_mem _ hd)
    have hstep : ∀ (y rest : List Char),
        parseGo none y (c :: rest) =
          if isWordChar c then parseGo none (y ++ [c]) rest
          else flushTok none y ++
            (if !isSpaceJS c then
              createToken TT.TEXT (.str (String.mk [c])) :: parseGo none [] rest
            else parseGo none [] rest) := by
      intro y rest
      simp only [parseGo]
      simp only [Option.isSome_none, Bool.false_and, Bool.false_or, hc,
                 Bool.false_eq_true, if_false]
    show parseGo none x (c :: (pre ++ q :: w)) = parseGo none x (c :: pre) ++ _
    rw [hstep, hstep]
    cases hword : isWordChar c
    · simp only [Bool.false_eq_true, if_false]
      cases hsp : isSpaceJS c
      · simp only [Bool.not_false, if_true]
        rw [ih [] hpre']
        simp
      · simp only [Bool.not_true, Bool.false_eq_true, if_false]
        rw [ih [] hpre']
        simp
    · simp only [if_true]
      exact ih (x ++ [c]) hpre'

/-- C6, counterexample: on the unterminated input `'abc` the trailing span
is emitted as a `Quoted` token, not as plain `Text` as the claim states. -/
theorem c6_unterminated_counterexample :
    parseTokens (String.mk [aposC, 'a', 'b', 'c']) =
      [createToken TT.QUOTED (.str "abc")] ∧
    TT.QUOTED ≠ TT.TEXT := by
  constructor
  · decide
  · decide

/-- C6, amended: for every input formed of a quote-free prefix, an opening
quote, and a nonempty tail that never repeats the quote character,
`parseTokens` silently emits the trailing span as a single `Quoted` token
(it never raises an error — the scanner is total); the span is not tagged
as plain `Text`. -/
theorem c6_unterminated_amended (pre w : List Char) (q : Char)
    (hq : isQuoteChar q = true) (hpre : ∀ c ∈ pre, isQuoteChar c = false)
    (hw : ∀ c ∈ w, c ≠ q) (hwne : w ≠ []) :
    parseTokensL (pre ++ q :: w) =
      parseTokensL pre ++ [createToken TT.QUOTED (.str (String.mk w))] :=
  parseGo_unterminated q w hq hw hwne pre [] hpre

/-- C6, witness: the amended theorem on the input `don't`. -/
theorem c6_unterminated_witness :
    parseTokensL ("don".data ++ aposC :: "t".data) =
      parseTokensL "don".data ++
        [createToken TT.QUOTED (.str (String.mk "t".data))] :=
  c6_unterminated_amended "don".data "t".data aposC (by decide)
    (by decide) (by decide) (by decide)

/-! ## C8 — tokenize/stringify round trip -/

/-- A word character is not whitespace. -/
theorem word_not_space {c : Char} (h : isWordChar c = true) :
    isSpaceJS c = false := by
  cases hs : isSpaceJS c
  · rfl
  · exfalso
    simp only [isSpaceJS, Bool.or_eq_true, beq_iff_eq] at hs
    rcases hs with ((((hs | hs) | hs) | hs) | hs) | hs <;> subst hs <;>
      exact absurd h (by decide)

/-- A word character is not a quote. -/
theorem word_not_quote {c : Char} (h : isWordChar c = true) :
    isQuoteChar c = false := by
  cases hq : isQuoteChar c
  · rfl
  · exact absurd (quote_not_word hq) (by simp [h])

/-- Scanning a run of word characters accumulates them all. -/
theorem parseGo_wordrun :
    ∀ (w : List Char), (∀ c ∈ w, isWordChar c = true) →
    ∀ (x rest : List Char),
      parseGo none x (w ++ rest) = parseGo none (x ++ w) rest := by
  intro w
  induction w with
  | nil => intro _ x rest; simp
  | cons c cs ih =>
    intro hw x rest
    have hc := hw c (by simp)
    show parseGo none x (c :: (cs ++ rest)) = _
    simp only [parseGo]
    rw [if_pos (by simp [hc])]
    rw [ih (fun d hd => hw d (List.mem_cons_of_mem _ hd)) (x ++ [c]) rest]
    rw [List.append_assoc]
    rfl

/-- A space flushes the accumulator and produces no token. -/
theorem parseGo_space (x rest : List Char) :
    parseGo none x (' ' :: rest) = flushTok none x ++ parseGo none [] rest := by
  simp only [parseGo]
  rw [if_neg (by decide), if_neg (by decide), if_neg (by decide)]

/-- A punctuation character becomes its own `Text` token. -/
theorem parseGo_punct (c : Char) (hcw : isWordChar c = false)
    (hcq : isQuoteChar c = false) (hcs : isSpaceJS c = false)
    (rest : List Char) :
    parseGo none [] (c :: rest) =
      createToken TT.TEXT (.str (String.mk [c])) :: parseGo none [] rest := by
  simp only [parseGo]
  rw [if_neg (by simp [hcw]), if_neg (by simp [hcq]), if_pos (by simp [hcs])]
  simp [flushTok]

/-- Tokenizing space-separated word runs and punctuation yields exactly one
`Text` token per part. -/
theorem parse_joinSp :
    ∀ (ps : List (List Char)), (∀ p ∈ ps, wordRunOk p ∨ punctOk p) →
    parseTokensL (joinSp ps) =
      ps.map (fun p => createToken TT.TEXT (.str (String.mk p))) := by
  intro ps
  induction ps with
  | nil => intro _; rfl
  | cons p ps ih =>
    intro h
    have hp := h p (by simp)
    have hps := fun r hr => h r (List.mem_cons_of_mem _ hr)
    cases ps with
    | nil =>
      show parseTokensL p = _
      rcases hp with ⟨hne, hw⟩ | ⟨c, hpc, hcw, hcq, hcs⟩
      · have h1 := parseGo_wordrun p hw [] []
        rw [List.append_nil] at h1
        unfold parseTokensL
        rw [h1]
        simp [parseGo, flushTok, hne]
      · subst hpc
        unfold parseTokensL
        rw [parseGo_punct c hcw hcq hcs []]
        rfl
    | cons p2 ps2 =>
      show parseTokensL (p ++ ' ' :: joinSp (p2 :: ps2)) = _
      rcases hp with ⟨hne, hw⟩ | ⟨c, hpc, hcw, hcq, hcs⟩
      · unfold parseTokensL
        rw [parseGo_wordrun p hw [] (' ' :: joinSp (p2 :: ps2))]
        rw [List.nil_append, parseGo_space]
        rw [show flushTok none p =
              [createToken TT.TEXT (.str (String.mk p))] by simp [flushTok, hne]]
        have := ih hps
        unfold parseTokensL at this
        rw [this]
        rfl
      · subst hpc
        unfold parseTokensL
        show parseGo none [] (c :: (' ' :: joinSp (p2 :: ps2))) = _
        rw [parseGo_punct c hcw hcq hcs]
        rw [parseGo_space]
        rw [show flushTok none ([] : List Char) = [] by simp [flushTok]]
        have := ih hps
        unfold parseTokensL at this
        rw [List.nil_append, this]
        rfl

/-- The accumulator of `stringifyTokens` over pure text tokens. -/
theorem stringify_foldl :
    ∀ (ps : List (List Char)) (a : List Char),
      (ps.map (fun p => createToken TT.TEXT (.str (String.mk p)))).foldl
        (fun a t => a ++ (tvalStr t.value).data ++ [' ']) a = a ++ spJoin ps := by
  intro ps
  induction ps with
  | nil => intro a; simp [spJoin]
  | cons p ps ih =>
    intro a
    simp only [List.map_cons, List.foldl_cons]
    rw [ih]
    simp [spJoin, tvalStr, createToken, List.append_assoc]

/-- The raw accumulator is the space-joined text plus one trailing space. -/
theorem spJoin_eq : ∀ (ps : List (List Char)), ps ≠ [] →
    spJoin ps = joinSp ps ++ [' '] := by
  intro ps
  induction ps with
  | nil => intro h; exact absurd rfl h
  | cons p ps ih =>
    intro _
    cases ps with
    | nil => simp [spJoin, joinSp]
    | cons p2 ps2 =>
      show spJoin (p :: p2 :: ps2) = (p ++ ' ' :: joinSp (p2 :: ps2)) ++ [' ']
      have := ih (by simp)
      simp only [spJoin, List.map_cons, List.flatten_cons] at this ⊢
      rw [this]
      simp

/-- `joinSp` of nonempty parts is nonempty. -/
theorem joinSp_ne_nil : ∀ (ps : List (List Char)), ps ≠ [] →
    (∀ p ∈ ps, p ≠ []) → joinSp ps ≠ [] := by
  intro ps
  induction ps with
  | nil => intro h; exact absurd rfl h
  | cons p ps _ =>
    intro _ hne
    cases ps with
    | nil => exact hne p (by simp)
    | cons p2 ps2 =>
      show p ++ ' ' :: joinSp (p2 :: ps2) ≠ []
      simp

/-- Every character of `joinSp ps` is a character of some part or the
separating space. -/
theorem joinSp_mem : ∀ (ps : List (List Char)) (c : Char), c ∈ joinSp ps →
    c = ' ' ∨ ∃ p ∈ ps, c ∈ p := by
  intro ps
  induction ps with
  | nil => intro c hc; simp [joinSp] at hc
  | cons p ps ih =>
    intro c hc
    cases ps with
    | nil =>
      right; exact ⟨p, by simp, hc⟩
    | cons p2 ps2 =>
      rw [show joinSp (p :: p2 :: ps2) = p ++ ' ' :: joinSp (p2 :: ps2) from rfl] at hc
      rcases List.mem_append.mp hc with hc | hc
      · right; exact ⟨p, by simp, hc⟩
      · rcases List.mem_cons.mp hc with hc | hc
        · left; exact hc
        · rcases ih c hc with hc | ⟨q, hq, hcq⟩
          · left; exact hc
          · right; exact ⟨q, List.mem_cons_of_mem _ hq, hcq⟩

/-- The first character of `joinSp (p :: ps)` is the first character of
`p`. -/
theorem joinSp_head (p : List Char) (ps : List (List Char)) (hne : p ≠ []) :
    (joinSp (p :: ps)).head? = p.head? := by
  cases ps with
  | nil => rfl
  | cons p2 ps2 =>
    show (p ++ ' ' :: joinSp (p2 :: ps2)).head? = p.head?
    cases p with
    | nil => exact absurd rfl hne
    | cons c cs => rfl

/-- The last character of `joinSp ps` lies in the last part. -/
theorem joinSp_getLast : ∀ (ps : List (List Char)), (∀ p ∈ ps, p ≠ []) →
    ∀ c, (joinSp ps).getLast? = some c → ∃ p ∈ ps, c ∈ p := by
  intro ps
  induction ps with
  | nil => intro _ c hc; simp [joinSp] at hc
  | cons p ps ih =>
    intro hne c hc
    cases ps with
    | nil =>
      refine ⟨p, by simp, ?_⟩
      have hmem : c ∈ (joinSp [p]).getLast? := by rw [hc]; rfl
      obtain ⟨hh, rfl⟩ := List.mem_getLast?_eq_getLast hmem
      exact List.getLast_mem hh
    | cons p2 ps2 =>
      rw [show joinSp (p :: p2 :: ps2) = p ++ ' ' :: joinSp (p2 :: ps2) from rfl,
          List.getLast?_append_cons] at hc
      have hjne : joinSp (p2 :: ps2) ≠ [] :=
        joinSp_ne_nil _ (by simp) (fun q hq => hne q (List.mem_cons_of_mem _ hq))
      obtain ⟨d, rs, hdr⟩ : ∃ d rs, joinSp (p2 :: ps2) = d :: rs := by
        cases hj : joinSp (p2 :: ps2) with
        | nil => exact absurd hj hjne
        | cons d rs => exact ⟨d, rs, rfl⟩
      rw [hdr, List.getLast?_cons_cons] at hc
      rcases ih (fun q hq => hne q (List.mem_cons_of_mem _ hq)) c
        (by rw [hdr]; exact hc) with ⟨q, hq, hcq⟩
      exact ⟨q, List.mem_cons_of_mem _ hq, hcq⟩

/-- Trimming the trailing space recovers a space-free-ended string. -/
theorem jsTrim_append_space (s : List Char)
    (h1 : ∀ c, s.head? = some c → isSpaceJS c = false)
    (h2 : ∀ c, s.getLast? = some c → isSpaceJS c = false) :
    jsTrim (s ++ [' ']) = s := by
  cases s with
  | nil => decide
  | cons c t =>
    have hc : isSpaceJS c = false := h1 c rfl
    unfold jsTrim
    rw [show ((c :: t) ++ [' ']) = c :: (t ++ [' ']) from rfl]
    rw [List.dropWhile_cons, if_neg (by simp [hc])]
    rw [show (c :: (t ++ [' '])) = (c :: t) ++ [' '] from rfl]
    rw [List.reverse_append]
    rw [show ([' '].reverse ++ (c :: t).reverse) = ' ' :: (c :: t).reverse from rfl]
    rw [List.dropWhile_cons, if_pos (by decide)]
    have : (c :: t).reverse.dropWhile isSpaceJS = (c :: t).reverse := by
      cases hrev : (c :: t).reverse with
      | nil => simp at hrev
      | cons d rs =>
        have hd : (c :: t).getLast? = some d := by
          rw [← List.head?_reverse, hrev]; rfl
        rw [List.dropWhile_cons, if_neg (by simp [h2 d hd])]
    rw [this, List.reverse_reverse]

/-- C8: tokenizing already-space-separated ASCII word/punctuation text and
re-joining with single spaces reproduces the input exactly. -/
theorem c8_roundtrip (ps : List (List Char))
    (h : ∀ p ∈ ps, wordRunOk p ∨ punctOk p) :
    stringifyTokens (parseTokens (String.mk (joinSp ps))) =
      String.mk (joinSp ps) := by
  have hparse : parseTokens (String.mk (joinSp ps)) =
      ps.map (fun p => createToken TT.TEXT (.str (String.mk p))) := by
    show parseTokensL (String.mk (joinSp ps)).data = _
    exact parse_joinSp ps h
  rw [hparse]
  unfold stringifyTokens stringifyTokensL
  rw [stringify_foldl ps [], List.nil_append]
  cases hps : ps with
  | nil => rfl
  | cons p0 ps0 =>
    rw [← hps, spJoin_eq ps (by simp [hps])]
    have hne : ∀ p ∈ ps, p ≠ [] := by
      intro p hp
      rcases h p hp with ⟨hne, _⟩ | ⟨c, hpc, _, _, _⟩
      · exact hne
      · subst hpc; simp
    have hnsp : ∀ p ∈ ps, ∀ c ∈ p, isSpaceJS c = false := by
      intro p hp c hc
      rcases h p hp with ⟨_, hw⟩ | ⟨d, hpc, hdw, _, hds⟩
      · exact word_not_space (hw c hc)
      · subst hpc
        rcases List.mem_singleton.mp hc with rfl
        exact hds
    congr 1
    apply jsTrim_append_space
    · intro c hc
      rw [hps] at hc
      rw [joinSp_head p0 ps0 (hne p0 (by rw [hps]; simp))] at hc
      exact hnsp p0 (by rw [hps]; simp) c (List.mem_of_mem_head? hc)
    · intro c hc
      rcases joinSp_getLast ps hne c hc with ⟨p, hp, hcp⟩
      exact hnsp p hp c hcp

/-- C8, witness: the round trip on `show food < 29`-like part structure. -/
theorem c8_roundtrip_witness :
    stringifyTokens (parseTokens (String.mk (joinSp
      [['s','h','o','w'], ['f','o','o','d'], ['<'], ['2','9']]))) =
    String.mk (joinSp [['s','h','o','w'], ['f','o','o','d'], ['<'], ['2','9']]) := by
  apply c8_roundtrip
  intro p hp
  simp only [List.mem_cons, List.not_mem_nil, or_false] at hp
  rcases hp with rfl | rfl | rfl | rfl
  · left; exact ⟨by simp, by decide⟩
  · left; exact ⟨by simp, by decide⟩
  · right; exact ⟨'<', rfl, by decide, by decide, by decide⟩
  · left; exact ⟨by simp, by decide⟩

/-! ## C5 — entity scanning steps -/

/-- C5: at every position still inside the word run, a `null` matcher result
consumes exactly one word, emitted as a literal `Text` token; a match
consumes exactly `length` words and emits one token typed by the
case-insensitive first letter of the match's type string (`t`/`c`/`r` →
Table/Column/Row, anything else → `NONE`), carrying the match's value and
its hint (`null` when absent); and a matcher that never matches turns every
word into a `Text` token. -/
theorem c5_entity_block_scan :
    (∀ (fn : EntityTestFn) (txts : List String) (i fuel : Nat),
      i < txts.length →
      (fn (txts.drop i) = none →
        entityBlockScanGo fn txts (fuel + 1) i =
          (entityBlockScanGo fn txts fuel (i + 1)).map
            (·.map (createToken TT.TEXT (.str (txts.getD i "")) :: ·))) ∧
      (∀ ans c cs, fn (txts.drop i) = some ans → ans.type.data = c :: cs →
        entityBlockScanGo fn txts (fuel + 1) i =
          (entityBlockScanGo fn txts fuel (i + ans.length)).map
            (·.map (createToken (entityTypeOf c) (.str ans.value)
                     (jsHintOrNull ans.hint) :: ·)))) ∧
    (entityTypeOf 'T' = TT.TABLE ∧ entityTypeOf 'c' = TT.COLUMN ∧
     entityTypeOf 'R' = TT.ROW ∧ entityTypeOf 'x' = TT.NONE) ∧
    (∀ (txts : List String),
      entityBlockScan (fun _ => none) txts =
        some (.ok (txts.map fun w => createToken TT.TEXT (.str w)))) := by
  refine ⟨?_, by refine ⟨by decide, by decide, by decide, by decide⟩, ?_⟩
  · intro fn txts i fuel hi
    constructor
    · intro hnone
      rw [entityBlockScanGo, if_neg (by omega)]
      rw [hnone]
    · intro ans c cs hsome hty
      rw [entityBlockScanGo, if_neg (by omega)]
      simp only [hsome, hty]
  · intro txts
    suffices h : ∀ (fuel i : Nat), txts.length - i ≤ fuel →
        entityBlockScanGo (fun _ => none) txts fuel i =
          some (.ok ((txts.drop i).map fun w => createToken TT.TEXT (.str w))) by
      have := h txts.length 0 (by omega)
      simpa [entityBlockScan] using this
    intro fuel
    induction fuel with
    | zero =>
      intro i hi
      rw [entityBlockScanGo, if_pos (by omega)]
      rw [List.drop_eq_nil_of_le (by omega)]
      rfl
    | succ fuel ih =>
      intro i hi
      by_cases hl : txts.length ≤ i
      · rw [entityBlockScanGo, if_pos hl]
        rw [List.drop_eq_nil_of_le hl]
        rfl
      · rw [entityBlockScanGo, if_neg hl]
        rw [ih (i + 1) (by omega)]
        have hdrop : txts.drop i = txts.getD i "" :: txts.drop (i + 1) := by
          rw [List.drop_eq_getElem_cons (show i < txts.length by omega)]
          congr 1
          simp [List.getD, List.getElem?_eq_getElem (show i < txts.length by omega)]
        rw [hdrop]
        rfl

/-- C5, witness: one match step (a two-word `Column` entity) and one null
step of the scanner on a concrete three-word run. -/
theorem c5_entity_block_scan_witness :
    entityBlockScanGo c5fn ["a", "b", "x"] 3 0 =
      (entityBlockScanGo c5fn ["a", "b", "x"] 2 2).map
        (·.map (createToken (entityTypeOf 'C') (.str "AB")
                 (jsHintOrNull (some "h")) :: ·)) ∧
    entityBlockScanGo c5fn ["a", "b", "x"] 2 2 =
      (entityBlockScanGo c5fn ["a", "b", "x"] 1 3).map
        (·.map (createToken TT.TEXT (.str "x") :: ·)) := by
  constructor
  · exact (c5_entity_block_scan.1 c5fn ["a", "b", "x"] 0 2 (by decide)).2
      ⟨"Column", "AB", 2, some "h"⟩ 'C' "olumn".data (by decide) (by decide)
  · have h := (c5_entity_block_scan.1 c5fn ["a", "b", "x"] 2 1 (by decide)).1
      (by decide)
    simpa using h

/-! ## C10 — termination and single consumption of the entity scan -/

/-- C10: whenever every match carries `length ≥ 1`, the scan of a finite
word run terminates (the index strictly advances, so the word-count fuel
suffices); when additionally no match has an empty type string (the
interface guarantees `table|column|row`), the consumed chunks concatenate to
exactly the input — every word is consumed exactly once; and a matcher
returning `length = 0` makes the loop run forever (no amount of fuel
completes it). -/
theorem c10_entity_scan_termination :
    (∀ (fn : EntityTestFn) (txts : List String),
      (∀ ws ans, fn ws = some ans → 1 ≤ ans.length) →
      (entityBlockScan fn txts).isSome = true) ∧
    (∀ (fn : EntityTestFn) (txts : List String),
      (∀ ws ans, fn ws = some ans → 1 ≤ ans.length ∧ ans.type ≠ "") →
      ∃ chunks, entityBlockScanChunks fn txts txts.length 0 = some chunks ∧
        chunks.flatten = txts) ∧
    (∀ (txts : List String) (fuel : Nat), txts ≠ [] →
      entityBlockScanGo (fun _ => some ⟨"table", "v", 0, none⟩) txts fuel 0 =
        none) := by
  refine ⟨?_, ?_, ?_⟩
  · intro fn txts hlen
    suffices h : ∀ (fuel i : Nat), txts.length - i ≤ fuel →
        (entityBlockScanGo fn txts fuel i).isSome = true from
      h txts.length 0 (by omega)
    intro fuel
    induction fuel with
    | zero =>
      intro i hi
      rw [entityBlockScanGo, if_pos (by omega)]
      rfl
    | succ fuel ih =>
      intro i hi
      by_cases hl : txts.length ≤ i
      · rw [entityBlockScanGo, if_pos hl]; rfl
      · rw [entityBlockScanGo, if_neg hl]
        cases hfn : fn (txts.drop i) with
        | none =>
          have := ih (i + 1) (by omega)
          simp [this]
        | some ans =>
          cases hty : ans.type.data with
          | nil => simp [hty]
          | cons c cs =>
            have hlen' := hlen _ _ hfn
            have := ih (i + ans.length) (by omega)
            simp [hty, this]
  · intro fn txts hfn
    suffices h : ∀ (fuel i : Nat), txts.length - i ≤ fuel →
        ∃ chunks, entityBlockScanChunks fn txts fuel i = some chunks ∧
          chunks.flatten = txts.drop i by
      obtain ⟨chunks, h1, h2⟩ := h txts.length 0 (by omega)
      exact ⟨chunks, h1, by simpa using h2⟩
    intro fuel
    induction fuel with
    | zero =>
      intro i hi
      rw [entityBlockScanChunks, if_pos (by omega)]
      exact ⟨[], rfl, by rw [List.drop_eq_nil_of_le (by omega)]; rfl⟩
    | succ fuel ih =>
      intro i hi
      by_cases hl : txts.length ≤ i
      · rw [entityBlockScanChunks, if_pos hl]
        exact ⟨[], rfl, by rw [List.drop_eq_nil_of_le hl]; rfl⟩
      · rw [entityBlockScanChunks, if_neg hl]
        have hdrop : txts.drop i = txts.getD i "" :: txts.drop (i + 1) := by
          rw [List.drop_eq_getElem_cons (show i < txts.length by omega)]
          congr 1
          simp [List.getD, List.getElem?_eq_getElem (show i < txts.length by omega)]
        cases hcall : fn (txts.drop i) with
        | none =>
          obtain ⟨chunks, h1, h2⟩ := ih (i + 1) (by omega)
          refine ⟨[txts.getD i ""] :: chunks, ?_, ?_⟩
          · simp [h1]
          · simp only [List.flatten_cons, h2]
            rw [hdrop]
            rfl
        | some ans =>
          obtain ⟨hlen1, hty1⟩ := hfn _ _ hcall
          obtain ⟨c, cs, hty⟩ : ∃ c cs, ans.type.data = c :: cs := by
            cases hd : ans.type.data with
            | nil =>
              exfalso
              apply hty1
              have heta : ans.type = String.mk ans.type.data := rfl
              rw [hd] at heta
              exact heta
            | cons c cs => exact ⟨c, cs, rfl⟩
          simp only [hty]
          obtain ⟨chunks, h1, h2⟩ := ih (i + ans.length) (by omega)
          refine ⟨(txts.drop i).take ans.length :: chunks, ?_, ?_⟩
          · simp [h1]
          · simp only [List.flatten_cons, h2]
            rw [← List.drop_drop, List.take_append_drop]
  · intro txts fuel hne
    induction fuel with
    | zero =>
      rw [entityBlockScanGo, if_neg (by cases txts <;> simp_all)]
    | succ fuel ih =>
      rw [entityBlockScanGo, if_neg (by cases txts <;> simp_all)]
      simp [ih]

/-- C10, witness: the termination and exactly-once clauses at a concrete
never-matching matcher on a two-word run. -/
theorem c10_entity_scan_witness :
    (entityBlockScan (fun _ => none) ["a", "b"]).isSome = true ∧
    ∃ chunks,
      entityBlockScanChunks (fun _ => none) ["a", "b"] 2 0 = some chunks ∧
      chunks.flatten = ["a", "b"] :=
  ⟨c10_entity_scan_termination.1 (fun _ => none) ["a", "b"]
      (fun ws ans h => by simp at h),
   c10_entity_scan_termination.2.1 (fun _ => none) ["a", "b"]
      (fun ws ans h => by simp at h)⟩

/-! ## C2 — sum/avg folding of resolved column values -/

/-- C2, counterexample: on three resolved values the code builds
`a + (b + c)` — the first value is the left operand of the outer `+` and the
*rest* folds inside the right operand — which differs from the claimed
left-associative fold `(a + b) + c`. -/
theorem c2_sum_fold_counterexample :
    resolveColumnAST "columns" ["t"] "sum: x" c2fn =
      [createBinaryExprAST "+" (createColumnAST "a")
        (createBinaryExprAST "+" (createColumnAST "b") (createColumnAST "c"))
        true] ∧
    resolveColumnAST "columns" ["t"] "sum: x" c2fn ≠
      specLeftFoldSum
        [createColumnAST "a", createColumnAST "b", createColumnAST "c"] := by
  constructor
  · decide
  · decide

/-- C2, amended: under a `sum` hint `resolveColumnAST` returns the number
literal 0 for no values, the bare parsed node for exactly one, and otherwise
the outer parenthesized `+` whose *left* operand is the first value and
whose right operand folds the remaining values left-associatively; under an
`avg` hint it returns that sum divided by the value count for nonempty
results and the literal 0 (not `0/0`) for an empty result. -/
theorem c2_sum_fold_amended :
    (∀ (fn : ResolutionFn) (fromT : List String) (txt : String)
       (vals : List String),
      hasHintPrefixI txt ["all", "each", "every"] = false →
      hasHintPrefixI txt ["sum", "gross", "total", "whole", "aggregate"] = true →
      fn (dropThroughColon txt) "columns" (some "sum") fromT = vals →
      resolveColumnAST "columns" fromT txt fn =
        (match vals.map parseValueAST with
         | [] => [createNumberAST 0]
         | [c] => [c]
         | c0 :: c1 :: rest =>
           [createBinaryExprAST "+" c0
             (rest.foldl (fun r c => createBinaryExprAST "+" r c) c1) true])) ∧
    (∀ (fn : ResolutionFn) (fromT : List String) (txt : String)
       (vals : List String),
      hasHintPrefixI txt ["all", "each", "every"] = false →
      hasHintPrefixI txt ["sum", "gross", "total", "whole", "aggregate"] = false →
      hasHintPrefixI txt
        ["avg", "mid", "par", "mean", "norm", "center", "centre", "average",
         "midpoint"] = true →
      fn (dropThroughColon txt) "columns" (some "avg") fromT = vals →
      resolveColumnAST "columns" fromT txt fn =
        (match vals.map parseValueAST with
         | [] => [createNumberAST 0]
         | l => [createBinaryExprAST "/" ((createSumExprAST l).headD .undefV)
                 (createNumberAST (Rat.divInt l.length 1)) true])) := by
  constructor
  · intro fn fromT txt vals hall hsum hfn
    unfold resolveColumnAST resolveColumnASTLog
    simp only [hall, hsum, Bool.false_eq_true, if_false, if_true,
               Option.isSome_some]
    rw [hfn]
    rfl
  · intro fn fromT txt vals hall hsum havg hfn
    unfold resolveColumnAST resolveColumnASTLog
    simp only [hall, hsum, havg, Bool.false_eq_true, if_false, if_true,
               Option.isSome_some]
    rw [hfn]
    cases vals.map parseValueAST with
    | nil => rfl
    | cons c cs => rfl

/-- C2, witness: the sum clause of the amended theorem on two resolved
quoted identifiers. -/
theorem c2_sum_fold_witness :
    resolveColumnAST "columns" ["t"] "sum: x" c2fnW =
      [createBinaryExprAST "+" (createColumnAST "a") (createColumnAST "b")
        true] := by
  have h := c2_sum_fold_amended.1 c2fnW ["t"] "sum: x" ["\"a\"", "\"b\""]
    (by decide) (by decide) (by decide)
  simpa using h

/-! ## C3 — limit capping and injection -/

/-- C3, counterexample: with `opt.limits = [("a", 5)]`, a global
`opt.limit = 7`, and the FROM table resolving to `b`, the explicit
`LIMIT 100` survives unchanged — the claim's fallback to the global maximum
does not happen when `opt.limits` is supplied but lacks the table. -/
theorem c3_limit_counterexample :
    (convertToFormalSQLModel c3ast "t" c3fn c3opt).2 = .ok c3expected ∧
    c3expected.limit = some [0, 100] ∧
    c3expected.fromL = [createTableAST "b"] ∧
    c3opt.limit = some 7 ∧ c3opt.limits = some [("a", 5)] := by
  refine ⟨rfl, rfl, rfl, rfl, rfl⟩

/-- C3, amended: the limit maximum is the `opt.limits` entry of the first
resolved FROM table when `opt.limits` is supplied (the global `opt.limit`
being ignored then, even when the entry is missing), and the global
`opt.limit` only when `opt.limits` is absent; a nonzero maximum clamps an
explicit `LIMIT [offset, n]` to `min n max` and is injected as the limit
when none was present. -/
theorem c3_limit_amended :
    (∀ (ast : TopAST) (opt : FormalizeOpts) (m : List (String × ℚ))
       (tb : FTable) (v : ℚ),
      ast.fromL.head? = some tb → opt.limits = some m →
      m.lookup tb.table = some v → v ≠ 0 →
      applyLimitFormalize ast opt = setLimitAST ast v) ∧
    (∀ (ast : TopAST) (opt : FormalizeOpts) (m : List (String × ℚ))
       (tb : FTable),
      ast.fromL.head? = some tb → opt.limits = some m →
      m.lookup tb.table = none → applyLimitFormalize ast opt = ast) ∧
    (∀ (ast : TopAST) (opt : FormalizeOpts) (g : ℚ),
      opt.limits = none → opt.limit = some g → g ≠ 0 →
      applyLimitFormalize ast opt = setLimitAST ast g) ∧
    (∀ (ast : TopAST) (opt : FormalizeOpts),
      opt.limits = none → opt.limit = none →
      applyLimitFormalize ast opt = ast) ∧
    (∀ (ast : TopAST) (mx o n : ℚ), ast.limit = some [o, n] →
      setLimitAST ast mx = { ast with limit := some [qMin n mx] }) ∧
    (∀ (ast : TopAST) (mx : ℚ), ast.limit = none →
      setLimitAST ast mx = { ast with limit := some [mx] }) := by
  refine ⟨?_, ?_, ?_, ?_, ?_, ?_⟩
  · intro ast opt m tb v h1 h2 h3 h4
    unfold applyLimitFormalize limitChoose
    rw [h1, h2]
    simp [h3, h4]
  · intro ast opt m tb h1 h2 h3
    unfold applyLimitFormalize limitChoose
    rw [h1, h2]
    simp [h3]
  · intro ast opt g h1 h2 h3
    unfold applyLimitFormalize limitChoose
    rw [h1, h2]
    simp [h3]
  · intro ast opt h1 h2
    unfold applyLimitFormalize limitChoose
    rw [h1, h2]
    simp
  · intro ast mx o n h
    unfold setLimitAST
    rw [h]
    rfl
  · intro ast mx h
    unfold setLimitAST
    rw [h]
    simp [qMin]

/-- C3, witness: the global-limit clause, the missing-entry clause and the
injection clause at concrete inputs. -/
theorem c3_limit_witness :
    applyLimitFormalize c3ast ⟨none, some 7, none⟩ = setLimitAST c3ast 7 ∧
    applyLimitFormalize c3expected c3opt = c3expected ∧
    setLimitAST ⟨"select", none, [], none, none, none, none, none⟩ 7 =
      { (⟨"select", none, [], none, none, none, none, none⟩ : TopAST) with
        limit := some [7] } :=
  ⟨c3_limit_amended.2.2.1 c3ast ⟨none, some 7, none⟩ 7 rfl rfl (by decide),
   c3_limit_amended.2.1 c3expected c3opt [("a", 5)] (createTableAST "b")
     rfl rfl (by decide),
   c3_limit_amended.2.2.2.2.2 ⟨"select", none, [], none, none, none, none, none⟩
     7 rfl⟩

/-! ## C4 — non-SELECT input aborts before any resolution call -/

/-- C4: when the parsed statement is not a SELECT, `convertToFormalSQL`
throws `Only SELECT supported <<txt>>.` carrying the offending input text,
with an empty resolution-call log — no resolution-function call is made and
no partially-resolved tree is returned. -/
theorem c4_nonselect_aborts (ast : TopAST) (txt : String) (fn : ResolutionFn)
    (opt : FormalizeOpts) (h : ast.type ≠ "select") :
    convertToFormalSQLModel ast txt fn opt =
      ([], .error ("Only SELECT supported <<" ++ txt ++ ">>.")) := by
  unfold convertToFormalSQLModel
  rw [if_pos h]

/-- C4, witness: an INSERT statement aborts with the offending text and an
empty call log. -/
theorem c4_nonselect_witness :
    convertToFormalSQLModel ⟨"insert", none, [], none, none, none, none, none⟩
      "BAD" (fun _ _ _ _ => []) ⟨none, none, none⟩ =
      ([], .error "Only SELECT supported <<BAD>>.") := by
  have h := c4_nonselect_aborts
    ⟨"insert", none, [], none, none, none, none, none⟩ "BAD"
    (fun _ _ _ _ => []) ⟨none, none, none⟩ (by decide)
  simpa using h

/-! ## C9 helper lemmas (scratch) -/

lemma QTok_create (ty : Nat) (v : TValue) (h1 : (ty == TT.TABLE) = false)
    (h2 : (ty == TT.ROW) = false) (h3 : (ty &&& 0xF0 == TT.KEYWORD) = false) :
    QTok (createToken ty v) = true := by
  simp [QTok, createToken, h1, h2, h3]

lemma land_family (a b : Nat) (ha : a &&& 0xF0 = 0xA0) (hb : b &&& 0xF0 = 0xA0) :
    (a &&& b) &&& 0xF0 = 0xA0 := by
  rw [Nat.land_assoc, hb]
  have h : a &&& 0xA0 = (a &&& 0xF0) &&& 0xA0 := by
    rw [Nat.land_assoc, show ((240 : Nat) &&& 160) = 160 from by decide]
  rw [h, ha]
  decide

lemma QTok_family (ty : Nat) (v : TValue) (h : ty &&& 0xF0 = 0xA0) :
    QTok (createToken ty v) = true := by
  refine QTok_create ty v ?_ ?_ ?_
  · refine beq_eq_false_iff_ne.mpr fun he => ?_
    rw [he] at h
    exact absurd h (by decide)
  · refine beq_eq_false_iff_ne.mpr fun he => ?_
    rw [he] at h
    exact absurd h (by decide)
  · rw [h]
    decide

-- simple rule, pattern length 1, fixed emission
lemma good_va8 : GoodSub va8 := by
  intro s w hw _
  rcases w with _ | ⟨t0, w⟩
  · exact ⟨by simp [va8], by simp [va8], by simp [va8]⟩
  · refine ⟨?_, by simp [va8], by simp [va8]⟩
    intro t ht
    simp [va8] at ht
    subst ht
    exact QTok_create _ _ (by decide) (by decide) (by decide)

-- pattern length 2 state-updating rule (limit)
lemma good_li1 : GoodSub li1 := by
  intro s w hw _
  rcases w with _ | ⟨t0, _ | ⟨t1, w⟩⟩ <;>
    refine ⟨by simp [li1], by simp [li1], by simp [li1]⟩

-- emission includes a window member (ex2 emits [new, t2])
lemma good_ex2 : GoodSub ex2 := by
  intro s w hw _
  rcases w with _ | ⟨t0, _ | ⟨t1, _ | ⟨t2, w⟩⟩⟩
  · exact ⟨by simp [ex2], by simp [ex2], by simp [ex2]⟩
  · exact ⟨by simp [ex2], by simp [ex2], by simp [ex2]⟩
  · exact ⟨by simp [ex2], by simp [ex2], by simp [ex2]⟩
  · refine ⟨?_, by simp [ex2], by simp [ex2]⟩
    intro t ht
    simp [ex2] at ht
    rcases ht with h | h
    · rw [h]
      exact QTok_create _ _ (by decide) (by decide) (by decide)
    · rw [h]
      exact hw t2 (by simp)

-- family-derived emission (ex9)
lemma good_ex9 : GoodSub ex9 := by
  intro s w hw hm
  rcases w with _ | ⟨t0, _ | ⟨t1, _ | ⟨t2, w⟩⟩⟩
  · exact ⟨by simp [ex9], by simp [ex9], by simp [ex9]⟩
  · exact ⟨by simp [ex9], by simp [ex9], by simp [ex9]⟩
  · exact ⟨by simp [ex9], by simp [ex9], by simp [ex9]⟩
  · refine ⟨?_, by simp [ex9], by simp [ex9]⟩
    intro t ht
    simp [ex9] at ht
    rw [ht]
    simp [ex9, matchSub, matchTypes, matchVals, vAny, TT.EXPRESSION, TT.BINARY,
          show ((160 : Nat) &&& 240) = 160 from by decide,
          show ((160 : Nat) &&& 15 = 0) from by decide,
          show ((114 : Nat) &&& 240) = 112 from by decide,
          show ¬((114 : Nat) &&& 15 = 0) from by decide] at hm
    obtain ⟨⟨f0, f1, f2⟩, hv⟩ := hm
    exact QTok_family _ _ (land_family _ _ f0 f2)

-- vacuous rule (fr3: exact TABLE type)
lemma good_fr3 : GoodSub fr3 := by
  intro s w hw hm
  exfalso
  rcases w with _ | ⟨t0, rest⟩ <;>
    simp [fr3, matchSub, matchTypes, matchVals, TT.TABLE,
          show ((65 : Nat) &&& 240) = 64 from by decide,
          show ¬((65 : Nat) &&& 15 = 0) from by decide] at hm
  have hq := hw t0 (by simp)
  simp [QTok, TT.TABLE, TT.ROW, TT.KEYWORD] at hq
  exact hq.1.1 hm.2

-- vacuous rule via value (fr2: KEYWORD containing GROUP BY)
lemma good_fr2 : GoodSub fr2 := by
  intro s w hw hm
  exfalso
  rcases w with _ | ⟨t0, rest⟩ <;>
    simp [fr2, matchSub, matchTypes, matchVals, vC, TT.KEYWORD,
          show ((144 : Nat) &&& 240) = 144 from by decide,
          show ((144 : Nat) &&& 15 = 0) from by decide] at hm
  have hq := hw t0 (by simp)
  simp [QTok, TT.TABLE, TT.ROW, TT.KEYWORD] at hq
  rcases hq.2 with h | h
  · exact h hm.1
  · rw [h.1] at hm
    exact Bool.false_ne_true hm.2

-- vacuous rule no1 (three-token window, NULL on t1)
lemma good_no1 : GoodSub no1 := by
  intro s w hw hm
  exfalso
  rcases w with _ | ⟨t0, _ | ⟨t1, _ | ⟨t2, rest⟩⟩⟩ <;>
    simp [no1, matchSub, matchTypes, matchVals, vC, TT.KEYWORD, TT.ORDINAL,
          show ((144 : Nat) &&& 240) = 144 from by decide,
          show ((144 : Nat) &&& 15 = 0) from by decide,
          show ((34 : Nat) &&& 240) = 32 from by decide,
          show ¬((34 : Nat) &&& 15 = 0) from by decide] at hm
  have hq := hw t1 (by simp)
  simp [QTok, TT.TABLE, TT.ROW, TT.KEYWORD] at hq
  obtain ⟨⟨f0, f1, f2⟩, v0, v1, v2⟩ := hm
  rcases hq.2 with h | h
  · exact h f1
  · rw [h.2] at v1
    exact Bool.false_ne_true v1
lemma good_no2 : GoodSub no2 := by
  intro s w hw hm
  exfalso
  rcases w with _ | ⟨t0, _ | ⟨t1, _ | ⟨t2, rest⟩⟩⟩ <;>
    simp [no2, matchSub, matchTypes, matchVals, vC, vCI2, TT.KEYWORD, TT.TEXT,
          show ((144 : Nat) &&& 240) = 144 from by decide,
          show ((144 : Nat) &&& 15 = 0) from by decide,
          show ((16 : Nat) &&& 240) = 16 from by decide,
          show ((16 : Nat) &&& 15 = 0) from by decide] at hm
  have hq := hw t1 (by simp)
  simp [QTok, TT.TABLE, TT.ROW, TT.KEYWORD] at hq
  obtain ⟨⟨f0, f1, f2⟩, v0, v1, v2⟩ := hm
  rcases hq.2 with h | h
  · exact h f1
  · rw [h.2] at v1
    exact Bool.false_ne_true v1

lemma good_nm1 : GoodSub nm1 := by
  intro s w hw _
  rcases w with _ | ⟨t0, _ | ⟨t1, w⟩⟩
  · exact ⟨by simp [nm1], by simp [nm1], by simp [nm1]⟩
  · exact ⟨by simp [nm1], by simp [nm1], by simp [nm1]⟩
  · refine ⟨?_, by simp [nm1], by simp [nm1]⟩
    intro t ht
    simp [nm1] at ht
    rw [ht]
    exact QTok_create _ _ (by decide) (by decide) (by decide)

lemma good_nm2 : GoodSub nm2 := by
  intro s w hw _
  rcases w with _ | ⟨t0, _ | ⟨t1, w⟩⟩
  · exact ⟨by simp [nm2], by simp [nm2], by simp [nm2]⟩
  · exact ⟨by simp [nm2], by simp [nm2], by simp [nm2]⟩
  · refine ⟨?_, by simp [nm2], by simp [nm2]⟩
    intro t ht
    simp [nm2] at ht
    rw [ht]
    exact QTok_create _ _ (by decide) (by decide) (by decide)

lemma good_li2 : GoodSub li2 := by
  intro s w hw _
  rcases w with _ | ⟨t0, w⟩ <;>
    exact ⟨by simp [li2], by simp [li2], by simp [li2]⟩

lemma good_li3 : GoodSub li3 := by
  intro s w hw _
  rcases w with _ | ⟨t0, _ | ⟨t1, w⟩⟩ <;>
    exact ⟨by simp [li3], by simp [li3], by simp [li3]⟩

lemma good_li4 : GoodSub li4 := by
  intro s w hw _
  rcases w with _ | ⟨t0, w⟩ <;>
    exact ⟨by simp [li4], by simp [li4], by simp [li4]⟩

lemma good_va1 : GoodSub va1 := by
  intro s w hw _
  rcases w with _ | ⟨t0, _ | ⟨t1, _ | ⟨t2, w⟩⟩⟩
  · exact ⟨by simp [va1], by simp [va1], by simp [va1]⟩
  · exact ⟨by simp [va1], by simp [va1], by simp [va1]⟩
  · exact ⟨by simp [va1], by simp [va1], by simp [va1]⟩
  · refine ⟨?_, by simp [va1], by simp [va1]⟩
    intro t ht
    simp [va1] at ht
    rw [ht]
    exact QTok_create _ _ (by decide) (by decide) (by decide)

lemma good_va2 : GoodSub va2 := by
  intro s w hw _
  rcases w with _ | ⟨t0, _ | ⟨t1, _ | ⟨t2, w⟩⟩⟩
  · exact ⟨by simp [va2], by simp [va2], by simp [va2]⟩
  · exact ⟨by simp [va2], by simp [va2], by simp [va2]⟩
  · exact ⟨by simp [va2], by simp [va2], by simp [va2]⟩
  · refine ⟨?_, by simp [va2], by simp [va2]⟩
    intro t ht
    simp [va2] at ht
    rw [ht]
    exact QTok_create _ _ (by decide) (by decide) (by decide)

lemma good_va3 : GoodSub va3 := by
  intro s w hw _
  rcases w with _ | ⟨t0, _ | ⟨t1, _ | ⟨t2, w⟩⟩⟩
  · exact ⟨by simp [va3], by simp [va3], by simp [va3]⟩
  · exact ⟨by simp [va3], by simp [va3], by simp [va3]⟩
  · exact ⟨by simp [va3], by simp [va3], by simp [va3]⟩
  · refine ⟨?_, by simp [va3], by simp [va3]⟩
    intro t ht
    simp [va3] at ht
    rw [ht]
    exact QTok_create _ _ (by decide) (by decide) (by decide)

lemma good_va4 : GoodSub va4 := by
  intro s w hw _
  rcases w with _ | ⟨t0, _ | ⟨t1, _ | ⟨t2, w⟩⟩⟩
  · exact ⟨by simp [va4], by simp [va4], by simp [va4]⟩
  · exact ⟨by simp [va4], by simp [va4], by simp [va4]⟩
  · exact ⟨by simp [va4], by simp [va4], by simp [va4]⟩
  · refine ⟨?_, by simp [va4], by simp [va4]⟩
    intro t ht
    simp [va4] at ht
    rw [ht]
    exact QTok_create _ _ (by decide) (by decide) (by decide)

lemma good_va5 : GoodSub va5 := by
  intro s w hw _
  rcases w with _ | ⟨t0, _ | ⟨t1, _ | ⟨t2, w⟩⟩⟩
  · exact ⟨by simp [va5], by simp [va5], by simp [va5]⟩
  · exact ⟨by simp [va5], by simp [va5], by simp [va5]⟩
  · exact ⟨by simp [va5], by simp [va5], by simp [va5]⟩
  · refine ⟨?_, by simp [va5], by simp [va5]⟩
    intro t ht
    simp [va5] at ht
    rw [ht]
    exact QTok_create _ _ (by decide) (by decide) (by decide)

lemma good_va6 : GoodSub va6 := by
  intro s w hw _
  rcases w with _ | ⟨t0, _ | ⟨t1, _ | ⟨t2, w⟩⟩⟩
  · exact ⟨by simp [va6], by simp [va6], by simp [va6]⟩
  · exact ⟨by simp [va6], by simp [va6], by simp [va6]⟩
  · exact ⟨by simp [va6], by simp [va6], by simp [va6]⟩
  · refine ⟨?_, by simp [va6], by simp [va6]⟩
    intro t ht
    simp [va6] at ht
    rw [ht]
    exact QTok_create _ _ (by decide) (by decide) (by decide)

lemma good_va7 : GoodSub va7 := by
  intro s w hw _
  rcases w with _ | ⟨t0, w⟩
  · exact ⟨by simp [va7], by simp [va7], by simp [va7]⟩
  · refine ⟨?_, by simp [va7], by simp [va7]⟩
    intro t ht
    simp [va7] at ht
    rw [ht]
    exact QTok_create _ _ (by decide) (by decide) (by decide)

lemma good_va9 : GoodSub va9 := by
  intro s w hw _
  rcases w with _ | ⟨t0, w⟩
  · exact ⟨by simp [va9], by simp [va9], by simp [va9]⟩
  · refine ⟨?_, by simp [va9], by simp [va9]⟩
    intro t ht
    simp [va9] at ht
    rw [ht]
    exact QTok_create _ _ (by decide) (by decide) (by decide)

lemma good_va10 : GoodSub va10 := by
  intro s w hw hm
  exfalso
  rcases w with _ | ⟨t0, rest⟩ <;>
    simp [va10, matchSub, matchTypes, matchVals, vC, TT.KEYWORD,
          show ((144 : Nat) &&& 240) = 144 from by decide,
          show ((144 : Nat) &&& 15 = 0) from by decide] at hm
  have hq := hw t0 (by simp)
  simp [QTok, TT.TABLE, TT.ROW, TT.KEYWORD] at hq
  rcases hq.2 with h | h
  · exact h hm.1
  · rw [h.2] at hm
    exact Bool.false_ne_true hm.2

lemma good_va11 : GoodSub va11 := by
  intro s w hw _
  rcases w with _ | ⟨t0, w⟩
  · exact ⟨by simp [va11], by simp [va11], by simp [va11]⟩
  · refine ⟨?_, by simp [va11], by simp [va11]⟩
    intro t ht
    simp [va11] at ht
    rw [ht]
    exact QTok_create _ _ (by decide) (by decide) (by decide)

lemma good_ex1 : GoodSub ex1 := by
  intro s w hw _
  exact ⟨by simp [ex1], by simp [ex1], by simp [ex1]⟩

lemma good_ex3 : GoodSub ex3 := by
  intro s w hw _
  rcases w with _ | ⟨t0, w⟩
  · exact ⟨by simp [ex3], by simp [ex3], by simp [ex3]⟩
  · refine ⟨?_, by simp [ex3], by simp [ex3]⟩
    intro t ht
    simp [ex3] at ht
    rw [ht]
    exact QTok_create _ _ (by decide) (by decide) (by decide)

lemma good_ex4 : GoodSub ex4 := by
  intro s w hw _
  rcases w with _ | ⟨t0, _ | ⟨t1, _ | ⟨t2, w⟩⟩⟩
  · exact ⟨by simp [ex4], by simp [ex4], by simp [ex4]⟩
  · exact ⟨by simp [ex4], by simp [ex4], by simp [ex4]⟩
  · exact ⟨by simp [ex4], by simp [ex4], by simp [ex4]⟩
  · refine ⟨?_, by simp [ex4], by simp [ex4]⟩
    intro t ht
    simp [ex4] at ht
    rw [ht]
    exact QTok_create _ _ (by decide) (by decide) (by decide)

lemma good_ex5 : GoodSub ex5 := by
  intro s w hw _
  rcases w with _ | ⟨t0, _ | ⟨t1, w⟩⟩
  · exact ⟨by simp [ex5], by simp [ex5], by simp [ex5]⟩
  · exact ⟨by simp [ex5], by simp [ex5], by simp [ex5]⟩
  · refine ⟨?_, by simp [ex5], by simp [ex5]⟩
    intro t ht
    simp [ex5] at ht
    rw [ht]
    exact QTok_create _ _ (by decide) (by decide) (by decide)

lemma good_ex6 : GoodSub ex6 := by
  intro s w hw _
  rcases w with _ | ⟨t0, _ | ⟨t1, w⟩⟩
  · exact ⟨by simp [ex6], by simp [ex6], by simp [ex6]⟩
  · exact ⟨by simp [ex6], by simp [ex6], by simp [ex6]⟩
  · refine ⟨?_, by simp [ex6], by simp [ex6]⟩
    intro t ht
    simp [ex6] at ht
    rw [ht]
    exact QTok_create _ _ (by decide) (by decide) (by decide)

lemma good_ex7 : GoodSub ex7 := by
  intro s w hw hm
  rcases w with _ | ⟨t0, _ | ⟨t1, _ | ⟨t2, w⟩⟩⟩
  · exact ⟨by simp [ex7], by simp [ex7], by simp [ex7]⟩
  · exact ⟨by simp [ex7], by simp [ex7], by simp [ex7]⟩
  · exact ⟨by simp [ex7], by simp [ex7], by simp [ex7]⟩
  · refine ⟨?_, by simp [ex7], by simp [ex7]⟩
    intro t ht
    simp [ex7] at ht
    rcases ht with h | h
    · rw [h]
      exact hw t0 (by simp)
    · rw [h]
      simp [ex7, matchSub, matchTypes, matchVals, vC2, TT.OPERATOR, TT.BINARY,
            TT.EXPRESSION,
            show ((112 : Nat) &&& 240) = 112 from by decide,
            show ((112 : Nat) &&& 15 = 0) from by decide,
            show ((114 : Nat) &&& 240) = 112 from by decide,
            show ¬((114 : Nat) &&& 15 = 0) from by decide,
            show ((160 : Nat) &&& 240) = 160 from by decide,
            show ((160 : Nat) &&& 15 = 0) from by decide] at hm
      obtain ⟨⟨f0, f1, f2⟩, hv⟩ := hm
      exact QTok_family _ _ f2

lemma good_ex8 : GoodSub ex8 := by
  intro s w hw hm
  rcases w with _ | ⟨t0, _ | ⟨t1, _ | ⟨t2, w⟩⟩⟩
  · exact ⟨by simp [ex8], by simp [ex8], by simp [ex8]⟩
  · exact ⟨by simp [ex8], by simp [ex8], by simp [ex8]⟩
  · exact ⟨by simp [ex8], by simp [ex8], by simp [ex8]⟩
  · refine ⟨?_, by simp [ex8], by simp [ex8]⟩
    intro t ht
    simp [ex8] at ht
    rw [ht]
    simp [ex8, matchSub, matchTypes, matchVals, vC, TT.EXPRESSION, TT.BINARY,
          show ((160 : Nat) &&& 240) = 160 from by decide,
          show ((160 : Nat) &&& 15 = 0) from by decide,
          show ((114 : Nat) &&& 240) = 112 from by decide,
          show ¬((114 : Nat) &&& 15 = 0) from by decide] at hm
    obtain ⟨⟨f0, f1, f2⟩, hv⟩ := hm
    exact QTok_family _ _ (land_family _ _ f0 f2)

lemma good_ex10 : GoodSub ex10 := by
  intro s w hw hm
  rcases w with _ | ⟨t0, _ | ⟨t1, _ | ⟨t2, w⟩⟩⟩
  · exact ⟨by simp [ex10], by simp [ex10], by simp [ex10]⟩
  · exact ⟨by simp [ex10], by simp [ex10], by simp [ex10]⟩
  · exact ⟨by simp [ex10], by simp [ex10], by simp [ex10]⟩
  · refine ⟨?_, by simp [ex10], by simp [ex10]⟩
    intro t ht
    simp [ex10] at ht
    rw [ht]
    simp [ex10, matchSub, matchTypes, matchVals, vAny, TT.EXPRESSION, TT.BINARY,
          show ((160 : Nat) &&& 240) = 160 from by decide,
          show ((160 : Nat) &&& 15 = 0) from by decide,
          show ((114 : Nat) &&& 240) = 112 from by decide,
          show ¬((114 : Nat) &&& 15 = 0) from by decide] at hm
    obtain ⟨⟨f0, f1, f2⟩, hv⟩ := hm
    exact QTok_family _ _ (land_family _ _ f0 f2)

lemma good_ex11 : GoodSub ex11 := by
  intro s w hw hm
  rcases w with _ | ⟨t0, _ | ⟨t1, w⟩⟩
  · exact ⟨by simp [ex11], by simp [ex11], by simp [ex11]⟩
  · exact ⟨by simp [ex11], by simp [ex11], by simp [ex11]⟩
  · refine ⟨?_, by simp [ex11], by simp [ex11]⟩
    intro t ht
    simp [ex11] at ht
    rw [ht]
    simp [ex11, matchSub, matchTypes, matchVals, vNotIn, TT.UNARY, TT.EXPRESSION,
          show ((113 : Nat) &&& 240) = 112 from by decide,
          show ¬((113 : Nat) &&& 15 = 0) from by decide,
          show ((160 : Nat) &&& 240) = 160 from by decide,
          show ((160 : Nat) &&& 15 = 0) from by decide] at hm
    obtain ⟨⟨e0, f1⟩, hv⟩ := hm
    exact QTok_family _ _ f1

lemma good_ex12 : GoodSub ex12 := by
  intro s w hw _
  rcases w with _ | ⟨t0, _ | ⟨t1, w⟩⟩
  · exact ⟨by simp [ex12], by simp [ex12], by simp [ex12]⟩
  · exact ⟨by simp [ex12], by simp [ex12], by simp [ex12]⟩
  · refine ⟨?_, by simp [ex12], by simp [ex12]⟩
    intro t ht
    simp [ex12] at ht
    rw [ht]
    exact QTok_create _ _ (by decide) (by decide) (by decide)

lemma good_ex13 : GoodSub ex13 := by
  intro s w hw _
  rcases w with _ | ⟨t0, _ | ⟨t1, _ | ⟨t2, w⟩⟩⟩
  · exact ⟨by simp [ex13], by simp [ex13], by simp [ex13]⟩
  · exact ⟨by simp [ex13], by simp [ex13], by simp [ex13]⟩
  · exact ⟨by simp [ex13], by simp [ex13], by simp [ex13]⟩
  · refine ⟨?_, by simp [ex13], by simp [ex13]⟩
    intro t ht
    simp [ex13] at ht
    rw [ht]
    exact QTok_create _ _ (by decide) (by decide) (by decide)

lemma good_ex14 : GoodSub ex14 := by
  intro s w hw _
  rcases w with _ | ⟨t0, _ | ⟨t1, _ | ⟨t2, _ | ⟨t3, _ | ⟨t4, w⟩⟩⟩⟩⟩
  · exact ⟨by simp [ex14], by simp [ex14], by simp [ex14]⟩
  · exact ⟨by simp [ex14], by simp [ex14], by simp [ex14]⟩
  · exact ⟨by simp [ex14], by simp [ex14], by simp [ex14]⟩
  · exact ⟨by simp [ex14], by simp [ex14], by simp [ex14]⟩
  · exact ⟨by simp [ex14], by simp [ex14], by simp [ex14]⟩
  · refine ⟨?_, by simp [ex14], by simp [ex14]⟩
    intro t ht
    simp [ex14] at ht
    rw [ht]
    exact QTok_create _ _ (by decide) (by decide) (by decide)

lemma good_ex15 : GoodSub ex15 := by
  intro s w hw _
  rcases w with _ | ⟨t0, _ | ⟨t1, _ | ⟨t2, _ | ⟨t3, w⟩⟩⟩⟩
  · exact ⟨by simp [ex15], by simp [ex15], by simp [ex15]⟩
  · exact ⟨by simp [ex15], by simp [ex15], by simp [ex15]⟩
  · exact ⟨by simp [ex15], by simp [ex15], by simp [ex15]⟩
  · exact ⟨by simp [ex15], by simp [ex15], by simp [ex15]⟩
  · refine ⟨?_, by simp [ex15], by simp [ex15]⟩
    intro t ht
    simp [ex15] at ht
    rw [ht]
    exact QTok_create _ _ (by decide) (by decide) (by decide)

lemma good_ex16 : GoodSub ex16 := by
  intro s w hw _
  rcases w with _ | ⟨t0, _ | ⟨t1, _ | ⟨t2, _ | ⟨t3, _ | ⟨t4, w⟩⟩⟩⟩⟩
  · exact ⟨by simp [ex16], by simp [ex16], by simp [ex16]⟩
  · exact ⟨by simp [ex16], by simp [ex16], by simp [ex16]⟩
  · exact ⟨by simp [ex16], by simp [ex16], by simp [ex16]⟩
  · exact ⟨by simp [ex16], by simp [ex16], by simp [ex16]⟩
  · exact ⟨by simp [ex16], by simp [ex16], by simp [ex16]⟩
  · refine ⟨?_, by simp [ex16], by simp [ex16]⟩
    intro t ht
    simp [ex16] at ht
    rw [ht]
    exact QTok_create _ _ (by decide) (by decide) (by decide)

lemma good_ex17 : GoodSub ex17 := by
  intro s w hw _
  rcases w with _ | ⟨t0, _ | ⟨t1, _ | ⟨t2, _ | ⟨t3, _ | ⟨t4, _ | ⟨t5, w⟩⟩⟩⟩⟩⟩
  · exact ⟨by simp [ex17], by simp [ex17], by simp [ex17]⟩
  · exact ⟨by simp [ex17], by simp [ex17], by simp [ex17]⟩
  · exact ⟨by simp [ex17], by simp [ex17], by simp [ex17]⟩
  · exact ⟨by simp [ex17], by simp [ex17], by simp [ex17]⟩
  · exact ⟨by simp [ex17], by simp [ex17], by simp [ex17]⟩
  · exact ⟨by simp [ex17], by simp [ex17], by simp [ex17]⟩
  · by_cases hr : w = []
    · refine ⟨?_, by simp [ex17, hr], by simp [ex17, hr]⟩
      intro t ht
      simp [ex17, hr] at ht
      rcases ht with h | h
      · rw [h]
        exact hw t0 (by simp)
      · rw [h]
        exact QTok_create _ _ (by decide) (by decide) (by decide)
    · refine ⟨?_, by simp [ex17, hr], by simp [ex17, hr]⟩
      intro t ht
      simp [ex17, hr] at ht
      rcases ht with h | h | h | h | h | h
      · rw [h]
        exact hw t0 (by simp)
      · rw [h]
        exact hw t1 (by simp)
      · rw [h]
        exact hw t2 (by simp)
      · rw [h]
        exact hw t3 (by simp)
      · rw [h]
        exact hw t4 (by simp)
      · rw [h]
        exact hw t5 (by simp)

lemma good_ex18 : GoodSub ex18 := by
  intro s w hw _
  rcases w with _ | ⟨t0, _ | ⟨t1, _ | ⟨t2, _ | ⟨t3, _ | ⟨t4, _ | ⟨t5, w⟩⟩⟩⟩⟩⟩
  · exact ⟨by simp [ex18], by simp [ex18], by simp [ex18]⟩
  · exact ⟨by simp [ex18], by simp [ex18], by simp [ex18]⟩
  · exact ⟨by simp [ex18], by simp [ex18], by simp [ex18]⟩
  · exact ⟨by simp [ex18], by simp [ex18], by simp [ex18]⟩
  · exact ⟨by simp [ex18], by simp [ex18], by simp [ex18]⟩
  · exact ⟨by simp [ex18], by simp [ex18], by simp [ex18]⟩
  · by_cases hr : w = []
    · refine ⟨?_, by simp [ex18, hr], by simp [ex18, hr]⟩
      intro t ht
      simp [ex18, hr] at ht
      rcases ht with h | h
      · rw [h]
        exact hw t0 (by simp)
      · rw [h]
        exact QTok_create _ _ (by decide) (by decide) (by decide)
    · refine ⟨?_, by simp [ex18, hr], by simp [ex18, hr]⟩
      intro t ht
      simp [ex18, hr] at ht
      rcases ht with h | h | h | h | h | h
      · rw [h]
        exact hw t0 (by simp)
      · rw [h]
        exact hw t1 (by simp)
      · rw [h]
        exact hw t2 (by simp)
      · rw [h]
        exact hw t3 (by simp)
      · rw [h]
        exact hw t4 (by simp)
      · rw [h]
        exact hw t5 (by simp)

lemma good_ex19 : GoodSub ex19 := by
  intro s w hw _
  rcases w with _ | ⟨t0, _ | ⟨t1, _ | ⟨t2, w⟩⟩⟩
  · exact ⟨by simp [ex19], by simp [ex19], by simp [ex19]⟩
  · exact ⟨by simp [ex19], by simp [ex19], by simp [ex19]⟩
  · exact ⟨by simp [ex19], by simp [ex19], by simp [ex19]⟩
  · refine ⟨?_, by simp [ex19], by simp [ex19]⟩
    intro t ht
    simp [ex19] at ht
    rw [ht]
    exact QTok_create _ _ (by decide) (by decide) (by decide)

lemma good_ex20 : GoodSub ex20 := by
  intro s w hw _
  rcases w with _ | ⟨t0, _ | ⟨t1, w⟩⟩
  · exact ⟨by simp [ex20], by simp [ex20], by simp [ex20]⟩
  · exact ⟨by simp [ex20], by simp [ex20], by simp [ex20]⟩
  · refine ⟨?_, by simp [ex20], by simp [ex20]⟩
    intro t ht
    simp [ex20] at ht
    rw [ht]
    exact QTok_create _ _ (by decide) (by decide) (by decide)

lemma good_ex21 : GoodSub ex21 := by
  intro s w hw _
  rcases w with _ | ⟨t0, _ | ⟨t1, _ | ⟨t2, w⟩⟩⟩
  · exact ⟨by simp [ex21], by simp [ex21], by simp [ex21]⟩
  · exact ⟨by simp [ex21], by simp [ex21], by simp [ex21]⟩
  · exact ⟨by simp [ex21], by simp [ex21], by simp [ex21]⟩
  · refine ⟨?_, by simp [ex21], by simp [ex21]⟩
    intro t ht
    simp [ex21] at ht
    rw [ht]
    exact QTok_create _ _ (by decide) (by decide) (by decide)

lemma good_ex22 : GoodSub ex22 := by
  intro s w hw _
  rcases w with _ | ⟨t0, _ | ⟨t1, w⟩⟩
  · exact ⟨by simp [ex22], by simp [ex22], by simp [ex22]⟩
  · exact ⟨by simp [ex22], by simp [ex22], by simp [ex22]⟩
  · refine ⟨?_, by simp [ex22], by simp [ex22]⟩
    intro t ht
    simp [ex22] at ht
    rw [ht]
    exact hw t1 (by simp)

lemma good_ex23 : GoodSub ex23 := by
  intro s w hw _
  rcases w with _ | ⟨t0, _ | ⟨t1, _ | ⟨t2, w⟩⟩⟩
  · exact ⟨by simp [ex23], by simp [ex23], by simp [ex23]⟩
  · exact ⟨by simp [ex23], by simp [ex23], by simp [ex23]⟩
  · exact ⟨by simp [ex23], by simp [ex23], by simp [ex23]⟩
  · refine ⟨?_, by simp [ex23], by simp [ex23]⟩
    intro t ht
    simp [ex23] at ht
    rw [ht]
    exact QTok_create _ _ (by decide) (by decide) (by decide)

lemma good_ob1 : GoodSub ob1 := by
  intro s w hw _
  rcases w with _ | ⟨t0, _ | ⟨t1, _ | ⟨t2, w⟩⟩⟩ <;>
    exact ⟨by simp [ob1], by simp [ob1], by simp [ob1]⟩

lemma good_ob2 : GoodSub ob2 := by
  intro s w hw _
  rcases w with _ | ⟨t0, _ | ⟨t1, _ | ⟨t2, w⟩⟩⟩ <;>
    exact ⟨by simp [ob2], by simp [ob2], by simp [ob2]⟩

lemma good_ob3 : GoodSub ob3 := by
  intro s w hw _
  rcases w with _ | ⟨t0, _ | ⟨t1, _ | ⟨t2, w⟩⟩⟩ <;>
    exact ⟨by simp [ob3], by simp [ob3], by simp [ob3]⟩

lemma good_ob4 : GoodSub ob4 := by
  intro s w hw _
  rcases w with _ | ⟨t0, _ | ⟨t1, _ | ⟨t2, w⟩⟩⟩ <;>
    exact ⟨by simp [ob4], by simp [ob4], by simp [ob4]⟩

lemma good_ob5 : GoodSub ob5 := by
  intro s w hw _
  rcases w with _ | ⟨t0, _ | ⟨t1, w⟩⟩ <;>
    exact ⟨by simp [ob5], by simp [ob5], by simp [ob5]⟩

lemma good_ob6 : GoodSub ob6 := by
  intro s w hw _
  rcases w with _ | ⟨t0, _ | ⟨t1, w⟩⟩ <;>
    exact ⟨by simp [ob6], by simp [ob6], by simp [ob6]⟩

lemma good_ob7 : GoodSub ob7 := by
  intro s w hw _
  rcases w with _ | ⟨t0, _ | ⟨t1, w⟩⟩ <;>
    exact ⟨by simp [ob7], by simp [ob7], by simp [ob7]⟩

lemma good_ob8 : GoodSub ob8 := by
  intro s w hw _
  rcases w with _ | ⟨t0, _ | ⟨t1, w⟩⟩ <;>
    exact ⟨by simp [ob8], by simp [ob8], by simp [ob8]⟩

lemma good_ob9 : GoodSub ob9 := by
  intro s w hw _
  rcases w with _ | ⟨t0, w⟩ <;>
    exact ⟨by simp [ob9], by simp [ob9], by simp [ob9]⟩

lemma good_ob10 : GoodSub ob10 := by
  intro s w hw _
  rcases w with _ | ⟨t0, _ | ⟨t1, w⟩⟩ <;>
    exact ⟨by simp [ob10], by simp [ob10], by simp [ob10]⟩

lemma good_ob11 : GoodSub ob11 := by
  intro s w hw _
  rcases w with _ | ⟨t0, w⟩ <;>
    exact ⟨by simp [ob11], by simp [ob11], by simp [ob11]⟩

lemma good_ob12 : GoodSub ob12 := by
  intro s w hw _
  rcases w with _ | ⟨t0, _ | ⟨t1, w⟩⟩ <;>
    exact ⟨by simp [ob12], by simp [ob12], by simp [ob12]⟩

lemma good_ob13 : GoodSub ob13 := by
  intro s w hw _
  rcases w with _ | ⟨t0, _ | ⟨t1, w⟩⟩ <;>
    exact ⟨by simp [ob13], by simp [ob13], by simp [ob13]⟩

lemma good_ob14 : GoodSub ob14 := by
  intro s w hw _
  rcases w with _ | ⟨t0, _ | ⟨t1, w⟩⟩ <;>
    exact ⟨by simp [ob14], by simp [ob14], by simp [ob14]⟩

lemma good_ob15 : GoodSub ob15 := by
  intro s w hw _
  rcases w with _ | ⟨t0, w⟩ <;>
    exact ⟨by simp [ob15], by simp [ob15], by simp [ob15]⟩

lemma good_ob16 : GoodSub ob16 := by
  intro s w hw _
  rcases w with _ | ⟨t0, w⟩ <;>
    exact ⟨by simp [ob16], by simp [ob16], by simp [ob16]⟩

lemma good_ob17 : GoodSub ob17 := by
  intro s w hw _
  rcases w with _ | ⟨t0, _ | ⟨t1, w⟩⟩
  · exact ⟨by simp [ob17], by simp [ob17], by simp [ob17]⟩
  · exact ⟨by simp [ob17], by simp [ob17], by simp [ob17]⟩
  · refine ⟨?_, by simp [ob17], by simp [ob17]⟩
    intro t ht
    simp [ob17] at ht
    rw [ht]
    exact hw t0 (by simp)

lemma good_gb1 : GoodSub gb1 := by
  intro s w hw _
  rcases w with _ | ⟨t0, _ | ⟨t1, w⟩⟩
  · exact ⟨by simp [gb1], by simp [gb1], by simp [gb1]⟩
  · exact ⟨by simp [gb1], by simp [gb1], by simp [gb1]⟩
  · refine ⟨?_, by simp [gb1], by simp [gb1]⟩
    intro t ht
    simp [gb1] at ht
    rw [ht]
    exact hw t0 (by simp)

lemma good_ha1 : GoodSub ha1 := by
  intro s w hw _
  rcases w with _ | ⟨t0, _ | ⟨t1, _ | ⟨t2, _ | ⟨t3, w⟩⟩⟩⟩ <;>
    exact ⟨by simp [ha1], by simp [ha1], by simp [ha1]⟩

lemma good_ha2 : GoodSub ha2 := by
  intro s w hw _
  rcases w with _ | ⟨t0, _ | ⟨t1, _ | ⟨t2, w⟩⟩⟩ <;>
    exact ⟨by simp [ha2], by simp [ha2], by simp [ha2]⟩

lemma good_ha3 : GoodSub ha3 := by
  intro s w hw _
  rcases w with _ | ⟨t0, _ | ⟨t1, _ | ⟨t2, w⟩⟩⟩ <;>
    exact ⟨by simp [ha3], by simp [ha3], by simp [ha3]⟩

lemma good_ha4 : GoodSub ha4 := by
  intro s w hw _
  rcases w with _ | ⟨t0, _ | ⟨t1, w⟩⟩ <;>
    exact ⟨by simp [ha4], by simp [ha4], by simp [ha4]⟩

lemma good_wh1 : GoodSub wh1 := by
  intro s w hw _
  rcases w with _ | ⟨t0, _ | ⟨t1, _ | ⟨t2, _ | ⟨t3, w⟩⟩⟩⟩ <;>
    exact ⟨by simp [wh1], by simp [wh1], by simp [wh1]⟩

lemma good_wh2 : GoodSub wh2 := by
  intro s w hw _
  rcases w with _ | ⟨t0, _ | ⟨t1, _ | ⟨t2, w⟩⟩⟩ <;>
    exact ⟨by simp [wh2], by simp [wh2], by simp [wh2]⟩

lemma good_wh3 : GoodSub wh3 := by
  intro s w hw _
  rcases w with _ | ⟨t0, _ | ⟨t1, _ | ⟨t2, w⟩⟩⟩ <;>
    exact ⟨by simp [wh3], by simp [wh3], by simp [wh3]⟩

lemma good_wh4 : GoodSub wh4 := by
  intro s w hw _
  rcases w with _ | ⟨t0, _ | ⟨t1, w⟩⟩ <;>
    exact ⟨by simp [wh4], by simp [wh4], by simp [wh4]⟩

lemma good_fr1 : GoodSub fr1 := by
  intro s w hw _
  exact ⟨by simp [fr1], by simp [fr1], by simp [fr1]⟩

lemma good_fr4 : GoodSub fr4 := by
  intro s w hw hm
  exfalso
  rcases w with _ | ⟨t0, rest⟩ <;>
    simp [fr4, matchSub, matchTypes, matchVals, TT.ROW,
          show ((67 : Nat) &&& 240) = 64 from by decide,
          show ¬((67 : Nat) &&& 15 = 0) from by decide] at hm
  have hq := hw t0 (by simp)
  simp [QTok, TT.TABLE, TT.ROW, TT.KEYWORD] at hq
  exact hq.1.2 hm.2

lemma good_co1 : GoodSub co1 := by
  intro s w hw _
  rcases w with _ | ⟨t0, _ | ⟨t1, _ | ⟨t2, _ | ⟨t3, _ | ⟨t4, w⟩⟩⟩⟩⟩
  · exact ⟨by simp [co1], by simp [co1], by simp [co1]⟩
  · exact ⟨by simp [co1], by simp [co1], by simp [co1]⟩
  · exact ⟨by simp [co1], by simp [co1], by simp [co1]⟩
  · exact ⟨by simp [co1], by simp [co1], by simp [co1]⟩
  · exact ⟨by simp [co1], by simp [co1], by simp [co1]⟩
  · refine ⟨?_, by simp [co1], by simp [co1]⟩
    intro t ht
    simp [co1] at ht
    rw [ht]
    exact hw t0 (by simp)

lemma good_co2 : GoodSub co2 := by
  intro s w hw _
  rcases w with _ | ⟨t0, _ | ⟨t1, _ | ⟨t2, w⟩⟩⟩
  · exact ⟨by simp [co2], by simp [co2], by simp [co2]⟩
  · exact ⟨by simp [co2], by simp [co2], by simp [co2]⟩
  · exact ⟨by simp [co2], by simp [co2], by simp [co2]⟩
  · refine ⟨?_, by simp [co2], by simp [co2]⟩
    intro t ht
    simp [co2] at ht
    rw [ht]
    exact hw t0 (by simp)

lemma good_co3 : GoodSub co3 := by
  intro s w hw _
  rcases w with _ | ⟨t0, _ | ⟨t1, _ | ⟨t2, _ | ⟨t3, w⟩⟩⟩⟩
  · exact ⟨by simp [co3], by simp [co3], by simp [co3]⟩
  · exact ⟨by simp [co3], by simp [co3], by simp [co3]⟩
  · exact ⟨by simp [co3], by simp [co3], by simp [co3]⟩
  · exact ⟨by simp [co3], by simp [co3], by simp [co3]⟩
  · refine ⟨?_, by simp [co3], by simp [co3]⟩
    intro t ht
    simp [co3] at ht
    rw [ht]
    exact hw t0 (by simp)

lemma good_co4 : GoodSub co4 := by
  intro s w hw _
  rcases w with _ | ⟨t0, _ | ⟨t1, w⟩⟩
  · exact ⟨by simp [co4], by simp [co4], by simp [co4]⟩
  · exact ⟨by simp [co4], by simp [co4], by simp [co4]⟩
  · refine ⟨?_, by simp [co4], by simp [co4]⟩
    intro t ht
    simp [co4] at ht
    rw [ht]
    exact hw t0 (by simp)

lemma good_co5 : GoodSub co5 := by
  intro s w hw _
  exact ⟨by simp [co5], by simp [co5], by simp [co5]⟩

lemma good_co6 : GoodSub co6 := by
  intro s w hw _
  rcases w with _ | ⟨t0, rest⟩
  · exact ⟨by simp [co6], by simp [co6], by simp [co6]⟩
  · by_cases hr : rest = []
    · exact ⟨by intro t ht; simp [co6, hr] at ht, by simp [co6, hr],
            by simp [co6, hr]⟩
    · refine ⟨?_, by simp [co6, hr], by simp [co6, hr]⟩
      intro t ht
      simp [co6, hr] at ht
      rw [ht]
      exact hw t0 (by simp)

/-! ### Engine preservation -/

lemma runPassF_good (sub : Substage) (hgood : GoodSub sub) :
    ∀ (fuel : Nat) (s : IState) (toks : List Token),
      (∀ t ∈ toks, QTok t = true) →
      (∀ t ∈ (runPassF sub fuel s toks).2, QTok t = true) ∧
      (runPassF sub fuel s toks).1.fromT = s.fromT ∧
      (runPassF sub fuel s toks).1.hints = s.hints := by
  intro fuel
  induction fuel with
  | zero =>
    intro s toks hq
    simp only [runPassF]
    exact ⟨hq, trivial, trivial⟩
  | succ n ih =>
    intro s toks hq
    cases toks with
    | nil =>
      simp only [runPassF]
      exact ⟨by simp, trivial, trivial⟩
    | cons t ts =>
      simp only [runPassF]
      by_cases hm : matchSub sub (t :: ts) = true
      · rw [if_pos hm]
        have hgs := hgood s (t :: ts) hq hm
        have hdrop : ∀ x ∈ ts.drop (sub.pat.length - 1), QTok x = true :=
          fun x hx => hq x (List.mem_cons_of_mem _ (List.mem_of_mem_drop hx))
        have ihr := ih (sub.act s (t :: ts)).1 (ts.drop (sub.pat.length - 1)) hdrop
        refine ⟨?_, ihr.2.1.trans hgs.2.1, ihr.2.2.trans hgs.2.2⟩
        intro x hx
        rcases List.mem_append.mp hx with h | h
        · exact hgs.1 x h
        · exact ihr.1 x h
      · rw [if_neg hm]
        have ihr := ih s ts (fun x hx => hq x (List.mem_cons_of_mem _ hx))
        refine ⟨?_, ihr.2.1, ihr.2.2⟩
        intro x hx
        rcases List.mem_cons.mp hx with rfl | h
        · exact hq x (List.mem_cons_self _ _)
        · exact ihr.1 x h

lemma runSubRepeatF_good (sub : Substage) (hgood : GoodSub sub) :
    ∀ (fuel : Nat) (s : IState) (toks : List Token),
      (∀ t ∈ toks, QTok t = true) →
      (∀ t ∈ (runSubRepeatF sub fuel s toks).2, QTok t = true) ∧
      (runSubRepeatF sub fuel s toks).1.fromT = s.fromT ∧
      (runSubRepeatF sub fuel s toks).1.hints = s.hints := by
  intro fuel
  induction fuel with
  | zero =>
    intro s toks hq
    simp only [runSubRepeatF]
    exact ⟨hq, trivial, trivial⟩
  | succ n ih =>
    intro s toks hq
    simp only [runSubRepeatF]
    have hp := runPassF_good sub hgood toks.length s toks hq
    by_cases hlt : (runPassF sub toks.length s toks).2.length < toks.length
    · rw [if_pos hlt]
      have ihr := ih (runPassF sub toks.length s toks).1
        (runPassF sub toks.length s toks).2 hp.1
      exact ⟨ihr.1, ihr.2.1.trans hp.2.1, ihr.2.2.trans hp.2.2⟩
    · rw [if_neg hlt]
      exact hp

lemma runInformalizeSubstage_good (sub : Substage) (hgood : GoodSub sub)
    (s : IState) (toks : List Token) (rep : Bool)
    (hq : ∀ t ∈ toks, QTok t = true) :
    (∀ t ∈ (runInformalizeSubstage sub s toks rep).2, QTok t = true) ∧
    (runInformalizeSubstage sub s toks rep).1.fromT = s.fromT ∧
    (runInformalizeSubstage sub s toks rep).1.hints = s.hints := by
  unfold runInformalizeSubstage
  by_cases h : rep = true
  · rw [if_pos h]
    exact runSubRepeatF_good sub hgood _ s toks hq
  · rw [if_neg h]
    exact runPassF_good sub hgood _ s toks hq

lemma runRound_good :
    ∀ (stage : List Substage), (∀ sub ∈ stage, GoodSub sub) →
    ∀ (rsub : Bool) (s : IState) (ti a : List Token),
      (∀ t ∈ ti, QTok t = true) → (∀ t ∈ a, QTok t = true) →
      (∀ t ∈ (runRound rsub s ti a stage).2.1, QTok t = true) ∧
      (∀ t ∈ (runRound rsub s ti a stage).2.2, QTok t = true) ∧
      (runRound rsub s ti a stage).1.fromT = s.fromT ∧
      (runRound rsub s ti a stage).1.hints = s.hints := by
  intro stage
  induction stage with
  | nil =>
    intro hg rsub s ti a hti ha
    simp only [runRound]
    exact ⟨hti, ha, trivial, trivial⟩
  | cons sub rest ih =>
    intro hg rsub s ti a hti ha
    simp only [runRound]
    have h1 := runInformalizeSubstage_good sub (hg sub (by simp)) s a rsub ha
    have h2 := ih (fun x hx => hg x (by simp [hx])) rsub
      (runInformalizeSubstage sub s a rsub).1 a
      (runInformalizeSubstage sub s a rsub).2 ha h1.1
    exact ⟨h2.1, h2.2.1, h2.2.2.1.trans h1.2.1, h2.2.2.2.trans h1.2.2⟩

lemma runStageGo_good (stage : List Substage)
    (hg : ∀ sub ∈ stage, GoodSub sub) (rsub rstage : Bool) :
    ∀ (fuel : Nat) (s : IState) (ti a : List Token),
      (∀ t ∈ ti, QTok t = true) → (∀ t ∈ a, QTok t = true) →
      (∀ t ∈ (runStageGo stage rsub rstage fuel s ti a).2, QTok t = true) ∧
      (runStageGo stage rsub rstage fuel s ti a).1.fromT = s.fromT ∧
      (runStageGo stage rsub rstage fuel s ti a).1.hints = s.hints := by
  intro fuel
  induction fuel with
  | zero =>
    intro s ti a hti ha
    simp only [runStageGo]
    exact ⟨ha, trivial, trivial⟩
  | succ n ih =>
    intro s ti a hti ha
    simp only [runStageGo]
    have hr := runRound_good stage hg rsub s ti a hti ha
    by_cases hc : rstage = true ∧ (runRound rsub s ti a stage).2.2.length < ti.length
    · rw [if_pos hc]
      have ihr := ih (runRound rsub s ti a stage).1
        (runRound rsub s ti a stage).2.1
        (runRound rsub s ti a stage).2.2 hr.1 hr.2.1
      exact ⟨ihr.1, ihr.2.1.trans hr.2.2.1, ihr.2.2.trans hr.2.2.2⟩
    · rw [if_neg hc]
      exact ⟨hr.2.1, hr.2.2.1, hr.2.2.2⟩

lemma runInformalizeStage_good (stage : List Substage)
    (hg : ∀ sub ∈ stage, GoodSub sub) (s : IState) (tokens : List Token)
    (rsub rstage : Bool) (hq : ∀ t ∈ tokens, QTok t = true) :
    (∀ t ∈ (runInformalizeStage stage s tokens rsub rstage).2, QTok t = true) ∧
    (runInformalizeStage stage s tokens rsub rstage).1.fromT = s.fromT ∧
    (runInformalizeStage stage s tokens rsub rstage).1.hints = s.hints := by
  unfold runInformalizeStage
  exact runStageGo_good stage hg rsub rstage _ s tokens tokens hq hq

/-! ### Stage goodness -/

lemma good_NULLORDER : ∀ sub ∈ NULLORDER, GoodSub sub := by
  intro sub h
  simp only [NULLORDER, List.mem_cons, List.not_mem_nil, or_false] at h
  rcases h with rfl | rfl
  exacts [good_no1, good_no2]

lemma good_NUMBER : ∀ sub ∈ NUMBER, GoodSub sub := by
  intro sub h
  simp only [NUMBER, List.mem_cons, List.not_mem_nil, or_false] at h
  rcases h with rfl | rfl
  exacts [good_nm1, good_nm2]

lemma good_LIMIT : ∀ sub ∈ LIMIT, GoodSub sub := by
  intro sub h
  simp only [LIMIT, List.mem_cons, List.not_mem_nil, or_false] at h
  rcases h with rfl | rfl | rfl | rfl
  exacts [good_li1, good_li2, good_li3, good_li4]

lemma good_VALUE : ∀ sub ∈ VALUE, GoodSub sub := by
  intro sub h
  simp only [VALUE, List.mem_cons, List.not_mem_nil, or_false] at h
  rcases h with rfl | rfl | rfl | rfl | rfl | rfl | rfl | rfl | rfl | rfl | rfl
  exacts [good_va1, good_va2, good_va3, good_va4, good_va5, good_va6, good_va7, good_va8, good_va9, good_va10, good_va11]

lemma good_EXPRESSION : ∀ sub ∈ EXPRESSION, GoodSub sub := by
  intro sub h
  simp only [EXPRESSION, List.mem_cons, List.not_mem_nil, or_false] at h
  rcases h with rfl | rfl | rfl | rfl | rfl | rfl | rfl | rfl | rfl | rfl | rfl | rfl | rfl | rfl | rfl | rfl | rfl | rfl | rfl | rfl | rfl | rfl | rfl
  exacts [good_ex1, good_ex2, good_ex3, good_ex4, good_ex5, good_ex6, good_ex7, good_ex8, good_ex9, good_ex10, good_ex11, good_ex12, good_ex13, good_ex14, good_ex15, good_ex16, good_ex17, good_ex18, good_ex19, good_ex20, good_ex21, good_ex22, good_ex23]

lemma good_ORDERBY : ∀ sub ∈ ORDERBY, GoodSub sub := by
  intro sub h
  simp only [ORDERBY, List.mem_cons, List.not_mem_nil, or_false] at h
  rcases h with rfl | rfl | rfl | rfl | rfl | rfl | rfl | rfl | rfl | rfl | rfl | rfl | rfl | rfl | rfl | rfl | rfl
  exacts [good_ob1, good_ob2, good_ob3, good_ob4, good_ob5, good_ob6, good_ob7, good_ob8, good_ob9, good_ob10, good_ob11, good_ob12, good_ob13, good_ob14, good_ob15, good_ob16, good_ob17]

lemma good_GROUPBY : ∀ sub ∈ GROUPBY, GoodSub sub := by
  intro sub h
  simp only [GROUPBY, List.mem_cons, List.not_mem_nil, or_false] at h
  rcases h with rfl
  exacts [good_gb1]

lemma good_HAVING : ∀ sub ∈ HAVING, GoodSub sub := by
  intro sub h
  simp only [HAVING, List.mem_cons, List.not_mem_nil, or_false] at h
  rcases h with rfl | rfl | rfl | rfl
  exacts [good_ha1, good_ha2, good_ha3, good_ha4]

lemma good_WHERE : ∀ sub ∈ WHERE, GoodSub sub := by
  intro sub h
  simp only [WHERE, List.mem_cons, List.not_mem_nil, or_false] at h
  rcases h with rfl | rfl | rfl | rfl
  exacts [good_wh1, good_wh2, good_wh3, good_wh4]

lemma good_FROM : ∀ sub ∈ FROM, GoodSub sub := by
  intro sub h
  simp only [FROM, List.mem_cons, List.not_mem_nil, or_false] at h
  rcases h with rfl | rfl | rfl | rfl
  exacts [good_fr1, good_fr2, good_fr3, good_fr4]

lemma good_COLUMN : ∀ sub ∈ COLUMN, GoodSub sub := by
  intro sub h
  simp only [COLUMN, List.mem_cons, List.not_mem_nil, or_false] at h
  rcases h with rfl | rfl | rfl | rfl | rfl | rfl
  exacts [good_co1, good_co2, good_co3, good_co4, good_co5, good_co6]

/-! ### Stage-chain preservation -/

lemma informalizeStages_pres (s : IState) (tokens : List Token)
    (hq : ∀ t ∈ tokens, QTok t = true) :
    (informalizeStages s tokens).1.fromT = s.fromT ∧
    (informalizeStages s tokens).1.hints = s.hints := by
  unfold informalizeStages
  have g1 := runInformalizeStage_good NULLORDER good_NULLORDER
    (s) (tokens) false false hq
  have g2 := runInformalizeStage_good NUMBER good_NUMBER
    ((runInformalizeStage NULLORDER s tokens false false).1) ((runInformalizeStage NULLORDER s tokens false false).2) false false g1.1
  have g3 := runInformalizeStage_good LIMIT good_LIMIT
    ((runInformalizeStage NUMBER (runInformalizeStage NULLORDER s tokens false false).1 (runInformalizeStage NULLORDER s tokens false false).2 false false).1) ((runInformalizeStage NUMBER (runInformalizeStage NULLORDER s tokens false false).1 (runInformalizeStage NULLORDER s tokens false false).2 false false).2) false false g2.1
  have g4 := runInformalizeStage_good VALUE good_VALUE
    ((runInformalizeStage LIMIT (runInformalizeStage NUMBER (runInformalizeStage NULLORDER s tokens false false).1 (runInformalizeStage NULLORDER s tokens false false).2 false false).1 (runInformalizeStage NUMBER (runInformalizeStage NULLORDER s tokens false false).1 (runInformalizeStage NULLORDER s tokens false false).2 false false).2 false false).1) ((runInformalizeStage LIMIT (runInformalizeStage NUMBER (runInformalizeStage NULLORDER s tokens false false).1 (runInformalizeStage NULLORDER s tokens false false).2 false false).1 (runInformalizeStage NUMBER (runInformalizeStage NULLORDER s tokens false false).1 (runInformalizeStage NULLORDER s tokens false false).2 false false).2 false false).2) false false g3.1
  have g5 := runInformalizeStage_good EXPRESSION good_EXPRESSION
    ((runInformalizeStage VALUE (runInformalizeStage LIMIT (runInformalizeStage NUMBER (runInformalizeStage NULLORDER s tokens false false).1 (runInformalizeStage NULLORDER s tokens false false).2 false false).1 (runInformalizeStage NUMBER (runInformalizeStage NULLORDER s tokens false false).1 (runInformalizeStage NULLORDER s tokens false false).2 false false).2 false false).1 (runInformalizeStage LIMIT (runInformalizeStage NUMBER (runInformalizeStage NULLORDER s tokens false false).1 (runInformalizeStage NULLORDER s tokens false false).2 false false).1 (runInformalizeStage NUMBER (runInformalizeStage NULLORDER s tokens false false).1 (runInformalizeStage NULLORDER s tokens false false).2 false false).2 false false).2 false false).1) ((runInformalizeStage VALUE (runInformalizeStage LIMIT (runInformalizeStage NUMBER (runInformalizeStage NULLORDER s tokens false false).1 (runInformalizeStage NULLORDER s tokens false false).2 false false).1 (runInformalizeStage NUMBER (runInformalizeStage NULLORDER s tokens false false).1 (runInformalizeStage NULLORDER s tokens false false).2 false false).2 false false).1 (runInformalizeStage LIMIT (runInformalizeStage NUMBER (runInformalizeStage NULLORDER s tokens false false).1 (runInformalizeStage NULLORDER s tokens false false).2 false false).1 (runInformalizeStage NUMBER (runInformalizeStage NULLORDER s tokens false false).1 (runInformalizeStage NULLORDER s tokens false false).2 false false).2 false false).2 false false).2) true true g4.1
  have g6 := runInformalizeStage_good ORDERBY good_ORDERBY
    ((runInformalizeStage EXPRESSION (runInformalizeStage VALUE (runInformalizeStage LIMIT (runInformalizeStage NUMBER (runInformalizeStage NULLORDER s tokens false false).1 (runInformalizeStage NULLORDER s tokens false false).2 false false).1 (runInformalizeStage NUMBER (runInformalizeStage NULLORDER s tokens false false).1 (runInformalizeStage NULLORDER s tokens false false).2 false false).2 false false).1 (runInformalizeStage LIMIT (runInformalizeStage NUMBER (runInformalizeStage NULLORDER s tokens false false).1 (runInformalizeStage NULLORDER s tokens false false).2 false false).1 (runInformalizeStage NUMBER (runInformalizeStage NULLORDER s tokens false false).1 (runInformalizeStage NULLORDER s tokens false false).2 false false).2 false false).2 false false).1 (runInformalizeStage VALUE (runInformalizeStage LIMIT (runInformalizeStage NUMBER (runInformalizeStage NULLORDER s tokens false false).1 (runInformalizeStage NULLORDER s tokens false false).2 false false).1 (runInformalizeStage NUMBER (runInformalizeStage NULLORDER s tokens false false).1 (runInformalizeStage NULLORDER s tokens false false).2 false false).2 false false).1 (runInformalizeStage LIMIT (runInformalizeStage NUMBER (runInformalizeStage NULLORDER s tokens false false).1 (runInformalizeStage NULLORDER s tokens false false).2 false false).1 (runInformalizeStage NUMBER (runInformalizeStage NULLORDER s tokens false false).1 (runInformalizeStage NULLORDER s tokens false false).2 false false).2 false false).2 false false).2 true true).1) ((runInformalizeStage EXPRESSION (runInformalizeStage VALUE (runInformalizeStage LIMIT (runInformalizeStage NUMBER (runInformalizeStage NULLORDER s tokens false false).1 (runInformalizeStage NULLORDER s tokens false false).2 false false).1 (runInformalizeStage NUMBER (runInformalizeStage NULLORDER s tokens false false).1 (runInformalizeStage NULLORDER s tokens false false).2 false false).2 false false).1 (runInformalizeStage LIMIT (runInformalizeStage NUMBER (runInformalizeStage NULLORDER s tokens false false).1 (runInformalizeStage NULLORDER s tokens false false).2 false false).1 (runInformalizeStage NUMBER (runInformalizeStage NULLORDER s tokens false false).1 (runInformalizeStage NULLORDER s tokens false false).2 false false).2 false false).2 false false).1 (runInformalizeStage VALUE (runInformalizeStage LIMIT (runInformalizeStage NUMBER (runInformalizeStage NULLORDER s tokens false false).1 (runInformalizeStage NULLORDER s tokens false false).2 false false).1 (runInformalizeStage NUMBER (runInformalizeStage NULLORDER s tokens false false).1 (runInformalizeStage NULLORDER s tokens false false).2 false false).2 false false).1 (runInformalizeStage LIMIT (runInformalizeStage NUMBER (runInformalizeStage NULLORDER s tokens false false).1 (runInformalizeStage NULLORDER s tokens false false).2 false false).1 (runInformalizeStage NUMBER (runInformalizeStage NULLORDER s tokens false false).1 (runInformalizeStage NULLORDER s tokens false false).2 false false).2 false false).2 false false).2 true true).2) false true g5.1
  have g7 := runInformalizeStage_good GROUPBY good_GROUPBY
    ((runInformalizeStage ORDERBY (runInformalizeStage EXPRESSION (runInformalizeStage VALUE (runInformalizeStage LIMIT (runInformalizeStage NUMBER (runInformalizeStage NULLORDER s tokens false false).1 (runInformalizeStage NULLORDER s tokens false false).2 false false).1 (runInformalizeStage NUMBER (runInformalizeStage NULLORDER s tokens false false).1 (runInformalizeStage NULLORDER s tokens false false).2 false false).2 false false).1 (runInformalizeStage LIMIT (runInformalizeStage NUMBER (runInformalizeStage NULLORDER s tokens false false).1 (runInformalizeStage NULLORDER s tokens false false).2 false false).1 (runInformalizeStage NUMBER (runInformalizeStage NULLORDER s tokens false false).1 (runInformalizeStage NULLORDER s tokens false false).2 false false).2 false false).2 false false).1 (runInformalizeStage VALUE (runInformalizeStage LIMIT (runInformalizeStage NUMBER (runInformalizeStage NULLORDER s tokens false false).1 (runInformalizeStage NULLORDER s tokens false false).2 false false).1 (runInformalizeStage NUMBER (runInformalizeStage NULLORDER s tokens false false).1 (runInformalizeStage NULLORDER s tokens false false).2 false false).2 false false).1 (runInformalizeStage LIMIT (runInformalizeStage NUMBER (runInformalizeStage NULLORDER s tokens false false).1 (runInformalizeStage NULLORDER s tokens false false).2 false false).1 (runInformalizeStage NUMBER (runInformalizeStage NULLORDER s tokens false false).1 (runInformalizeStage NULLORDER s tokens false false).2 false false).2 false false).2 false false).2 true true).1 (runInformalizeStage EXPRESSION (runInformalizeStage VALUE (runInformalizeStage LIMIT (runInformalizeStage NUMBER (runInformalizeStage NULLORDER s tokens false false).1 (runInformalizeStage NULLORDER s tokens false false).2 false false).1 (runInformalizeStage NUMBER (runInformalizeStage NULLORDER s tokens false false).1 (runInformalizeStage NULLORDER s tokens false false).2 false false).2 false false).1 (runInformalizeStage LIMIT (runInformalizeStage NUMBER (runInformalizeStage NULLORDER s tokens false false).1 (runInformalizeStage NULLORDER s tokens false false).2 false false).1 (runInformalizeStage NUMBER (runInformalizeStage NULLORDER s tokens false false).1 (runInformalizeStage NULLORDER s tokens false false).2 false false).2 false false).2 false false).1 (runInformalizeStage VALUE (runInformalizeStage LIMIT (runInformalizeStage NUMBER (runInformalizeStage NULLORDER s tokens false false).1 (runInformalizeStage NULLORDER s tokens false false).2 false false).1 (runInformalizeStage NUMBER (runInformalizeStage NULLORDER s tokens false false).1 (runInformalizeStage NULLORDER s tokens false false).2 false false).2 false false).1 (runInformalizeStage LIMIT (runInformalizeStage NUMBER (runInformalizeStage NULLORDER s tokens false false).1 (runInformalizeStage NULLORDER s tokens false false).2 false false).1 (runInformalizeStage NUMBER (runInformalizeStage NULLORDER s tokens false false).1 (runInformalizeStage NULLORDER s tokens false false).2 false false).2 false false).2 false false).2 true true).2 false true).1) ((runInformalizeStage ORDERBY (runInformalizeStage EXPRESSION (runInformalizeStage VALUE (runInformalizeStage LIMIT (runInformalizeStage NUMBER (runInformalizeStage NULLORDER s tokens false false).1 (runInformalizeStage NULLORDER s tokens false false).2 false false).1 (runInformalizeStage NUMBER (runInformalizeStage NULLORDER s tokens false false).1 (runInformalizeStage NULLORDER s tokens false false).2 false false).2 false false).1 (runInformalizeStage LIMIT (runInformalizeStage NUMBER (runInformalizeStage NULLORDER s tokens false false).1 (runInformalizeStage NULLORDER s tokens false false).2 false false).1 (runInformalizeStage NUMBER (runInformalizeStage NULLORDER s tokens false false).1 (runInformalizeStage NULLORDER s tokens false false).2 false false).2 false false).2 false false).1 (runInformalizeStage VALUE (runInformalizeStage LIMIT (runInformalizeStage NUMBER (runInformalizeStage NULLORDER s tokens false false).1 (runInformalizeStage NULLORDER s tokens false false).2 false false).1 (runInformalizeStage NUMBER (runInformalizeStage NULLORDER s tokens false false).1 (runInformalizeStage NULLORDER s tokens false false).2 false false).2 false false).1 (runInformalizeStage LIMIT (runInformalizeStage NUMBER (runInformalizeStage NULLORDER s tokens false false).1 (runInformalizeStage NULLORDER s tokens false false).2 false false).1 (runInformalizeStage NUMBER (runInformalizeStage NULLORDER s tokens false false).1 (runInformalizeStage NULLORDER s tokens false false).2 false false).2 false false).2 false false).2 true true).1 (runInformalizeStage EXPRESSION (runInformalizeStage VALUE (runInformalizeStage LIMIT (runInformalizeStage NUMBER (runInformalizeStage NULLORDER s tokens false false).1 (runInformalizeStage NULLORDER s tokens false false).2 false false).1 (runInformalizeStage NUMBER (runInformalizeStage NULLORDER s tokens false false).1 (runInformalizeStage NULLORDER s tokens false false).2 false false).2 false false).1 (runInformalizeStage LIMIT (runInformalizeStage NUMBER (runInformalizeStage NULLORDER s tokens false false).1 (runInformalizeStage NULLORDER s tokens false false).2 false false).1 (runInformalizeStage NUMBER (runInformalizeStage NULLORDER s tokens false false).1 (runInformalizeStage NULLORDER s tokens false false).2 false false).2 false false).2 false false).1 (runInformalizeStage VALUE (runInformalizeStage LIMIT (runInformalizeStage NUMBER (runInformalizeStage NULLORDER s tokens false false).1 (runInformalizeStage NULLORDER s tokens false false).2 false false).1 (runInformalizeStage NUMBER (runInformalizeStage NULLORDER s tokens false false).1 (runInformalizeStage NULLORDER s tokens false false).2 false false).2 false false).1 (runInformalizeStage LIMIT (runInformalizeStage NUMBER (runInformalizeStage NULLORDER s tokens false false).1 (runInformalizeStage NULLORDER s tokens false false).2 false false).1 (runInformalizeStage NUMBER (runInformalizeStage NULLORDER s tokens false false).1 (runInformalizeStage NULLORDER s tokens false false).2 false false).2 false false).2 false false).2 true true).2 false true).2) true false g6.1
  have g8 := runInformalizeStage_good HAVING good_HAVING
    ((runInformalizeStage GROUPBY (runInformalizeStage ORDERBY (runInformalizeStage EXPRESSION (runInformalizeStage VALUE (runInformalizeStage LIMIT (runInformalizeStage NUMBER (runInformalizeStage NULLORDER s tokens false false).1 (runInformalizeStage NULLORDER s tokens false false).2 false false).1 (runInformalizeStage NUMBER (runInformalizeStage NULLORDER s tokens false false).1 (runInformalizeStage NULLORDER s tokens false false).2 false false).2 false false).1 (runInformalizeStage LIMIT (runInformalizeStage NUMBER (runInformalizeStage NULLORDER s tokens false false).1 (runInformalizeStage NULLORDER s tokens false false).2 false false).1 (runInformalizeStage NUMBER (runInformalizeStage NULLORDER s tokens false false).1 (runInformalizeStage NULLORDER s tokens false false).2 false false).2 false false).2 false false).1 (runInformalizeStage VALUE (runInformalizeStage LIMIT (runInformalizeStage NUMBER (runInformalizeStage NULLORDER s tokens false false).1 (runInformalizeStage NULLORDER s tokens false false).2 false false).1 (runInformalizeStage NUMBER (runInformalizeStage NULLORDER s tokens false false).1 (runInformalizeStage NULLORDER s tokens false false).2 false false).2 false false).1 (runInformalizeStage LIMIT (runInformalizeStage NUMBER (runInformalizeStage NULLORDER s tokens false false).1 (runInformalizeStage NULLORDER s tokens false false).2 false false).1 (runInformalizeStage NUMBER (runInformalizeStage NULLORDER s tokens false false).1 (runInformalizeStage NULLORDER s tokens false false).2 false false).2 false false).2 false false).2 true true).1 (runInformalizeStage EXPRESSION (runInformalizeStage VALUE (runInformalizeStage LIMIT (runInformalizeStage NUMBER (runInformalizeStage NULLORDER s tokens false false).1 (runInformalizeStage NULLORDER s tokens false false).2 false false).1 (runInformalizeStage NUMBER (runInformalizeStage NULLORDER s tokens false false).1 (runInformalizeStage NULLORDER s tokens false false).2 false false).2 false false).1 (runInformalizeStage LIMIT (runInformalizeStage NUMBER (runInformalizeStage NULLORDER s tokens false false).1 (runInformalizeStage NULLORDER s tokens false false).2 false false).1 (runInformalizeStage NUMBER (runInformalizeStage NULLORDER s tokens false false).1 (runInformalizeStage NULLORDER s tokens false false).2 false false).2 false false).2 false false).1 (runInformalizeStage VALUE (runInformalizeStage LIMIT (runInformalizeStage NUMBER (runInformalizeStage NULLORDER s tokens false false).1 (runInformalizeStage NULLORDER s tokens false false).2 false false).1 (runInformalizeStage NUMBER (runInformalizeStage NULLORDER s tokens false false).1 (runInformalizeStage NULLORDER s tokens false false).2 false false).2 false false).1 (runInformalizeStage LIMIT (runInformalizeStage NUMBER (runInformalizeStage NULLORDER s tokens false false).1 (runInformalizeStage NULLORDER s tokens false false).2 false false).1 (runInformalizeStage NUMBER (runInformalizeStage NULLORDER s tokens false false).1 (runInformalizeStage NULLORDER s tokens false false).2 false false).2 false false).2 false false).2 true true).2 false true).1 (runInformalizeStage ORDERBY (runInformalizeStage EXPRESSION (runInformalizeStage VALUE (runInformalizeStage LIMIT (runInformalizeStage NUMBER (runInformalizeStage NULLORDER s tokens false false).1 (runInformalizeStage NULLORDER s tokens false false).2 false false).1 (runInformalizeStage NUMBER (runInformalizeStage NULLORDER s tokens false false).1 (runInformalizeStage NULLORDER s tokens false false).2 false false).2 false false).1 (runInformalizeStage LIMIT (runInformalizeStage NUMBER (runInformalizeStage NULLORDER s tokens false false).1 (runInformalizeStage NULLORDER s tokens false false).2 false false).1 (runInformalizeStage NUMBER (runInformalizeStage NULLORDER s tokens false false).1 (runInformalizeStage NULLORDER s tokens false false).2 false false).2 false false).2 false false).1 (runInformalizeStage VALUE (runInformalizeStage LIMIT (runInformalizeStage NUMBER (runInformalizeStage NULLORDER s tokens false false).1 (runInformalizeStage NULLORDER s tokens false false).2 false false).1 (runInformalizeStage NUMBER (runInformalizeStage NULLORDER s tokens false false).1 (runInformalizeStage NULLORDER s tokens false false).2 false false).2 false false).1 (runInformalizeStage LIMIT (runInformalizeStage NUMBER (runInformalizeStage NULLORDER s tokens false false).1 (runInformalizeStage NULLORDER s tokens false false).2 false false).1 (runInformalizeStage NUMBER (runInformalizeStage NULLORDER s tokens false false).1 (runInformalizeStage NULLORDER s tokens false false).2 false false).2 false false).2 false false).2 true true).1 (runInformalizeStage EXPRESSION (runInformalizeStage VALUE (runInformalizeStage LIMIT (runInformalizeStage NUMBER (runInformalizeStage NULLORDER s tokens false false).1 (runInformalizeStage NULLORDER s tokens false false).2 false false).1 (runInformalizeStage NUMBER (runInformalizeStage NULLORDER s tokens false false).1 (runInformalizeStage NULLORDER s tokens false false).2 false false).2 false false).1 (runInformalizeStage LIMIT (runInformalizeStage NUMBER (runInformalizeStage NULLORDER s tokens false false).1 (runInformalizeStage NULLORDER s tokens false false).2 false false).1 (runInformalizeStage NUMBER (runInformalizeStage NULLORDER s tokens false false).1 (runInformalizeStage NULLORDER s tokens false false).2 false false).2 false false).2 false false).1 (runInformalizeStage VALUE (runInformalizeStage LIMIT (runInformalizeStage NUMBER (runInformalizeStage NULLORDER s tokens false false).1 (runInformalizeStage NULLORDER s tokens false false).2 false false).1 (runInformalizeStage NUMBER (runInformalizeStage NULLORDER s tokens false false).1 (runInformalizeStage NULLORDER s tokens false false).2 false false).2 false false).1 (runInformalizeStage LIMIT (runInformalizeStage NUMBER (runInformalizeStage NULLORDER s tokens false false).1 (runInformalizeStage NULLORDER s tokens false false).2 false false).1 (runInformalizeStage NUMBER (runInformalizeStage NULLORDER s tokens false false).1 (runInformalizeStage NULLORDER s tokens false false).2 false false).2 false false).2 false false).2 true true).2 false true).2 true false).1) ((runInformalizeStage GROUPBY (runInformalizeStage ORDERBY (runInformalizeStage EXPRESSION (runInformalizeStage VALUE (runInformalizeStage LIMIT (runInformalizeStage NUMBER (runInformalizeStage NULLORDER s tokens false false).1 (runInformalizeStage NULLORDER s tokens false false).2 false false).1 (runInformalizeStage NUMBER (runInformalizeStage NULLORDER s tokens false false).1 (runInformalizeStage NULLORDER s tokens false false).2 false false).2 false false).1 (runInformalizeStage LIMIT (runInformalizeStage NUMBER (runInformalizeStage NULLORDER s tokens false false).1 (runInformalizeStage NULLORDER s tokens false false).2 false false).1 (runInformalizeStage NUMBER (runInformalizeStage NULLORDER s tokens false false).1 (runInformalizeStage NULLORDER s tokens false false).2 false false).2 false false).2 false false).1 (runInformalizeStage VALUE (runInformalizeStage LIMIT (runInformalizeStage NUMBER (runInformalizeStage NULLORDER s tokens false false).1 (runInformalizeStage NULLORDER s tokens false false).2 false false).1 (runInformalizeStage NUMBER (runInformalizeStage NULLORDER s tokens false false).1 (runInformalizeStage NULLORDER s tokens false false).2 false false).2 false false).1 (runInformalizeStage LIMIT (runInformalizeStage NUMBER (runInformalizeStage NULLORDER s tokens false false).1 (runInformalizeStage NULLORDER s tokens false false).2 false false).1 (runInformalizeStage NUMBER (runInformalizeStage NULLORDER s tokens false false).1 (runInformalizeStage NULLORDER s tokens false false).2 false false).2 false false).2 false false).2 true true).1 (runInformalizeStage EXPRESSION (runInformalizeStage VALUE (runInformalizeStage LIMIT (runInformalizeStage NUMBER (runInformalizeStage NULLORDER s tokens false false).1 (runInformalizeStage NULLORDER s tokens false false).2 false false).1 (runInformalizeStage NUMBER (runInformalizeStage NULLORDER s tokens false false).1 (runInformalizeStage NULLORDER s tokens false false).2 false false).2 false false).1 (runInformalizeStage LIMIT (runInformalizeStage NUMBER (runInformalizeStage NULLORDER s tokens false false).1 (runInformalizeStage NULLORDER s tokens false false).2 false false).1 (runInformalizeStage NUMBER (runInformalizeStage NULLORDER s tokens false false).1 (runInformalizeStage NULLORDER s tokens false false).2 false false).2 false false).2 false false).1 (runInformalizeStage VALUE (runInformalizeStage LIMIT (runInformalizeStage NUMBER (runInformalizeStage NULLORDER s tokens false false).1 (runInformalizeStage NULLORDER s tokens false false).2 false false).1 (runInformalizeStage NUMBER (runInformalizeStage NULLORDER s tokens false false).1 (runInformalizeStage NULLORDER s tokens false false).2 false false).2 false false).1 (runInformalizeStage LIMIT (runInformalizeStage NUMBER (runInformalizeStage NULLORDER s tokens false false).1 (runInformalizeStage NULLORDER s tokens false false).2 false false).1 (runInformalizeStage NUMBER (runInformalizeStage NULLORDER s tokens false false).1 (runInformalizeStage NULLORDER s tokens false false).2 false false).2 false false).2 false false).2 true true).2 false true).1 (runInformalizeStage ORDERBY (runInformalizeStage EXPRESSION (runInformalizeStage VALUE (runInformalizeStage LIMIT (runInformalizeStage NUMBER (runInformalizeStage NULLORDER s tokens false false).1 (runInformalizeStage NULLORDER s tokens false false).2 false false).1 (runInformalizeStage NUMBER (runInformalizeStage NULLORDER s tokens false false).1 (runInformalizeStage NULLORDER s tokens false false).2 false false).2 false false).1 (runInformalizeStage LIMIT (runInformalizeStage NUMBER (runInformalizeStage NULLORDER s tokens false false).1 (runInformalizeStage NULLORDER s tokens false false).2 false false).1 (runInformalizeStage NUMBER (runInformalizeStage NULLORDER s tokens false false).1 (runInformalizeStage NULLORDER s tokens false false).2 false false).2 false false).2 false false).1 (runInformalizeStage VALUE (runInformalizeStage LIMIT (runInformalizeStage NUMBER (runInformalizeStage NULLORDER s tokens false false).1 (runInformalizeStage NULLORDER s tokens false false).2 false false).1 (runInformalizeStage NUMBER (runInformalizeStage NULLORDER s tokens false false).1 (runInformalizeStage NULLORDER s tokens false false).2 false false).2 false false).1 (runInformalizeStage LIMIT (runInformalizeStage NUMBER (runInformalizeStage NULLORDER s tokens false false).1 (runInformalizeStage NULLORDER s tokens false false).2 false false).1 (runInformalizeStage NUMBER (runInformalizeStage NULLORDER s tokens false false).1 (runInformalizeStage NULLORDER s tokens false false).2 false false).2 false false).2 false false).2 true true).1 (runInformalizeStage EXPRESSION (runInformalizeStage VALUE (runInformalizeStage LIMIT (runInformalizeStage NUMBER (runInformalizeStage NULLORDER s tokens false false).1 (runInformalizeStage NULLORDER s tokens false false).2 false false).1 (runInformalizeStage NUMBER (runInformalizeStage NULLORDER s tokens false false).1 (runInformalizeStage NULLORDER s tokens false false).2 false false).2 false false).1 (runInformalizeStage LIMIT (runInformalizeStage NUMBER (runInformalizeStage NULLORDER s tokens false false).1 (runInformalizeStage NULLORDER s tokens false false).2 false false).1 (runInformalizeStage NUMBER (runInformalizeStage NULLORDER s tokens false false).1 (runInformalizeStage NULLORDER s tokens false false).2 false false).2 false false).2 false false).1 (runInformalizeStage VALUE (runInformalizeStage LIMIT (runInformalizeStage NUMBER (runInformalizeStage NULLORDER s tokens false false).1 (runInformalizeStage NULLORDER s tokens false false).2 false false).1 (runInformalizeStage NUMBER (runInformalizeStage NULLORDER s tokens false false).1 (runInformalizeStage NULLORDER s tokens false false).2 false false).2 false false).1 (runInformalizeStage LIMIT (runInformalizeStage NUMBER (runInformalizeStage NULLORDER s tokens false false).1 (runInformalizeStage NULLORDER s tokens false false).2 false false).1 (runInformalizeStage NUMBER (runInformalizeStage NULLORDER s tokens false false).1 (runInformalizeStage NULLORDER s tokens false false).2 false false).2 false false).2 false false).2 true true).2 false true).2 true false).2) false false g7.1
  have g9 := runInformalizeStage_good WHERE good_WHERE
    ((runInformalizeStage HAVING (runInformalizeStage GROUPBY (runInformalizeStage ORDERBY (runInformalizeStage EXPRESSION (runInformalizeStage VALUE (runInformalizeStage LIMIT (runInformalizeStage NUMBER (runInformalizeStage NULLORDER s tokens false false).1 (runInformalizeStage NULLORDER s tokens false false).2 false false).1 (runInformalizeStage NUMBER (runInformalizeStage NULLORDER s tokens false false).1 (runInformalizeStage NULLORDER s tokens false false).2 false false).2 false false).1 (runInformalizeStage LIMIT (runInformalizeStage NUMBER (runInformalizeStage NULLORDER s tokens false false).1 (runInformalizeStage NULLORDER s tokens false false).2 false false).1 (runInformalizeStage NUMBER (runInformalizeStage NULLORDER s tokens false false).1 (runInformalizeStage NULLORDER s tokens false false).2 false false).2 false false).2 false false).1 (runInformalizeStage VALUE (runInformalizeStage LIMIT (runInformalizeStage NUMBER (runInformalizeStage NULLORDER s tokens false false).1 (runInformalizeStage NULLORDER s tokens false false).2 false false).1 (runInformalizeStage NUMBER (runInformalizeStage NULLORDER s tokens false false).1 (runInformalizeStage NULLORDER s tokens false false).2 false false).2 false false).1 (runInformalizeStage LIMIT (runInformalizeStage NUMBER (runInformalizeStage NULLORDER s tokens false false).1 (runInformalizeStage NULLORDER s tokens false false).2 false false).1 (runInformalizeStage NUMBER (runInformalizeStage NULLORDER s tokens false false).1 (runInformalizeStage NULLORDER s tokens false false).2 false false).2 false false).2 false false).2 true true).1 (runInformalizeStage EXPRESSION (runInformalizeStage VALUE (runInformalizeStage LIMIT (runInformalizeStage NUMBER (runInformalizeStage NULLORDER s tokens false false).1 (runInformalizeStage NULLORDER s tokens false false).2 false false).1 (runInformalizeStage NUMBER (runInformalizeStage NULLORDER s tokens false false).1 (runInformalizeStage NULLORDER s tokens false false).2 false false).2 false false).1 (runInformalizeStage LIMIT (runInformalizeStage NUMBER (runInformalizeStage NULLORDER s tokens false false).1 (runInformalizeStage NULLORDER s tokens false false).2 false false).1 (runInformalizeStage NUMBER (runInformalizeStage NULLORDER s tokens false false).1 (runInformalizeStage NULLORDER s tokens false false).2 false false).2 false false).2 false false).1 (runInformalizeStage VALUE (runInformalizeStage LIMIT (runInformalizeStage NUMBER (runInformalizeStage NULLORDER s tokens false false).1 (runInformalizeStage NULLORDER s tokens false false).2 false false).1 (runInformalizeStage NUMBER (runInformalizeStage NULLORDER s tokens false false).1 (runInformalizeStage NULLORDER s tokens false false).2 false false).2 false false).1 (runInformalizeStage LIMIT (runInformalizeStage NUMBER (runInformalizeStage NULLORDER s tokens false false).1 (runInformalizeStage NULLORDER s tokens false false).2 false false).1 (runInformalizeStage NUMBER (runInformalizeStage NULLORDER s tokens false false).1 (runInformalizeStage NULLORDER s tokens false false).2 false false).2 false false).2 false false).2 true true).2 false true).1 (runInformalizeStage ORDERBY (runInformalizeStage EXPRESSION (runInformalizeStage VALUE (runInformalizeStage LIMIT (runInformalizeStage NUMBER (runInformalizeStage NULLORDER s tokens false false).1 (runInformalizeStage NULLORDER s tokens false false).2 false false).1 (runInformalizeStage NUMBER (runInformalizeStage NULLORDER s tokens false false).1 (runInformalizeStage NULLORDER s tokens false false).2 false false).2 false false).1 (runInformalizeStage LIMIT (runInformalizeStage NUMBER (runInformalizeStage NULLORDER s tokens false false).1 (runInformalizeStage NULLORDER s tokens false false).2 false false).1 (runInformalizeStage NUMBER (runInformalizeStage NULLORDER s tokens false false).1 (runInformalizeStage NULLORDER s tokens false false).2 false false).2 false false).2 false false).1 (runInformalizeStage VALUE (runInformalizeStage LIMIT (runInformalizeStage NUMBER (runInformalizeStage NULLORDER s tokens false false).1 (runInformalizeStage NULLORDER s tokens false false).2 false false).1 (runInformalizeStage NUMBER (runInformalizeStage NULLORDER s tokens false false).1 (runInformalizeStage NULLORDER s tokens false false).2 false false).2 false false).1 (runInformalizeStage LIMIT (runInformalizeStage NUMBER (runInformalizeStage NULLORDER s tokens false false).1 (runInformalizeStage NULLORDER s tokens false false).2 false false).1 (runInformalizeStage NUMBER (runInformalizeStage NULLORDER s tokens false false).1 (runInformalizeStage NULLORDER s tokens false false).2 false false).2 false false).2 false false).2 true true).1 (runInformalizeStage EXPRESSION (runInformalizeStage VALUE (runInformalizeStage LIMIT (runInformalizeStage NUMBER (runInformalizeStage NULLORDER s tokens false false).1 (runInformalizeStage NULLORDER s tokens false false).2 false false).1 (runInformalizeStage NUMBER (runInformalizeStage NULLORDER s tokens false false).1 (runInformalizeStage NULLORDER s tokens false false).2 false false).2 false false).1 (runInformalizeStage LIMIT (runInformalizeStage NUMBER (runInformalizeStage NULLORDER s tokens false false).1 (runInformalizeStage NULLORDER s tokens false false).2 false false).1 (runInformalizeStage NUMBER (runInformalizeStage NULLORDER s tokens false false).1 (runInformalizeStage NULLORDER s tokens false false).2 false false).2 false false).2 false false).1 (runInformalizeStage VALUE (runInformalizeStage LIMIT (runInformalizeStage NUMBER (runInformalizeStage NULLORDER s tokens false false).1 (runInformalizeStage NULLORDER s tokens false false).2 false false).1 (runInformalizeStage NUMBER (runInformalizeStage NULLORDER s tokens false false).1 (runInformalizeStage NULLORDER s tokens false false).2 false false).2 false false).1 (runInformalizeStage LIMIT (runInformalizeStage NUMBER (runInformalizeStage NULLORDER s tokens false false).1 (runInformalizeStage NULLORDER s tokens false false).2 false false).1 (runInformalizeStage NUMBER (runInformalizeStage NULLORDER s tokens false false).1 (runInformalizeStage NULLORDER s tokens false false).2 false false).2 false false).2 false false).2 true true).2 false true).2 true false).1 (runInformalizeStage GROUPBY (runInformalizeStage ORDERBY (runInformalizeStage EXPRESSION (runInformalizeStage VALUE (runInformalizeStage LIMIT (runInformalizeStage NUMBER (runInformalizeStage NULLORDER s tokens false false).1 (runInformalizeStage NULLORDER s tokens false false).2 false false).1 (runInformalizeStage NUMBER (runInformalizeStage NULLORDER s tokens false false).1 (runInformalizeStage NULLORDER s tokens false false).2 false false).2 false false).1 (runInformalizeStage LIMIT (runInformalizeStage NUMBER (runInformalizeStage NULLORDER s tokens false false).1 (runInformalizeStage NULLORDER s tokens false false).2 false false).1 (runInformalizeStage NUMBER (runInformalizeStage NULLORDER s tokens false false).1 (runInformalizeStage NULLORDER s tokens false false).2 false false).2 false false).2 false false).1 (runInformalizeStage VALUE (runInformalizeStage LIMIT (runInformalizeStage NUMBER (runInformalizeStage NULLORDER s tokens false false).1 (runInformalizeStage NULLORDER s tokens false false).2 false false).1 (runInformalizeStage NUMBER (runInformalizeStage NULLORDER s tokens false false).1 (runInformalizeStage NULLORDER s tokens false false).2 false false).2 false false).1 (runInformalizeStage LIMIT (runInformalizeStage NUMBER (runInformalizeStage NULLORDER s tokens false false).1 (runInformalizeStage NULLORDER s tokens false false).2 false false).1 (runInformalizeStage NUMBER (runInformalizeStage NULLORDER s tokens false false).1 (runInformalizeStage NULLORDER s tokens false false).2 false false).2 false false).2 false false).2 true true).1 (runInformalizeStage EXPRESSION (runInformalizeStage VALUE (runInformalizeStage LIMIT (runInformalizeStage NUMBER (runInformalizeStage NULLORDER s tokens false false).1 (runInformalizeStage NULLORDER s tokens false false).2 false false).1 (runInformalizeStage NUMBER (runInformalizeStage NULLORDER s tokens false false).1 (runInformalizeStage NULLORDER s tokens false false).2 false false).2 false false).1 (runInformalizeStage LIMIT (runInformalizeStage NUMBER (runInformalizeStage NULLORDER s tokens false false).1 (runInformalizeStage NULLORDER s tokens false false).2 false false).1 (runInformalizeStage NUMBER (runInformalizeStage NULLORDER s tokens false false).1 (runInformalizeStage NULLORDER s tokens false false).2 false false).2 false false).2 false false).1 (runInformalizeStage VALUE (runInformalizeStage LIMIT (runInformalizeStage NUMBER (runInformalizeStage NULLORDER s tokens false false).1 (runInformalizeStage NULLORDER s tokens false false).2 false false).1 (runInformalizeStage NUMBER (runInformalizeStage NULLORDER s tokens false false).1 (runInformalizeStage NULLORDER s tokens false false).2 false false).2 false false).1 (runInformalizeStage LIMIT (runInformalizeStage NUMBER (runInformalizeStage NULLORDER s tokens false false).1 (runInformalizeStage NULLORDER s tokens false false).2 false false).1 (runInformalizeStage NUMBER (runInformalizeStage NULLORDER s tokens false false).1 (runInformalizeStage NULLORDER s tokens false false).2 false false).2 false false).2 false false).2 true true).2 false true).1 (runInformalizeStage ORDERBY (runInformalizeStage EXPRESSION (runInformalizeStage VALUE (runInformalizeStage LIMIT (runInformalizeStage NUMBER (runInformalizeStage NULLORDER s tokens false false).1 (runInformalizeStage NULLORDER s tokens false false).2 false false).1 (runInformalizeStage NUMBER (runInformalizeStage NULLORDER s tokens false false).1 (runInformalizeStage NULLORDER s tokens false false).2 false false).2 false false).1 (runInformalizeStage LIMIT (runInformalizeStage NUMBER (runInformalizeStage NULLORDER s tokens false false).1 (runInformalizeStage NULLORDER s tokens false false).2 false false).1 (runInformalizeStage NUMBER (runInformalizeStage NULLORDER s tokens false false).1 (runInformalizeStage NULLORDER s tokens false false).2 false false).2 false false).2 false false).1 (runInformalizeStage VALUE (runInformalizeStage LIMIT (runInformalizeStage NUMBER (runInformalizeStage NULLORDER s tokens false false).1 (runInformalizeStage NULLORDER s tokens false false).2 false false).1 (runInformalizeStage NUMBER (runInformalizeStage NULLORDER s tokens false false).1 (runInformalizeStage NULLORDER s tokens false false).2 false false).2 false false).1 (runInformalizeStage LIMIT (runInformalizeStage NUMBER (runInformalizeStage NULLORDER s tokens false false).1 (runInformalizeStage NULLORDER s tokens false false).2 false false).1 (runInformalizeStage NUMBER (runInformalizeStage NULLORDER s tokens false false).1 (runInformalizeStage NULLORDER s tokens false false).2 false false).2 false false).2 false false).2 true true).1 (runInformalizeStage EXPRESSION (runInformalizeStage VALUE (runInformalizeStage LIMIT (runInformalizeStage NUMBER (runInformalizeStage NULLORDER s tokens false false).1 (runInformalizeStage NULLORDER s tokens false false).2 false false).1 (runInformalizeStage NUMBER (runInformalizeStage NULLORDER s tokens false false).1 (runInformalizeStage NULLORDER s tokens false false).2 false false).2 false false).1 (runInformalizeStage LIMIT (runInformalizeStage NUMBER (runInformalizeStage NULLORDER s tokens false false).1 (runInformalizeStage NULLORDER s tokens false false).2 false false).1 (runInformalizeStage NUMBER (runInformalizeStage NULLORDER s tokens false false).1 (runInformalizeStage NULLORDER s tokens false false).2 false false).2 false false).2 false false).1 (runInformalizeStage VALUE (runInformalizeStage LIMIT (runInformalizeStage NUMBER (runInformalizeStage NULLORDER s tokens false false).1 (runInformalizeStage NULLORDER s tokens false false).2 false false).1 (runInformalizeStage NUMBER (runInformalizeStage NULLORDER s tokens false false).1 (runInformalizeStage NULLORDER s tokens false false).2 false false).2 false false).1 (runInformalizeStage LIMIT (runInformalizeStage NUMBER (runInformalizeStage NULLORDER s tokens false false).1 (runInformalizeStage NULLORDER s tokens false false).2 false false).1 (runInformalizeStage NUMBER (runInformalizeStage NULLORDER s tokens false false).1 (runInformalizeStage NULLORDER s tokens false false).2 false false).2 false false).2 false false).2 true true).2 false true).2 true false).2 false false).1) ((runInformalizeStage HAVING (runInformalizeStage GROUPBY (runInformalizeStage ORDERBY (runInformalizeStage EXPRESSION (runInformalizeStage VALUE (runInformalizeStage LIMIT (runInformalizeStage NUMBER (runInformalizeStage NULLORDER s tokens false false).1 (runInformalizeStage NULLORDER s tokens false false).2 false false).1 (runInformalizeStage NUMBER (runInformalizeStage NULLORDER s tokens false false).1 (runInformalizeStage NULLORDER s tokens false false).2 false false).2 false false).1 (runInformalizeStage LIMIT (runInformalizeStage NUMBER (runInformalizeStage NULLORDER s tokens false false).1 (runInformalizeStage NULLORDER s tokens false false).2 false false).1 (runInformalizeStage NUMBER (runInformalizeStage NULLORDER s tokens false false).1 (runInformalizeStage NULLORDER s tokens false false).2 false false).2 false false).2 false false).1 (runInformalizeStage VALUE (runInformalizeStage LIMIT (runInformalizeStage NUMBER (runInformalizeStage NULLORDER s tokens false false).1 (runInformalizeStage NULLORDER s tokens false false).2 false false).1 (runInformalizeStage NUMBER (runInformalizeStage NULLORDER s tokens false false).1 (runInformalizeStage NULLORDER s tokens false false).2 false false).2 false false).1 (runInformalizeStage LIMIT (runInformalizeStage NUMBER (runInformalizeStage NULLORDER s tokens false false).1 (runInformalizeStage NULLORDER s tokens false false).2 false false).1 (runInformalizeStage NUMBER (runInformalizeStage NULLORDER s tokens false false).1 (runInformalizeStage NULLORDER s tokens false false).2 false false).2 false false).2 false false).2 true true).1 (runInformalizeStage EXPRESSION (runInformalizeStage VALUE (runInformalizeStage LIMIT (runInformalizeStage NUMBER (runInformalizeStage NULLORDER s tokens false false).1 (runInformalizeStage NULLORDER s tokens false false).2 false false).1 (runInformalizeStage NUMBER (runInformalizeStage NULLORDER s tokens false false).1 (runInformalizeStage NULLORDER s tokens false false).2 false false).2 false false).1 (runInformalizeStage LIMIT (runInformalizeStage NUMBER (runInformalizeStage NULLORDER s tokens false false).1 (runInformalizeStage NULLORDER s tokens false false).2 false false).1 (runInformalizeStage NUMBER (runInformalizeStage NULLORDER s tokens false false).1 (runInformalizeStage NULLORDER s tokens false false).2 false false).2 false false).2 false false).1 (runInformalizeStage VALUE (runInformalizeStage LIMIT (runInformalizeStage NUMBER (runInformalizeStage NULLORDER s tokens false false).1 (runInformalizeStage NULLORDER s tokens false false).2 false false).1 (runInformalizeStage NUMBER (runInformalizeStage NULLORDER s tokens false false).1 (runInformalizeStage NULLORDER s tokens false false).2 false false).2 false false).1 (runInformalizeStage LIMIT (runInformalizeStage NUMBER (runInformalizeStage NULLORDER s tokens false false).1 (runInformalizeStage NULLORDER s tokens false false).2 false false).1 (runInformalizeStage NUMBER (runInformalizeStage NULLORDER s tokens false false).1 (runInformalizeStage NULLORDER s tokens false false).2 false false).2 false false).2 false false).2 true true).2 false true).1 (runInformalizeStage ORDERBY (runInformalizeStage EXPRESSION (runInformalizeStage VALUE (runInformalizeStage LIMIT (runInformalizeStage NUMBER (runInformalizeStage NULLORDER s tokens false false).1 (runInformalizeStage NULLORDER s tokens false false).2 false false).1 (runInformalizeStage NUMBER (runInformalizeStage NULLORDER s tokens false false).1 (runInformalizeStage NULLORDER s tokens false false).2 false false).2 false false).1 (runInformalizeStage LIMIT (runInformalizeStage NUMBER (runInformalizeStage NULLORDER s tokens false false).1 (runInformalizeStage NULLORDER s tokens false false).2 false false).1 (runInformalizeStage NUMBER (runInformalizeStage NULLORDER s tokens false false).1 (runInformalizeStage NULLORDER s tokens false false).2 false false).2 false false).2 false false).1 (runInformalizeStage VALUE (runInformalizeStage LIMIT (runInformalizeStage NUMBER (runInformalizeStage NULLORDER s tokens false false).1 (runInformalizeStage NULLORDER s tokens false false).2 false false).1 (runInformalizeStage NUMBER (runInformalizeStage NULLORDER s tokens false false).1 (runInformalizeStage NULLORDER s tokens false false).2 false false).2 false false).1 (runInformalizeStage LIMIT (runInformalizeStage NUMBER (runInformalizeStage NULLORDER s tokens false false).1 (runInformalizeStage NULLORDER s tokens false false).2 false false).1 (runInformalizeStage NUMBER (runInformalizeStage NULLORDER s tokens false false).1 (runInformalizeStage NULLORDER s tokens false false).2 false false).2 false false).2 false false).2 true true).1 (runInformalizeStage EXPRESSION (runInformalizeStage VALUE (runInformalizeStage LIMIT (runInformalizeStage NUMBER (runInformalizeStage NULLORDER s tokens false false).1 (runInformalizeStage NULLORDER s tokens false false).2 false false).1 (runInformalizeStage NUMBER (runInformalizeStage NULLORDER s tokens false false).1 (runInformalizeStage NULLORDER s tokens false false).2 false false).2 false false).1 (runInformalizeStage LIMIT (runInformalizeStage NUMBER (runInformalizeStage NULLORDER s tokens false false).1 (runInformalizeStage NULLORDER s tokens false false).2 false false).1 (runInformalizeStage NUMBER (runInformalizeStage NULLORDER s tokens false false).1 (runInformalizeStage NULLORDER s tokens false false).2 false false).2 false false).2 false false).1 (runInformalizeStage VALUE (runInformalizeStage LIMIT (runInformalizeStage NUMBER (runInformalizeStage NULLORDER s tokens false false).1 (runInformalizeStage NULLORDER s tokens false false).2 false false).1 (runInformalizeStage NUMBER (runInformalizeStage NULLORDER s tokens false false).1 (runInformalizeStage NULLORDER s tokens false false).2 false false).2 false false).1 (runInformalizeStage LIMIT (runInformalizeStage NUMBER (runInformalizeStage NULLORDER s tokens false false).1 (runInformalizeStage NULLORDER s tokens false false).2 false false).1 (runInformalizeStage NUMBER (runInformalizeStage NULLORDER s tokens false false).1 (runInformalizeStage NULLORDER s tokens false false).2 false false).2 false false).2 false false).2 true true).2 false true).2 true false).1 (runInformalizeStage GROUPBY (runInformalizeStage ORDERBY (runInformalizeStage EXPRESSION (runInformalizeStage VALUE (runInformalizeStage LIMIT (runInformalizeStage NUMBER (runInformalizeStage NULLORDER s tokens false false).1 (runInformalizeStage NULLORDER s tokens false false).2 false false).1 (runInformalizeStage NUMBER (runInformalizeStage NULLORDER s tokens false false).1 (runInformalizeStage NULLORDER s tokens false false).2 false false).2 false false).1 (runInformalizeStage LIMIT (runInformalizeStage NUMBER (runInformalizeStage NULLORDER s tokens false false).1 (runInformalizeStage NULLORDER s tokens false false).2 false false).1 (runInformalizeStage NUMBER (runInformalizeStage NULLORDER s tokens false false).1 (runInformalizeStage NULLORDER s tokens false false).2 false false).2 false false).2 false false).1 (runInformalizeStage VALUE (runInformalizeStage LIMIT (runInformalizeStage NUMBER (runInformalizeStage NULLORDER s tokens false false).1 (runInformalizeStage NULLORDER s tokens false false).2 false false).1 (runInformalizeStage NUMBER (runInformalizeStage NULLORDER s tokens false false).1 (runInformalizeStage NULLORDER s tokens false false).2 false false).2 false false).1 (runInformalizeStage LIMIT (runInformalizeStage NUMBER (runInformalizeStage NULLORDER s tokens false false).1 (runInformalizeStage NULLORDER s tokens false false).2 false false).1 (runInformalizeStage NUMBER (runInformalizeStage NULLORDER s tokens false false).1 (runInformalizeStage NULLORDER s tokens false false).2 false false).2 false false).2 false false).2 true true).1 (runInformalizeStage EXPRESSION (runInformalizeStage VALUE (runInformalizeStage LIMIT (runInformalizeStage NUMBER (runInformalizeStage NULLORDER s tokens false false).1 (runInformalizeStage NULLORDER s tokens false false).2 false false).1 (runInformalizeStage NUMBER (runInformalizeStage NULLORDER s tokens false false).1 (runInformalizeStage NULLORDER s tokens false false).2 false false).2 false false).1 (runInformalizeStage LIMIT (runInformalizeStage NUMBER (runInformalizeStage NULLORDER s tokens false false).1 (runInformalizeStage NULLORDER s tokens false false).2 false false).1 (runInformalizeStage NUMBER (runInformalizeStage NULLORDER s tokens false false).1 (runInformalizeStage NULLORDER s tokens false false).2 false false).2 false false).2 false false).1 (runInformalizeStage VALUE (runInformalizeStage LIMIT (runInformalizeStage NUMBER (runInformalizeStage NULLORDER s tokens false false).1 (runInformalizeStage NULLORDER s tokens false false).2 false false).1 (runInformalizeStage NUMBER (runInformalizeStage NULLORDER s tokens false false).1 (runInformalizeStage NULLORDER s tokens false false).2 false false).2 false false).1 (runInformalizeStage LIMIT (runInformalizeStage NUMBER (runInformalizeStage NULLORDER s tokens false false).1 (runInformalizeStage NULLORDER s tokens false false).2 false false).1 (runInformalizeStage NUMBER (runInformalizeStage NULLORDER s tokens false false).1 (runInformalizeStage NULLORDER s tokens false false).2 false false).2 false false).2 false false).2 true true).2 false true).1 (runInformalizeStage ORDERBY (runInformalizeStage EXPRESSION (runInformalizeStage VALUE (runInformalizeStage LIMIT (runInformalizeStage NUMBER (runInformalizeStage NULLORDER s tokens false false).1 (runInformalizeStage NULLORDER s tokens false false).2 false false).1 (runInformalizeStage NUMBER (runInformalizeStage NULLORDER s tokens false false).1 (runInformalizeStage NULLORDER s tokens false false).2 false false).2 false false).1 (runInformalizeStage LIMIT (runInformalizeStage NUMBER (runInformalizeStage NULLORDER s tokens false false).1 (runInformalizeStage NULLORDER s tokens false false).2 false false).1 (runInformalizeStage NUMBER (runInformalizeStage NULLORDER s tokens false false).1 (runInformalizeStage NULLORDER s tokens false false).2 false false).2 false false).2 false false).1 (runInformalizeStage VALUE (runInformalizeStage LIMIT (runInformalizeStage NUMBER (runInformalizeStage NULLORDER s tokens false false).1 (runInformalizeStage NULLORDER s tokens false false).2 false false).1 (runInformalizeStage NUMBER (runInformalizeStage NULLORDER s tokens false false).1 (runInformalizeStage NULLORDER s tokens false false).2 false false).2 false false).1 (runInformalizeStage LIMIT (runInformalizeStage NUMBER (runInformalizeStage NULLORDER s tokens false false).1 (runInformalizeStage NULLORDER s tokens false false).2 false false).1 (runInformalizeStage NUMBER (runInformalizeStage NULLORDER s tokens false false).1 (runInformalizeStage NULLORDER s tokens false false).2 false false).2 false false).2 false false).2 true true).1 (runInformalizeStage EXPRESSION (runInformalizeStage VALUE (runInformalizeStage LIMIT (runInformalizeStage NUMBER (runInformalizeStage NULLORDER s tokens false false).1 (runInformalizeStage NULLORDER s tokens false false).2 false false).1 (runInformalizeStage NUMBER (runInformalizeStage NULLORDER s tokens false false).1 (runInformalizeStage NULLORDER s tokens false false).2 false false).2 false false).1 (runInformalizeStage LIMIT (runInformalizeStage NUMBER (runInformalizeStage NULLORDER s tokens false false).1 (runInformalizeStage NULLORDER s tokens false false).2 false false).1 (runInformalizeStage NUMBER (runInformalizeStage NULLORDER s tokens false false).1 (runInformalizeStage NULLORDER s tokens false false).2 false false).2 false false).2 false false).1 (runInformalizeStage VALUE (runInformalizeStage LIMIT (runInformalizeStage NUMBER (runInformalizeStage NULLORDER s tokens false false).1 (runInformalizeStage NULLORDER s tokens false false).2 false false).1 (runInformalizeStage NUMBER (runInformalizeStage NULLORDER s tokens false false).1 (runInformalizeStage NULLORDER s tokens false false).2 false false).2 false false).1 (runInformalizeStage LIMIT (runInformalizeStage NUMBER (runInformalizeStage NULLORDER s tokens false false).1 (runInformalizeStage NULLORDER s tokens false false).2 false false).1 (runInformalizeStage NUMBER (runInformalizeStage NULLORDER s tokens false false).1 (runInformalizeStage NULLORDER s tokens false false).2 false false).2 false false).2 false false).2 true true).2 false true).2 true false).2 false false).2) false false g8.1
  have g10 := runInformalizeStage_good FROM good_FROM
    ((runInformalizeStage WHERE (runInformalizeStage HAVING (runInformalizeStage GROUPBY (runInformalizeStage ORDERBY (runInformalizeStage EXPRESSION (runInformalizeStage VALUE (runInformalizeStage LIMIT (runInformalizeStage NUMBER (runInformalizeStage NULLORDER s tokens false false).1 (runInformalizeStage NULLORDER s tokens false false).2 false false).1 (runInformalizeStage NUMBER (runInformalizeStage NULLORDER s tokens false false).1 (runInformalizeStage NULLORDER s tokens false false).2 false false).2 false false).1 (runInformalizeStage LIMIT (runInformalizeStage NUMBER (runInformalizeStage NULLORDER s tokens false false).1 (runInformalizeStage NULLORDER s tokens false false).2 false false).1 (runInformalizeStage NUMBER (runInformalizeStage NULLORDER s tokens false false).1 (runInformalizeStage NULLORDER s tokens false false).2 false false).2 false false).2 false false).1 (runInformalizeStage VALUE (runInformalizeStage LIMIT (runInformalizeStage NUMBER (runInformalizeStage NULLORDER s tokens false false).1 (runInformalizeStage NULLORDER s tokens false false).2 false false).1 (runInformalizeStage NUMBER (runInformalizeStage NULLORDER s tokens false false).1 (runInformalizeStage NULLORDER s tokens false false).2 false false).2 false false).1 (runInformalizeStage LIMIT (runInformalizeStage NUMBER (runInformalizeStage NULLORDER s tokens false false).1 (runInformalizeStage NULLORDER s tokens false false).2 false false).1 (runInformalizeStage NUMBER (runInformalizeStage NULLORDER s tokens false false).1 (runInformalizeStage NULLORDER s tokens false false).2 false false).2 false false).2 false false).2 true true).1 (runInformalizeStage EXPRESSION (runInformalizeStage VALUE (runInformalizeStage LIMIT (runInformalizeStage NUMBER (runInformalizeStage NULLORDER s tokens false false).1 (runInformalizeStage NULLORDER s tokens false false).2 false false).1 (runInformalizeStage NUMBER (runInformalizeStage NULLORDER s tokens false false).1 (runInformalizeStage NULLORDER s tokens false false).2 false false).2 false false).1 (runInformalizeStage LIMIT (runInformalizeStage NUMBER (runInformalizeStage NULLORDER s tokens false false).1 (runInformalizeStage NULLORDER s tokens false false).2 false false).1 (runInformalizeStage NUMBER (runInformalizeStage NULLORDER s tokens false false).1 (runInformalizeStage NULLORDER s tokens false false).2 false false).2 false false).2 false false).1 (runInformalizeStage VALUE (runInformalizeStage LIMIT (runInformalizeStage NUMBER (runInformalizeStage NULLORDER s tokens false false).1 (runInformalizeStage NULLORDER s tokens false false).2 false false).1 (runInformalizeStage NUMBER (runInformalizeStage NULLORDER s tokens false false).1 (runInformalizeStage NULLORDER s tokens false false).2 false false).2 false false).1 (runInformalizeStage LIMIT (runInformalizeStage NUMBER (runInformalizeStage NULLORDER s tokens false false).1 (runInformalizeStage NULLORDER s tokens false false).2 false false).1 (runInformalizeStage NUMBER (runInformalizeStage NULLORDER s tokens false false).1 (runInformalizeStage NULLORDER s tokens false false).2 false false).2 false false).2 false false).2 true true).2 false true).1 (runInformalizeStage ORDERBY (runInformalizeStage EXPRESSION (runInformalizeStage VALUE (runInformalizeStage LIMIT (runInformalizeStage NUMBER (runInformalizeStage NULLORDER s tokens false false).1 (runInformalizeStage NULLORDER s tokens false false).2 false false).1 (runInformalizeStage NUMBER (runInformalizeStage NULLORDER s tokens false false).1 (runInformalizeStage NULLORDER s tokens false false).2 false false).2 false false).1 (runInformalizeStage LIMIT (runInformalizeStage NUMBER (runInformalizeStage NULLORDER s tokens false false).1 (runInformalizeStage NULLORDER s tokens false false).2 false false).1 (runInformalizeStage NUMBER (runInformalizeStage NULLORDER s tokens false false).1 (runInformalizeStage NULLORDER s tokens false false).2 false false).2 false false).2 false false).1 (runInformalizeStage VALUE (runInformalizeStage LIMIT (runInformalizeStage NUMBER (runInformalizeStage NULLORDER s tokens false false).1 (runInformalizeStage NULLORDER s tokens false false).2 false false).1 (runInformalizeStage NUMBER (runInformalizeStage NULLORDER s tokens false false).1 (runInformalizeStage NULLORDER s tokens false false).2 false false).2 false false).1 (runInformalizeStage LIMIT (runInformalizeStage NUMBER (runInformalizeStage NULLORDER s tokens false false).1 (runInformalizeStage NULLORDER s tokens false false).2 false false).1 (runInformalizeStage NUMBER (runInformalizeStage NULLORDER s tokens false false).1 (runInformalizeStage NULLORDER s tokens false false).2 false false).2 false false).2 false false).2 true true).1 (runInformalizeStage EXPRESSION (runInformalizeStage VALUE (runInformalizeStage LIMIT (runInformalizeStage NUMBER (runInformalizeStage NULLORDER s tokens false false).1 (runInformalizeStage NULLORDER s tokens false false).2 false false).1 (runInformalizeStage NUMBER (runInformalizeStage NULLORDER s tokens false false).1 (runInformalizeStage NULLORDER s tokens false false).2 false false).2 false false).1 (runInformalizeStage LIMIT (runInformalizeStage NUMBER (runInformalizeStage NULLORDER s tokens false false).1 (runInformalizeStage NULLORDER s tokens false false).2 false false).1 (runInformalizeStage NUMBER (runInformalizeStage NULLORDER s tokens false false).1 (runInformalizeStage NULLORDER s tokens false false).2 false false).2 false false).2 false false).1 (runInformalizeStage VALUE (runInformalizeStage LIMIT (runInformalizeStage NUMBER (runInformalizeStage NULLORDER s tokens false false).1 (runInformalizeStage NULLORDER s tokens false false).2 false false).1 (runInformalizeStage NUMBER (runInformalizeStage NULLORDER s tokens false false).1 (runInformalizeStage NULLORDER s tokens false false).2 false false).2 false false).1 (runInformalizeStage LIMIT (runInformalizeStage NUMBER (runInformalizeStage NULLORDER s tokens false false).1 (runInformalizeStage NULLORDER s tokens false false).2 false false).1 (runInformalizeStage NUMBER (runInformalizeStage NULLORDER s tokens false false).1 (runInformalizeStage NULLORDER s tokens false false).2 false false).2 false false).2 false false).2 true true).2 false true).2 true false).1 (runInformalizeStage GROUPBY (runInformalizeStage ORDERBY (runInformalizeStage EXPRESSION (runInformalizeStage VALUE (runInformalizeStage LIMIT (runInformalizeStage NUMBER (runInformalizeStage NULLORDER s tokens false false).1 (runInformalizeStage NULLORDER s tokens false false).2 false false).1 (runInformalizeStage NUMBER (runInformalizeStage NULLORDER s tokens false false).1 (runInformalizeStage NULLORDER s tokens false false).2 false false).2 false false).1 (runInformalizeStage LIMIT (runInformalizeStage NUMBER (runInformalizeStage NULLORDER s tokens false false).1 (runInformalizeStage NULLORDER s tokens false false).2 false false).1 (runInformalizeStage NUMBER (runInformalizeStage NULLORDER s tokens false false).1 (runInformalizeStage NULLORDER s tokens false false).2 false false).2 false false).2 false false).1 (runInformalizeStage VALUE (runInformalizeStage LIMIT (runInformalizeStage NUMBER (runInformalizeStage NULLORDER s tokens false false).1 (runInformalizeStage NULLORDER s tokens false false).2 false false).1 (runInformalizeStage NUMBER (runInformalizeStage NULLORDER s tokens false false).1 (runInformalizeStage NULLORDER s tokens false false).2 false false).2 false false).1 (runInformalizeStage LIMIT (runInformalizeStage NUMBER (runInformalizeStage NULLORDER s tokens false false).1 (runInformalizeStage NULLORDER s tokens false false).2 false false).1 (runInformalizeStage NUMBER (runInformalizeStage NULLORDER s tokens false false).1 (runInformalizeStage NULLORDER s tokens false false).2 false false).2 false false).2 false false).2 true true).1 (runInformalizeStage EXPRESSION (runInformalizeStage VALUE (runInformalizeStage LIMIT (runInformalizeStage NUMBER (runInformalizeStage NULLORDER s tokens false false).1 (runInformalizeStage NULLORDER s tokens false false).2 false false).1 (runInformalizeStage NUMBER (runInformalizeStage NULLORDER s tokens false false).1 (runInformalizeStage NULLORDER s tokens false false).2 false false).2 false false).1 (runInformalizeStage LIMIT (runInformalizeStage NUMBER (runInformalizeStage NULLORDER s tokens false false).1 (runInformalizeStage NULLORDER s tokens false false).2 false false).1 (runInformalizeStage NUMBER (runInformalizeStage NULLORDER s tokens false false).1 (runInformalizeStage NULLORDER s tokens false false).2 false false).2 false false).2 false false).1 (runInformalizeStage VALUE (runInformalizeStage LIMIT (runInformalizeStage NUMBER (runInformalizeStage NULLORDER s tokens false false).1 (runInformalizeStage NULLORDER s tokens false false).2 false false).1 (runInformalizeStage NUMBER (runInformalizeStage NULLORDER s tokens false false).1 (runInformalizeStage NULLORDER s tokens false false).2 false false).2 false false).1 (runInformalizeStage LIMIT (runInformalizeStage NUMBER (runInformalizeStage NULLORDER s tokens false false).1 (runInformalizeStage NULLORDER s tokens false false).2 false false).1 (runInformalizeStage NUMBER (runInformalizeStage NULLORDER s tokens false false).1 (runInformalizeStage NULLORDER s tokens false false).2 false false).2 false false).2 false false).2 true true).2 false true).1 (runInformalizeStage ORDERBY (runInformalizeStage EXPRESSION (runInformalizeStage VALUE (runInformalizeStage LIMIT (runInformalizeStage NUMBER (runInformalizeStage NULLORDER s tokens false false).1 (runInformalizeStage NULLORDER s tokens false false).2 false false).1 (runInformalizeStage NUMBER (runInformalizeStage NULLORDER s tokens false false).1 (runInformalizeStage NULLORDER s tokens false false).2 false false).2 false false).1 (runInformalizeStage LIMIT (runInformalizeStage NUMBER (runInformalizeStage NULLORDER s tokens false false).1 (runInformalizeStage NULLORDER s tokens false false).2 false false).1 (runInformalizeStage NUMBER (runInformalizeStage NULLORDER s tokens false false).1 (runInformalizeStage NULLORDER s tokens false false).2 false false).2 false false).2 false false).1 (runInformalizeStage VALUE (runInformalizeStage LIMIT (runInformalizeStage NUMBER (runInformalizeStage NULLORDER s tokens false false).1 (runInformalizeStage NULLORDER s tokens false false).2 false false).1 (runInformalizeStage NUMBER (runInformalizeStage NULLORDER s tokens false false).1 (runInformalizeStage NULLORDER s tokens false false).2 false false).2 false false).1 (runInformalizeStage LIMIT (runInformalizeStage NUMBER (runInformalizeStage NULLORDER s tokens false false).1 (runInformalizeStage NULLORDER s tokens false false).2 false false).1 (runInformalizeStage NUMBER (runInformalizeStage NULLORDER s tokens false false).1 (runInformalizeStage NULLORDER s tokens false false).2 false false).2 false false).2 false false).2 true true).1 (runInformalizeStage EXPRESSION (runInformalizeStage VALUE (runInformalizeStage LIMIT (runInformalizeStage NUMBER (runInformalizeStage NULLORDER s tokens false false).1 (runInformalizeStage NULLORDER s tokens false false).2 false false).1 (runInformalizeStage NUMBER (runInformalizeStage NULLORDER s tokens false false).1 (runInformalizeStage NULLORDER s tokens false false).2 false false).2 false false).1 (runInformalizeStage LIMIT (runInformalizeStage NUMBER (runInformalizeStage NULLORDER s tokens false false).1 (runInformalizeStage NULLORDER s tokens false false).2 false false).1 (runInformalizeStage NUMBER (runInformalizeStage NULLORDER s tokens false false).1 (runInformalizeStage NULLORDER s tokens false false).2 false false).2 false false).2 false false).1 (runInformalizeStage VALUE (runInformalizeStage LIMIT (runInformalizeStage NUMBER (runInformalizeStage NULLORDER s tokens false false).1 (runInformalizeStage NULLORDER s tokens false false).2 false false).1 (runInformalizeStage NUMBER (runInformalizeStage NULLORDER s tokens false false).1 (runInformalizeStage NULLORDER s tokens false false).2 false false).2 false false).1 (runInformalizeStage LIMIT (runInformalizeStage NUMBER (runInformalizeStage NULLORDER s tokens false false).1 (runInformalizeStage NULLORDER s tokens false false).2 false false).1 (runInformalizeStage NUMBER (runInformalizeStage NULLORDER s tokens false false).1 (runInformalizeStage NULLORDER s tokens false false).2 false false).2 false false).2 false false).2 true true).2 false true).2 true false).2 false false).1 (runInformalizeStage HAVING (runInformalizeStage GROUPBY (runInformalizeStage ORDERBY (runInformalizeStage EXPRESSION (runInformalizeStage VALUE (runInformalizeStage LIMIT (runInformalizeStage NUMBER (runInformalizeStage NULLORDER s tokens false false).1 (runInformalizeStage NULLORDER s tokens false false).2 false false).1 (runInformalizeStage NUMBER (runInformalizeStage NULLORDER s tokens false false).1 (runInformalizeStage NULLORDER s tokens false false).2 false false).2 false false).1 (runInformalizeStage LIMIT (runInformalizeStage NUMBER (runInformalizeStage NULLORDER s tokens false false).1 (runInformalizeStage NULLORDER s tokens false false).2 false false).1 (runInformalizeStage NUMBER (runInformalizeStage NULLORDER s tokens false false).1 (runInformalizeStage NULLORDER s tokens false false).2 false false).2 false false).2 false false).1 (runInformalizeStage VALUE (runInformalizeStage LIMIT (runInformalizeStage NUMBER (runInformalizeStage NULLORDER s tokens false false).1 (runInformalizeStage NULLORDER s tokens false false).2 false false).1 (runInformalizeStage NUMBER (runInformalizeStage NULLORDER s tokens false false).1 (runInformalizeStage NULLORDER s tokens false false).2 false false).2 false false).1 (runInformalizeStage LIMIT (runInformalizeStage NUMBER (runInformalizeStage NULLORDER s tokens false false).1 (runInformalizeStage NULLORDER s tokens false false).2 false false).1 (runInformalizeStage NUMBER (runInformalizeStage NULLORDER s tokens false false).1 (runInformalizeStage NULLORDER s tokens false false).2 false false).2 false false).2 false false).2 true true).1 (runInformalizeStage EXPRESSION (runInformalizeStage VALUE (runInformalizeStage LIMIT (runInformalizeStage NUMBER (runInformalizeStage NULLORDER s tokens false false).1 (runInformalizeStage NULLORDER s tokens false false).2 false false).1 (runInformalizeStage NUMBER (runInformalizeStage NULLORDER s tokens false false).1 (runInformalizeStage NULLORDER s tokens false false).2 false false).2 false false).1 (runInformalizeStage LIMIT (runInformalizeStage NUMBER (runInformalizeStage NULLORDER s tokens false false).1 (runInformalizeStage NULLORDER s tokens false false).2 false false).1 (runInformalizeStage NUMBER (runInformalizeStage NULLORDER s tokens false false).1 (runInformalizeStage NULLORDER s tokens false false).2 false false).2 false false).2 false false).1 (runInformalizeStage VALUE (runInformalizeStage LIMIT (runInformalizeStage NUMBER (runInformalizeStage NULLORDER s tokens false false).1 (runInformalizeStage NULLORDER s tokens false false).2 false false).1 (runInformalizeStage NUMBER (runInformalizeStage NULLORDER s tokens false false).1 (runInformalizeStage NULLORDER s tokens false false).2 false false).2 false false).1 (runInformalizeStage LIMIT (runInformalizeStage NUMBER (runInformalizeStage NULLORDER s tokens false false).1 (runInformalizeStage NULLORDER s tokens false false).2 false false).1 (runInformalizeStage NUMBER (runInformalizeStage NULLORDER s tokens false false).1 (runInformalizeStage NULLORDER s tokens false false).2 false false).2 false false).2 false false).2 true true).2 false true).1 (runInformalizeStage ORDERBY (runInformalizeStage EXPRESSION (runInformalizeStage VALUE (runInformalizeStage LIMIT (runInformalizeStage NUMBER (runInformalizeStage NULLORDER s tokens false false).1 (runInformalizeStage NULLORDER s tokens false false).2 false false).1 (runInformalizeStage NUMBER (runInformalizeStage NULLORDER s tokens false false).1 (runInformalizeStage NULLORDER s tokens false false).2 false false).2 false false).1 (runInformalizeStage LIMIT (runInformalizeStage NUMBER (runInformalizeStage NULLORDER s tokens false false).1 (runInformalizeStage NULLORDER s tokens false false).2 false false).1 (runInformalizeStage NUMBER (runInformalizeStage NULLORDER s tokens false false).1 (runInformalizeStage NULLORDER s tokens false false).2 false false).2 false false).2 false false).1 (runInformalizeStage VALUE (runInformalizeStage LIMIT (runInformalizeStage NUMBER (runInformalizeStage NULLORDER s tokens false false).1 (runInformalizeStage NULLORDER s tokens false false).2 false false).1 (runInformalizeStage NUMBER (runInformalizeStage NULLORDER s tokens false false).1 (runInformalizeStage NULLORDER s tokens false false).2 false false).2 false false).1 (runInformalizeStage LIMIT (runInformalizeStage NUMBER (runInformalizeStage NULLORDER s tokens false false).1 (runInformalizeStage NULLORDER s tokens false false).2 false false).1 (runInformalizeStage NUMBER (runInformalizeStage NULLORDER s tokens false false).1 (runInformalizeStage NULLORDER s tokens false false).2 false false).2 false false).2 false false).2 true true).1 (runInformalizeStage EXPRESSION (runInformalizeStage VALUE (runInformalizeStage LIMIT (runInformalizeStage NUMBER (runInformalizeStage NULLORDER s tokens false false).1 (runInformalizeStage NULLORDER s tokens false false).2 false false).1 (runInformalizeStage NUMBER (runInformalizeStage NULLORDER s tokens false false).1 (runInformalizeStage NULLORDER s tokens false false).2 false false).2 false false).1 (runInformalizeStage LIMIT (runInformalizeStage NUMBER (runInformalizeStage NULLORDER s tokens false false).1 (runInformalizeStage NULLORDER s tokens false false).2 false false).1 (runInformalizeStage NUMBER (runInformalizeStage NULLORDER s tokens false false).1 (runInformalizeStage NULLORDER s tokens false false).2 false false).2 false false).2 false false).1 (runInformalizeStage VALUE (runInformalizeStage LIMIT (runInformalizeStage NUMBER (runInformalizeStage NULLORDER s tokens false false).1 (runInformalizeStage NULLORDER s tokens false false).2 false false).1 (runInformalizeStage NUMBER (runInformalizeStage NULLORDER s tokens false false).1 (runInformalizeStage NULLORDER s tokens false false).2 false false).2 false false).1 (runInformalizeStage LIMIT (runInformalizeStage NUMBER (runInformalizeStage NULLORDER s tokens false false).1 (runInformalizeStage NULLORDER s tokens false false).2 false false).1 (runInformalizeStage NUMBER (runInformalizeStage NULLORDER s tokens false false).1 (runInformalizeStage NULLORDER s tokens false false).2 false false).2 false false).2 false false).2 true true).2 false true).2 true false).1 (runInformalizeStage GROUPBY (runInformalizeStage ORDERBY (runInformalizeStage EXPRESSION (runInformalizeStage VALUE (runInformalizeStage LIMIT (runInformalizeStage NUMBER (runInformalizeStage NULLORDER s tokens false false).1 (runInformalizeStage NULLORDER s tokens false false).2 false false).1 (runInformalizeStage NUMBER (runInformalizeStage NULLORDER s tokens false false).1 (runInformalizeStage NULLORDER s tokens false false).2 false false).2 false false).1 (runInformalizeStage LIMIT (runInformalizeStage NUMBER (runInformalizeStage NULLORDER s tokens false false).1 (runInformalizeStage NULLORDER s tokens false false).2 false false).1 (runInformalizeStage NUMBER (runInformalizeStage NULLORDER s tokens false false).1 (runInformalizeStage NULLORDER s tokens false false).2 false false).2 false false).2 false false).1 (runInformalizeStage VALUE (runInformalizeStage LIMIT (runInformalizeStage NUMBER (runInformalizeStage NULLORDER s tokens false false).1 (runInformalizeStage NULLORDER s tokens false false).2 false false).1 (runInformalizeStage NUMBER (runInformalizeStage NULLORDER s tokens false false).1 (runInformalizeStage NULLORDER s tokens false false).2 false false).2 false false).1 (runInformalizeStage LIMIT (runInformalizeStage NUMBER (runInformalizeStage NULLORDER s tokens false false).1 (runInformalizeStage NULLORDER s tokens false false).2 false false).1 (runInformalizeStage NUMBER (runInformalizeStage NULLORDER s tokens false false).1 (runInformalizeStage NULLORDER s tokens false false).2 false false).2 false false).2 false false).2 true true).1 (runInformalizeStage EXPRESSION (runInformalizeStage VALUE (runInformalizeStage LIMIT (runInformalizeStage NUMBER (runInformalizeStage NULLORDER s tokens false false).1 (runInformalizeStage NULLORDER s tokens false false).2 false false).1 (runInformalizeStage NUMBER (runInformalizeStage NULLORDER s tokens false false).1 (runInformalizeStage NULLORDER s tokens false false).2 false false).2 false false).1 (runInformalizeStage LIMIT (runInformalizeStage NUMBER (runInformalizeStage NULLORDER s tokens false false).1 (runInformalizeStage NULLORDER s tokens false false).2 false false).1 (runInformalizeStage NUMBER (runInformalizeStage NULLORDER s tokens false false).1 (runInformalizeStage NULLORDER s tokens false false).2 false false).2 false false).2 false false).1 (runInformalizeStage VALUE (runInformalizeStage LIMIT (runInformalizeStage NUMBER (runInformalizeStage NULLORDER s tokens false false).1 (runInformalizeStage NULLORDER s tokens false false).2 false false).1 (runInformalizeStage NUMBER (runInformalizeStage NULLORDER s tokens false false).1 (runInformalizeStage NULLORDER s tokens false false).2 false false).2 false false).1 (runInformalizeStage LIMIT (runInformalizeStage NUMBER (runInformalizeStage NULLORDER s tokens false false).1 (runInformalizeStage NULLORDER s tokens false false).2 false false).1 (runInformalizeStage NUMBER (runInformalizeStage NULLORDER s tokens false false).1 (runInformalizeStage NULLORDER s tokens false false).2 false false).2 false false).2 false false).2 true true).2 false true).1 (runInformalizeStage ORDERBY (runInformalizeStage EXPRESSION (runInformalizeStage VALUE (runInformalizeStage LIMIT (runInformalizeStage NUMBER (runInformalizeStage NULLORDER s tokens false false).1 (runInformalizeStage NULLORDER s tokens false false).2 false false).1 (runInformalizeStage NUMBER (runInformalizeStage NULLORDER s tokens false false).1 (runInformalizeStage NULLORDER s tokens false false).2 false false).2 false false).1 (runInformalizeStage LIMIT (runInformalizeStage NUMBER (runInformalizeStage NULLORDER s tokens false false).1 (runInformalizeStage NULLORDER s tokens false false).2 false false).1 (runInformalizeStage NUMBER (runInformalizeStage NULLORDER s tokens false false).1 (runInformalizeStage NULLORDER s tokens false false).2 false false).2 false false).2 false false).1 (runInformalizeStage VALUE (runInformalizeStage LIMIT (runInformalizeStage NUMBER (runInformalizeStage NULLORDER s tokens false false).1 (runInformalizeStage NULLORDER s tokens false false).2 false false).1 (runInformalizeStage NUMBER (runInformalizeStage NULLORDER s tokens false false).1 (runInformalizeStage NULLORDER s tokens false false).2 false false).2 false false).1 (runInformalizeStage LIMIT (runInformalizeStage NUMBER (runInformalizeStage NULLORDER s tokens false false).1 (runInformalizeStage NULLORDER s tokens false false).2 false false).1 (runInformalizeStage NUMBER (runInformalizeStage NULLORDER s tokens false false).1 (runInformalizeStage NULLORDER s tokens false false).2 false false).2 false false).2 false false).2 true true).1 (runInformalizeStage EXPRESSION (runInformalizeStage VALUE (runInformalizeStage LIMIT (runInformalizeStage NUMBER (runInformalizeStage NULLORDER s tokens false false).1 (runInformalizeStage NULLORDER s tokens false false).2 false false).1 (runInformalizeStage NUMBER (runInformalizeStage NULLORDER s tokens false false).1 (runInformalizeStage NULLORDER s tokens false false).2 false false).2 false false).1 (runInformalizeStage LIMIT (runInformalizeStage NUMBER (runInformalizeStage NULLORDER s tokens false false).1 (runInformalizeStage NULLORDER s tokens false false).2 false false).1 (runInformalizeStage NUMBER (runInformalizeStage NULLORDER s tokens false false).1 (runInformalizeStage NULLORDER s tokens false false).2 false false).2 false false).2 false false).1 (runInformalizeStage VALUE (runInformalizeStage LIMIT (runInformalizeStage NUMBER (runInformalizeStage NULLORDER s tokens false false).1 (runInformalizeStage NULLORDER s tokens false false).2 false false).1 (runInformalizeStage NUMBER (runInformalizeStage NULLORDER s tokens false false).1 (runInformalizeStage NULLORDER s tokens false false).2 false false).2 false false).1 (runInformalizeStage LIMIT (runInformalizeStage NUMBER (runInformalizeStage NULLORDER s tokens false false).1 (runInformalizeStage NULLORDER s tokens false false).2 false false).1 (runInformalizeStage NUMBER (runInformalizeStage NULLORDER s tokens false false).1 (runInformalizeStage NULLORDER s tokens false false).2 false false).2 false false).2 false false).2 true true).2 false true).2 true false).2 false false).2 false false).1) ((runInformalizeStage WHERE (runInformalizeStage HAVING (runInformalizeStage GROUPBY (runInformalizeStage ORDERBY (runInformalizeStage EXPRESSION (runInformalizeStage VALUE (runInformalizeStage LIMIT (runInformalizeStage NUMBER (runInformalizeStage NULLORDER s tokens false false).1 (runInformalizeStage NULLORDER s tokens false false).2 false false).1 (runInformalizeStage NUMBER (runInformalizeStage NULLORDER s tokens false false).1 (runInformalizeStage NULLORDER s tokens false false).2 false false).2 false false).1 (runInformalizeStage LIMIT (runInformalizeStage NUMBER (runInformalizeStage NULLORDER s tokens false false).1 (runInformalizeStage NULLORDER s tokens false false).2 false false).1 (runInformalizeStage NUMBER (runInformalizeStage NULLORDER s tokens false false).1 (runInformalizeStage NULLORDER s tokens false false).2 false false).2 false false).2 false false).1 (runInformalizeStage VALUE (runInformalizeStage LIMIT (runInformalizeStage NUMBER (runInformalizeStage NULLORDER s tokens false false).1 (runInformalizeStage NULLORDER s tokens false false).2 false false).1 (runInformalizeStage NUMBER (runInformalizeStage NULLORDER s tokens false false).1 (runInformalizeStage NULLORDER s tokens false false).2 false false).2 false false).1 (runInformalizeStage LIMIT (runInformalizeStage NUMBER (runInformalizeStage NULLORDER s tokens false false).1 (runInformalizeStage NULLORDER s tokens false false).2 false false).1 (runInformalizeStage NUMBER (runInformalizeStage NULLORDER s tokens false false).1 (runInformalizeStage NULLORDER s tokens false false).2 false false).2 false false).2 false false).2 true true).1 (runInformalizeStage EXPRESSION (runInformalizeStage VALUE (runInformalizeStage LIMIT (runInformalizeStage NUMBER (runInformalizeStage NULLORDER s tokens false false).1 (runInformalizeStage NULLORDER s tokens false false).2 false false).1 (runInformalizeStage NUMBER (runInformalizeStage NULLORDER s tokens false false).1 (runInformalizeStage NULLORDER s tokens false false).2 false false).2 false false).1 (runInformalizeStage LIMIT (runInformalizeStage NUMBER (runInformalizeStage NULLORDER s tokens false false).1 (runInformalizeStage NULLORDER s tokens false false).2 false false).1 (runInformalizeStage NUMBER (runInformalizeStage NULLORDER s tokens false false).1 (runInformalizeStage NULLORDER s tokens false false).2 false false).2 false false).2 false false).1 (runInformalizeStage VALUE (runInformalizeStage LIMIT (runInformalizeStage NUMBER (runInformalizeStage NULLORDER s tokens false false).1 (runInformalizeStage NULLORDER s tokens false false).2 false false).1 (runInformalizeStage NUMBER (runInformalizeStage NULLORDER s tokens false false).1 (runInformalizeStage NULLORDER s tokens false false).2 false false).2 false false).1 (runInformalizeStage LIMIT (runInformalizeStage NUMBER (runInformalizeStage NULLORDER s tokens false false).1 (runInformalizeStage NULLORDER s tokens false false).2 false false).1 (runInformalizeStage NUMBER (runInformalizeStage NULLORDER s tokens false false).1 (runInformalizeStage NULLORDER s tokens false false).2 false false).2 false false).2 false false).2 true true).2 false true).1 (runInformalizeStage ORDERBY (runInformalizeStage EXPRESSION (runInformalizeStage VALUE (runInformalizeStage LIMIT (runInformalizeStage NUMBER (runInformalizeStage NULLORDER s tokens false false).1 (runInformalizeStage NULLORDER s tokens false false).2 false false).1 (runInformalizeStage NUMBER (runInformalizeStage NULLORDER s tokens false false).1 (runInformalizeStage NULLORDER s tokens false false).2 false false).2 false false).1 (runInformalizeStage LIMIT (runInformalizeStage NUMBER (runInformalizeStage NULLORDER s tokens false false).1 (runInformalizeStage NULLORDER s tokens false false).2 false false).1 (runInformalizeStage NUMBER (runInformalizeStage NULLORDER s tokens false false).1 (runInformalizeStage NULLORDER s tokens false false).2 false false).2 false false).2 false false).1 (runInformalizeStage VALUE (runInformalizeStage LIMIT (runInformalizeStage NUMBER (runInformalizeStage NULLORDER s tokens false false).1 (runInformalizeStage NULLORDER s tokens false false).2 false false).1 (runInformalizeStage NUMBER (runInformalizeStage NULLORDER s tokens false false).1 (runInformalizeStage NULLORDER s tokens false false).2 false false).2 false false).1 (runInformalizeStage LIMIT (runInformalizeStage NUMBER (runInformalizeStage NULLORDER s tokens false false).1 (runInformalizeStage NULLORDER s tokens false false).2 false false).1 (runInformalizeStage NUMBER (runInformalizeStage NULLORDER s tokens false false).1 (runInformalizeStage NULLORDER s tokens false false).2 false false).2 false false).2 false false).2 true true).1 (runInformalizeStage EXPRESSION (runInformalizeStage VALUE (runInformalizeStage LIMIT (runInformalizeStage NUMBER (runInformalizeStage NULLORDER s tokens false false).1 (runInformalizeStage NULLORDER s tokens false false).2 false false).1 (runInformalizeStage NUMBER (runInformalizeStage NULLORDER s tokens false false).1 (runInformalizeStage NULLORDER s tokens false false).2 false false).2 false false).1 (runInformalizeStage LIMIT (runInformalizeStage NUMBER (runInformalizeStage NULLORDER s tokens false false).1 (runInformalizeStage NULLORDER s tokens false false).2 false false).1 (runInformalizeStage NUMBER (runInformalizeStage NULLORDER s tokens false false).1 (runInformalizeStage NULLORDER s tokens false false).2 false false).2 false false).2 false false).1 (runInformalizeStage VALUE (runInformalizeStage LIMIT (runInformalizeStage NUMBER (runInformalizeStage NULLORDER s tokens false false).1 (runInformalizeStage NULLORDER s tokens false false).2 false false).1 (runInformalizeStage NUMBER (runInformalizeStage NULLORDER s tokens false false).1 (runInformalizeStage NULLORDER s tokens false false).2 false false).2 false false).1 (runInformalizeStage LIMIT (runInformalizeStage NUMBER (runInformalizeStage NULLORDER s tokens false false).1 (runInformalizeStage NULLORDER s tokens false false).2 false false).1 (runInformalizeStage NUMBER (runInformalizeStage NULLORDER s tokens false false).1 (runInformalizeStage NULLORDER s tokens false false).2 false false).2 false false).2 false false).2 true true).2 false true).2 true false).1 (runInformalizeStage GROUPBY (runInformalizeStage ORDERBY (runInformalizeStage EXPRESSION (runInformalizeStage VALUE (runInformalizeStage LIMIT (runInformalizeStage NUMBER (runInformalizeStage NULLORDER s tokens false false).1 (runInformalizeStage NULLORDER s tokens false false).2 false false).1 (runInformalizeStage NUMBER (runInformalizeStage NULLORDER s tokens false false).1 (runInformalizeStage NULLORDER s tokens false false).2 false false).2 false false).1 (runInformalizeStage LIMIT (runInformalizeStage NUMBER (runInformalizeStage NULLORDER s tokens false false).1 (runInformalizeStage NULLORDER s tokens false false).2 false false).1 (runInformalizeStage NUMBER (runInformalizeStage NULLORDER s tokens false false).1 (runInformalizeStage NULLORDER s tokens false false).2 false false).2 false false).2 false false).1 (runInformalizeStage VALUE (runInformalizeStage LIMIT (runInformalizeStage NUMBER (runInformalizeStage NULLORDER s tokens false false).1 (runInformalizeStage NULLORDER s tokens false false).2 false false).1 (runInformalizeStage NUMBER (runInformalizeStage NULLORDER s tokens false false).1 (runInformalizeStage NULLORDER s tokens false false).2 false false).2 false false).1 (runInformalizeStage LIMIT (runInformalizeStage NUMBER (runInformalizeStage NULLORDER s tokens false false).1 (runInformalizeStage NULLORDER s tokens false false).2 false false).1 (runInformalizeStage NUMBER (runInformalizeStage NULLORDER s tokens false false).1 (runInformalizeStage NULLORDER s tokens false false).2 false false).2 false false).2 false false).2 true true).1 (runInformalizeStage EXPRESSION (runInformalizeStage VALUE (runInformalizeStage LIMIT (runInformalizeStage NUMBER (runInformalizeStage NULLORDER s tokens false false).1 (runInformalizeStage NULLORDER s tokens false false).2 false false).1 (runInformalizeStage NUMBER (runInformalizeStage NULLORDER s tokens false false).1 (runInformalizeStage NULLORDER s tokens false false).2 false false).2 false false).1 (runInformalizeStage LIMIT (runInformalizeStage NUMBER (runInformalizeStage NULLORDER s tokens false false).1 (runInformalizeStage NULLORDER s tokens false false).2 false false).1 (runInformalizeStage NUMBER (runInformalizeStage NULLORDER s tokens false false).1 (runInformalizeStage NULLORDER s tokens false false).2 false false).2 false false).2 false false).1 (runInformalizeStage VALUE (runInformalizeStage LIMIT (runInformalizeStage NUMBER (runInformalizeStage NULLORDER s tokens false false).1 (runInformalizeStage NULLORDER s tokens false false).2 false false).1 (runInformalizeStage NUMBER (runInformalizeStage NULLORDER s tokens false false).1 (runInformalizeStage NULLORDER s tokens false false).2 false false).2 false false).1 (runInformalizeStage LIMIT (runInformalizeStage NUMBER (runInformalizeStage NULLORDER s tokens false false).1 (runInformalizeStage NULLORDER s tokens false false).2 false false).1 (runInformalizeStage NUMBER (runInformalizeStage NULLORDER s tokens false false).1 (runInformalizeStage NULLORDER s tokens false false).2 false false).2 false false).2 false false).2 true true).2 false true).1 (runInformalizeStage ORDERBY (runInformalizeStage EXPRESSION (runInformalizeStage VALUE (runInformalizeStage LIMIT (runInformalizeStage NUMBER (runInformalizeStage NULLORDER s tokens false false).1 (runInformalizeStage NULLORDER s tokens false false).2 false false).1 (runInformalizeStage NUMBER (runInformalizeStage NULLORDER s tokens false false).1 (runInformalizeStage NULLORDER s tokens false false).2 false false).2 false false).1 (runInformalizeStage LIMIT (runInformalizeStage NUMBER (runInformalizeStage NULLORDER s tokens false false).1 (runInformalizeStage NULLORDER s tokens false false).2 false false).1 (runInformalizeStage NUMBER (runInformalizeStage NULLORDER s tokens false false).1 (runInformalizeStage NULLORDER s tokens false false).2 false false).2 false false).2 false false).1 (runInformalizeStage VALUE (runInformalizeStage LIMIT (runInformalizeStage NUMBER (runInformalizeStage NULLORDER s tokens false false).1 (runInformalizeStage NULLORDER s tokens false false).2 false false).1 (runInformalizeStage NUMBER (runInformalizeStage NULLORDER s tokens false false).1 (runInformalizeStage NULLORDER s tokens false false).2 false false).2 false false).1 (runInformalizeStage LIMIT (runInformalizeStage NUMBER (runInformalizeStage NULLORDER s tokens false false).1 (runInformalizeStage NULLORDER s tokens false false).2 false false).1 (runInformalizeStage NUMBER (runInformalizeStage NULLORDER s tokens false false).1 (runInformalizeStage NULLORDER s tokens false false).2 false false).2 false false).2 false false).2 true true).1 (runInformalizeStage EXPRESSION (runInformalizeStage VALUE (runInformalizeStage LIMIT (runInformalizeStage NUMBER (runInformalizeStage NULLORDER s tokens false false).1 (runInformalizeStage NULLORDER s tokens false false).2 false false).1 (runInformalizeStage NUMBER (runInformalizeStage NULLORDER s tokens false false).1 (runInformalizeStage NULLORDER s tokens false false).2 false false).2 false false).1 (runInformalizeStage LIMIT (runInformalizeStage NUMBER (runInformalizeStage NULLORDER s tokens false false).1 (runInformalizeStage NULLORDER s tokens false false).2 false false).1 (runInformalizeStage NUMBER (runInformalizeStage NULLORDER s tokens false false).1 (runInformalizeStage NULLORDER s tokens false false).2 false false).2 false false).2 false false).1 (runInformalizeStage VALUE (runInformalizeStage LIMIT (runInformalizeStage NUMBER (runInformalizeStage NULLORDER s tokens false false).1 (runInformalizeStage NULLORDER s tokens false false).2 false false).1 (runInformalizeStage NUMBER (runInformalizeStage NULLORDER s tokens false false).1 (runInformalizeStage NULLORDER s tokens false false).2 false false).2 false false).1 (runInformalizeStage LIMIT (runInformalizeStage NUMBER (runInformalizeStage NULLORDER s tokens false false).1 (runInformalizeStage NULLORDER s tokens false false).2 false false).1 (runInformalizeStage NUMBER (runInformalizeStage NULLORDER s tokens false false).1 (runInformalizeStage NULLORDER s tokens false false).2 false false).2 false false).2 false false).2 true true).2 false true).2 true false).2 false false).1 (runInformalizeStage HAVING (runInformalizeStage GROUPBY (runInformalizeStage ORDERBY (runInformalizeStage EXPRESSION (runInformalizeStage VALUE (runInformalizeStage LIMIT (runInformalizeStage NUMBER (runInformalizeStage NULLORDER s tokens false false).1 (runInformalizeStage NULLORDER s tokens false false).2 false false).1 (runInformalizeStage NUMBER (runInformalizeStage NULLORDER s tokens false false).1 (runInformalizeStage NULLORDER s tokens false false).2 false false).2 false false).1 (runInformalizeStage LIMIT (runInformalizeStage NUMBER (runInformalizeStage NULLORDER s tokens false false).1 (runInformalizeStage NULLORDER s tokens false false).2 false false).1 (runInformalizeStage NUMBER (runInformalizeStage NULLORDER s tokens false false).1 (runInformalizeStage NULLORDER s tokens false false).2 false false).2 false false).2 false false).1 (runInformalizeStage VALUE (runInformalizeStage LIMIT (runInformalizeStage NUMBER (runInformalizeStage NULLORDER s tokens false false).1 (runInformalizeStage NULLORDER s tokens false false).2 false false).1 (runInformalizeStage NUMBER (runInformalizeStage NULLORDER s tokens false false).1 (runInformalizeStage NULLORDER s tokens false false).2 false false).2 false false).1 (runInformalizeStage LIMIT (runInformalizeStage NUMBER (runInformalizeStage NULLORDER s tokens false false).1 (runInformalizeStage NULLORDER s tokens false false).2 false false).1 (runInformalizeStage NUMBER (runInformalizeStage NULLORDER s tokens false false).1 (runInformalizeStage NULLORDER s tokens false false).2 false false).2 false false).2 false false).2 true true).1 (runInformalizeStage EXPRESSION (runInformalizeStage VALUE (runInformalizeStage LIMIT (runInformalizeStage NUMBER (runInformalizeStage NULLORDER s tokens false false).1 (runInformalizeStage NULLORDER s tokens false false).2 false false).1 (runInformalizeStage NUMBER (runInformalizeStage NULLORDER s tokens false false).1 (runInformalizeStage NULLORDER s tokens false false).2 false false).2 false false).1 (runInformalizeStage LIMIT (runInformalizeStage NUMBER (runInformalizeStage NULLORDER s tokens false false).1 (runInformalizeStage NULLORDER s tokens false false).2 false false).1 (runInformalizeStage NUMBER (runInformalizeStage NULLORDER s tokens false false).1 (runInformalizeStage NULLORDER s tokens false false).2 false false).2 false false).2 false false).1 (runInformalizeStage VALUE (runInformalizeStage LIMIT (runInformalizeStage NUMBER (runInformalizeStage NULLORDER s tokens false false).1 (runInformalizeStage NULLORDER s tokens false false).2 false false).1 (runInformalizeStage NUMBER (runInformalizeStage NULLORDER s tokens false false).1 (runInformalizeStage NULLORDER s tokens false false).2 false false).2 false false).1 (runInformalizeStage LIMIT (runInformalizeStage NUMBER (runInformalizeStage NULLORDER s tokens false false).1 (runInformalizeStage NULLORDER s tokens false false).2 false false).1 (runInformalizeStage NUMBER (runInformalizeStage NULLORDER s tokens false false).1 (runInformalizeStage NULLORDER s tokens false false).2 false false).2 false false).2 false false).2 true true).2 false true).1 (runInformalizeStage ORDERBY (runInformalizeStage EXPRESSION (runInformalizeStage VALUE (runInformalizeStage LIMIT (runInformalizeStage NUMBER (runInformalizeStage NULLORDER s tokens false false).1 (runInformalizeStage NULLORDER s tokens false false).2 false false).1 (runInformalizeStage NUMBER (runInformalizeStage NULLORDER s tokens false false).1 (runInformalizeStage NULLORDER s tokens false false).2 false false).2 false false).1 (runInformalizeStage LIMIT (runInformalizeStage NUMBER (runInformalizeStage NULLORDER s tokens false false).1 (runInformalizeStage NULLORDER s tokens false false).2 false false).1 (runInformalizeStage NUMBER (runInformalizeStage NULLORDER s tokens false false).1 (runInformalizeStage NULLORDER s tokens false false).2 false false).2 false false).2 false false).1 (runInformalizeStage VALUE (runInformalizeStage LIMIT (runInformalizeStage NUMBER (runInformalizeStage NULLORDER s tokens false false).1 (runInformalizeStage NULLORDER s tokens false false).2 false false).1 (runInformalizeStage NUMBER (runInformalizeStage NULLORDER s tokens false false).1 (runInformalizeStage NULLORDER s tokens false false).2 false false).2 false false).1 (runInformalizeStage LIMIT (runInformalizeStage NUMBER (runInformalizeStage NULLORDER s tokens false false).1 (runInformalizeStage NULLORDER s tokens false false).2 false false).1 (runInformalizeStage NUMBER (runInformalizeStage NULLORDER s tokens false false).1 (runInformalizeStage NULLORDER s tokens false false).2 false false).2 false false).2 false false).2 true true).1 (runInformalizeStage EXPRESSION (runInformalizeStage VALUE (runInformalizeStage LIMIT (runInformalizeStage NUMBER (runInformalizeStage NULLORDER s tokens false false).1 (runInformalizeStage NULLORDER s tokens false false).2 false false).1 (runInformalizeStage NUMBER (runInformalizeStage NULLORDER s tokens false false).1 (runInformalizeStage NULLORDER s tokens false false).2 false false).2 false false).1 (runInformalizeStage LIMIT (runInformalizeStage NUMBER (runInformalizeStage NULLORDER s tokens false false).1 (runInformalizeStage NULLORDER s tokens false false).2 false false).1 (runInformalizeStage NUMBER (runInformalizeStage NULLORDER s tokens false false).1 (runInformalizeStage NULLORDER s tokens false false).2 false false).2 false false).2 false false).1 (runInformalizeStage VALUE (runInformalizeStage LIMIT (runInformalizeStage NUMBER (runInformalizeStage NULLORDER s tokens false false).1 (runInformalizeStage NULLORDER s tokens false false).2 false false).1 (runInformalizeStage NUMBER (runInformalizeStage NULLORDER s tokens false false).1 (runInformalizeStage NULLORDER s tokens false false).2 false false).2 false false).1 (runInformalizeStage LIMIT (runInformalizeStage NUMBER (runInformalizeStage NULLORDER s tokens false false).1 (runInformalizeStage NULLORDER s tokens false false).2 false false).1 (runInformalizeStage NUMBER (runInformalizeStage NULLORDER s tokens false false).1 (runInformalizeStage NULLORDER s tokens false false).2 false false).2 false false).2 false false).2 true true).2 false true).2 true false).1 (runInformalizeStage GROUPBY (runInformalizeStage ORDERBY (runInformalizeStage EXPRESSION (runInformalizeStage VALUE (runInformalizeStage LIMIT (runInformalizeStage NUMBER (runInformalizeStage NULLORDER s tokens false false).1 (runInformalizeStage NULLORDER s tokens false false).2 false false).1 (runInformalizeStage NUMBER (runInformalizeStage NULLORDER s tokens false false).1 (runInformalizeStage NULLORDER s tokens false false).2 false false).2 false false).1 (runInformalizeStage LIMIT (runInformalizeStage NUMBER (runInformalizeStage NULLORDER s tokens false false).1 (runInformalizeStage NULLORDER s tokens false false).2 false false).1 (runInformalizeStage NUMBER (runInformalizeStage NULLORDER s tokens false false).1 (runInformalizeStage NULLORDER s tokens false false).2 false false).2 false false).2 false false).1 (runInformalizeStage VALUE (runInformalizeStage LIMIT (runInformalizeStage NUMBER (runInformalizeStage NULLORDER s tokens false false).1 (runInformalizeStage NULLORDER s tokens false false).2 false false).1 (runInformalizeStage NUMBER (runInformalizeStage NULLORDER s tokens false false).1 (runInformalizeStage NULLORDER s tokens false false).2 false false).2 false false).1 (runInformalizeStage LIMIT (runInformalizeStage NUMBER (runInformalizeStage NULLORDER s tokens false false).1 (runInformalizeStage NULLORDER s tokens false false).2 false false).1 (runInformalizeStage NUMBER (runInformalizeStage NULLORDER s tokens false false).1 (runInformalizeStage NULLORDER s tokens false false).2 false false).2 false false).2 false false).2 true true).1 (runInformalizeStage EXPRESSION (runInformalizeStage VALUE (runInformalizeStage LIMIT (runInformalizeStage NUMBER (runInformalizeStage NULLORDER s tokens false false).1 (runInformalizeStage NULLORDER s tokens false false).2 false false).1 (runInformalizeStage NUMBER (runInformalizeStage NULLORDER s tokens false false).1 (runInformalizeStage NULLORDER s tokens false false).2 false false).2 false false).1 (runInformalizeStage LIMIT (runInformalizeStage NUMBER (runInformalizeStage NULLORDER s tokens false false).1 (runInformalizeStage NULLORDER s tokens false false).2 false false).1 (runInformalizeStage NUMBER (runInformalizeStage NULLORDER s tokens false false).1 (runInformalizeStage NULLORDER s tokens false false).2 false false).2 false false).2 false false).1 (runInformalizeStage VALUE (runInformalizeStage LIMIT (runInformalizeStage NUMBER (runInformalizeStage NULLORDER s tokens false false).1 (runInformalizeStage NULLORDER s tokens false false).2 false false).1 (runInformalizeStage NUMBER (runInformalizeStage NULLORDER s tokens false false).1 (runInformalizeStage NULLORDER s tokens false false).2 false false).2 false false).1 (runInformalizeStage LIMIT (runInformalizeStage NUMBER (runInformalizeStage NULLORDER s tokens false false).1 (runInformalizeStage NULLORDER s tokens false false).2 false false).1 (runInformalizeStage NUMBER (runInformalizeStage NULLORDER s tokens false false).1 (runInformalizeStage NULLORDER s tokens false false).2 false false).2 false false).2 false false).2 true true).2 false true).1 (runInformalizeStage ORDERBY (runInformalizeStage EXPRESSION (runInformalizeStage VALUE (runInformalizeStage LIMIT (runInformalizeStage NUMBER (runInformalizeStage NULLORDER s tokens false false).1 (runInformalizeStage NULLORDER s tokens false false).2 false false).1 (runInformalizeStage NUMBER (runInformalizeStage NULLORDER s tokens false false).1 (runInformalizeStage NULLORDER s tokens false false).2 false false).2 false false).1 (runInformalizeStage LIMIT (runInformalizeStage NUMBER (runInformalizeStage NULLORDER s tokens false false).1 (runInformalizeStage NULLORDER s tokens false false).2 false false).1 (runInformalizeStage NUMBER (runInformalizeStage NULLORDER s tokens false false).1 (runInformalizeStage NULLORDER s tokens false false).2 false false).2 false false).2 false false).1 (runInformalizeStage VALUE (runInformalizeStage LIMIT (runInformalizeStage NUMBER (runInformalizeStage NULLORDER s tokens false false).1 (runInformalizeStage NULLORDER s tokens false false).2 false false).1 (runInformalizeStage NUMBER (runInformalizeStage NULLORDER s tokens false false).1 (runInformalizeStage NULLORDER s tokens false false).2 false false).2 false false).1 (runInformalizeStage LIMIT (runInformalizeStage NUMBER (runInformalizeStage NULLORDER s tokens false false).1 (runInformalizeStage NULLORDER s tokens false false).2 false false).1 (runInformalizeStage NUMBER (runInformalizeStage NULLORDER s tokens false false).1 (runInformalizeStage NULLORDER s tokens false false).2 false false).2 false false).2 false false).2 true true).1 (runInformalizeStage EXPRESSION (runInformalizeStage VALUE (runInformalizeStage LIMIT (runInformalizeStage NUMBER (runInformalizeStage NULLORDER s tokens false false).1 (runInformalizeStage NULLORDER s tokens false false).2 false false).1 (runInformalizeStage NUMBER (runInformalizeStage NULLORDER s tokens false false).1 (runInformalizeStage NULLORDER s tokens false false).2 false false).2 false false).1 (runInformalizeStage LIMIT (runInformalizeStage NUMBER (runInformalizeStage NULLORDER s tokens false false).1 (runInformalizeStage NULLORDER s tokens false false).2 false false).1 (runInformalizeStage NUMBER (runInformalizeStage NULLORDER s tokens false false).1 (runInformalizeStage NULLORDER s tokens false false).2 false false).2 false false).2 false false).1 (runInformalizeStage VALUE (runInformalizeStage LIMIT (runInformalizeStage NUMBER (runInformalizeStage NULLORDER s tokens false false).1 (runInformalizeStage NULLORDER s tokens false false).2 false false).1 (runInformalizeStage NUMBER (runInformalizeStage NULLORDER s tokens false false).1 (runInformalizeStage NULLORDER s tokens false false).2 false false).2 false false).1 (runInformalizeStage LIMIT (runInformalizeStage NUMBER (runInformalizeStage NULLORDER s tokens false false).1 (runInformalizeStage NULLORDER s tokens false false).2 false false).1 (runInformalizeStage NUMBER (runInformalizeStage NULLORDER s tokens false false).1 (runInformalizeStage NULLORDER s tokens false false).2 false false).2 false false).2 false false).2 true true).2 false true).2 true false).2 false false).2 false false).2) false false g9.1
  have g11 := runInformalizeStage_good COLUMN good_COLUMN
    ((runInformalizeStage FROM (runInformalizeStage WHERE (runInformalizeStage HAVING (runInformalizeStage GROUPBY (runInformalizeStage ORDERBY (runInformalizeStage EXPRESSION (runInformalizeStage VALUE (runInformalizeStage LIMIT (runInformalizeStage NUMBER (runInformalizeStage NULLORDER s tokens false false).1 (runInformalizeStage NULLORDER s tokens false false).2 false false).1 (runInformalizeStage NUMBER (runInformalizeStage NULLORDER s tokens false false).1 (runInformalizeStage NULLORDER s tokens false false).2 false false).2 false false).1 (runInformalizeStage LIMIT (runInformalizeStage NUMBER (runInformalizeStage NULLORDER s tokens false false).1 (runInformalizeStage NULLORDER s tokens false false).2 false false).1 (runInformalizeStage NUMBER (runInformalizeStage NULLORDER s tokens false false).1 (runInformalizeStage NULLORDER s tokens false false).2 false false).2 false false).2 false false).1 (runInformalizeStage VALUE (runInformalizeStage LIMIT (runInformalizeStage NUMBER (runInformalizeStage NULLORDER s tokens false false).1 (runInformalizeStage NULLORDER s tokens false false).2 false false).1 (runInformalizeStage NUMBER (runInformalizeStage NULLORDER s tokens false false).1 (runInformalizeStage NULLORDER s tokens false false).2 false false).2 false false).1 (runInformalizeStage LIMIT (runInformalizeStage NUMBER (runInformalizeStage NULLORDER s tokens false false).1 (runInformalizeStage NULLORDER s tokens false false).2 false false).1 (runInformalizeStage NUMBER (runInformalizeStage NULLORDER s tokens false false).1 (runInformalizeStage NULLORDER s tokens false false).2 false false).2 false false).2 false false).2 true true).1 (runInformalizeStage EXPRESSION (runInformalizeStage VALUE (runInformalizeStage LIMIT (runInformalizeStage NUMBER (runInformalizeStage NULLORDER s tokens false false).1 (runInformalizeStage NULLORDER s tokens false false).2 false false).1 (runInformalizeStage NUMBER (runInformalizeStage NULLORDER s tokens false false).1 (runInformalizeStage NULLORDER s tokens false false).2 false false).2 false false).1 (runInformalizeStage LIMIT (runInformalizeStage NUMBER (runInformalizeStage NULLORDER s tokens false false).1 (runInformalizeStage NULLORDER s tokens false false).2 false false).1 (runInformalizeStage NUMBER (runInformalizeStage NULLORDER s tokens false false).1 (runInformalizeStage NULLORDER s tokens false false).2 false false).2 false false).2 false false).1 (runInformalizeStage VALUE (runInformalizeStage LIMIT (runInformalizeStage NUMBER (runInformalizeStage NULLORDER s tokens false false).1 (runInformalizeStage NULLORDER s tokens false false).2 false false).1 (runInformalizeStage NUMBER (runInformalizeStage NULLORDER s tokens false false).1 (runInformalizeStage NULLORDER s tokens false false).2 false false).2 false false).1 (runInformalizeStage LIMIT (runInformalizeStage NUMBER (runInformalizeStage NULLORDER s tokens false false).1 (runInformalizeStage NULLORDER s tokens false false).2 false false).1 (runInformalizeStage NUMBER (runInformalizeStage NULLORDER s tokens false false).1 (runInformalizeStage NULLORDER s tokens false false).2 false false).2 false false).2 false false).2 true true).2 false true).1 (runInformalizeStage ORDERBY (runInformalizeStage EXPRESSION (runInformalizeStage VALUE (runInformalizeStage LIMIT (runInformalizeStage NUMBER (runInformalizeStage NULLORDER s tokens false false).1 (runInformalizeStage NULLORDER s tokens false false).2 false false).1 (runInformalizeStage NUMBER (runInformalizeStage NULLORDER s tokens false false).1 (runInformalizeStage NULLORDER s tokens false false).2 false false).2 false false).1 (runInformalizeStage LIMIT (runInformalizeStage NUMBER (runInformalizeStage NULLORDER s tokens false false).1 (runInformalizeStage NULLORDER s tokens false false).2 false false).1 (runInformalizeStage NUMBER (runInformalizeStage NULLORDER s tokens false false).1 (runInformalizeStage NULLORDER s tokens false false).2 false false).2 false false).2 false false).1 (runInformalizeStage VALUE (runInformalizeStage LIMIT (runInformalizeStage NUMBER (runInformalizeStage NULLORDER s tokens false false).1 (runInformalizeStage NULLORDER s tokens false false).2 false false).1 (runInformalizeStage NUMBER (runInformalizeStage NULLORDER s tokens false false).1 (runInformalizeStage NULLORDER s tokens false false).2 false false).2 false false).1 (runInformalizeStage LIMIT (runInformalizeStage NUMBER (runInformalizeStage NULLORDER s tokens false false).1 (runInformalizeStage NULLORDER s tokens false false).2 false false).1 (runInformalizeStage NUMBER (runInformalizeStage NULLORDER s tokens false false).1 (runInformalizeStage NULLORDER s tokens false false).2 false false).2 false false).2 false false).2 true true).1 (runInformalizeStage EXPRESSION (runInformalizeStage VALUE (runInformalizeStage LIMIT (runInformalizeStage NUMBER (runInformalizeStage NULLORDER s tokens false false).1 (runInformalizeStage NULLORDER s tokens false false).2 false false).1 (runInformalizeStage NUMBER (runInformalizeStage NULLORDER s tokens false false).1 (runInformalizeStage NULLORDER s tokens false false).2 false false).2 false false).1 (runInformalizeStage LIMIT (runInformalizeStage NUMBER (runInformalizeStage NULLORDER s tokens false false).1 (runInformalizeStage NULLORDER s tokens false false).2 false false).1 (runInformalizeStage NUMBER (runInformalizeStage NULLORDER s tokens false false).1 (runInformalizeStage NULLORDER s tokens false false).2 false false).2 false false).2 false false).1 (runInformalizeStage VALUE (runInformalizeStage LIMIT (runInformalizeStage NUMBER (runInformalizeStage NULLORDER s tokens false false).1 (runInformalizeStage NULLORDER s tokens false false).2 false false).1 (runInformalizeStage NUMBER (runInformalizeStage NULLORDER s tokens false false).1 (runInformalizeStage NULLORDER s tokens false false).2 false false).2 false false).1 (runInformalizeStage LIMIT (runInformalizeStage NUMBER (runInformalizeStage NULLORDER s tokens false false).1 (runInformalizeStage NULLORDER s tokens false false).2 false false).1 (runInformalizeStage NUMBER (runInformalizeStage NULLORDER s tokens false false).1 (runInformalizeStage NULLORDER s tokens false false).2 false false).2 false false).2 false false).2 true true).2 false true).2 true false).1 (runInformalizeStage GROUPBY (runInformalizeStage ORDERBY (runInformalizeStage EXPRESSION (runInformalizeStage VALUE (runInformalizeStage LIMIT (runInformalizeStage NUMBER (runInformalizeStage NULLORDER s tokens false false).1 (runInformalizeStage NULLORDER s tokens false false).2 false false).1 (runInformalizeStage NUMBER (runInformalizeStage NULLORDER s tokens false false).1 (runInformalizeStage NULLORDER s tokens false false).2 false false).2 false false).1 (runInformalizeStage LIMIT (runInformalizeStage NUMBER (runInformalizeStage NULLORDER s tokens false false).1 (runInformalizeStage NULLORDER s tokens false false).2 false false).1 (runInformalizeStage NUMBER (runInformalizeStage NULLORDER s tokens false false).1 (runInformalizeStage NULLORDER s tokens false false).2 false false).2 false false).2 false false).1 (runInformalizeStage VALUE (runInformalizeStage LIMIT (runInformalizeStage NUMBER (runInformalizeStage NULLORDER s tokens false false).1 (runInformalizeStage NULLORDER s tokens false false).2 false false).1 (runInformalizeStage NUMBER (runInformalizeStage NULLORDER s tokens false false).1 (runInformalizeStage NULLORDER s tokens false false).2 false false).2 false false).1 (runInformalizeStage LIMIT (runInformalizeStage NUMBER (runInformalizeStage NULLORDER s tokens false false).1 (runInformalizeStage NULLORDER s tokens false false).2 false false).1 (runInformalizeStage NUMBER (runInformalizeStage NULLORDER s tokens false false).1 (runInformalizeStage NULLORDER s tokens false false).2 false false).2 false false).2 false false).2 true true).1 (runInformalizeStage EXPRESSION (runInformalizeStage VALUE (runInformalizeStage LIMIT (runInformalizeStage NUMBER (runInformalizeStage NULLORDER s tokens false false).1 (runInformalizeStage NULLORDER s tokens false false).2 false false).1 (runInformalizeStage NUMBER (runInformalizeStage NULLORDER s tokens false false).1 (runInformalizeStage NULLORDER s tokens false false).2 false false).2 false false).1 (runInformalizeStage LIMIT (runInformalizeStage NUMBER (runInformalizeStage NULLORDER s tokens false false).1 (runInformalizeStage NULLORDER s tokens false false).2 false false).1 (runInformalizeStage NUMBER (runInformalizeStage NULLORDER s tokens false false).1 (runInformalizeStage NULLORDER s tokens false false).2 false false).2 false false).2 false false).1 (runInformalizeStage VALUE (runInformalizeStage LIMIT (runInformalizeStage NUMBER (runInformalizeStage NULLORDER s tokens false false).1 (runInformalizeStage NULLORDER s tokens false false).2 false false).1 (runInformalizeStage NUMBER (runInformalizeStage NULLORDER s tokens false false).1 (runInformalizeStage NULLORDER s tokens false false).2 false false).2 false false).1 (runInformalizeStage LIMIT (runInformalizeStage NUMBER (runInformalizeStage NULLORDER s tokens false false).1 (runInformalizeStage NULLORDER s tokens false false).2 false false).1 (runInformalizeStage NUMBER (runInformalizeStage NULLORDER s tokens false false).1 (runInformalizeStage NULLORDER s tokens false false).2 false false).2 false false).2 false false).2 true true).2 false true).1 (runInformalizeStage ORDERBY (runInformalizeStage EXPRESSION (runInformalizeStage VALUE (runInformalizeStage LIMIT (runInformalizeStage NUMBER (runInformalizeStage NULLORDER s tokens false false).1 (runInformalizeStage NULLORDER s tokens false false).2 false false).1 (runInformalizeStage NUMBER (runInformalizeStage NULLORDER s tokens false false).1 (runInformalizeStage NULLORDER s tokens false false).2 false false).2 false false).1 (runInformalizeStage LIMIT (runInformalizeStage NUMBER (runInformalizeStage NULLORDER s tokens false false).1 (runInformalizeStage NULLORDER s tokens false false).2 false false).1 (runInformalizeStage NUMBER (runInformalizeStage NULLORDER s tokens false false).1 (runInformalizeStage NULLORDER s tokens false false).2 false false).2 false false).2 false false).1 (runInformalizeStage VALUE (runInformalizeStage LIMIT (runInformalizeStage NUMBER (runInformalizeStage NULLORDER s tokens false false).1 (runInformalizeStage NULLORDER s tokens false false).2 false false).1 (runInformalizeStage NUMBER (runInformalizeStage NULLORDER s tokens false false).1 (runInformalizeStage NULLORDER s tokens false false).2 false false).2 false false).1 (runInformalizeStage LIMIT (runInformalizeStage NUMBER (runInformalizeStage NULLORDER s tokens false false).1 (runInformalizeStage NULLORDER s tokens false false).2 false false).1 (runInformalizeStage NUMBER (runInformalizeStage NULLORDER s tokens false false).1 (runInformalizeStage NULLORDER s tokens false false).2 false false).2 false false).2 false false).2 true true).1 (runInformalizeStage EXPRESSION (runInformalizeStage VALUE (runInformalizeStage LIMIT (runInformalizeStage NUMBER (runInformalizeStage NULLORDER s tokens false false).1 (runInformalizeStage NULLORDER s tokens false false).2 false false).1 (runInformalizeStage NUMBER (runInformalizeStage NULLORDER s tokens false false).1 (runInformalizeStage NULLORDER s tokens false false).2 false false).2 false false).1 (runInformalizeStage LIMIT (runInformalizeStage NUMBER (runInformalizeStage NULLORDER s tokens false false).1 (runInformalizeStage NULLORDER s tokens false false).2 false false).1 (runInformalizeStage NUMBER (runInformalizeStage NULLORDER s tokens false false).1 (runInformalizeStage NULLORDER s tokens false false).2 false false).2 false false).2 false false).1 (runInformalizeStage VALUE (runInformalizeStage LIMIT (runInformalizeStage NUMBER (runInformalizeStage NULLORDER s tokens false false).1 (runInformalizeStage NULLORDER s tokens false false).2 false false).1 (runInformalizeStage NUMBER (runInformalizeStage NULLORDER s tokens false false).1 (runInformalizeStage NULLORDER s tokens false false).2 false false).2 false false).1 (runInformalizeStage LIMIT (runInformalizeStage NUMBER (runInformalizeStage NULLORDER s tokens false false).1 (runInformalizeStage NULLORDER s tokens false false).2 false false).1 (runInformalizeStage NUMBER (runInformalizeStage NULLORDER s tokens false false).1 (runInformalizeStage NULLORDER s tokens false false).2 false false).2 false false).2 false false).2 true true).2 false true).2 true false).2 false false).1 (runInformalizeStage HAVING (runInformalizeStage GROUPBY (runInformalizeStage ORDERBY (runInformalizeStage EXPRESSION (runInformalizeStage VALUE (runInformalizeStage LIMIT (runInformalizeStage NUMBER (runInformalizeStage NULLORDER s tokens false false).1 (runInformalizeStage NULLORDER s tokens false false).2 false false).1 (runInformalizeStage NUMBER (runInformalizeStage NULLORDER s tokens false false).1 (runInformalizeStage NULLORDER s tokens false false).2 false false).2 false false).1 (runInformalizeStage LIMIT (runInformalizeStage NUMBER (runInformalizeStage NULLORDER s tokens false false).1 (runInformalizeStage NULLORDER s tokens false false).2 false false).1 (runInformalizeStage NUMBER (runInformalizeStage NULLORDER s tokens false false).1 (runInformalizeStage NULLORDER s tokens false false).2 false false).2 false false).2 false false).1 (runInformalizeStage VALUE (runInformalizeStage LIMIT (runInformalizeStage NUMBER (runInformalizeStage NULLORDER s tokens false false).1 (runInformalizeStage NULLORDER s tokens false false).2 false false).1 (runInformalizeStage NUMBER (runInformalizeStage NULLORDER s tokens false false).1 (runInformalizeStage NULLORDER s tokens false false).2 false false).2 false false).1 (runInformalizeStage LIMIT (runInformalizeStage NUMBER (runInformalizeStage NULLORDER s tokens false false).1 (runInformalizeStage NULLORDER s tokens false false).2 false false).1 (runInformalizeStage NUMBER (runInformalizeStage NULLORDER s tokens false false).1 (runInformalizeStage NULLORDER s tokens false false).2 false false).2 false false).2 false false).2 true true).1 (runInformalizeStage EXPRESSION (runInformalizeStage VALUE (runInformalizeStage LIMIT (runInformalizeStage NUMBER (runInformalizeStage NULLORDER s tokens false false).1 (runInformalizeStage NULLORDER s tokens false false).2 false false).1 (runInformalizeStage NUMBER (runInformalizeStage NULLORDER s tokens false false).1 (runInformalizeStage NULLORDER s tokens false false).2 false false).2 false false).1 (runInformalizeStage LIMIT (runInformalizeStage NUMBER (runInformalizeStage NULLORDER s tokens false false).1 (runInformalizeStage NULLORDER s tokens false false).2 false false).1 (runInformalizeStage NUMBER (runInformalizeStage NULLORDER s tokens false false).1 (runInformalizeStage NULLORDER s tokens false false).2 false false).2 false false).2 false false).1 (runInformalizeStage VALUE (runInformalizeStage LIMIT (runInformalizeStage NUMBER (runInformalizeStage NULLORDER s tokens false false).1 (runInformalizeStage NULLORDER s tokens false false).2 false false).1 (runInformalizeStage NUMBER (runInformalizeStage NULLORDER s tokens false false).1 (runInformalizeStage NULLORDER s tokens false false).2 false false).2 false false).1 (runInformalizeStage LIMIT (runInformalizeStage NUMBER (runInformalizeStage NULLORDER s tokens false false).1 (runInformalizeStage NULLORDER s tokens false false).2 false false).1 (runInformalizeStage NUMBER (runInformalizeStage NULLORDER s tokens false false).1 (runInformalizeStage NULLORDER s tokens false false).2 false false).2 false false).2 false false).2 true true).2 false true).1 (runInformalizeStage ORDERBY (runInformalizeStage EXPRESSION (runInformalizeStage VALUE (runInformalizeStage LIMIT (runInformalizeStage NUMBER (runInformalizeStage NULLORDER s tokens false false).1 (runInformalizeStage NULLORDER s tokens false false).2 false false).1 (runInformalizeStage NUMBER (runInformalizeStage NULLORDER s tokens false false).1 (runInformalizeStage NULLORDER s tokens false false).2 false false).2 false false).1 (runInformalizeStage LIMIT (runInformalizeStage NUMBER (runInformalizeStage NULLORDER s tokens false false).1 (runInformalizeStage NULLORDER s tokens false false).2 false false).1 (runInformalizeStage NUMBER (runInformalizeStage NULLORDER s tokens false false).1 (runInformalizeStage NULLORDER s tokens false false).2 false false).2 false false).2 false false).1 (runInformalizeStage VALUE (runInformalizeStage LIMIT (runInformalizeStage NUMBER (runInformalizeStage NULLORDER s tokens false false).1 (runInformalizeStage NULLORDER s tokens false false).2 false false).1 (runInformalizeStage NUMBER (runInformalizeStage NULLORDER s tokens false false).1 (runInformalizeStage NULLORDER s tokens false false).2 false false).2 false false).1 (runInformalizeStage LIMIT (runInformalizeStage NUMBER (runInformalizeStage NULLORDER s tokens false false).1 (runInformalizeStage NULLORDER s tokens false false).2 false false).1 (runInformalizeStage NUMBER (runInformalizeStage NULLORDER s tokens false false).1 (runInformalizeStage NULLORDER s tokens false false).2 false false).2 false false).2 false false).2 true true).1 (runInformalizeStage EXPRESSION (runInformalizeStage VALUE (runInformalizeStage LIMIT (runInformalizeStage NUMBER (runInformalizeStage NULLORDER s tokens false false).1 (runInformalizeStage NULLORDER s tokens false false).2 false false).1 (runInformalizeStage NUMBER (runInformalizeStage NULLORDER s tokens false false).1 (runInformalizeStage NULLORDER s tokens false false).2 false false).2 false false).1 (runInformalizeStage LIMIT (runInformalizeStage NUMBER (runInformalizeStage NULLORDER s tokens false false).1 (runInformalizeStage NULLORDER s tokens false false).2 false false).1 (runInformalizeStage NUMBER (runInformalizeStage NULLORDER s tokens false false).1 (runInformalizeStage NULLORDER s tokens false false).2 false false).2 false false).2 false false).1 (runInformalizeStage VALUE (runInformalizeStage LIMIT (runInformalizeStage NUMBER (runInformalizeStage NULLORDER s tokens false false).1 (runInformalizeStage NULLORDER s tokens false false).2 false false).1 (runInformalizeStage NUMBER (runInformalizeStage NULLORDER s tokens false false).1 (runInformalizeStage NULLORDER s tokens false false).2 false false).2 false false).1 (runInformalizeStage LIMIT (runInformalizeStage NUMBER (runInformalizeStage NULLORDER s tokens false false).1 (runInformalizeStage NULLORDER s tokens false false).2 false false).1 (runInformalizeStage NUMBER (runInformalizeStage NULLORDER s tokens false false).1 (runInformalizeStage NULLORDER s tokens false false).2 false false).2 false false).2 false false).2 true true).2 false true).2 true false).1 (runInformalizeStage GROUPBY (runInformalizeStage ORDERBY (runInformalizeStage EXPRESSION (runInformalizeStage VALUE (runInformalizeStage LIMIT (runInformalizeStage NUMBER (runInformalizeStage NULLORDER s tokens false false).1 (runInformalizeStage NULLORDER s tokens false false).2 false false).1 (runInformalizeStage NUMBER (runInformalizeStage NULLORDER s tokens false false).1 (runInformalizeStage NULLORDER s tokens false false).2 false false).2 false false).1 (runInformalizeStage LIMIT (runInformalizeStage NUMBER (runInformalizeStage NULLORDER s tokens false false).1 (runInformalizeStage NULLORDER s tokens false false).2 false false).1 (runInformalizeStage NUMBER (runInformalizeStage NULLORDER s tokens false false).1 (runInformalizeStage NULLORDER s tokens false false).2 false false).2 false false).2 false false).1 (runInformalizeStage VALUE (runInformalizeStage LIMIT (runInformalizeStage NUMBER (runInformalizeStage NULLORDER s tokens false false).1 (runInformalizeStage NULLORDER s tokens false false).2 false false).1 (runInformalizeStage NUMBER (runInformalizeStage NULLORDER s tokens false false).1 (runInformalizeStage NULLORDER s tokens false false).2 false false).2 false false).1 (runInformalizeStage LIMIT (runInformalizeStage NUMBER (runInformalizeStage NULLORDER s tokens false false).1 (runInformalizeStage NULLORDER s tokens false false).2 false false).1 (runInformalizeStage NUMBER (runInformalizeStage NULLORDER s tokens false false).1 (runInformalizeStage NULLORDER s tokens false false).2 false false).2 false false).2 false false).2 true true).1 (runInformalizeStage EXPRESSION (runInformalizeStage VALUE (runInformalizeStage LIMIT (runInformalizeStage NUMBER (runInformalizeStage NULLORDER s tokens false false).1 (runInformalizeStage NULLORDER s tokens false false).2 false false).1 (runInformalizeStage NUMBER (runInformalizeStage NULLORDER s tokens false false).1 (runInformalizeStage NULLORDER s tokens false false).2 false false).2 false false).1 (runInformalizeStage LIMIT (runInformalizeStage NUMBER (runInformalizeStage NULLORDER s tokens false false).1 (runInformalizeStage NULLORDER s tokens false false).2 false false).1 (runInformalizeStage NUMBER (runInformalizeStage NULLORDER s tokens false false).1 (runInformalizeStage NULLORDER s tokens false false).2 false false).2 false false).2 false false).1 (runInformalizeStage VALUE (runInformalizeStage LIMIT (runInformalizeStage NUMBER (runInformalizeStage NULLORDER s tokens false false).1 (runInformalizeStage NULLORDER s tokens false false).2 false false).1 (runInformalizeStage NUMBER (runInformalizeStage NULLORDER s tokens false false).1 (runInformalizeStage NULLORDER s tokens false false).2 false false).2 false false).1 (runInformalizeStage LIMIT (runInformalizeStage NUMBER (runInformalizeStage NULLORDER s tokens false false).1 (runInformalizeStage NULLORDER s tokens false false).2 false false).1 (runInformalizeStage NUMBER (runInformalizeStage NULLORDER s tokens false false).1 (runInformalizeStage NULLORDER s tokens false false).2 false false).2 false false).2 false false).2 true true).2 false true).1 (runInformalizeStage ORDERBY (runInformalizeStage EXPRESSION (runInformalizeStage VALUE (runInformalizeStage LIMIT (runInformalizeStage NUMBER (runInformalizeStage NULLORDER s tokens false false).1 (runInformalizeStage NULLORDER s tokens false false).2 false false).1 (runInformalizeStage NUMBER (runInformalizeStage NULLORDER s tokens false false).1 (runInformalizeStage NULLORDER s tokens false false).2 false false).2 false false).1 (runInformalizeStage LIMIT (runInformalizeStage NUMBER (runInformalizeStage NULLORDER s tokens false false).1 (runInformalizeStage NULLORDER s tokens false false).2 false false).1 (runInformalizeStage NUMBER (runInformalizeStage NULLORDER s tokens false false).1 (runInformalizeStage NULLORDER s tokens false false).2 false false).2 false false).2 false false).1 (runInformalizeStage VALUE (runInformalizeStage LIMIT (runInformalizeStage NUMBER (runInformalizeStage NULLORDER s tokens false false).1 (runInformalizeStage NULLORDER s tokens false false).2 false false).1 (runInformalizeStage NUMBER (runInformalizeStage NULLORDER s tokens false false).1 (runInformalizeStage NULLORDER s tokens false false).2 false false).2 false false).1 (runInformalizeStage LIMIT (runInformalizeStage NUMBER (runInformalizeStage NULLORDER s tokens false false).1 (runInformalizeStage NULLORDER s tokens false false).2 false false).1 (runInformalizeStage NUMBER (runInformalizeStage NULLORDER s tokens false false).1 (runInformalizeStage NULLORDER s tokens false false).2 false false).2 false false).2 false false).2 true true).1 (runInformalizeStage EXPRESSION (runInformalizeStage VALUE (runInformalizeStage LIMIT (runInformalizeStage NUMBER (runInformalizeStage NULLORDER s tokens false false).1 (runInformalizeStage NULLORDER s tokens false false).2 false false).1 (runInformalizeStage NUMBER (runInformalizeStage NULLORDER s tokens false false).1 (runInformalizeStage NULLORDER s tokens false false).2 false false).2 false false).1 (runInformalizeStage LIMIT (runInformalizeStage NUMBER (runInformalizeStage NULLORDER s tokens false false).1 (runInformalizeStage NULLORDER s tokens false false).2 false false).1 (runInformalizeStage NUMBER (runInformalizeStage NULLORDER s tokens false false).1 (runInformalizeStage NULLORDER s tokens false false).2 false false).2 false false).2 false false).1 (runInformalizeStage VALUE (runInformalizeStage LIMIT (runInformalizeStage NUMBER (runInformalizeStage NULLORDER s tokens false false).1 (runInformalizeStage NULLORDER s tokens false false).2 false false).1 (runInformalizeStage NUMBER (runInformalizeStage NULLORDER s tokens false false).1 (runInformalizeStage NULLORDER s tokens false false).2 false false).2 false false).1 (runInformalizeStage LIMIT (runInformalizeStage NUMBER (runInformalizeStage NULLORDER s tokens false false).1 (runInformalizeStage NULLORDER s tokens false false).2 false false).1 (runInformalizeStage NUMBER (runInformalizeStage NULLORDER s tokens false false).1 (runInformalizeStage NULLORDER s tokens false false).2 false false).2 false false).2 false false).2 true true).2 false true).2 true false).2 false false).2 false false).1 (runInformalizeStage WHERE (runInformalizeStage HAVING (runInformalizeStage GROUPBY (runInformalizeStage ORDERBY (runInformalizeStage EXPRESSION (runInformalizeStage VALUE (runInformalizeStage LIMIT (runInformalizeStage NUMBER (runInformalizeStage NULLORDER s tokens false false).1 (runInformalizeStage NULLORDER s tokens false false).2 false false).1 (runInformalizeStage NUMBER (runInformalizeStage NULLORDER s tokens false false).1 (runInformalizeStage NULLORDER s tokens false false).2 false false).2 false false).1 (runInformalizeStage LIMIT (runInformalizeStage NUMBER (runInformalizeStage NULLORDER s tokens false false).1 (runInformalizeStage NULLORDER s tokens false false).2 false false).1 (runInformalizeStage NUMBER (runInformalizeStage NULLORDER s tokens false false).1 (runInformalizeStage NULLORDER s tokens false false).2 false false).2 false false).2 false false).1 (runInformalizeStage VALUE (runInformalizeStage LIMIT (runInformalizeStage NUMBER (runInformalizeStage NULLORDER s tokens false false).1 (runInformalizeStage NULLORDER s tokens false false).2 false false).1 (runInformalizeStage NUMBER (runInformalizeStage NULLORDER s tokens false false).1 (runInformalizeStage NULLORDER s tokens false false).2 false false).2 false false).1 (runInformalizeStage LIMIT (runInformalizeStage NUMBER (runInformalizeStage NULLORDER s tokens false false).1 (runInformalizeStage NULLORDER s tokens false false).2 false false).1 (runInformalizeStage NUMBER (runInformalizeStage NULLORDER s tokens false false).1 (runInformalizeStage NULLORDER s tokens false false).2 false false).2 false false).2 false false).2 true true).1 (runInformalizeStage EXPRESSION (runInformalizeStage VALUE (runInformalizeStage LIMIT (runInformalizeStage NUMBER (runInformalizeStage NULLORDER s tokens false false).1 (runInformalizeStage NULLORDER s tokens false false).2 false false).1 (runInformalizeStage NUMBER (runInformalizeStage NULLORDER s tokens false false).1 (runInformalizeStage NULLORDER s tokens false false).2 false false).2 false false).1 (runInformalizeStage LIMIT (runInformalizeStage NUMBER (runInformalizeStage NULLORDER s tokens false false).1 (runInformalizeStage NULLORDER s tokens false false).2 false false).1 (runInformalizeStage NUMBER (runInformalizeStage NULLORDER s tokens false false).1 (runInformalizeStage NULLORDER s tokens false false).2 false false).2 false false).2 false false).1 (runInformalizeStage VALUE (runInformalizeStage LIMIT (runInformalizeStage NUMBER (runInformalizeStage NULLORDER s tokens false false).1 (runInformalizeStage NULLORDER s tokens false false).2 false false).1 (runInformalizeStage NUMBER (runInformalizeStage NULLORDER s tokens false false).1 (runInformalizeStage NULLORDER s tokens false false).2 false false).2 false false).1 (runInformalizeStage LIMIT (runInformalizeStage NUMBER (runInformalizeStage NULLORDER s tokens false false).1 (runInformalizeStage NULLORDER s tokens false false).2 false false).1 (runInformalizeStage NUMBER (runInformalizeStage NULLORDER s tokens false false).1 (runInformalizeStage NULLORDER s tokens false false).2 false false).2 false false).2 false false).2 true true).2 false true).1 (runInformalizeStage ORDERBY (runInformalizeStage EXPRESSION (runInformalizeStage VALUE (runInformalizeStage LIMIT (runInformalizeStage NUMBER (runInformalizeStage NULLORDER s tokens false false).1 (runInformalizeStage NULLORDER s tokens false false).2 false false).1 (runInformalizeStage NUMBER (runInformalizeStage NULLORDER s tokens false false).1 (runInformalizeStage NULLORDER s tokens false false).2 false false).2 false false).1 (runInformalizeStage LIMIT (runInformalizeStage NUMBER (runInformalizeStage NULLORDER s tokens false false).1 (runInformalizeStage NULLORDER s tokens false false).2 false false).1 (runInformalizeStage NUMBER (runInformalizeStage NULLORDER s tokens false false).1 (runInformalizeStage NULLORDER s tokens false false).2 false false).2 false false).2 false false).1 (runInformalizeStage VALUE (runInformalizeStage LIMIT (runInformalizeStage NUMBER (runInformalizeStage NULLORDER s tokens false false).1 (runInformalizeStage NULLORDER s tokens false false).2 false false).1 (runInformalizeStage NUMBER (runInformalizeStage NULLORDER s tokens false false).1 (runInformalizeStage NULLORDER s tokens false false).2 false false).2 false false).1 (runInformalizeStage LIMIT (runInformalizeStage NUMBER (runInformalizeStage NULLORDER s tokens false false).1 (runInformalizeStage NULLORDER s tokens false false).2 false false).1 (runInformalizeStage NUMBER (runInformalizeStage NULLORDER s tokens false false).1 (runInformalizeStage NULLORDER s tokens false false).2 false false).2 false false).2 false false).2 true true).1 (runInformalizeStage EXPRESSION (runInformalizeStage VALUE (runInformalizeStage LIMIT (runInformalizeStage NUMBER (runInformalizeStage NULLORDER s tokens false false).1 (runInformalizeStage NULLORDER s tokens false false).2 false false).1 (runInformalizeStage NUMBER (runInformalizeStage NULLORDER s tokens false false).1 (runInformalizeStage NULLORDER s tokens false false).2 false false).2 false false).1 (runInformalizeStage LIMIT (runInformalizeStage NUMBER (runInformalizeStage NULLORDER s tokens false false).1 (runInformalizeStage NULLORDER s tokens false false).2 false false).1 (runInformalizeStage NUMBER (runInformalizeStage NULLORDER s tokens false false).1 (runInformalizeStage NULLORDER s tokens false false).2 false false).2 false false).2 false false).1 (runInformalizeStage VALUE (runInformalizeStage LIMIT (runInformalizeStage NUMBER (runInformalizeStage NULLORDER s tokens false false).1 (runInformalizeStage NULLORDER s tokens false false).2 false false).1 (runInformalizeStage NUMBER (runInformalizeStage NULLORDER s tokens false false).1 (runInformalizeStage NULLORDER s tokens false false).2 false false).2 false false).1 (runInformalizeStage LIMIT (runInformalizeStage NUMBER (runInformalizeStage NULLORDER s tokens false false).1 (runInformalizeStage NULLORDER s tokens false false).2 false false).1 (runInformalizeStage NUMBER (runInformalizeStage NULLORDER s tokens false false).1 (runInformalizeStage NULLORDER s tokens false false).2 false false).2 false false).2 false false).2 true true).2 false true).2 true false).1 (runInformalizeStage GROUPBY (runInformalizeStage ORDERBY (runInformalizeStage EXPRESSION (runInformalizeStage VALUE (runInformalizeStage LIMIT (runInformalizeStage NUMBER (runInformalizeStage NULLORDER s tokens false false).1 (runInformalizeStage NULLORDER s tokens false false).2 false false).1 (runInformalizeStage NUMBER (runInformalizeStage NULLORDER s tokens false false).1 (runInformalizeStage NULLORDER s tokens false false).2 false false).2 false false).1 (runInformalizeStage LIMIT (runInformalizeStage NUMBER (runInformalizeStage NULLORDER s tokens false false).1 (runInformalizeStage NULLORDER s tokens false false).2 false false).1 (runInformalizeStage NUMBER (runInformalizeStage NULLORDER s tokens false false).1 (runInformalizeStage NULLORDER s tokens false false).2 false false).2 false false).2 false false).1 (runInformalizeStage VALUE (runInformalizeStage LIMIT (runInformalizeStage NUMBER (runInformalizeStage NULLORDER s tokens false false).1 (runInformalizeStage NULLORDER s tokens false false).2 false false).1 (runInformalizeStage NUMBER (runInformalizeStage NULLORDER s tokens false false).1 (runInformalizeStage NULLORDER s tokens false false).2 false false).2 false false).1 (runInformalizeStage LIMIT (runInformalizeStage NUMBER (runInformalizeStage NULLORDER s tokens false false).1 (runInformalizeStage NULLORDER s tokens false false).2 false false).1 (runInformalizeStage NUMBER (runInformalizeStage NULLORDER s tokens false false).1 (runInformalizeStage NULLORDER s tokens false false).2 false false).2 false false).2 false false).2 true true).1 (runInformalizeStage EXPRESSION (runInformalizeStage VALUE (runInformalizeStage LIMIT (runInformalizeStage NUMBER (runInformalizeStage NULLORDER s tokens false false).1 (runInformalizeStage NULLORDER s tokens false false).2 false false).1 (runInformalizeStage NUMBER (runInformalizeStage NULLORDER s tokens false false).1 (runInformalizeStage NULLORDER s tokens false false).2 false false).2 false false).1 (runInformalizeStage LIMIT (runInformalizeStage NUMBER (runInformalizeStage NULLORDER s tokens false false).1 (runInformalizeStage NULLORDER s tokens false false).2 false false).1 (runInformalizeStage NUMBER (runInformalizeStage NULLORDER s tokens false false).1 (runInformalizeStage NULLORDER s tokens false false).2 false false).2 false false).2 false false).1 (runInformalizeStage VALUE (runInformalizeStage LIMIT (runInformalizeStage NUMBER (runInformalizeStage NULLORDER s tokens false false).1 (runInformalizeStage NULLORDER s tokens false false).2 false false).1 (runInformalizeStage NUMBER (runInformalizeStage NULLORDER s tokens false false).1 (runInformalizeStage NULLORDER s tokens false false).2 false false).2 false false).1 (runInformalizeStage LIMIT (runInformalizeStage NUMBER (runInformalizeStage NULLORDER s tokens false false).1 (runInformalizeStage NULLORDER s tokens false false).2 false false).1 (runInformalizeStage NUMBER (runInformalizeStage NULLORDER s tokens false false).1 (runInformalizeStage NULLORDER s tokens false false).2 false false).2 false false).2 false false).2 true true).2 false true).1 (runInformalizeStage ORDERBY (runInformalizeStage EXPRESSION (runInformalizeStage VALUE (runInformalizeStage LIMIT (runInformalizeStage NUMBER (runInformalizeStage NULLORDER s tokens false false).1 (runInformalizeStage NULLORDER s tokens false false).2 false false).1 (runInformalizeStage NUMBER (runInformalizeStage NULLORDER s tokens false false).1 (runInformalizeStage NULLORDER s tokens false false).2 false false).2 false false).1 (runInformalizeStage LIMIT (runInformalizeStage NUMBER (runInformalizeStage NULLORDER s tokens false false).1 (runInformalizeStage NULLORDER s tokens false false).2 false false).1 (runInformalizeStage NUMBER (runInformalizeStage NULLORDER s tokens false false).1 (runInformalizeStage NULLORDER s tokens false false).2 false false).2 false false).2 false false).1 (runInformalizeStage VALUE (runInformalizeStage LIMIT (runInformalizeStage NUMBER (runInformalizeStage NULLORDER s tokens false false).1 (runInformalizeStage NULLORDER s tokens false false).2 false false).1 (runInformalizeStage NUMBER (runInformalizeStage NULLORDER s tokens false false).1 (runInformalizeStage NULLORDER s tokens false false).2 false false).2 false false).1 (runInformalizeStage LIMIT (runInformalizeStage NUMBER (runInformalizeStage NULLORDER s tokens false false).1 (runInformalizeStage NULLORDER s tokens false false).2 false false).1 (runInformalizeStage NUMBER (runInformalizeStage NULLORDER s tokens false false).1 (runInformalizeStage NULLORDER s tokens false false).2 false false).2 false false).2 false false).2 true true).1 (runInformalizeStage EXPRESSION (runInformalizeStage VALUE (runInformalizeStage LIMIT (runInformalizeStage NUMBER (runInformalizeStage NULLORDER s tokens false false).1 (runInformalizeStage NULLORDER s tokens false false).2 false false).1 (runInformalizeStage NUMBER (runInformalizeStage NULLORDER s tokens false false).1 (runInformalizeStage NULLORDER s tokens false false).2 false false).2 false false).1 (runInformalizeStage LIMIT (runInformalizeStage NUMBER (runInformalizeStage NULLORDER s tokens false false).1 (runInformalizeStage NULLORDER s tokens false false).2 false false).1 (runInformalizeStage NUMBER (runInformalizeStage NULLORDER s tokens false false).1 (runInformalizeStage NULLORDER s tokens false false).2 false false).2 false false).2 false false).1 (runInformalizeStage VALUE (runInformalizeStage LIMIT (runInformalizeStage NUMBER (runInformalizeStage NULLORDER s tokens false false).1 (runInformalizeStage NULLORDER s tokens false false).2 false false).1 (runInformalizeStage NUMBER (runInformalizeStage NULLORDER s tokens false false).1 (runInformalizeStage NULLORDER s tokens false false).2 false false).2 false false).1 (runInformalizeStage LIMIT (runInformalizeStage NUMBER (runInformalizeStage NULLORDER s tokens false false).1 (runInformalizeStage NULLORDER s tokens false false).2 false false).1 (runInformalizeStage NUMBER (runInformalizeStage NULLORDER s tokens false false).1 (runInformalizeStage NULLORDER s tokens false false).2 false false).2 false false).2 false false).2 true true).2 false true).2 true false).2 false false).1 (runInformalizeStage HAVING (runInformalizeStage GROUPBY (runInformalizeStage ORDERBY (runInformalizeStage EXPRESSION (runInformalizeStage VALUE (runInformalizeStage LIMIT (runInformalizeStage NUMBER (runInformalizeStage NULLORDER s tokens false false).1 (runInformalizeStage NULLORDER s tokens false false).2 false false).1 (runInformalizeStage NUMBER (runInformalizeStage NULLORDER s tokens false false).1 (runInformalizeStage NULLORDER s tokens false false).2 false false).2 false false).1 (runInformalizeStage LIMIT (runInformalizeStage NUMBER (runInformalizeStage NULLORDER s tokens false false).1 (runInformalizeStage NULLORDER s tokens false false).2 false false).1 (runInformalizeStage NUMBER (runInformalizeStage NULLORDER s tokens false false).1 (runInformalizeStage NULLORDER s tokens false false).2 false false).2 false false).2 false false).1 (runInformalizeStage VALUE (runInformalizeStage LIMIT (runInformalizeStage NUMBER (runInformalizeStage NULLORDER s tokens false false).1 (runInformalizeStage NULLORDER s tokens false false).2 false false).1 (runInformalizeStage NUMBER (runInformalizeStage NULLORDER s tokens false false).1 (runInformalizeStage NULLORDER s tokens false false).2 false false).2 false false).1 (runInformalizeStage LIMIT (runInformalizeStage NUMBER (runInformalizeStage NULLORDER s tokens false false).1 (runInformalizeStage NULLORDER s tokens false false).2 false false).1 (runInformalizeStage NUMBER (runInformalizeStage NULLORDER s tokens false false).1 (runInformalizeStage NULLORDER s tokens false false).2 false false).2 false false).2 false false).2 true true).1 (runInformalizeStage EXPRESSION (runInformalizeStage VALUE (runInformalizeStage LIMIT (runInformalizeStage NUMBER (runInformalizeStage NULLORDER s tokens false false).1 (runInformalizeStage NULLORDER s tokens false false).2 false false).1 (runInformalizeStage NUMBER (runInformalizeStage NULLORDER s tokens false false).1 (runInformalizeStage NULLORDER s tokens false false).2 false false).2 false false).1 (runInformalizeStage LIMIT (runInformalizeStage NUMBER (runInformalizeStage NULLORDER s tokens false false).1 (runInformalizeStage NULLORDER s tokens false false).2 false false).1 (runInformalizeStage NUMBER (runInformalizeStage NULLORDER s tokens false false).1 (runInformalizeStage NULLORDER s tokens false false).2 false false).2 false false).2 false false).1 (runInformalizeStage VALUE (runInformalizeStage LIMIT (runInformalizeStage NUMBER (runInformalizeStage NULLORDER s tokens false false).1 (runInformalizeStage NULLORDER s tokens false false).2 false false).1 (runInformalizeStage NUMBER (runInformalizeStage NULLORDER s tokens false false).1 (runInformalizeStage NULLORDER s tokens false false).2 false false).2 false false).1 (runInformalizeStage LIMIT (runInformalizeStage NUMBER (runInformalizeStage NULLORDER s tokens false false).1 (runInformalizeStage NULLORDER s tokens false false).2 false false).1 (runInformalizeStage NUMBER (runInformalizeStage NULLORDER s tokens false false).1 (runInformalizeStage NULLORDER s tokens false false).2 false false).2 false false).2 false false).2 true true).2 false true).1 (runInformalizeStage ORDERBY (runInformalizeStage EXPRESSION (runInformalizeStage VALUE (runInformalizeStage LIMIT (runInformalizeStage NUMBER (runInformalizeStage NULLORDER s tokens false false).1 (runInformalizeStage NULLORDER s tokens false false).2 false false).1 (runInformalizeStage NUMBER (runInformalizeStage NULLORDER s tokens false false).1 (runInformalizeStage NULLORDER s tokens false false).2 false false).2 false false).1 (runInformalizeStage LIMIT (runInformalizeStage NUMBER (runInformalizeStage NULLORDER s tokens false false).1 (runInformalizeStage NULLORDER s tokens false false).2 false false).1 (runInformalizeStage NUMBER (runInformalizeStage NULLORDER s tokens false false).1 (runInformalizeStage NULLORDER s tokens false false).2 false false).2 false false).2 false false).1 (runInformalizeStage VALUE (runInformalizeStage LIMIT (runInformalizeStage NUMBER (runInformalizeStage NULLORDER s tokens false false).1 (runInformalizeStage NULLORDER s tokens false false).2 false false).1 (runInformalizeStage NUMBER (runInformalizeStage NULLORDER s tokens false false).1 (runInformalizeStage NULLORDER s tokens false false).2 false false).2 false false).1 (runInformalizeStage LIMIT (runInformalizeStage NUMBER (runInformalizeStage NULLORDER s tokens false false).1 (runInformalizeStage NULLORDER s tokens false false).2 false false).1 (runInformalizeStage NUMBER (runInformalizeStage NULLORDER s tokens false false).1 (runInformalizeStage NULLORDER s tokens false false).2 false false).2 false false).2 false false).2 true true).1 (runInformalizeStage EXPRESSION (runInformalizeStage VALUE (runInformalizeStage LIMIT (runInformalizeStage NUMBER (runInformalizeStage NULLORDER s tokens false false).1 (runInformalizeStage NULLORDER s tokens false false).2 false false).1 (runInformalizeStage NUMBER (runInformalizeStage NULLORDER s tokens false false).1 (runInformalizeStage NULLORDER s tokens false false).2 false false).2 false false).1 (runInformalizeStage LIMIT (runInformalizeStage NUMBER (runInformalizeStage NULLORDER s tokens false false).1 (runInformalizeStage NULLORDER s tokens false false).2 false false).1 (runInformalizeStage NUMBER (runInformalizeStage NULLORDER s tokens false false).1 (runInformalizeStage NULLORDER s tokens false false).2 false false).2 false false).2 false false).1 (runInformalizeStage VALUE (runInformalizeStage LIMIT (runInformalizeStage NUMBER (runInformalizeStage NULLORDER s tokens false false).1 (runInformalizeStage NULLORDER s tokens false false).2 false false).1 (runInformalizeStage NUMBER (runInformalizeStage NULLORDER s tokens false false).1 (runInformalizeStage NULLORDER s tokens false false).2 false false).2 false false).1 (runInformalizeStage LIMIT (runInformalizeStage NUMBER (runInformalizeStage NULLORDER s tokens false false).1 (runInformalizeStage NULLORDER s tokens false false).2 false false).1 (runInformalizeStage NUMBER (runInformalizeStage NULLORDER s tokens false false).1 (runInformalizeStage NULLORDER s tokens false false).2 false false).2 false false).2 false false).2 true true).2 false true).2 true false).1 (runInformalizeStage GROUPBY (runInformalizeStage ORDERBY (runInformalizeStage EXPRESSION (runInformalizeStage VALUE (runInformalizeStage LIMIT (runInformalizeStage NUMBER (runInformalizeStage NULLORDER s tokens false false).1 (runInformalizeStage NULLORDER s tokens false false).2 false false).1 (runInformalizeStage NUMBER (runInformalizeStage NULLORDER s tokens false false).1 (runInformalizeStage NULLORDER s tokens false false).2 false false).2 false false).1 (runInformalizeStage LIMIT (runInformalizeStage NUMBER (runInformalizeStage NULLORDER s tokens false false).1 (runInformalizeStage NULLORDER s tokens false false).2 false false).1 (runInformalizeStage NUMBER (runInformalizeStage NULLORDER s tokens false false).1 (runInformalizeStage NULLORDER s tokens false false).2 false false).2 false false).2 false false).1 (runInformalizeStage VALUE (runInformalizeStage LIMIT (runInformalizeStage NUMBER (runInformalizeStage NULLORDER s tokens false false).1 (runInformalizeStage NULLORDER s tokens false false).2 false false).1 (runInformalizeStage NUMBER (runInformalizeStage NULLORDER s tokens false false).1 (runInformalizeStage NULLORDER s tokens false false).2 false false).2 false false).1 (runInformalizeStage LIMIT (runInformalizeStage NUMBER (runInformalizeStage NULLORDER s tokens false false).1 (runInformalizeStage NULLORDER s tokens false false).2 false false).1 (runInformalizeStage NUMBER (runInformalizeStage NULLORDER s tokens false false).1 (runInformalizeStage NULLORDER s tokens false false).2 false false).2 false false).2 false false).2 true true).1 (runInformalizeStage EXPRESSION (runInformalizeStage VALUE (runInformalizeStage LIMIT (runInformalizeStage NUMBER (runInformalizeStage NULLORDER s tokens false false).1 (runInformalizeStage NULLORDER s tokens false false).2 false false).1 (runInformalizeStage NUMBER (runInformalizeStage NULLORDER s tokens false false).1 (runInformalizeStage NULLORDER s tokens false false).2 false false).2 false false).1 (runInformalizeStage LIMIT (runInformalizeStage NUMBER (runInformalizeStage NULLORDER s tokens false false).1 (runInformalizeStage NULLORDER s tokens false false).2 false false).1 (runInformalizeStage NUMBER (runInformalizeStage NULLORDER s tokens false false).1 (runInformalizeStage NULLORDER s tokens false false).2 false false).2 false false).2 false false).1 (runInformalizeStage VALUE (runInformalizeStage LIMIT (runInformalizeStage NUMBER (runInformalizeStage NULLORDER s tokens false false).1 (runInformalizeStage NULLORDER s tokens false false).2 false false).1 (runInformalizeStage NUMBER (runInformalizeStage NULLORDER s tokens false false).1 (runInformalizeStage NULLORDER s tokens false false).2 false false).2 false false).1 (runInformalizeStage LIMIT (runInformalizeStage NUMBER (runInformalizeStage NULLORDER s tokens false false).1 (runInformalizeStage NULLORDER s tokens false false).2 false false).1 (runInformalizeStage NUMBER (runInformalizeStage NULLORDER s tokens false false).1 (runInformalizeStage NULLORDER s tokens false false).2 false false).2 false false).2 false false).2 true true).2 false true).1 (runInformalizeStage ORDERBY (runInformalizeStage EXPRESSION (runInformalizeStage VALUE (runInformalizeStage LIMIT (runInformalizeStage NUMBER (runInformalizeStage NULLORDER s tokens false false).1 (runInformalizeStage NULLORDER s tokens false false).2 false false).1 (runInformalizeStage NUMBER (runInformalizeStage NULLORDER s tokens false false).1 (runInformalizeStage NULLORDER s tokens false false).2 false false).2 false false).1 (runInformalizeStage LIMIT (runInformalizeStage NUMBER (runInformalizeStage NULLORDER s tokens false false).1 (runInformalizeStage NULLORDER s tokens false false).2 false false).1 (runInformalizeStage NUMBER (runInformalizeStage NULLORDER s tokens false false).1 (runInformalizeStage NULLORDER s tokens false false).2 false false).2 false false).2 false false).1 (runInformalizeStage VALUE (runInformalizeStage LIMIT (runInformalizeStage NUMBER (runInformalizeStage NULLORDER s tokens false false).1 (runInformalizeStage NULLORDER s tokens false false).2 false false).1 (runInformalizeStage NUMBER (runInformalizeStage NULLORDER s tokens false false).1 (runInformalizeStage NULLORDER s tokens false false).2 false false).2 false false).1 (runInformalizeStage LIMIT (runInformalizeStage NUMBER (runInformalizeStage NULLORDER s tokens false false).1 (runInformalizeStage NULLORDER s tokens false false).2 false false).1 (runInformalizeStage NUMBER (runInformalizeStage NULLORDER s tokens false false).1 (runInformalizeStage NULLORDER s tokens false false).2 false false).2 false false).2 false false).2 true true).1 (runInformalizeStage EXPRESSION (runInformalizeStage VALUE (runInformalizeStage LIMIT (runInformalizeStage NUMBER (runInformalizeStage NULLORDER s tokens false false).1 (runInformalizeStage NULLORDER s tokens false false).2 false false).1 (runInformalizeStage NUMBER (runInformalizeStage NULLORDER s tokens false false).1 (runInformalizeStage NULLORDER s tokens false false).2 false false).2 false false).1 (runInformalizeStage LIMIT (runInformalizeStage NUMBER (runInformalizeStage NULLORDER s tokens false false).1 (runInformalizeStage NULLORDER s tokens false false).2 false false).1 (runInformalizeStage NUMBER (runInformalizeStage NULLORDER s tokens false false).1 (runInformalizeStage NULLORDER s tokens false false).2 false false).2 false false).2 false false).1 (runInformalizeStage VALUE (runInformalizeStage LIMIT (runInformalizeStage NUMBER (runInformalizeStage NULLORDER s tokens false false).1 (runInformalizeStage NULLORDER s tokens false false).2 false false).1 (runInformalizeStage NUMBER (runInformalizeStage NULLORDER s tokens false false).1 (runInformalizeStage NULLORDER s tokens false false).2 false false).2 false false).1 (runInformalizeStage LIMIT (runInformalizeStage NUMBER (runInformalizeStage NULLORDER s tokens false false).1 (runInformalizeStage NULLORDER s tokens false false).2 false false).1 (runInformalizeStage NUMBER (runInformalizeStage NULLORDER s tokens false false).1 (runInformalizeStage NULLORDER s tokens false false).2 false false).2 false false).2 false false).2 true true).2 false true).2 true false).2 false false).2 false false).2 false false).1) ((runInformalizeStage FROM (runInformalizeStage WHERE (runInformalizeStage HAVING (runInformalizeStage GROUPBY (runInformalizeStage ORDERBY (runInformalizeStage EXPRESSION (runInformalizeStage VALUE (runInformalizeStage LIMIT (runInformalizeStage NUMBER (runInformalizeStage NULLORDER s tokens false false).1 (runInformalizeStage NULLORDER s tokens false false).2 false false).1 (runInformalizeStage NUMBER (runInformalizeStage NULLORDER s tokens false false).1 (runInformalizeStage NULLORDER s tokens false false).2 false false).2 false false).1 (runInformalizeStage LIMIT (runInformalizeStage NUMBER (runInformalizeStage NULLORDER s tokens false false).1 (runInformalizeStage NULLORDER s tokens false false).2 false false).1 (runInformalizeStage NUMBER (runInformalizeStage NULLORDER s tokens false false).1 (runInformalizeStage NULLORDER s tokens false false).2 false false).2 false false).2 false false).1 (runInformalizeStage VALUE (runInformalizeStage LIMIT (runInformalizeStage NUMBER (runInformalizeStage NULLORDER s tokens false false).1 (runInformalizeStage NULLORDER s tokens false false).2 false false).1 (runInformalizeStage NUMBER (runInformalizeStage NULLORDER s tokens false false).1 (runInformalizeStage NULLORDER s tokens false false).2 false false).2 false false).1 (runInformalizeStage LIMIT (runInformalizeStage NUMBER (runInformalizeStage NULLORDER s tokens false false).1 (runInformalizeStage NULLORDER s tokens false false).2 false false).1 (runInformalizeStage NUMBER (runInformalizeStage NULLORDER s tokens false false).1 (runInformalizeStage NULLORDER s tokens false false).2 false false).2 false false).2 false false).2 true true).1 (runInformalizeStage EXPRESSION (runInformalizeStage VALUE (runInformalizeStage LIMIT (runInformalizeStage NUMBER (runInformalizeStage NULLORDER s tokens false false).1 (runInformalizeStage NULLORDER s tokens false false).2 false false).1 (runInformalizeStage NUMBER (runInformalizeStage NULLORDER s tokens false false).1 (runInformalizeStage NULLORDER s tokens false false).2 false false).2 false false).1 (runInformalizeStage LIMIT (runInformalizeStage NUMBER (runInformalizeStage NULLORDER s tokens false false).1 (runInformalizeStage NULLORDER s tokens false false).2 false false).1 (runInformalizeStage NUMBER (runInformalizeStage NULLORDER s tokens false false).1 (runInformalizeStage NULLORDER s tokens false false).2 false false).2 false false).2 false false).1 (runInformalizeStage VALUE (runInformalizeStage LIMIT (runInformalizeStage NUMBER (runInformalizeStage NULLORDER s tokens false false).1 (runInformalizeStage NULLORDER s tokens false false).2 false false).1 (runInformalizeStage NUMBER (runInformalizeStage NULLORDER s tokens false false).1 (runInformalizeStage NULLORDER s tokens false false).2 false false).2 false false).1 (runInformalizeStage LIMIT (runInformalizeStage NUMBER (runInformalizeStage NULLORDER s tokens false false).1 (runInformalizeStage NULLORDER s tokens false false).2 false false).1 (runInformalizeStage NUMBER (runInformalizeStage NULLORDER s tokens false false).1 (runInformalizeStage NULLORDER s tokens false false).2 false false).2 false false).2 false false).2 true true).2 false true).1 (runInformalizeStage ORDERBY (runInformalizeStage EXPRESSION (runInformalizeStage VALUE (runInformalizeStage LIMIT (runInformalizeStage NUMBER (runInformalizeStage NULLORDER s tokens false false).1 (runInformalizeStage NULLORDER s tokens false false).2 false false).1 (runInformalizeStage NUMBER (runInformalizeStage NULLORDER s tokens false false).1 (runInformalizeStage NULLORDER s tokens false false).2 false false).2 false false).1 (runInformalizeStage LIMIT (runInformalizeStage NUMBER (runInformalizeStage NULLORDER s tokens false false).1 (runInformalizeStage NULLORDER s tokens false false).2 false false).1 (runInformalizeStage NUMBER (runInformalizeStage NULLORDER s tokens false false).1 (runInformalizeStage NULLORDER s tokens false false).2 false false).2 false false).2 false false).1 (runInformalizeStage VALUE (runInformalizeStage LIMIT (runInformalizeStage NUMBER (runInformalizeStage NULLORDER s tokens false false).1 (runInformalizeStage NULLORDER s tokens false false).2 false false).1 (runInformalizeStage NUMBER (runInformalizeStage NULLORDER s tokens false false).1 (runInformalizeStage NULLORDER s tokens false false).2 false false).2 false false).1 (runInformalizeStage LIMIT (runInformalizeStage NUMBER (runInformalizeStage NULLORDER s tokens false false).1 (runInformalizeStage NULLORDER s tokens false false).2 false false).1 (runInformalizeStage NUMBER (runInformalizeStage NULLORDER s tokens false false).1 (runInformalizeStage NULLORDER s tokens false false).2 false false).2 false false).2 false false).2 true true).1 (runInformalizeStage EXPRESSION (runInformalizeStage VALUE (runInformalizeStage LIMIT (runInformalizeStage NUMBER (runInformalizeStage NULLORDER s tokens false false).1 (runInformalizeStage NULLORDER s tokens false false).2 false false).1 (runInformalizeStage NUMBER (runInformalizeStage NULLORDER s tokens false false).1 (runInformalizeStage NULLORDER s tokens false false).2 false false).2 false false).1 (runInformalizeStage LIMIT (runInformalizeStage NUMBER (runInformalizeStage NULLORDER s tokens false false).1 (runInformalizeStage NULLORDER s tokens false false).2 false false).1 (runInformalizeStage NUMBER (runInformalizeStage NULLORDER s tokens false false).1 (runInformalizeStage NULLORDER s tokens false false).2 false false).2 false false).2 false false).1 (runInformalizeStage VALUE (runInformalizeStage LIMIT (runInformalizeStage NUMBER (runInformalizeStage NULLORDER s tokens false false).1 (runInformalizeStage NULLORDER s tokens false false).2 false false).1 (runInformalizeStage NUMBER (runInformalizeStage NULLORDER s tokens false false).1 (runInformalizeStage NULLORDER s tokens false false).2 false false).2 false false).1 (runInformalizeStage LIMIT (runInformalizeStage NUMBER (runInformalizeStage NULLORDER s tokens false false).1 (runInformalizeStage NULLORDER s tokens false false).2 false false).1 (runInformalizeStage NUMBER (runInformalizeStage NULLORDER s tokens false false).1 (runInformalizeStage NULLORDER s tokens false false).2 false false).2 false false).2 false false).2 true true).2 false true).2 true false).1 (runInformalizeStage GROUPBY (runInformalizeStage ORDERBY (runInformalizeStage EXPRESSION (runInformalizeStage VALUE (runInformalizeStage LIMIT (runInformalizeStage NUMBER (runInformalizeStage NULLORDER s tokens false false).1 (runInformalizeStage NULLORDER s tokens false false).2 false false).1 (runInformalizeStage NUMBER (runInformalizeStage NULLORDER s tokens false false).1 (runInformalizeStage NULLORDER s tokens false false).2 false false).2 false false).1 (runInformalizeStage LIMIT (runInformalizeStage NUMBER (runInformalizeStage NULLORDER s tokens false false).1 (runInformalizeStage NULLORDER s tokens false false).2 false false).1 (runInformalizeStage NUMBER (runInformalizeStage NULLORDER s tokens false false).1 (runInformalizeStage NULLORDER s tokens false false).2 false false).2 false false).2 false false).1 (runInformalizeStage VALUE (runInformalizeStage LIMIT (runInformalizeStage NUMBER (runInformalizeStage NULLORDER s tokens false false).1 (runInformalizeStage NULLORDER s tokens false false).2 false false).1 (runInformalizeStage NUMBER (runInformalizeStage NULLORDER s tokens false false).1 (runInformalizeStage NULLORDER s tokens false false).2 false false).2 false false).1 (runInformalizeStage LIMIT (runInformalizeStage NUMBER (runInformalizeStage NULLORDER s tokens false false).1 (runInformalizeStage NULLORDER s tokens false false).2 false false).1 (runInformalizeStage NUMBER (runInformalizeStage NULLORDER s tokens false false).1 (runInformalizeStage NULLORDER s tokens false false).2 false false).2 false false).2 false false).2 true true).1 (runInformalizeStage EXPRESSION (runInformalizeStage VALUE (runInformalizeStage LIMIT (runInformalizeStage NUMBER (runInformalizeStage NULLORDER s tokens false false).1 (runInformalizeStage NULLORDER s tokens false false).2 false false).1 (runInformalizeStage NUMBER (runInformalizeStage NULLORDER s tokens false false).1 (runInformalizeStage NULLORDER s tokens false false).2 false false).2 false false).1 (runInformalizeStage LIMIT (runInformalizeStage NUMBER (runInformalizeStage NULLORDER s tokens false false).1 (runInformalizeStage NULLORDER s tokens false false).2 false false).1 (runInformalizeStage NUMBER (runInformalizeStage NULLORDER s tokens false false).1 (runInformalizeStage NULLORDER s tokens false false).2 false false).2 false false).2 false false).1 (runInformalizeStage VALUE (runInformalizeStage LIMIT (runInformalizeStage NUMBER (runInformalizeStage NULLORDER s tokens false false).1 (runInformalizeStage NULLORDER s tokens false false).2 false false).1 (runInformalizeStage NUMBER (runInformalizeStage NULLORDER s tokens false false).1 (runInformalizeStage NULLORDER s tokens false false).2 false false).2 false false).1 (runInformalizeStage LIMIT (runInformalizeStage NUMBER (runInformalizeStage NULLORDER s tokens false false).1 (runInformalizeStage NULLORDER s tokens false false).2 false false).1 (runInformalizeStage NUMBER (runInformalizeStage NULLORDER s tokens false false).1 (runInformalizeStage NULLORDER s tokens false false).2 false false).2 false false).2 false false).2 true true).2 false true).1 (runInformalizeStage ORDERBY (runInformalizeStage EXPRESSION (runInformalizeStage VALUE (runInformalizeStage LIMIT (runInformalizeStage NUMBER (runInformalizeStage NULLORDER s tokens false false).1 (runInformalizeStage NULLORDER s tokens false false).2 false false).1 (runInformalizeStage NUMBER (runInformalizeStage NULLORDER s tokens false false).1 (runInformalizeStage NULLORDER s tokens false false).2 false false).2 false false).1 (runInformalizeStage LIMIT (runInformalizeStage NUMBER (runInformalizeStage NULLORDER s tokens false false).1 (runInformalizeStage NULLORDER s tokens false false).2 false false).1 (runInformalizeStage NUMBER (runInformalizeStage NULLORDER s tokens false false).1 (runInformalizeStage NULLORDER s tokens false false).2 false false).2 false false).2 false false).1 (runInformalizeStage VALUE (runInformalizeStage LIMIT (runInformalizeStage NUMBER (runInformalizeStage NULLORDER s tokens false false).1 (runInformalizeStage NULLORDER s tokens false false).2 false false).1 (runInformalizeStage NUMBER (runInformalizeStage NULLORDER s tokens false false).1 (runInformalizeStage NULLORDER s tokens false false).2 false false).2 false false).1 (runInformalizeStage LIMIT (runInformalizeStage NUMBER (runInformalizeStage NULLORDER s tokens false false).1 (runInformalizeStage NULLORDER s tokens false false).2 false false).1 (runInformalizeStage NUMBER (runInformalizeStage NULLORDER s tokens false false).1 (runInformalizeStage NULLORDER s tokens false false).2 false false).2 false false).2 false false).2 true true).1 (runInformalizeStage EXPRESSION (runInformalizeStage VALUE (runInformalizeStage LIMIT (runInformalizeStage NUMBER (runInformalizeStage NULLORDER s tokens false false).1 (runInformalizeStage NULLORDER s tokens false false).2 false false).1 (runInformalizeStage NUMBER (runInformalizeStage NULLORDER s tokens false false).1 (runInformalizeStage NULLORDER s tokens false false).2 false false).2 false false).1 (runInformalizeStage LIMIT (runInformalizeStage NUMBER (runInformalizeStage NULLORDER s tokens false false).1 (runInformalizeStage NULLORDER s tokens false false).2 false false).1 (runInformalizeStage NUMBER (runInformalizeStage NULLORDER s tokens false false).1 (runInformalizeStage NULLORDER s tokens false false).2 false false).2 false false).2 false false).1 (runInformalizeStage VALUE (runInformalizeStage LIMIT (runInformalizeStage NUMBER (runInformalizeStage NULLORDER s tokens false false).1 (runInformalizeStage NULLORDER s tokens false false).2 false false).1 (runInformalizeStage NUMBER (runInformalizeStage NULLORDER s tokens false false).1 (runInformalizeStage NULLORDER s tokens false false).2 false false).2 false false).1 (runInformalizeStage LIMIT (runInformalizeStage NUMBER (runInformalizeStage NULLORDER s tokens false false).1 (runInformalizeStage NULLORDER s tokens false false).2 false false).1 (runInformalizeStage NUMBER (runInformalizeStage NULLORDER s tokens false false).1 (runInformalizeStage NULLORDER s tokens false false).2 false false).2 false false).2 false false).2 true true).2 false true).2 true false).2 false false).1 (runInformalizeStage HAVING (runInformalizeStage GROUPBY (runInformalizeStage ORDERBY (runInformalizeStage EXPRESSION (runInformalizeStage VALUE (runInformalizeStage LIMIT (runInformalizeStage NUMBER (runInformalizeStage NULLORDER s tokens false false).1 (runInformalizeStage NULLORDER s tokens false false).2 false false).1 (runInformalizeStage NUMBER (runInformalizeStage NULLORDER s tokens false false).1 (runInformalizeStage NULLORDER s tokens false false).2 false false).2 false false).1 (runInformalizeStage LIMIT (runInformalizeStage NUMBER (runInformalizeStage NULLORDER s tokens false false).1 (runInformalizeStage NULLORDER s tokens false false).2 false false).1 (runInformalizeStage NUMBER (runInformalizeStage NULLORDER s tokens false false).1 (runInformalizeStage NULLORDER s tokens false false).2 false false).2 false false).2 false false).1 (runInformalizeStage VALUE (runInformalizeStage LIMIT (runInformalizeStage NUMBER (runInformalizeStage NULLORDER s tokens false false).1 (runInformalizeStage NULLORDER s tokens false false).2 false false).1 (runInformalizeStage NUMBER (runInformalizeStage NULLORDER s tokens false false).1 (runInformalizeStage NULLORDER s tokens false false).2 false false).2 false false).1 (runInformalizeStage LIMIT (runInformalizeStage NUMBER (runInformalizeStage NULLORDER s tokens false false).1 (runInformalizeStage NULLORDER s tokens false false).2 false false).1 (runInformalizeStage NUMBER (runInformalizeStage NULLORDER s tokens false false).1 (runInformalizeStage NULLORDER s tokens false false).2 false false).2 false false).2 false false).2 true true).1 (runInformalizeStage EXPRESSION (runInformalizeStage VALUE (runInformalizeStage LIMIT (runInformalizeStage NUMBER (runInformalizeStage NULLORDER s tokens false false).1 (runInformalizeStage NULLORDER s tokens false false).2 false false).1 (runInformalizeStage NUMBER (runInformalizeStage NULLORDER s tokens false false).1 (runInformalizeStage NULLORDER s tokens false false).2 false false).2 false false).1 (runInformalizeStage LIMIT (runInformalizeStage NUMBER (runInformalizeStage NULLORDER s tokens false false).1 (runInformalizeStage NULLORDER s tokens false false).2 false false).1 (runInformalizeStage NUMBER (runInformalizeStage NULLORDER s tokens false false).1 (runInformalizeStage NULLORDER s tokens false false).2 false false).2 false false).2 false false).1 (runInformalizeStage VALUE (runInformalizeStage LIMIT (runInformalizeStage NUMBER (runInformalizeStage NULLORDER s tokens false false).1 (runInformalizeStage NULLORDER s tokens false false).2 false false).1 (runInformalizeStage NUMBER (runInformalizeStage NULLORDER s tokens false false).1 (runInformalizeStage NULLORDER s tokens false false).2 false false).2 false false).1 (runInformalizeStage LIMIT (runInformalizeStage NUMBER (runInformalizeStage NULLORDER s tokens false false).1 (runInformalizeStage NULLORDER s tokens false false).2 false false).1 (runInformalizeStage NUMBER (runInformalizeStage NULLORDER s tokens false false).1 (runInformalizeStage NULLORDER s tokens false false).2 false false).2 false false).2 false false).2 true true).2 false true).1 (runInformalizeStage ORDERBY (runInformalizeStage EXPRESSION (runInformalizeStage VALUE (runInformalizeStage LIMIT (runInformalizeStage NUMBER (runInformalizeStage NULLORDER s tokens false false).1 (runInformalizeStage NULLORDER s tokens false false).2 false false).1 (runInformalizeStage NUMBER (runInformalizeStage NULLORDER s tokens false false).1 (runInformalizeStage NULLORDER s tokens false false).2 false false).2 false false).1 (runInformalizeStage LIMIT (runInformalizeStage NUMBER (runInformalizeStage NULLORDER s tokens false false).1 (runInformalizeStage NULLORDER s tokens false false).2 false false).1 (runInformalizeStage NUMBER (runInformalizeStage NULLORDER s tokens false false).1 (runInformalizeStage NULLORDER s tokens false false).2 false false).2 false false).2 false false).1 (runInformalizeStage VALUE (runInformalizeStage LIMIT (runInformalizeStage NUMBER (runInformalizeStage NULLORDER s tokens false false).1 (runInformalizeStage NULLORDER s tokens false false).2 false false).1 (runInformalizeStage NUMBER (runInformalizeStage NULLORDER s tokens false false).1 (runInformalizeStage NULLORDER s tokens false false).2 false false).2 false false).1 (runInformalizeStage LIMIT (runInformalizeStage NUMBER (runInformalizeStage NULLORDER s tokens false false).1 (runInformalizeStage NULLORDER s tokens false false).2 false false).1 (runInformalizeStage NUMBER (runInformalizeStage NULLORDER s tokens false false).1 (runInformalizeStage NULLORDER s tokens false false).2 false false).2 false false).2 false false).2 true true).1 (runInformalizeStage EXPRESSION (runInformalizeStage VALUE (runInformalizeStage LIMIT (runInformalizeStage NUMBER (runInformalizeStage NULLORDER s tokens false false).1 (runInformalizeStage NULLORDER s tokens false false).2 false false).1 (runInformalizeStage NUMBER (runInformalizeStage NULLORDER s tokens false false).1 (runInformalizeStage NULLORDER s tokens false false).2 false false).2 false false).1 (runInformalizeStage LIMIT (runInformalizeStage NUMBER (runInformalizeStage NULLORDER s tokens false false).1 (runInformalizeStage NULLORDER s tokens false false).2 false false).1 (runInformalizeStage NUMBER (runInformalizeStage NULLORDER s tokens false false).1 (runInformalizeStage NULLORDER s tokens false false).2 false false).2 false false).2 false false).1 (runInformalizeStage VALUE (runInformalizeStage LIMIT (runInformalizeStage NUMBER (runInformalizeStage NULLORDER s tokens false false).1 (runInformalizeStage NULLORDER s tokens false false).2 false false).1 (runInformalizeStage NUMBER (runInformalizeStage NULLORDER s tokens false false).1 (runInformalizeStage NULLORDER s tokens false false).2 false false).2 false false).1 (runInformalizeStage LIMIT (runInformalizeStage NUMBER (runInformalizeStage NULLORDER s tokens false false).1 (runInformalizeStage NULLORDER s tokens false false).2 false false).1 (runInformalizeStage NUMBER (runInformalizeStage NULLORDER s tokens false false).1 (runInformalizeStage NULLORDER s tokens false false).2 false false).2 false false).2 false false).2 true true).2 false true).2 true false).1 (runInformalizeStage GROUPBY (runInformalizeStage ORDERBY (runInformalizeStage EXPRESSION (runInformalizeStage VALUE (runInformalizeStage LIMIT (runInformalizeStage NUMBER (runInformalizeStage NULLORDER s tokens false false).1 (runInformalizeStage NULLORDER s tokens false false).2 false false).1 (runInformalizeStage NUMBER (runInformalizeStage NULLORDER s tokens false false).1 (runInformalizeStage NULLORDER s tokens false false).2 false false).2 false false).1 (runInformalizeStage LIMIT (runInformalizeStage NUMBER (runInformalizeStage NULLORDER s tokens false false).1 (runInformalizeStage NULLORDER s tokens false false).2 false false).1 (runInformalizeStage NUMBER (runInformalizeStage NULLORDER s tokens false false).1 (runInformalizeStage NULLORDER s tokens false false).2 false false).2 false false).2 false false).1 (runInformalizeStage VALUE (runInformalizeStage LIMIT (runInformalizeStage NUMBER (runInformalizeStage NULLORDER s tokens false false).1 (runInformalizeStage NULLORDER s tokens false false).2 false false).1 (runInformalizeStage NUMBER (runInformalizeStage NULLORDER s tokens false false).1 (runInformalizeStage NULLORDER s tokens false false).2 false false).2 false false).1 (runInformalizeStage LIMIT (runInformalizeStage NUMBER (runInformalizeStage NULLORDER s tokens false false).1 (runInformalizeStage NULLORDER s tokens false false).2 false false).1 (runInformalizeStage NUMBER (runInformalizeStage NULLORDER s tokens false false).1 (runInformalizeStage NULLORDER s tokens false false).2 false false).2 false false).2 false false).2 true true).1 (runInformalizeStage EXPRESSION (runInformalizeStage VALUE (runInformalizeStage LIMIT (runInformalizeStage NUMBER (runInformalizeStage NULLORDER s tokens false false).1 (runInformalizeStage NULLORDER s tokens false false).2 false false).1 (runInformalizeStage NUMBER (runInformalizeStage NULLORDER s tokens false false).1 (runInformalizeStage NULLORDER s tokens false false).2 false false).2 false false).1 (runInformalizeStage LIMIT (runInformalizeStage NUMBER (runInformalizeStage NULLORDER s tokens false false).1 (runInformalizeStage NULLORDER s tokens false false).2 false false).1 (runInformalizeStage NUMBER (runInformalizeStage NULLORDER s tokens false false).1 (runInformalizeStage NULLORDER s tokens false false).2 false false).2 false false).2 false false).1 (runInformalizeStage VALUE (runInformalizeStage LIMIT (runInformalizeStage NUMBER (runInformalizeStage NULLORDER s tokens false false).1 (runInformalizeStage NULLORDER s tokens false false).2 false false).1 (runInformalizeStage NUMBER (runInformalizeStage NULLORDER s tokens false false).1 (runInformalizeStage NULLORDER s tokens false false).2 false false).2 false false).1 (runInformalizeStage LIMIT (runInformalizeStage NUMBER (runInformalizeStage NULLORDER s tokens false false).1 (runInformalizeStage NULLORDER s tokens false false).2 false false).1 (runInformalizeStage NUMBER (runInformalizeStage NULLORDER s tokens false false).1 (runInformalizeStage NULLORDER s tokens false false).2 false false).2 false false).2 false false).2 true true).2 false true).1 (runInformalizeStage ORDERBY (runInformalizeStage EXPRESSION (runInformalizeStage VALUE (runInformalizeStage LIMIT (runInformalizeStage NUMBER (runInformalizeStage NULLORDER s tokens false false).1 (runInformalizeStage NULLORDER s tokens false false).2 false false).1 (runInformalizeStage NUMBER (runInformalizeStage NULLORDER s tokens false false).1 (runInformalizeStage NULLORDER s tokens false false).2 false false).2 false false).1 (runInformalizeStage LIMIT (runInformalizeStage NUMBER (runInformalizeStage NULLORDER s tokens false false).1 (runInformalizeStage NULLORDER s tokens false false).2 false false).1 (runInformalizeStage NUMBER (runInformalizeStage NULLORDER s tokens false false).1 (runInformalizeStage NULLORDER s tokens false false).2 false false).2 false false).2 false false).1 (runInformalizeStage VALUE (runInformalizeStage LIMIT (runInformalizeStage NUMBER (runInformalizeStage NULLORDER s tokens false false).1 (runInformalizeStage NULLORDER s tokens false false).2 false false).1 (runInformalizeStage NUMBER (runInformalizeStage NULLORDER s tokens false false).1 (runInformalizeStage NULLORDER s tokens false false).2 false false).2 false false).1 (runInformalizeStage LIMIT (runInformalizeStage NUMBER (runInformalizeStage NULLORDER s tokens false false).1 (runInformalizeStage NULLORDER s tokens false false).2 false false).1 (runInformalizeStage NUMBER (runInformalizeStage NULLORDER s tokens false false).1 (runInformalizeStage NULLORDER s tokens false false).2 false false).2 false false).2 false false).2 true true).1 (runInformalizeStage EXPRESSION (runInformalizeStage VALUE (runInformalizeStage LIMIT (runInformalizeStage NUMBER (runInformalizeStage NULLORDER s tokens false false).1 (runInformalizeStage NULLORDER s tokens false false).2 false false).1 (runInformalizeStage NUMBER (runInformalizeStage NULLORDER s tokens false false).1 (runInformalizeStage NULLORDER s tokens false false).2 false false).2 false false).1 (runInformalizeStage LIMIT (runInformalizeStage NUMBER (runInformalizeStage NULLORDER s tokens false false).1 (runInformalizeStage NULLORDER s tokens false false).2 false false).1 (runInformalizeStage NUMBER (runInformalizeStage NULLORDER s tokens false false).1 (runInformalizeStage NULLORDER s tokens false false).2 false false).2 false false).2 false false).1 (runInformalizeStage VALUE (runInformalizeStage LIMIT (runInformalizeStage NUMBER (runInformalizeStage NULLORDER s tokens false false).1 (runInformalizeStage NULLORDER s tokens false false).2 false false).1 (runInformalizeStage NUMBER (runInformalizeStage NULLORDER s tokens false false).1 (runInformalizeStage NULLORDER s tokens false false).2 false false).2 false false).1 (runInformalizeStage LIMIT (runInformalizeStage NUMBER (runInformalizeStage NULLORDER s tokens false false).1 (runInformalizeStage NULLORDER s tokens false false).2 false false).1 (runInformalizeStage NUMBER (runInformalizeStage NULLORDER s tokens false false).1 (runInformalizeStage NULLORDER s tokens false false).2 false false).2 false false).2 false false).2 true true).2 false true).2 true false).2 false false).2 false false).1 (runInformalizeStage WHERE (runInformalizeStage HAVING (runInformalizeStage GROUPBY (runInformalizeStage ORDERBY (runInformalizeStage EXPRESSION (runInformalizeStage VALUE (runInformalizeStage LIMIT (runInformalizeStage NUMBER (runInformalizeStage NULLORDER s tokens false false).1 (runInformalizeStage NULLORDER s tokens false false).2 false false).1 (runInformalizeStage NUMBER (runInformalizeStage NULLORDER s tokens false false).1 (runInformalizeStage NULLORDER s tokens false false).2 false false).2 false false).1 (runInformalizeStage LIMIT (runInformalizeStage NUMBER (runInformalizeStage NULLORDER s tokens false false).1 (runInformalizeStage NULLORDER s tokens false false).2 false false).1 (runInformalizeStage NUMBER (runInformalizeStage NULLORDER s tokens false false).1 (runInformalizeStage NULLORDER s tokens false false).2 false false).2 false false).2 false false).1 (runInformalizeStage VALUE (runInformalizeStage LIMIT (runInformalizeStage NUMBER (runInformalizeStage NULLORDER s tokens false false).1 (runInformalizeStage NULLORDER s tokens false false).2 false false).1 (runInformalizeStage NUMBER (runInformalizeStage NULLORDER s tokens false false).1 (runInformalizeStage NULLORDER s tokens false false).2 false false).2 false false).1 (runInformalizeStage LIMIT (runInformalizeStage NUMBER (runInformalizeStage NULLORDER s tokens false false).1 (runInformalizeStage NULLORDER s tokens false false).2 false false).1 (runInformalizeStage NUMBER (runInformalizeStage NULLORDER s tokens false false).1 (runInformalizeStage NULLORDER s tokens false false).2 false false).2 false false).2 false false).2 true true).1 (runInformalizeStage EXPRESSION (runInformalizeStage VALUE (runInformalizeStage LIMIT (runInformalizeStage NUMBER (runInformalizeStage NULLORDER s tokens false false).1 (runInformalizeStage NULLORDER s tokens false false).2 false false).1 (runInformalizeStage NUMBER (runInformalizeStage NULLORDER s tokens false false).1 (runInformalizeStage NULLORDER s tokens false false).2 false false).2 false false).1 (runInformalizeStage LIMIT (runInformalizeStage NUMBER (runInformalizeStage NULLORDER s tokens false false).1 (runInformalizeStage NULLORDER s tokens false false).2 false false).1 (runInformalizeStage NUMBER (runInformalizeStage NULLORDER s tokens false false).1 (runInformalizeStage NULLORDER s tokens false false).2 false false).2 false false).2 false false).1 (runInformalizeStage VALUE (runInformalizeStage LIMIT (runInformalizeStage NUMBER (runInformalizeStage NULLORDER s tokens false false).1 (runInformalizeStage NULLORDER s tokens false false).2 false false).1 (runInformalizeStage NUMBER (runInformalizeStage NULLORDER s tokens false false).1 (runInformalizeStage NULLORDER s tokens false false).2 false false).2 false false).1 (runInformalizeStage LIMIT (runInformalizeStage NUMBER (runInformalizeStage NULLORDER s tokens false false).1 (runInformalizeStage NULLORDER s tokens false false).2 false false).1 (runInformalizeStage NUMBER (runInformalizeStage NULLORDER s tokens false false).1 (runInformalizeStage NULLORDER s tokens false false).2 false false).2 false false).2 false false).2 true true).2 false true).1 (runInformalizeStage ORDERBY (runInformalizeStage EXPRESSION (runInformalizeStage VALUE (runInformalizeStage LIMIT (runInformalizeStage NUMBER (runInformalizeStage NULLORDER s tokens false false).1 (runInformalizeStage NULLORDER s tokens false false).2 false false).1 (runInformalizeStage NUMBER (runInformalizeStage NULLORDER s tokens false false).1 (runInformalizeStage NULLORDER s tokens false false).2 false false).2 false false).1 (runInformalizeStage LIMIT (runInformalizeStage NUMBER (runInformalizeStage NULLORDER s tokens false false).1 (runInformalizeStage NULLORDER s tokens false false).2 false false).1 (runInformalizeStage NUMBER (runInformalizeStage NULLORDER s tokens false false).1 (runInformalizeStage NULLORDER s tokens false false).2 false false).2 false false).2 false false).1 (runInformalizeStage VALUE (runInformalizeStage LIMIT (runInformalizeStage NUMBER (runInformalizeStage NULLORDER s tokens false false).1 (runInformalizeStage NULLORDER s tokens false false).2 false false).1 (runInformalizeStage NUMBER (runInformalizeStage NULLORDER s tokens false false).1 (runInformalizeStage NULLORDER s tokens false false).2 false false).2 false false).1 (runInformalizeStage LIMIT (runInformalizeStage NUMBER (runInformalizeStage NULLORDER s tokens false false).1 (runInformalizeStage NULLORDER s tokens false false).2 false false).1 (runInformalizeStage NUMBER (runInformalizeStage NULLORDER s tokens false false).1 (runInformalizeStage NULLORDER s tokens false false).2 false false).2 false false).2 false false).2 true true).1 (runInformalizeStage EXPRESSION (runInformalizeStage VALUE (runInformalizeStage LIMIT (runInformalizeStage NUMBER (runInformalizeStage NULLORDER s tokens false false).1 (runInformalizeStage NULLORDER s tokens false false).2 false false).1 (runInformalizeStage NUMBER (runInformalizeStage NULLORDER s tokens false false).1 (runInformalizeStage NULLORDER s tokens false false).2 false false).2 false false).1 (runInformalizeStage LIMIT (runInformalizeStage NUMBER (runInformalizeStage NULLORDER s tokens false false).1 (runInformalizeStage NULLORDER s tokens false false).2 false false).1 (runInformalizeStage NUMBER (runInformalizeStage NULLORDER s tokens false false).1 (runInformalizeStage NULLORDER s tokens false false).2 false false).2 false false).2 false false).1 (runInformalizeStage VALUE (runInformalizeStage LIMIT (runInformalizeStage NUMBER (runInformalizeStage NULLORDER s tokens false false).1 (runInformalizeStage NULLORDER s tokens false false).2 false false).1 (runInformalizeStage NUMBER (runInformalizeStage NULLORDER s tokens false false).1 (runInformalizeStage NULLORDER s tokens false false).2 false false).2 false false).1 (runInformalizeStage LIMIT (runInformalizeStage NUMBER (runInformalizeStage NULLORDER s tokens false false).1 (runInformalizeStage NULLORDER s tokens false false).2 false false).1 (runInformalizeStage NUMBER (runInformalizeStage NULLORDER s tokens false false).1 (runInformalizeStage NULLORDER s tokens false false).2 false false).2 false false).2 false false).2 true true).2 false true).2 true false).1 (runInformalizeStage GROUPBY (runInformalizeStage ORDERBY (runInformalizeStage EXPRESSION (runInformalizeStage VALUE (runInformalizeStage LIMIT (runInformalizeStage NUMBER (runInformalizeStage NULLORDER s tokens false false).1 (runInformalizeStage NULLORDER s tokens false false).2 false false).1 (runInformalizeStage NUMBER (runInformalizeStage NULLORDER s tokens false false).1 (runInformalizeStage NULLORDER s tokens false false).2 false false).2 false false).1 (runInformalizeStage LIMIT (runInformalizeStage NUMBER (runInformalizeStage NULLORDER s tokens false false).1 (runInformalizeStage NULLORDER s tokens false false).2 false false).1 (runInformalizeStage NUMBER (runInformalizeStage NULLORDER s tokens false false).1 (runInformalizeStage NULLORDER s tokens false false).2 false false).2 false false).2 false false).1 (runInformalizeStage VALUE (runInformalizeStage LIMIT (runInformalizeStage NUMBER (runInformalizeStage NULLORDER s tokens false false).1 (runInformalizeStage NULLORDER s tokens false false).2 false false).1 (runInformalizeStage NUMBER (runInformalizeStage NULLORDER s tokens false false).1 (runInformalizeStage NULLORDER s tokens false false).2 false false).2 false false).1 (runInformalizeStage LIMIT (runInformalizeStage NUMBER (runInformalizeStage NULLORDER s tokens false false).1 (runInformalizeStage NULLORDER s tokens false false).2 false false).1 (runInformalizeStage NUMBER (runInformalizeStage NULLORDER s tokens false false).1 (runInformalizeStage NULLORDER s tokens false false).2 false false).2 false false).2 false false).2 true true).1 (runInformalizeStage EXPRESSION (runInformalizeStage VALUE (runInformalizeStage LIMIT (runInformalizeStage NUMBER (runInformalizeStage NULLORDER s tokens false false).1 (runInformalizeStage NULLORDER s tokens false false).2 false false).1 (runInformalizeStage NUMBER (runInformalizeStage NULLORDER s tokens false false).1 (runInformalizeStage NULLORDER s tokens false false).2 false false).2 false false).1 (runInformalizeStage LIMIT (runInformalizeStage NUMBER (runInformalizeStage NULLORDER s tokens false false).1 (runInformalizeStage NULLORDER s tokens false false).2 false false).1 (runInformalizeStage NUMBER (runInformalizeStage NULLORDER s tokens false false).1 (runInformalizeStage NULLORDER s tokens false false).2 false false).2 false false).2 false false).1 (runInformalizeStage VALUE (runInformalizeStage LIMIT (runInformalizeStage NUMBER (runInformalizeStage NULLORDER s tokens false false).1 (runInformalizeStage NULLORDER s tokens false false).2 false false).1 (runInformalizeStage NUMBER (runInformalizeStage NULLORDER s tokens false false).1 (runInformalizeStage NULLORDER s tokens false false).2 false false).2 false false).1 (runInformalizeStage LIMIT (runInformalizeStage NUMBER (runInformalizeStage NULLORDER s tokens false false).1 (runInformalizeStage NULLORDER s tokens false false).2 false false).1 (runInformalizeStage NUMBER (runInformalizeStage NULLORDER s tokens false false).1 (runInformalizeStage NULLORDER s tokens false false).2 false false).2 false false).2 false false).2 true true).2 false true).1 (runInformalizeStage ORDERBY (runInformalizeStage EXPRESSION (runInformalizeStage VALUE (runInformalizeStage LIMIT (runInformalizeStage NUMBER (runInformalizeStage NULLORDER s tokens false false).1 (runInformalizeStage NULLORDER s tokens false false).2 false false).1 (runInformalizeStage NUMBER (runInformalizeStage NULLORDER s tokens false false).1 (runInformalizeStage NULLORDER s tokens false false).2 false false).2 false false).1 (runInformalizeStage LIMIT (runInformalizeStage NUMBER (runInformalizeStage NULLORDER s tokens false false).1 (runInformalizeStage NULLORDER s tokens false false).2 false false).1 (runInformalizeStage NUMBER (runInformalizeStage NULLORDER s tokens false false).1 (runInformalizeStage NULLORDER s tokens false false).2 false false).2 false false).2 false false).1 (runInformalizeStage VALUE (runInformalizeStage LIMIT (runInformalizeStage NUMBER (runInformalizeStage NULLORDER s tokens false false).1 (runInformalizeStage NULLORDER s tokens false false).2 false false).1 (runInformalizeStage NUMBER (runInformalizeStage NULLORDER s tokens false false).1 (runInformalizeStage NULLORDER s tokens false false).2 false false).2 false false).1 (runInformalizeStage LIMIT (runInformalizeStage NUMBER (runInformalizeStage NULLORDER s tokens false false).1 (runInformalizeStage NULLORDER s tokens false false).2 false false).1 (runInformalizeStage NUMBER (runInformalizeStage NULLORDER s tokens false false).1 (runInformalizeStage NULLORDER s tokens false false).2 false false).2 false false).2 false false).2 true true).1 (runInformalizeStage EXPRESSION (runInformalizeStage VALUE (runInformalizeStage LIMIT (runInformalizeStage NUMBER (runInformalizeStage NULLORDER s tokens false false).1 (runInformalizeStage NULLORDER s tokens false false).2 false false).1 (runInformalizeStage NUMBER (runInformalizeStage NULLORDER s tokens false false).1 (runInformalizeStage NULLORDER s tokens false false).2 false false).2 false false).1 (runInformalizeStage LIMIT (runInformalizeStage NUMBER (runInformalizeStage NULLORDER s tokens false false).1 (runInformalizeStage NULLORDER s tokens false false).2 false false).1 (runInformalizeStage NUMBER (runInformalizeStage NULLORDER s tokens false false).1 (runInformalizeStage NULLORDER s tokens false false).2 false false).2 false false).2 false false).1 (runInformalizeStage VALUE (runInformalizeStage LIMIT (runInformalizeStage NUMBER (runInformalizeStage NULLORDER s tokens false false).1 (runInformalizeStage NULLORDER s tokens false false).2 false false).1 (runInformalizeStage NUMBER (runInformalizeStage NULLORDER s tokens false false).1 (runInformalizeStage NULLORDER s tokens false false).2 false false).2 false false).1 (runInformalizeStage LIMIT (runInformalizeStage NUMBER (runInformalizeStage NULLORDER s tokens false false).1 (runInformalizeStage NULLORDER s tokens false false).2 false false).1 (runInformalizeStage NUMBER (runInformalizeStage NULLORDER s tokens false false).1 (runInformalizeStage NULLORDER s tokens false false).2 false false).2 false false).2 false false).2 true true).2 false true).2 true false).2 false false).1 (runInformalizeStage HAVING (runInformalizeStage GROUPBY (runInformalizeStage ORDERBY (runInformalizeStage EXPRESSION (runInformalizeStage VALUE (runInformalizeStage LIMIT (runInformalizeStage NUMBER (runInformalizeStage NULLORDER s tokens false false).1 (runInformalizeStage NULLORDER s tokens false false).2 false false).1 (runInformalizeStage NUMBER (runInformalizeStage NULLORDER s tokens false false).1 (runInformalizeStage NULLORDER s tokens false false).2 false false).2 false false).1 (runInformalizeStage LIMIT (runInformalizeStage NUMBER (runInformalizeStage NULLORDER s tokens false false).1 (runInformalizeStage NULLORDER s tokens false false).2 false false).1 (runInformalizeStage NUMBER (runInformalizeStage NULLORDER s tokens false false).1 (runInformalizeStage NULLORDER s tokens false false).2 false false).2 false false).2 false false).1 (runInformalizeStage VALUE (runInformalizeStage LIMIT (runInformalizeStage NUMBER (runInformalizeStage NULLORDER s tokens false false).1 (runInformalizeStage NULLORDER s tokens false false).2 false false).1 (runInformalizeStage NUMBER (runInformalizeStage NULLORDER s tokens false false).1 (runInformalizeStage NULLORDER s tokens false false).2 false false).2 false false).1 (runInformalizeStage LIMIT (runInformalizeStage NUMBER (runInformalizeStage NULLORDER s tokens false false).1 (runInformalizeStage NULLORDER s tokens false false).2 false false).1 (runInformalizeStage NUMBER (runInformalizeStage NULLORDER s tokens false false).1 (runInformalizeStage NULLORDER s tokens false false).2 false false).2 false false).2 false false).2 true true).1 (runInformalizeStage EXPRESSION (runInformalizeStage VALUE (runInformalizeStage LIMIT (runInformalizeStage NUMBER (runInformalizeStage NULLORDER s tokens false false).1 (runInformalizeStage NULLORDER s tokens false false).2 false false).1 (runInformalizeStage NUMBER (runInformalizeStage NULLORDER s tokens false false).1 (runInformalizeStage NULLORDER s tokens false false).2 false false).2 false false).1 (runInformalizeStage LIMIT (runInformalizeStage NUMBER (runInformalizeStage NULLORDER s tokens false false).1 (runInformalizeStage NULLORDER s tokens false false).2 false false).1 (runInformalizeStage NUMBER (runInformalizeStage NULLORDER s tokens false false).1 (runInformalizeStage NULLORDER s tokens false false).2 false false).2 false false).2 false false).1 (runInformalizeStage VALUE (runInformalizeStage LIMIT (runInformalizeStage NUMBER (runInformalizeStage NULLORDER s tokens false false).1 (runInformalizeStage NULLORDER s tokens false false).2 false false).1 (runInformalizeStage NUMBER (runInformalizeStage NULLORDER s tokens false false).1 (runInformalizeStage NULLORDER s tokens false false).2 false false).2 false false).1 (runInformalizeStage LIMIT (runInformalizeStage NUMBER (runInformalizeStage NULLORDER s tokens false false).1 (runInformalizeStage NULLORDER s tokens false false).2 false false).1 (runInformalizeStage NUMBER (runInformalizeStage NULLORDER s tokens false false).1 (runInformalizeStage NULLORDER s tokens false false).2 false false).2 false false).2 false false).2 true true).2 false true).1 (runInformalizeStage ORDERBY (runInformalizeStage EXPRESSION (runInformalizeStage VALUE (runInformalizeStage LIMIT (runInformalizeStage NUMBER (runInformalizeStage NULLORDER s tokens false false).1 (runInformalizeStage NULLORDER s tokens false false).2 false false).1 (runInformalizeStage NUMBER (runInformalizeStage NULLORDER s tokens false false).1 (runInformalizeStage NULLORDER s tokens false false).2 false false).2 false false).1 (runInformalizeStage LIMIT (runInformalizeStage NUMBER (runInformalizeStage NULLORDER s tokens false false).1 (runInformalizeStage NULLORDER s tokens false false).2 false false).1 (runInformalizeStage NUMBER (runInformalizeStage NULLORDER s tokens false false).1 (runInformalizeStage NULLORDER s tokens false false).2 false false).2 false false).2 false false).1 (runInformalizeStage VALUE (runInformalizeStage LIMIT (runInformalizeStage NUMBER (runInformalizeStage NULLORDER s tokens false false).1 (runInformalizeStage NULLORDER s tokens false false).2 false false).1 (runInformalizeStage NUMBER (runInformalizeStage NULLORDER s tokens false false).1 (runInformalizeStage NULLORDER s tokens false false).2 false false).2 false false).1 (runInformalizeStage LIMIT (runInformalizeStage NUMBER (runInformalizeStage NULLORDER s tokens false false).1 (runInformalizeStage NULLORDER s tokens false false).2 false false).1 (runInformalizeStage NUMBER (runInformalizeStage NULLORDER s tokens false false).1 (runInformalizeStage NULLORDER s tokens false false).2 false false).2 false false).2 false false).2 true true).1 (runInformalizeStage EXPRESSION (runInformalizeStage VALUE (runInformalizeStage LIMIT (runInformalizeStage NUMBER (runInformalizeStage NULLORDER s tokens false false).1 (runInformalizeStage NULLORDER s tokens false false).2 false false).1 (runInformalizeStage NUMBER (runInformalizeStage NULLORDER s tokens false false).1 (runInformalizeStage NULLORDER s tokens false false).2 false false).2 false false).1 (runInformalizeStage LIMIT (runInformalizeStage NUMBER (runInformalizeStage NULLORDER s tokens false false).1 (runInformalizeStage NULLORDER s tokens false false).2 false false).1 (runInformalizeStage NUMBER (runInformalizeStage NULLORDER s tokens false false).1 (runInformalizeStage NULLORDER s tokens false false).2 false false).2 false false).2 false false).1 (runInformalizeStage VALUE (runInformalizeStage LIMIT (runInformalizeStage NUMBER (runInformalizeStage NULLORDER s tokens false false).1 (runInformalizeStage NULLORDER s tokens false false).2 false false).1 (runInformalizeStage NUMBER (runInformalizeStage NULLORDER s tokens false false).1 (runInformalizeStage NULLORDER s tokens false false).2 false false).2 false false).1 (runInformalizeStage LIMIT (runInformalizeStage NUMBER (runInformalizeStage NULLORDER s tokens false false).1 (runInformalizeStage NULLORDER s tokens false false).2 false false).1 (runInformalizeStage NUMBER (runInformalizeStage NULLORDER s tokens false false).1 (runInformalizeStage NULLORDER s tokens false false).2 false false).2 false false).2 false false).2 true true).2 false true).2 true false).1 (runInformalizeStage GROUPBY (runInformalizeStage ORDERBY (runInformalizeStage EXPRESSION (runInformalizeStage VALUE (runInformalizeStage LIMIT (runInformalizeStage NUMBER (runInformalizeStage NULLORDER s tokens false false).1 (runInformalizeStage NULLORDER s tokens false false).2 false false).1 (runInformalizeStage NUMBER (runInformalizeStage NULLORDER s tokens false false).1 (runInformalizeStage NULLORDER s tokens false false).2 false false).2 false false).1 (runInformalizeStage LIMIT (runInformalizeStage NUMBER (runInformalizeStage NULLORDER s tokens false false).1 (runInformalizeStage NULLORDER s tokens false false).2 false false).1 (runInformalizeStage NUMBER (runInformalizeStage NULLORDER s tokens false false).1 (runInformalizeStage NULLORDER s tokens false false).2 false false).2 false false).2 false false).1 (runInformalizeStage VALUE (runInformalizeStage LIMIT (runInformalizeStage NUMBER (runInformalizeStage NULLORDER s tokens false false).1 (runInformalizeStage NULLORDER s tokens false false).2 false false).1 (runInformalizeStage NUMBER (runInformalizeStage NULLORDER s tokens false false).1 (runInformalizeStage NULLORDER s tokens false false).2 false false).2 false false).1 (runInformalizeStage LIMIT (runInformalizeStage NUMBER (runInformalizeStage NULLORDER s tokens false false).1 (runInformalizeStage NULLORDER s tokens false false).2 false false).1 (runInformalizeStage NUMBER (runInformalizeStage NULLORDER s tokens false false).1 (runInformalizeStage NULLORDER s tokens false false).2 false false).2 false false).2 false false).2 true true).1 (runInformalizeStage EXPRESSION (runInformalizeStage VALUE (runInformalizeStage LIMIT (runInformalizeStage NUMBER (runInformalizeStage NULLORDER s tokens false false).1 (runInformalizeStage NULLORDER s tokens false false).2 false false).1 (runInformalizeStage NUMBER (runInformalizeStage NULLORDER s tokens false false).1 (runInformalizeStage NULLORDER s tokens false false).2 false false).2 false false).1 (runInformalizeStage LIMIT (runInformalizeStage NUMBER (runInformalizeStage NULLORDER s tokens false false).1 (runInformalizeStage NULLORDER s tokens false false).2 false false).1 (runInformalizeStage NUMBER (runInformalizeStage NULLORDER s tokens false false).1 (runInformalizeStage NULLORDER s tokens false false).2 false false).2 false false).2 false false).1 (runInformalizeStage VALUE (runInformalizeStage LIMIT (runInformalizeStage NUMBER (runInformalizeStage NULLORDER s tokens false false).1 (runInformalizeStage NULLORDER s tokens false false).2 false false).1 (runInformalizeStage NUMBER (runInformalizeStage NULLORDER s tokens false false).1 (runInformalizeStage NULLORDER s tokens false false).2 false false).2 false false).1 (runInformalizeStage LIMIT (runInformalizeStage NUMBER (runInformalizeStage NULLORDER s tokens false false).1 (runInformalizeStage NULLORDER s tokens false false).2 false false).1 (runInformalizeStage NUMBER (runInformalizeStage NULLORDER s tokens false false).1 (runInformalizeStage NULLORDER s tokens false false).2 false false).2 false false).2 false false).2 true true).2 false true).1 (runInformalizeStage ORDERBY (runInformalizeStage EXPRESSION (runInformalizeStage VALUE (runInformalizeStage LIMIT (runInformalizeStage NUMBER (runInformalizeStage NULLORDER s tokens false false).1 (runInformalizeStage NULLORDER s tokens false false).2 false false).1 (runInformalizeStage NUMBER (runInformalizeStage NULLORDER s tokens false false).1 (runInformalizeStage NULLORDER s tokens false false).2 false false).2 false false).1 (runInformalizeStage LIMIT (runInformalizeStage NUMBER (runInformalizeStage NULLORDER s tokens false false).1 (runInformalizeStage NULLORDER s tokens false false).2 false false).1 (runInformalizeStage NUMBER (runInformalizeStage NULLORDER s tokens false false).1 (runInformalizeStage NULLORDER s tokens false false).2 false false).2 false false).2 false false).1 (runInformalizeStage VALUE (runInformalizeStage LIMIT (runInformalizeStage NUMBER (runInformalizeStage NULLORDER s tokens false false).1 (runInformalizeStage NULLORDER s tokens false false).2 false false).1 (runInformalizeStage NUMBER (runInformalizeStage NULLORDER s tokens false false).1 (runInformalizeStage NULLORDER s tokens false false).2 false false).2 false false).1 (runInformalizeStage LIMIT (runInformalizeStage NUMBER (runInformalizeStage NULLORDER s tokens false false).1 (runInformalizeStage NULLORDER s tokens false false).2 false false).1 (runInformalizeStage NUMBER (runInformalizeStage NULLORDER s tokens false false).1 (runInformalizeStage NULLORDER s tokens false false).2 false false).2 false false).2 false false).2 true true).1 (runInformalizeStage EXPRESSION (runInformalizeStage VALUE (runInformalizeStage LIMIT (runInformalizeStage NUMBER (runInformalizeStage NULLORDER s tokens false false).1 (runInformalizeStage NULLORDER s tokens false false).2 false false).1 (runInformalizeStage NUMBER (runInformalizeStage NULLORDER s tokens false false).1 (runInformalizeStage NULLORDER s tokens false false).2 false false).2 false false).1 (runInformalizeStage LIMIT (runInformalizeStage NUMBER (runInformalizeStage NULLORDER s tokens false false).1 (runInformalizeStage NULLORDER s tokens false false).2 false false).1 (runInformalizeStage NUMBER (runInformalizeStage NULLORDER s tokens false false).1 (runInformalizeStage NULLORDER s tokens false false).2 false false).2 false false).2 false false).1 (runInformalizeStage VALUE (runInformalizeStage LIMIT (runInformalizeStage NUMBER (runInformalizeStage NULLORDER s tokens false false).1 (runInformalizeStage NULLORDER s tokens false false).2 false false).1 (runInformalizeStage NUMBER (runInformalizeStage NULLORDER s tokens false false).1 (runInformalizeStage NULLORDER s tokens false false).2 false false).2 false false).1 (runInformalizeStage LIMIT (runInformalizeStage NUMBER (runInformalizeStage NULLORDER s tokens false false).1 (runInformalizeStage NULLORDER s tokens false false).2 false false).1 (runInformalizeStage NUMBER (runInformalizeStage NULLORDER s tokens false false).1 (runInformalizeStage NULLORDER s tokens false false).2 false false).2 false false).2 false false).2 true true).2 false true).2 true false).2 false false).2 false false).2 false false).2) false false g10.1
  exact ⟨((((((((((g11.2.1).trans g10.2.1).trans g9.2.1).trans g8.2.1).trans g7.2.1).trans g6.2.1).trans g5.2.1).trans g4.2.1).trans g3.2.1).trans g2.2.1).trans g1.2.1, ((((((((((g11.2.2).trans g10.2.2).trans g9.2.2).trans g8.2.2).trans g7.2.2).trans g6.2.2).trans g5.2.2).trans g4.2.2).trans g3.2.2).trans g2.2.2).trans g1.2.2⟩

lemma appendIf_append (a x y : String) (c : Prop) [Decidable c] :
    ∃ r, appendIf a x y c = a ++ r := by
  unfold appendIf
  by_cases h : c
  · exact ⟨x ++ y, by rw [if_pos h, String.append_assoc]⟩
  · exact ⟨"", by rw [if_neg h, String.append_empty]⟩

lemma appendIf_chain (a b : String) (hab : ∃ r, b = a ++ r) (x y : String)
    (c : Prop) [Decidable c] : ∃ r, appendIf b x y c = a ++ r := by
  obtain ⟨r, rfl⟩ := hab
  obtain ⟨r2, h2⟩ := appendIf_append (a ++ r) x y c
  exact ⟨r ++ r2, by rw [h2, String.append_assoc]⟩

lemma assembleClauses_append (s : IState) (cols : List String) :
    ∃ r, assembleClauses s cols =
      ("SELECT " ++ joinComma cols ++ " FROM " ++ joinComma s.fromT) ++ r := by
  unfold assembleClauses
  exact appendIf_chain _ _ (appendIf_chain _ _ (appendIf_chain _ _
    (appendIf_chain _ _ (appendIf_append _ _ _ _) _ _ _) _ _ _) _ _ _) _ _ _

lemma foldl_const_of (f : List String → Token → List String)
    (hf : ∀ acc t, t.hint = none → f acc t = acc) :
    ∀ (l : List Token) (acc : List String), (∀ t ∈ l, t.hint = none) →
      l.foldl f acc = acc := by
  intro l
  induction l with
  | nil => intro acc _; rfl
  | cons t ts ih =>
    intro acc hl
    rw [List.foldl_cons, hf acc t (hl t (by simp))]
    exact ih acc fun x hx => hl x (by simp [hx])

lemma collectHints_nil (l : List Token) (hl : ∀ t ∈ l, t.hint = none) :
    collectHints l = [] := by
  unfold collectHints
  exact foldl_const_of _ (fun acc t ht => by simp [ht]) l [] hl

lemma processColumns_some (s : IState)
    (oc : Option (List (String × List String))) (hh : s.hints = []) :
    ∃ cols, processColumnsInformalize s oc = some cols := by
  unfold processColumnsInformalize
  rw [hh]
  rcases oc with _ | oc <;>
  · simp only [List.isEmpty_nil, eq_self_iff_true, if_true, List.foldl_nil,
               ite_self]
    exact ⟨_, rfl⟩

lemma informalizeAssemble_undefined (s : IState) (hf : s.fromT = [])
    (hh : s.hints = [])
    (optColumns : Option (List (String × List String))) :
    ∃ cols rest, informalizeAssemble s none optColumns =
      some ("SELECT " ++ cols ++ (" FROM \"undefined\"" ++ rest)) := by
  obtain ⟨c, f, g, o, wC, hC, lim, cu, rv, hi⟩ := s
  simp only at hf hh
  subst hf
  subst hh
  unfold informalizeAssemble
  simp only [List.isEmpty_nil, if_true]
  obtain ⟨cols0, hpc⟩ := processColumns_some
    ⟨c, ["\"" ++ "undefined" ++ "\""], g, o,
     if wC.startsWith "AND " = true then wC.drop 4 else wC,
     if hC.startsWith "AND " = true then hC.drop 4 else hC,
     lim, cu, rv, []⟩ optColumns rfl
  rw [hpc]
  obtain ⟨r, hr⟩ := assembleClauses_append
    ⟨c, ["\"" ++ "undefined" ++ "\""], g, o,
     if wC.startsWith "AND " = true then wC.drop 4 else wC,
     if hC.startsWith "AND " = true then hC.drop 4 else hC,
     lim, cu, rv, []⟩ cols0
  refine ⟨joinComma cols0, r, ?_⟩
  rw [show (" FROM \"undefined\"" : String) =
        " FROM " ++ ("\"" ++ "undefined" ++ "\"") from rfl]
  simp only [hr]
  rw [show joinComma ["\"" ++ "undefined" ++ "\""] =
        "\"" ++ "undefined" ++ "\"" from rfl]
  simp only [String.append_assoc]

/-- C9, amended: for every token list containing at least one non-separator
token, in which every token satisfies the invariant `QTok` (no Table token,
no Row token, and no keyword-family token whose value contains `GROUP BY` or
`NULL` — so no rule can ever reach the `from` list) and carries no hint, and
with `opt.table` not supplied, `processTokensInformalize` neither fails nor
omits the FROM clause: its output is `SELECT <cols> FROM "undefined"<rest>`,
the missing option stringified to `undefined` and double-quoted. -/
theorem c9_missing_table_amended (tokens : List Token)
    (optColumns : Option (List (String × List String)))
    (hne : tokens.filter (fun t => t.type ≠ TT.SEPARATOR) ≠ [])
    (hq : ∀ t ∈ tokens, QTok t = true)
    (hh : ∀ t ∈ tokens, t.hint = none) :
    ∃ cols rest, processTokensInformalize tokens none optColumns =
      some ("SELECT " ++ cols ++ (" FROM \"undefined\"" ++ rest)) := by
  obtain ⟨t0, ts, hfil⟩ : ∃ t0 ts,
      tokens.filter (fun t => t.type ≠ TT.SEPARATOR) = t0 :: ts := by
    cases h : tokens.filter (fun t => t.type ≠ TT.SEPARATOR) with
    | nil => exact absurd h hne
    | cons a b => exact ⟨a, b, rfl⟩
  have hqf : ∀ t ∈ t0 :: ts, QTok t = true := by
    intro t ht
    rw [← hfil] at ht
    exact hq t (List.mem_of_mem_filter ht)
  have hhf : ∀ t ∈ t0 :: ts, t.hint = none := by
    intro t ht
    rw [← hfil] at ht
    exact hh t (List.mem_of_mem_filter ht)
  simp only [processTokensInformalize, hfil, collectHints_nil _ hhf]
  by_cases hsel : t0.value = TValue.str "SELECT"
  · rw [if_pos hsel]
    have hp := informalizeStages_pres
      ⟨[], [], [], [], "", "", 0, [], false, []⟩ (t0 :: ts) hqf
    exact informalizeAssemble_undefined _ hp.1 hp.2 optColumns
  · rw [if_neg hsel]
    have hq2 : ∀ t ∈ createToken TT.KEYWORD (.str "SELECT") :: t0 :: ts,
        QTok t = true := by
      intro t ht
      rcases List.mem_cons.mp ht with rfl | ht2
      · decide
      · exact hqf t ht2
    have hp := informalizeStages_pres
      ⟨[], [], [], [], "", "", 0, [], false, []⟩
      (createToken TT.KEYWORD (.str "SELECT") :: t0 :: ts) hq2
    exact informalizeAssemble_undefined _ hp.1 hp.2 optColumns

/-- C9, counterexample to the literal claim: a lone trailing `GROUP BY`
keyword produces no Table and no Row token, yet the output is
`SELECT * FROM "groups"` — the `FROM "undefined"` fallback does *not* appear
for every such input, because the FROM stage can still infer the `"groups"`
table from a trailing `GROUP BY` keyword. -/
theorem c9_trailing_groupby_counterexample :
    processTokensInformalize c9tokens none none =
      some "SELECT * FROM \"groups\"" ∧
    containsStr "SELECT * FROM \"groups\"" "FROM \"undefined\"" = false := by
  constructor
  · rfl
  · decide

/-- C9, witness: the amended theorem applied to a bare cardinal token; the
concrete output is `SELECT 5 FROM "undefined"`. -/
theorem c9_missing_table_witness :
    (∃ cols rest, processTokensInformalize c9wTokens none none =
      some ("SELECT " ++ cols ++ (" FROM \"undefined\"" ++ rest))) ∧
    processTokensInformalize c9wTokens none none =
      some "SELECT 5 FROM \"undefined\"" := by
  constructor
  · exact c9_missing_table_amended c9wTokens none (by decide) (by decide)
      (by decide)
  · rfl
